import Mathlib

/-!
# The execution monitor (EM) of the VMM: `src/VBox/VMM/EM.cpp`

A shallow embedding of the scheduler of the virtual CPU: the engine-selection
policy `emR3Reschedule`, the forced-action dispatcher `emR3ForcedActions`, the
debug loop `emR3Debug`, the outer loop `EMR3ExecuteVM`, and the inner loops
`emR3RawExecute`, `emR3HwAccExecute` and `emR3RemExecute` with the raw pre pass
and the classifier of the exit status, and the saved-state callbacks `emR3Save`
and `emR3Load`, followed by theorems about them.

Conventions of the embedding.

* Status codes (`int rc`) are `Int`; registers are `Nat` and the C truncations
  and bit tests are written out.
* The VM is a record that is passed through every function which receives `pVM`.
* Code of other components (HWACCM, PATM, CPUM, DBGF, TM, ...) is not part of
  this file: every such function is a field of `Queries` (pure queries) or of
  `Collab` (calls with an effect), and every theorem is stated for all
  collaborators.
* The three inner loops `emR3RawExecute`, `emR3HwAccExecute`, `emR3RemExecute`
  and the steppers `emR3RawStep`, `emR3RemStep`, `emR3RawResumeHyper` are
  parameters of the outer loop (`Inner`): what is proved about the outer loop
  holds for every behaviour of them. The three inner loops are also embedded
  themselves, with the raw pre pass `emR3RawForcedActions` and the classifier
  `emR3RawHandleRC` (`emR3RawPrivileged`, `emR3PatchTrap`); `Env.withLoops`
  puts them in the place of the parameters. Their collaborators are the fields
  of `RawQueries` and `RawCollab`; the functions of EM.cpp that the classifier
  calls and that are not embedded (`emR3RawExecuteInstruction`, ...) are the
  fields of `RawInner`.
* A round of an inner loop is cut at the call of the engine: the part before
  it (`..._enter`), the burst with the post pass (`..._burst`), and the part
  after it (`..._tail`). The `break` statement through which a loop is left is
  part of the result (`Break`).
* The forced-action flags are the flags that EM.cpp names; the flag word is the
  set of raised flags and a mask is a list of flags. The masks of `VBox/vm.h`
  are parameters (`Masks`).
* `EMR3ExecuteVM` is embedded on the path on which `setjmp` returns 0; the
  branch taken after a long jump of `EMR3FatalError` is `EMR3ExecuteVM_fatal`.
* Loops carry a bound on the number of rounds (`fuel`); `none` and
  `Outcome.hang` stand for a run that does not return within the bound.
* The build that is embedded is the release build: `VBOX_STRICT`, `DEBUG`,
  `LOG_ENABLED`, `VBOX_WITH_STATISTICS`, `VBOX_WITH_VMI`, `VBOX_RAW_V86`,
  `VBOX_ALLOW_IF0` and `VBOX_RUN_INTERRUPT_GATE_HANDLERS` are undefined, so
  assertions, logging and statistics compile to nothing. `AssertMsgReturn`
  keeps its `return`. A release assertion (`AssertRelease...`) reports and,
  where the code goes on after it, the embedding goes on as the code does.
  `VBOX_HIGH_RES_TIMERS_HACK` is defined (the inner loops call `TMTimerPoll`).
-/

set_option autoImplicit false

namespace EM

/-! ## Data model -/

/-- The execution state `EMSTATE` (the states listed by `EMR3GetStateName`). -/
inductive EMSTATE
  | EMSTATE_NONE
  | EMSTATE_RAW
  | EMSTATE_HWACC
  | EMSTATE_REM
  | EMSTATE_PARAV
  | EMSTATE_HALTED
  | EMSTATE_SUSPENDED
  | EMSTATE_TERMINATING
  | EMSTATE_DEBUG_GUEST_RAW
  | EMSTATE_DEBUG_GUEST_REM
  | EMSTATE_DEBUG_HYPER
  | EMSTATE_GURU_MEDITATION
  deriving DecidableEq, Repr

open EMSTATE

/-- The forced-action flags `VM_FF_*` that EM.cpp names. The flag word
`pVM->fForcedActions` is embedded as the set of flags that are raised. -/
inductive VMFF
  | VM_FF_INTERRUPT_APIC
  | VM_FF_INTERRUPT_PIC
  | VM_FF_TIMER
  | VM_FF_PDM_QUEUES
  | VM_FF_PDM_DMA
  | VM_FF_PDM_CRITSECT
  | VM_FF_DBGF
  | VM_FF_REQUEST
  | VM_FF_TERMINATE
  | VM_FF_RESET
  | VM_FF_PGM_SYNC_CR3
  | VM_FF_PGM_SYNC_CR3_NON_GLOBAL
  | VM_FF_PGM_NEED_HANDY_PAGES
  | VM_FF_TRPM_SYNC_IDT
  | VM_FF_SELM_SYNC_TSS
  | VM_FF_SELM_SYNC_GDT
  | VM_FF_SELM_SYNC_LDT
  | VM_FF_INHIBIT_INTERRUPTS
  | VM_FF_CSAM_SCAN_PAGE
  | VM_FF_CSAM_PENDING_ACTION
  | VM_FF_TO_R3
  | VM_FF_REM_HANDLER_NOTIFY
  | VM_FF_DEBUG_SUSPEND
  deriving DecidableEq, Repr

open VMFF

/-- The part of the guest CPU context `CPUMCTX` that EM.cpp reads: `eflags`
(the `u32` view of the `X86EFLAGS` union), `cr0`, `cr4`, the `ss` selector,
`eip`, the `u1DefBig` attribute bits of the hidden SS and CS registers, and
`esp`. Raw mode runs 32-bit guests: `rip` and `rsp` are embedded by their low
halves `eip` and `esp`. -/
structure CPUMCTX where
  eflags : Nat
  cr0 : Nat
  cr4 : Nat
  ss : Nat
  eip : Nat
  ssHid_u1DefBig : Bool
  csHid_u1DefBig : Bool
  esp : Nat := 0
  deriving DecidableEq, Repr

/-- The debugger events `DBGFEVENT_*` that `emR3Debug` raises. -/
inductive DBGFEVENTTYPE
  | DBGFEVENT_STEPPED
  | DBGFEVENT_BREAKPOINT
  | DBGFEVENT_DEV_STOP
  | DBGFEVENT_STEPPED_HYPER
  | DBGFEVENT_BREAKPOINT_HYPER
  | DBGFEVENT_ASSERTION_HYPER
  | DBGFEVENT_FATAL_ERROR
  deriving DecidableEq, Repr

open DBGFEVENTTYPE

/-- The calls that the raw-mode code of EM records in the trace of a run (the
inner loops, the raw pre pass and the classifier of the exit status): calls to
other components that change something, and calls of the functions of EM that
are parameters of the embedding. They are the argument of `Call.raw`. -/
inductive RawCall
  | SELMR3UpdateFromCPUM
  | TRPMR3SyncIDT
  | SELMR3SyncTSS
  | PGMSyncCR3
  | PGMPrefetchPage (GCPtrPage : Nat)
  | emR3RawForcedActions
  | CPUMRawEnter
  | CPUMRawLeave (rc : Int)
  | VMMR3RawRunGC
  | VMMR3HwAccRunGC (idCpu : Nat)
  | REMR3State
  | REMR3Run
  | REMR3StateBack
  | TMTimerPoll
  | PDMR3CritSectFF
  | CSAMR3DoPendingAction
  | PATMR3InstallPatch (pInstrGC : Nat) (flags : Nat)
  | PATMR3DetectConflict (pInstrGC : Nat)
  | PATMR3HandleTrap (pEip : Nat)
  | PATMR3RemovePatch (pInstrGC : Nat)
  | PATMR3DuplicateFunctionRequest
  | PATMR3HandleMonitoredPage
  | TRPMResetTrap
  | EMInterpretInstructionCPU
  | PGMChangeMode
  | CSAMR3CheckGates (iGate : Nat)
  | REMR3ReplayInvalidatedPages
  | HWACCMR3CheckError (rc : Int)
  | emR3RawExecuteInstruction (rcGC : Int)
  | emR3RawExecuteIOInstruction
  | emR3RawGuestTrap
  | emR3RawRingSwitch
  deriving DecidableEq, Repr

/-- The calls that are recorded in the trace of a run, in the order in which
they are made: the calls to other components that change something, and the
calls of the inner loops, the steppers and the forced-action dispatcher of EM
itself. Pure queries (`HWACCMR3CanExecuteGuest`, `TRPMHasTrap`, ...) are not
recorded. -/
inductive Call
  | VMMR3Lock
  | VMMR3Unlock
  | TMVirtualResume
  | TMCpuTickResume
  | TMVirtualPause
  | TMCpuTickPause
  | VMMR3FatalDump (rc : Int)
  | VMR3WaitHalted (fIgnoreInterrupts : Bool)
  | emR3RawExecute
  | emR3HwAccExecute (idCpu : Nat)
  | emR3RemExecute
  | emR3RawStep
  | emR3RemStep
  | emR3RawResumeHyper
  | emR3ForcedActions (rc : Int)
  | DBGFR3Event (enmEvent : DBGFEVENTTYPE)
  | DBGFR3EventBreakpoint (enmEvent : DBGFEVENTTYPE)
  | DBGFR3EventSrc (enmEvent : DBGFEVENTTYPE)
  | DBGFR3EventAssertion (enmEvent : DBGFEVENTTYPE)
  | DBGFR3VMMForcedAction
  | VMR3Reset
  | CSAMR3CheckCodeEx (eip : Nat)
  | PDMR3QueueFlushAll
  | PDMR3DmaRun
  | VMR3ReqProcessU
  | REMR3ReplayHandlerNotifications
  | PDMR3Poll
  | TMR3TimerQueuesDo
  | TRPMR3InjectEvent
  | PGMR3PhysAllocateHandyPages
  | raw (c : RawCall)
  deriving DecidableEq, Repr

/-- The VM as EM sees it. `enmState` and `fForceRAW` are `pVM->em.s.enmState`
and `pVM->em.s.fForceRAW`; `ctx` is `*pVM->em.s.pCtx`; `ff` is
`pVM->fForcedActions`; `GCPtrInhibitInterrupts` is the address recorded by
`EMSetInhibitInterruptsPC`; `cLast` is the function-static counter of
`emR3ForcedActions`; `ext` stands for the state of all other components, which
EM never reads; `trace` records the calls made so far. -/
structure VM where
  enmState : EMSTATE
  fForceRAW : Bool
  fRawR3Enabled : Bool
  fRawR0Enabled : Bool
  fHWACCMEnabled : Bool
  ctx : CPUMCTX
  ff : VMFF → Bool
  GCPtrInhibitInterrupts : Nat
  cLast : Nat
  ext : Nat
  trace : List Call

/-! ## Constants of headers that are not part of the sources -/

/-- Modelled from the spec: `x86.h` is not among the sources; the trap flag is
bit 8 of EFLAGS. -/
def X86_EFL_TF : Nat := 2 ^ 8
/-- Modelled from the spec: `x86.h` is not among the sources; the interrupt
flag is bit 9 of EFLAGS. -/
def X86_EFL_IF : Nat := 2 ^ 9
/-- Modelled from the spec: `x86.h` is not among the sources; the virtual-8086
flag is bit 17 of EFLAGS. -/
def X86_EFL_VM : Nat := 2 ^ 17
/-- Modelled from the spec: `x86.h` is not among the sources; protection
enable is bit 0 of CR0. -/
def X86_CR0_PE : Nat := 2 ^ 0
/-- Modelled from the spec: `x86.h` is not among the sources; write protect is
bit 16 of CR0. -/
def X86_CR0_WP : Nat := 2 ^ 16
/-- Modelled from the spec: `x86.h` is not among the sources; paging is bit 31
of CR0. -/
def X86_CR0_PG : Nat := 2 ^ 31
/-- Modelled from the spec: `x86.h` is not among the sources; physical address
extension is bit 5 of CR4. -/
def X86_CR4_PAE : Nat := 2 ^ 5
/-- Modelled from the spec: `x86.h` is not among the sources; the PAE feature
is bit 6 of CPUID.1:EDX. -/
def X86_CPUID_FEATURE_EDX_PAE : Nat := 2 ^ 6
/-- Modelled from the spec: `x86.h` is not among the sources; the requested
privilege level is the low two bits of a selector. -/
def X86_SEL_RPL : Nat := 3

/-- Modelled from the spec: the bit field `Bits.u1VM` of the `X86EFLAGS` union
(`x86.h`, not among the sources) is bit 17 of the `u32` view. -/
def X86EFLAGS_u1VM (eflags : Nat) : Nat := eflags / 2 ^ 17 % 2
/-- Modelled from the spec: the bit field `Bits.u2IOPL` of the `X86EFLAGS`
union (`x86.h`, not among the sources) is bits 12 and 13 of the `u32` view. -/
def X86EFLAGS_u2IOPL (eflags : Nat) : Nat := eflags / 2 ^ 12 % 4

/-! ## Collaborators: pure queries -/

/-- The queries that `emR3Reschedule` and `emR3ForcedActions` put to other
components; they read the VM and change nothing that EM sees.
`CPUMGetGuestCpuId vm iLeaf` is the EDX output of the CPUID leaf (the only
output that is used). -/
structure Queries where
  HWACCMR3CanExecuteGuest : VM → CPUMCTX → Bool
  CPUMGetGuestCpuId : VM → Nat → Nat
  PATMShouldUseRawMode : VM → Nat → Bool
  HWACCMR3IsActive : VM → Bool
  HWACCMR3IsEventPending : VM → Bool
  PATMAreInterruptsEnabled : VM → Bool
  TRPMHasTrap : VM → Bool
  REMR3QueryPendingInterrupt : VM → Nat

/-- Modelled from the spec: the macro `HWACCMIsEnabled` (`hwaccm.h`, not among
the sources) reads the flag of the VM that says whether hardware
virtualization is enabled. -/
def HWACCMIsEnabled (vm : VM) : Bool := vm.fHWACCMEnabled
/-- Modelled from the spec: the macro `EMIsRawRing3Enabled` (`em.h`, not among
the sources) reads `pVM->fRawR3Enabled`, the flag set by `EMR3Init` and
`EMR3RawSetMode`. -/
def EMIsRawRing3Enabled (vm : VM) : Bool := vm.fRawR3Enabled
/-- Modelled from the spec: the macro `EMIsRawRing0Enabled` (`em.h`, not among
the sources) reads `pVM->fRawR0Enabled`. -/
def EMIsRawRing0Enabled (vm : VM) : Bool := vm.fRawR0Enabled

/-! ## `emR3Reschedule` -/

/-- The function `emR3Reschedule(pVM, pCtx)`: the new EM state, and the VM after
the call. The guards are those of the source, in the order of the source. -/
def emR3Reschedule (q : Queries) (vm : VM) (pCtx : CPUMCTX) : EMSTATE × VM :=
  if vm.fForceRAW then (EMSTATE_RAW, vm)
  else
    let EFlags := pCtx.eflags
    if HWACCMIsEnabled vm then
      if q.HWACCMR3CanExecuteGuest vm pCtx == true then (EMSTATE_HWACC, vm)
      else (EMSTATE_REM, vm)
    else if EFlags &&& X86_EFL_TF ≠ 0 then (EMSTATE_REM, vm)
    else if EFlags &&& X86_EFL_VM ≠ 0 then (EMSTATE_REM, vm)
    else
      let u32CR0 := pCtx.cr0 % 2 ^ 32
      if u32CR0 &&& (X86_CR0_PG ||| X86_CR0_PE) ≠ (X86_CR0_PG ||| X86_CR0_PE) then
        (EMSTATE_REM, vm)
      else if pCtx.cr4 &&& X86_CR4_PAE ≠ 0
          ∧ ¬ (q.CPUMGetGuestCpuId vm 1 &&& X86_CPUID_FEATURE_EDX_PAE ≠ 0) then
        (EMSTATE_REM, vm)
      else
        let uSS := pCtx.ss
        if X86EFLAGS_u1VM pCtx.eflags ≠ 0 ∨ uSS &&& X86_SEL_RPL = 3 then
          if ¬ EMIsRawRing3Enabled vm then (EMSTATE_REM, vm)
          else if ¬ (EFlags &&& X86_EFL_IF ≠ 0) then (EMSTATE_REM, vm)
          else if ¬ (u32CR0 &&& X86_CR0_WP ≠ 0) ∧ EMIsRawRing0Enabled vm then
            (EMSTATE_REM, vm)
          else (EMSTATE_RAW, vm)
        else
          if ¬ EMIsRawRing0Enabled vm then (EMSTATE_REM, vm)
          else if uSS &&& X86_SEL_RPL ≠ 0 then (EMSTATE_REM, vm)
          else if ¬ pCtx.ssHid_u1DefBig ∨ ¬ pCtx.csHid_u1DefBig then (EMSTATE_REM, vm)
          else if ¬ (u32CR0 &&& X86_CR0_WP ≠ 0) then (EMSTATE_REM, vm)
          else if q.PATMShouldUseRawMode vm pCtx.eip then (EMSTATE_RAW, vm)
          else if ¬ (EFlags &&& X86_EFL_IF ≠ 0) then (EMSTATE_REM, vm)
          else if X86EFLAGS_u2IOPL EFlags ≠ 0 then (EMSTATE_REM, vm)
          else (EMSTATE_RAW, vm)

/-! ## The decision procedure of the specification for `emR3Reschedule` -/

/-- EFLAGS.TF of a guest context: bit 8 of EFLAGS. -/
def CPUMCTX.TF (c : CPUMCTX) : Bool := c.eflags.testBit 8
/-- EFLAGS.IF of a guest context: bit 9 of EFLAGS. -/
def CPUMCTX.IF (c : CPUMCTX) : Bool := c.eflags.testBit 9
/-- EFLAGS.VM of a guest context (virtual-8086 mode): bit 17 of EFLAGS. -/
def CPUMCTX.V86 (c : CPUMCTX) : Bool := c.eflags.testBit 17
/-- EFLAGS.IOPL of a guest context: the number formed by bits 13 and 12. -/
def CPUMCTX.IOPL (c : CPUMCTX) : Nat :=
  2 * (c.eflags.testBit 13).toNat + (c.eflags.testBit 12).toNat
/-- CR0.PE of a guest context: bit 0 of CR0. -/
def CPUMCTX.PE (c : CPUMCTX) : Bool := c.cr0.testBit 0
/-- CR0.WP of a guest context: bit 16 of CR0. -/
def CPUMCTX.WP (c : CPUMCTX) : Bool := c.cr0.testBit 16
/-- CR0.PG of a guest context: bit 31 of CR0. -/
def CPUMCTX.PG (c : CPUMCTX) : Bool := c.cr0.testBit 31
/-- CR4.PAE of a guest context: bit 5 of CR4. -/
def CPUMCTX.PAE (c : CPUMCTX) : Bool := c.cr4.testBit 5
/-- SS.RPL of a guest context: the selector modulo 4. -/
def CPUMCTX.RPL (c : CPUMCTX) : Nat := c.ss % 4
/-- The guest CPUID reports PAE: bit 6 of EDX of leaf 1. -/
def Queries.cpuidPAE (q : Queries) (vm : VM) : Bool := (q.CPUMGetGuestCpuId vm 1).testBit 6

/-- The condition under which the decision procedure of the specification
selects raw mode when hardware virtualization is disabled. -/
def rawModeAllowed (q : Queries) (vm : VM) (c : CPUMCTX) : Prop :=
  c.TF = false ∧ c.V86 = false ∧ c.PG = true ∧ c.PE = true
  ∧ (c.PAE = false ∨ q.cpuidPAE vm = true)
  ∧ ((c.RPL = 3 ∧ vm.fRawR3Enabled = true ∧ c.IF = true
        ∧ (c.WP = true ∨ vm.fRawR0Enabled = false))
     ∨ (c.RPL = 0 ∧ vm.fRawR0Enabled = true
        ∧ c.ssHid_u1DefBig = true ∧ c.csHid_u1DefBig = true ∧ c.WP = true
        ∧ (q.PATMShouldUseRawMode vm c.eip = true ∨ (c.IF = true ∧ c.IOPL = 0))))

instance (q : Queries) (vm : VM) (c : CPUMCTX) : Decidable (rawModeAllowed q vm c) := by
  unfold rawModeAllowed; infer_instance

/-- The decision procedure of the specification for a VM whose force-raw flag
is clear. -/
def rescheduleDecision (q : Queries) (vm : VM) (c : CPUMCTX) : EMSTATE :=
  if vm.fHWACCMEnabled = true then
    if q.HWACCMR3CanExecuteGuest vm c = true then EMSTATE_HWACC else EMSTATE_REM
  else if rawModeAllowed q vm c then EMSTATE_RAW else EMSTATE_REM

/-! ## Concrete inputs -/

/-- Collaborators that answer every query of the policy with "no". -/
def qNo : Queries where
  HWACCMR3CanExecuteGuest := fun _ _ => false
  CPUMGetGuestCpuId := fun _ _ => 0
  PATMShouldUseRawMode := fun _ _ => false
  HWACCMR3IsActive := fun _ => false
  HWACCMR3IsEventPending := fun _ => false
  PATMAreInterruptsEnabled := fun _ => false
  TRPMHasTrap := fun _ => false
  REMR3QueryPendingInterrupt := fun _ => 2 ^ 32 - 1

/-- Collaborators for which the hardware engine can run every guest context and
every address lies in patch code. -/
def qYes : Queries where
  HWACCMR3CanExecuteGuest := fun _ _ => true
  CPUMGetGuestCpuId := fun _ _ => 0
  PATMShouldUseRawMode := fun _ _ => true
  HWACCMR3IsActive := fun _ => false
  HWACCMR3IsEventPending := fun _ => false
  PATMAreInterruptsEnabled := fun _ => false
  TRPMHasTrap := fun _ => false
  REMR3QueryPendingInterrupt := fun _ => 2 ^ 32 - 1

/-- A guest context in 32-bit protected mode with paging and write protection,
running ring-0 code with interrupts enabled and IOPL 0:
EFLAGS = 0x202, CR0 = 0x80010001, SS = 0x10. -/
def ctxRing0 : CPUMCTX where
  eflags := 0x202
  cr0 := 0x80010001
  cr4 := 0
  ss := 0x10
  eip := 0x1000
  ssHid_u1DefBig := true
  csHid_u1DefBig := true

/-- The VM as `EMR3Init` leaves it (state NONE, force-raw clear, raw ring 3 and
ring 0 enabled), without hardware virtualization, no forced action raised, with
the guest context `ctxRing0`. -/
def vmInit : VM where
  enmState := EMSTATE_NONE
  fForceRAW := false
  fRawR3Enabled := true
  fRawR0Enabled := true
  fHWACCMEnabled := false
  ctx := ctxRing0
  ff := fun _ => false
  GCPtrInhibitInterrupts := 0
  cLast := 0
  ext := 0
  trace := []

/-- The context `ctxRing0` with the trap flag set: EFLAGS = 0x302. -/
def ctxTF : CPUMCTX := { ctxRing0 with eflags := 0x302 }

/-- The context `ctxRing0` with IOPL 3: EFLAGS = 0x3202. -/
def ctxIOPL3 : CPUMCTX := { ctxRing0 with eflags := 0x3202 }

/-- A VM with the force-raw flag set, hardware virtualization enabled, raw
ring 3 and ring 0 disabled, and the trap flag set in the guest context. -/
def vmForceRawTF : VM :=
  { vmInit with
    fForceRAW := true, fHWACCMEnabled := true,
    fRawR3Enabled := false, fRawR0Enabled := false, ctx := ctxTF }

/-- A VM with hardware virtualization enabled, the force-raw flag clear, and the
trap flag set in the guest context. -/
def vmHwaccTF : VM := { vmInit with fHWACCMEnabled := true, ctx := ctxTF }

/-- The VM `vmInit` with the trap flag set in the guest context. -/
def vmTF : VM := { vmInit with ctx := ctxTF }

/-- The VM `vmInit` running ring-0 code with IOPL 3. -/
def vmIOPL3 : VM := { vmInit with ctx := ctxIOPL3 }

/-! ## Status codes

`VBox/err.h` is not among the sources. The numbers below follow its layout:
`VINF_SUCCESS` is 0, every `VINF_*` code is positive, every `VERR_*` code is
negative, the scheduling codes lie between `VINF_EM_FIRST` and `VINF_EM_LAST`
and a lower number is the more important scheduling instruction. The theorems
use only that the codes are distinct, their signs, and their order. -/

/-- Modelled from the spec: the success status of `iprt/err.h`. -/
def VINF_SUCCESS : Int := 0
/-- Modelled from the spec: first scheduling status code of `VBox/err.h`. -/
def VINF_EM_FIRST : Int := 1100
/-- Modelled from the spec: "terminate" of `VBox/err.h`. -/
def VINF_EM_TERMINATE : Int := 1100
/-- Modelled from the spec: hypervisor debug event of `VBox/err.h`. -/
def VINF_EM_DBG_HYPER_STEPPED : Int := 1101
/-- Modelled from the spec: hypervisor debug event of `VBox/err.h`. -/
def VINF_EM_DBG_HYPER_BREAKPOINT : Int := 1102
/-- Modelled from the spec: hypervisor debug event of `VBox/err.h`. -/
def VINF_EM_DBG_HYPER_ASSERTION : Int := 1103
/-- Modelled from the spec: guest debug event of `VBox/err.h`. -/
def VINF_EM_DBG_STOP : Int := 1105
/-- Modelled from the spec: guest debug event of `VBox/err.h`. -/
def VINF_EM_DBG_STEPPED : Int := 1106
/-- Modelled from the spec: guest debug event of `VBox/err.h`. -/
def VINF_EM_DBG_BREAKPOINT : Int := 1107
/-- Modelled from the spec: guest debug event of `VBox/err.h`. -/
def VINF_EM_DBG_STEP : Int := 1108
/-- Modelled from the spec: "power-off" of `VBox/err.h`. -/
def VINF_EM_OFF : Int := 1109
/-- Modelled from the spec: "reset" of `VBox/err.h`. -/
def VINF_EM_RESET : Int := 1110
/-- Modelled from the spec: "suspend" of `VBox/err.h`. -/
def VINF_EM_SUSPEND : Int := 1111
/-- Modelled from the spec: "halt" of `VBox/err.h`. -/
def VINF_EM_HALT : Int := 1112
/-- Modelled from the spec: "resume" of `VBox/err.h`. -/
def VINF_EM_RESUME : Int := 1113
/-- Modelled from the spec: "reschedule-hwaccel" of `VBox/err.h`. -/
def VINF_EM_RESCHEDULE_HWACC : Int := 1115
/-- Modelled from the spec: "reschedule-raw" of `VBox/err.h`. -/
def VINF_EM_RESCHEDULE_RAW : Int := 1116
/-- Modelled from the spec: "reschedule-emulated" of `VBox/err.h`. -/
def VINF_EM_RESCHEDULE_REM : Int := 1117
/-- Modelled from the spec: "reschedule" of `VBox/err.h`. -/
def VINF_EM_RESCHEDULE : Int := 1118
/-- Modelled from the spec: last scheduling status code of `VBox/err.h`. -/
def VINF_EM_LAST : Int := 1118
/-- Modelled from the spec: a raw-mode exit reason of `VBox/err.h`, outside the
scheduling range. -/
def VINF_EM_RAW_STALE_SELECTOR : Int := 1138
/-- Modelled from the spec: a raw-mode exit reason of `VBox/err.h`, outside the
scheduling range. -/
def VINF_EM_RAW_IRET_TRAP : Int := 1139
/-- Modelled from the spec: a failure status of `iprt/err.h`. -/
def VERR_INTERNAL_ERROR : Int := -225
/-- Modelled from the spec: a failure status of `VBox/err.h`. -/
def VERR_EM_INTERNAL_ERROR : Int := -1154
/-- Modelled from the spec: a failure status of `VBox/err.h`. -/
def VERR_DBGF_NOT_ATTACHED : Int := -1200
/-- Modelled from the spec: a failure status of `VBox/err.h`. -/
def VERR_REM_TOO_MANY_TRAPS : Int := -2304
/-- Modelled from the spec: a failure status of `VBox/err.h`. -/
def VERR_TRPM_PANIC : Int := -2402
/-- Modelled from the spec: a failure status of `VBox/err.h`. -/
def VERR_TRPM_DONT_PANIC : Int := -2403
/-- Modelled from the spec: a failure status of `VBox/err.h`. -/
def VERR_VMM_RING0_ASSERTION : Int := -2701
/-- Modelled from the spec: the macro `RT_SUCCESS` of `iprt/cdefs.h`:
a status is a success when it is not negative. -/
def RT_SUCCESS (rc : Int) : Bool := decide (rc ≥ VINF_SUCCESS)
/-- Modelled from the spec: the macro `RT_FAILURE` of `iprt/cdefs.h`. -/
def RT_FAILURE (rc : Int) : Bool := !RT_SUCCESS rc
/-- Modelled from the spec: `REM_NO_PENDING_IRQ` of `VBox/rem.h` is `~0`. -/
def REM_NO_PENDING_IRQ : Nat := 2 ^ 32 - 1

/-! ## Forced-action flags -/

/-- The flag masks of `VBox/vm.h` that `emR3ForcedActions` and `EMR3ExecuteVM`
test. `vm.h` is not among the sources, so the masks are parameters. -/
structure Masks where
  VM_FF_NORMAL_PRIORITY_POST_MASK : List VMFF
  VM_FF_NORMAL_PRIORITY_MASK : List VMFF
  VM_FF_HIGH_PRIORITY_PRE_MASK : List VMFF
  VM_FF_ALL_BUT_RAW_MASK : List VMFF

/-- Modelled from the spec: the macro `VM_FF_ISSET` of `VBox/vm.h`: the flag is
raised. -/
def VM_FF_ISSET (vm : VM) (f : VMFF) : Bool := vm.ff f
/-- Modelled from the spec: the macro `VM_FF_ISPENDING` of `VBox/vm.h`: some
flag of the mask is raised. -/
def VM_FF_ISPENDING (vm : VM) (mask : List VMFF) : Bool := mask.any vm.ff
/-- Modelled from the spec: the macro `VM_FF_CLEAR` of `VBox/vm.h`: the flag is
lowered and every other flag is kept. -/
def VM_FF_CLEAR (vm : VM) (f : VMFF) : VM :=
  { vm with ff := fun g => if g = f then false else vm.ff g }

/-- Modelled from the spec: `CPUMGetGuestEIP` (CPUM, not among the sources)
reads the EIP of the guest context, the context `pVM->em.s.pCtx` points to. -/
def CPUMGetGuestEIP (vm : VM) : Nat := vm.ctx.eip
/-- Modelled from the spec: `CPUMGetGuestEFlags` (CPUM, not among the sources)
reads the EFLAGS of the guest context. -/
def CPUMGetGuestEFlags (vm : VM) : Nat := vm.ctx.eflags
/-- Modelled from the spec: `EMGetInhibitInterruptsPC` (`EMAll.cpp`, not among
the sources) reads the address recorded with the interrupt shadow. -/
def EMGetInhibitInterruptsPC (vm : VM) : Nat := vm.GCPtrInhibitInterrupts

/-! ## Collaborators: calls with an effect -/

/-- The functions of other components that EM calls for their effect. Each one
receives the VM and returns the VM it leaves behind, with its status when the
caller reads it. String and source-position arguments are left out. -/
structure Collab where
  VMMR3Lock : VM → VM
  VMMR3Unlock : VM → VM
  TMVirtualResume : VM → VM
  TMCpuTickResume : VM → VM
  TMVirtualPause : VM → VM
  TMCpuTickPause : VM → VM
  VMMR3FatalDump : Int → VM → VM
  VMR3WaitHalted : Bool → VM → Int × VM
  DBGFR3Event : DBGFEVENTTYPE → VM → Int × VM
  DBGFR3EventBreakpoint : DBGFEVENTTYPE → VM → Int × VM
  DBGFR3EventSrc : DBGFEVENTTYPE → VM → Int × VM
  DBGFR3EventAssertion : DBGFEVENTTYPE → VM → Int × VM
  DBGFR3VMMForcedAction : VM → Int × VM
  VMR3Reset : VM → Int × VM
  CSAMR3CheckCodeEx : Nat → VM → VM
  PDMR3QueueFlushAll : VM → VM
  PDMR3DmaRun : VM → VM
  VMR3ReqProcessU : VM → Int × VM
  REMR3ReplayHandlerNotifications : VM → VM
  PDMR3Poll : VM → VM
  TMR3TimerQueuesDo : VM → VM
  TRPMR3InjectEvent : VM → Int × VM
  PGMR3PhysAllocateHandyPages : VM → Int × VM

/-- The inner loops and steppers of EM.cpp that the outer loop and the debug
loop call. `none` stands for a call that never returns. The inner loops return
their status, the value they store in `*pfFFDone`, and the VM. -/
structure Inner where
  emR3RawExecute : VM → Option ((Int × Bool) × VM)
  emR3HwAccExecute : Nat → VM → Option ((Int × Bool) × VM)
  emR3RemExecute : VM → Option ((Int × Bool) × VM)
  emR3RawStep : VM → Option (Int × VM)
  emR3RemStep : VM → Option (Int × VM)
  emR3RawResumeHyper : VM → Option (Int × VM)

/-- Everything the embedded functions are parameterised by. -/
structure Env where
  m : Masks
  q : Queries
  c : Collab
  i : Inner

/-- A call of a collaborator whose status is read. The call is recorded; the
EM state and the static counter of `emR3ForcedActions` are out of the reach of
other components (`EMInternal.h`) and are kept. -/
def VM.call (vm : VM) (what : Call) (f : VM → Int × VM) : Int × VM :=
  ((f vm).1,
   { (f vm).2 with enmState := vm.enmState, cLast := vm.cLast, trace := vm.trace ++ [what] })

/-- A call of a collaborator whose status is not read, or that returns none. -/
def VM.callVoid (vm : VM) (what : Call) (f : VM → VM) : VM :=
  { f vm with enmState := vm.enmState, cLast := vm.cLast, trace := vm.trace ++ [what] }

/-- A call of an inner loop or stepper of EM.cpp. The call is recorded, and the
calls that the callee records are appended to it. No statement of these
functions assigns `pVM->em.s.enmState`, so the EM state is kept. -/
def VM.run {α : Type} (vm : VM) (what : Call) (f : VM → Option (α × VM)) : Option (α × VM) :=
  match f { vm with trace := [] } with
  | none => none
  | some (a, vm') =>
    some (a, { vm' with enmState := vm.enmState, trace := vm.trace ++ what :: vm'.trace })

/-! ## `emR3ForcedActions` -/

/-- The macro `UPDATE_RC()` of `emR3ForcedActions`: the new value of `rc` after
a handler returned `rc2`. -/
def UPDATE_RC (rc rc2 : Int) : Int :=
  if rc2 = VINF_SUCCESS ∨ rc < VINF_SUCCESS then rc
  else if rc = 0 ∨ rc2 < rc then rc2
  else rc

/-- How a block of `emR3ForcedActions` ends: with a `return`, or by falling
through to the next block with the current `rc`. -/
inductive FFStep
  | ret (rc : Int) (vm : VM)
  | go (rc : Int) (vm : VM)

/-- "Debugger Facility polling" (post block) and "Debugger Facility request"
(pre block): `if (VM_FF_ISSET(pVM, VM_FF_DBGF)) { rc2 = DBGFR3VMMForcedAction(pVM);
UPDATE_RC(); }`. A step takes and returns the pair of `rc` and the VM. -/
def ffDbgf (e : Env) (s : Int × VM) : Int × VM :=
  if VM_FF_ISSET s.2 VM_FF_DBGF then
    let r := s.2.call Call.DBGFR3VMMForcedAction e.c.DBGFR3VMMForcedAction
    (UPDATE_RC s.1 r.1, r.2)
  else s

/-- "Postponed reset request": `rc2 = VMR3Reset(pVM); UPDATE_RC();
VM_FF_CLEAR(pVM, VM_FF_RESET);`. -/
def ffReset (e : Env) (s : Int × VM) : Int × VM :=
  if VM_FF_ISSET s.2 VM_FF_RESET then
    let r := s.2.call Call.VMR3Reset e.c.VMR3Reset
    (UPDATE_RC s.1 r.1, VM_FF_CLEAR r.2 VM_FF_RESET)
  else s

/-- "CSAM page scanning": `CSAMR3CheckCodeEx(pVM, CPUMCTX2CORE(pCtx), pCtx->eip);
VM_FF_CLEAR(pVM, VM_FF_CSAM_SCAN_PAGE);`. -/
def ffCsamScanPage (e : Env) (s : Int × VM) : Int × VM :=
  if VM_FF_ISSET s.2 VM_FF_CSAM_SCAN_PAGE then
    (s.1, VM_FF_CLEAR
      (s.2.callVoid (Call.CSAMR3CheckCodeEx s.2.ctx.eip) (e.c.CSAMR3CheckCodeEx s.2.ctx.eip))
      VM_FF_CSAM_SCAN_PAGE)
  else s

/-- The block "Post execution chunk first" of `emR3ForcedActions`. -/
def emR3ForcedActions_post (e : Env) (vm : VM) (rc : Int) : FFStep :=
  if VM_FF_ISPENDING vm e.m.VM_FF_NORMAL_PRIORITY_POST_MASK then
    if VM_FF_ISSET vm VM_FF_TERMINATE then FFStep.ret VINF_EM_TERMINATE vm
    else
      let s := ffCsamScanPage e (ffReset e (ffDbgf e (rc, vm)))
      FFStep.go s.1 s.2
  else FFStep.go rc vm

/-- "PDM Queues are pending": `PDMR3QueueFlushAll(pVM);`. -/
def ffPdmQueues (e : Env) (vm : VM) : VM :=
  if VM_FF_ISSET vm VM_FF_PDM_QUEUES then
    vm.callVoid Call.PDMR3QueueFlushAll e.c.PDMR3QueueFlushAll
  else vm

/-- "PDM DMA transfers are pending": `PDMR3DmaRun(pVM);`. -/
def ffPdmDma (e : Env) (vm : VM) : VM :=
  if VM_FF_ISSET vm VM_FF_PDM_DMA then vm.callVoid Call.PDMR3DmaRun e.c.PDMR3DmaRun
  else vm

/-- "Replay the handler notification changes":
`REMR3ReplayHandlerNotifications(pVM);`. -/
def ffRemHandlerNotify (e : Env) (vm : VM) : VM :=
  if VM_FF_ISSET vm VM_FF_REM_HANDLER_NOTIFY then
    vm.callVoid Call.REMR3ReplayHandlerNotifications e.c.REMR3ReplayHandlerNotifications
  else vm

/-- The block "Normal priority then" of `emR3ForcedActions`. -/
def emR3ForcedActions_normal (e : Env) (vm : VM) (rc : Int) : FFStep :=
  if VM_FF_ISPENDING vm e.m.VM_FF_NORMAL_PRIORITY_MASK then
    let vm2 := ffPdmDma e (ffPdmQueues e vm)
    if VM_FF_ISSET vm2 VM_FF_REQUEST then
      let r := vm2.call Call.VMR3ReqProcessU e.c.VMR3ReqProcessU
      if r.1 = VINF_EM_OFF ∨ r.1 = VINF_EM_TERMINATE then FFStep.ret r.1 r.2
      else FFStep.go (UPDATE_RC rc r.1) (ffRemHandlerNotify e r.2)
    else FFStep.go rc (ffRemHandlerNotify e vm2)
  else FFStep.go rc vm

/-- The polling hack of `emR3ForcedActions`: the static counter `cLast` (an
`unsigned`) is incremented, and every fourth time `PDMR3Poll` is called. -/
def emR3ForcedActions_poll (e : Env) (vm : VM) : VM :=
  let vm1 : VM := { vm with cLast := (vm.cLast + 1) % 2 ^ 32 }
  if vm1.cLast % 4 = 0 then vm1.callVoid Call.PDMR3Poll e.c.PDMR3Poll else vm1

/-- "Timers before interrupts": `TMR3TimerQueuesDo(pVM);`. -/
def ffTimer (e : Env) (s : Int × VM) : Int × VM :=
  if VM_FF_ISSET s.2 VM_FF_TIMER then
    (s.1, s.2.callVoid Call.TMR3TimerQueuesDo e.c.TMR3TimerQueuesDo)
  else s

/-- "The instruction following an emulated STI should always be executed": the
interrupt shadow is cleared when the guest EIP has left the recorded address,
and a reschedule code is merged into `rc`. -/
def ffInhibitInterrupts (e : Env) (s : Int × VM) : Int × VM :=
  if VM_FF_ISSET s.2 VM_FF_INHIBIT_INTERRUPTS then
    let vm2 : VM :=
      if CPUMGetGuestEIP s.2 ≠ EMGetInhibitInterruptsPC s.2 then
        VM_FF_CLEAR s.2 VM_FF_INHIBIT_INTERRUPTS
      else s.2
    let rc2 : Int :=
      if e.q.HWACCMR3IsActive vm2 then VINF_EM_RESCHEDULE_HWACC
      else if e.q.PATMAreInterruptsEnabled vm2 then VINF_EM_RESCHEDULE_RAW
      else VINF_EM_RESCHEDULE_REM
    (UPDATE_RC s.1 rc2, vm2)
  else s

/-- "Interrupts": a pending APIC or PIC interrupt is turned into a trap by
`TRPMR3InjectEvent(pVM, TRPM_HARDWARE_INT)`; an interrupt pending in the
recompiler asks for recompiled execution. -/
def ffInterrupts (e : Env) (s : Int × VM) : Int × VM :=
  if ¬ VM_FF_ISSET s.2 VM_FF_INHIBIT_INTERRUPTS
      ∧ (s.1 = 0 ∨ s.1 ≥ VINF_EM_RESCHEDULE_RAW)
      ∧ ¬ e.q.TRPMHasTrap s.2
      ∧ e.q.PATMAreInterruptsEnabled s.2
      ∧ ¬ e.q.HWACCMR3IsEventPending s.2 then
    if VM_FF_ISPENDING s.2 [VM_FF_INTERRUPT_APIC, VM_FF_INTERRUPT_PIC] then
      let r := s.2.call Call.TRPMR3InjectEvent e.c.TRPMR3InjectEvent
      (UPDATE_RC s.1 r.1, r.2)
    else if e.q.REMR3QueryPendingInterrupt s.2 ≠ REM_NO_PENDING_IRQ then
      (UPDATE_RC s.1 VINF_EM_RESCHEDULE_REM, s.2)
    else s
  else s

/-- "Allocate handy pages": `rc2 = PGMR3PhysAllocateHandyPages(pVM); UPDATE_RC();`. -/
def ffHandyPages (e : Env) (s : Int × VM) : Int × VM :=
  if VM_FF_ISSET s.2 VM_FF_PGM_NEED_HANDY_PAGES then
    let r := s.2.call Call.PGMR3PhysAllocateHandyPages e.c.PGMR3PhysAllocateHandyPages
    (UPDATE_RC s.1 r.1, r.2)
  else s

/-- The block "High priority pre execution chunk last" of `emR3ForcedActions`,
up to the `return` of the function. -/
def emR3ForcedActions_pre (e : Env) (vm : VM) (rc : Int) : Int × VM :=
  if VM_FF_ISPENDING vm e.m.VM_FF_HIGH_PRIORITY_PRE_MASK then
    let s := ffDbgf e (ffHandyPages e (ffInterrupts e (ffInhibitInterrupts e (ffTimer e (rc, vm)))))
    if VM_FF_ISSET s.2 VM_FF_TERMINATE then (VINF_EM_TERMINATE, s.2)
    else s
  else (rc, vm)

/-- The function `emR3ForcedActions(pVM, rc)`: the three blocks in the order of
the source, with the polling hack between the second and the third. -/
def emR3ForcedActions (e : Env) (vm : VM) (rc : Int) : Int × VM :=
  match emR3ForcedActions_post e vm rc with
  | FFStep.ret r vm1 => (r, vm1)
  | FFStep.go rc1 vm1 =>
    match emR3ForcedActions_normal e vm1 rc1 with
    | FFStep.ret r vm2 => (r, vm2)
    | FFStep.go rc2 vm2 => emR3ForcedActions_pre e (emR3ForcedActions_poll e vm2) rc2

/-- "Termination request", the end of the pre block of `emR3ForcedActions`:
`if (VM_FF_ISSET(pVM, VM_FF_TERMINATE)) return VINF_EM_TERMINATE;`, and the
`return rc` of the function otherwise. -/
def ffTerminate (s : Int × VM) : Int × VM :=
  if VM_FF_ISSET s.2 VM_FF_TERMINATE then (VINF_EM_TERMINATE, s.2) else s

/-! ## `emR3Debug` -/

/-- The first `switch` of the loop body of `emR3Debug`: the debug event that
belongs to `rc` is raised, or one instruction is stepped. -/
def emR3Debug_event (e : Env) (vm : VM) (rc : Int) : Option (Int × VM) :=
  if rc = VINF_EM_DBG_STEP then
    if vm.enmState = EMSTATE_DEBUG_GUEST_RAW ∨ vm.enmState = EMSTATE_DEBUG_HYPER
        ∨ vm.fForceRAW = true then
      vm.run Call.emR3RawStep e.i.emR3RawStep
    else vm.run Call.emR3RemStep e.i.emR3RemStep
  else if rc = VINF_EM_DBG_STEPPED then
    some (vm.call (Call.DBGFR3Event DBGFEVENT_STEPPED) (e.c.DBGFR3Event DBGFEVENT_STEPPED))
  else if rc = VINF_EM_DBG_BREAKPOINT then
    some (vm.call (Call.DBGFR3EventBreakpoint DBGFEVENT_BREAKPOINT)
      (e.c.DBGFR3EventBreakpoint DBGFEVENT_BREAKPOINT))
  else if rc = VINF_EM_DBG_STOP then
    some (vm.call (Call.DBGFR3EventSrc DBGFEVENT_DEV_STOP) (e.c.DBGFR3EventSrc DBGFEVENT_DEV_STOP))
  else if rc = VINF_EM_DBG_HYPER_STEPPED then
    some (vm.call (Call.DBGFR3Event DBGFEVENT_STEPPED_HYPER)
      (e.c.DBGFR3Event DBGFEVENT_STEPPED_HYPER))
  else if rc = VINF_EM_DBG_HYPER_BREAKPOINT then
    some (vm.call (Call.DBGFR3EventBreakpoint DBGFEVENT_BREAKPOINT_HYPER)
      (e.c.DBGFR3EventBreakpoint DBGFEVENT_BREAKPOINT_HYPER))
  else if rc = VINF_EM_DBG_HYPER_ASSERTION then
    some (vm.call (Call.DBGFR3EventAssertion DBGFEVENT_ASSERTION_HYPER)
      (e.c.DBGFR3EventAssertion DBGFEVENT_ASSERTION_HYPER))
  else if rc = VERR_VMM_RING0_ASSERTION then
    some (vm.call (Call.DBGFR3EventSrc DBGFEVENT_DEV_STOP) (e.c.DBGFR3EventSrc DBGFEVENT_DEV_STOP))
  else if rc = VERR_REM_TOO_MANY_TRAPS then
    some (vm.call (Call.DBGFR3EventSrc DBGFEVENT_DEV_STOP) (e.c.DBGFR3EventSrc DBGFEVENT_DEV_STOP))
  else
    some (vm.call (Call.DBGFR3Event DBGFEVENT_FATAL_ERROR) (e.c.DBGFR3Event DBGFEVENT_FATAL_ERROR))

/-- The codes of the case "Continue the debugging loop" of `emR3Debug`. -/
def emR3Debug_continues : List Int :=
  [VINF_EM_DBG_STEP, VINF_EM_DBG_STOP, VINF_EM_DBG_STEPPED, VINF_EM_DBG_BREAKPOINT,
   VINF_EM_DBG_HYPER_STEPPED, VINF_EM_DBG_HYPER_BREAKPOINT, VINF_EM_DBG_HYPER_ASSERTION]

/-- The codes of the case "Resuming execution" of `emR3Debug`. -/
def emR3Debug_resumes : List Int :=
  [VINF_SUCCESS, VINF_EM_RESUME, VINF_EM_SUSPEND, VINF_EM_RESCHEDULE, VINF_EM_RESCHEDULE_RAW,
   VINF_EM_RESCHEDULE_REM, VINF_EM_HALT]

/-- The values of `rcLast` that `emR3Debug` returns when the debugger is not
attached. -/
def emR3Debug_notAttachedKeeps : List Int :=
  [VINF_EM_DBG_HYPER_STEPPED, VINF_EM_DBG_HYPER_BREAKPOINT, VINF_EM_DBG_HYPER_ASSERTION,
   VERR_TRPM_PANIC, VERR_TRPM_DONT_PANIC, VERR_VMM_RING0_ASSERTION]

/-- The codes of the case "Status codes terminating the VM" of `emR3Debug`. -/
def emR3Debug_terminal : List Int :=
  [VINF_EM_TERMINATE, VINF_EM_OFF, VINF_EM_RESET, VINF_EM_RAW_STALE_SELECTOR,
   VINF_EM_RAW_IRET_TRAP, VERR_TRPM_PANIC, VERR_TRPM_DONT_PANIC, VERR_VMM_RING0_ASSERTION,
   VERR_INTERNAL_ERROR]

/-- The function `emR3Debug(pVM, rc)`. The loop `for (;;)` runs at most `fuel`
times; `none` says that it did not return within that many rounds, or that a
stepper never returned. -/
def emR3Debug (e : Env) : Nat → VM → Int → Option (Int × VM)
  | 0, _, _ => none
  | fuel + 1, vm, rc =>
    let rcLast := rc
    match emR3Debug_event e vm rc with
    | none => none
    | some (rc1, vm1) =>
      if rc1 ∈ emR3Debug_continues then emR3Debug e fuel vm1 rc1
      else if rc1 ∈ emR3Debug_resumes then
        if vm1.enmState = EMSTATE_DEBUG_HYPER then
          match vm1.run Call.emR3RawResumeHyper e.i.emR3RawResumeHyper with
          | none => none
          | some (rc2, vm2) =>
            if rc2 ≠ VINF_SUCCESS ∧ RT_SUCCESS rc2 then emR3Debug e fuel vm2 rc2
            else if rc2 = VINF_SUCCESS then some (VINF_EM_RESCHEDULE, vm2)
            else some (rc2, vm2)
        else if rc1 = VINF_SUCCESS then some (VINF_EM_RESCHEDULE, vm1)
        else some (rc1, vm1)
      else if rc1 = VERR_DBGF_NOT_ATTACHED then
        if rcLast ∈ emR3Debug_notAttachedKeeps then some (rcLast, vm1)
        else some (VINF_EM_OFF, vm1)
      else if rc1 ∈ emR3Debug_terminal then some (rc1, vm1)
      else emR3Debug e fuel vm1 rc1

/-! ## `EMR3ExecuteVM` -/

/-- The `return` statements of `EMR3ExecuteVM`. -/
inductive Exit
  | powerOff
  | terminate
  | suspended
  | debugHyper
  | guruMeditation
  | invalidState
  | fatalLongJump
  deriving DecidableEq, Repr

/-- How one round of the outer loop of `EMR3ExecuteVM` ends: the loop goes on
with `rc` and `fFFDone`, the function returns `rc` at the `return` statement
`site`, or a callee never returned. -/
inductive Outcome
  | next (rc : Int) (fFFDone : Bool) (vm : VM)
  | ret (site : Exit) (rc : Int) (vm : VM)
  | hang

/-- The first step of a round of the outer loop ("Do forced actions"): the new
`rc`, the new `fFFDone`, and the VM. -/
def EMR3ExecuteVM_forcedActions (e : Env) (vm : VM) (rc : Int) (fFFDone : Bool) :
    Int × Bool × VM :=
  if ¬ fFFDone ∧ rc ≠ VINF_EM_TERMINATE ∧ rc ≠ VINF_EM_OFF
      ∧ VM_FF_ISPENDING vm e.m.VM_FF_ALL_BUT_RAW_MASK then
    let r := emR3ForcedActions e { vm with trace := vm.trace ++ [Call.emR3ForcedActions rc] } rc
    if (r.1 = VINF_EM_RESCHEDULE_REM ∨ r.1 = VINF_EM_RESCHEDULE_HWACC) ∧ r.2.fForceRAW = true then
      (VINF_EM_RESCHEDULE_RAW, fFFDone, r.2)
    else (r.1, fFFDone, r.2)
  else if fFFDone then (rc, false, vm)
  else (rc, fFFDone, vm)

/-- How the transition `switch` of `EMR3ExecuteVM` ends: with a `return`, or
with the `rc` and the VM the round goes on with. -/
inductive Transition
  | ret (site : Exit) (rc : Int) (vm : VM)
  | go (rc : Int) (vm : VM)

/-- The codes the transition `switch` of `EMR3ExecuteVM` has a `case` for
(`VINF_EM_RESCHEDULE_PARAV` is not one of them: `VBOX_WITH_VMI` is undefined). -/
def switchCodes : List Int :=
  [VINF_SUCCESS, VINF_EM_RESCHEDULE_RAW, VINF_EM_RESCHEDULE_HWACC, VINF_EM_RESCHEDULE_REM,
   VINF_EM_RESUME, VINF_EM_RESCHEDULE, VINF_EM_HALT, VINF_EM_SUSPEND, VINF_EM_RESET,
   VINF_EM_OFF, VINF_EM_TERMINATE, VINF_EM_DBG_STEPPED, VINF_EM_DBG_STOP,
   VINF_EM_DBG_BREAKPOINT, VINF_EM_DBG_STEP, VINF_EM_DBG_HYPER_STEPPED,
   VINF_EM_DBG_HYPER_BREAKPOINT, VINF_EM_DBG_HYPER_ASSERTION, VERR_VMM_RING0_ASSERTION]

/-- The transition `switch (rc)` of `EMR3ExecuteVM` ("Now what to do?"). -/
def EMR3ExecuteVM_switch (e : Env) (vm : VM) (rc : Int) : Transition :=
  if rc = VINF_SUCCESS then Transition.go rc vm
  else if rc = VINF_EM_RESCHEDULE_RAW then Transition.go rc { vm with enmState := EMSTATE_RAW }
  else if rc = VINF_EM_RESCHEDULE_HWACC then
    Transition.go rc { vm with enmState := EMSTATE_HWACC }
  else if rc = VINF_EM_RESCHEDULE_REM then Transition.go rc { vm with enmState := EMSTATE_REM }
  else if rc = VINF_EM_RESUME ∨ rc = VINF_EM_RESCHEDULE then
    let r := emR3Reschedule e.q vm vm.ctx
    Transition.go rc { r.2 with enmState := r.1 }
  else if rc = VINF_EM_HALT then Transition.go rc { vm with enmState := EMSTATE_HALTED }
  else if rc = VINF_EM_SUSPEND then Transition.go rc { vm with enmState := EMSTATE_SUSPENDED }
  else if rc = VINF_EM_RESET then
    let r := emR3Reschedule e.q vm vm.ctx
    Transition.go rc { r.2 with enmState := r.1 }
  else if rc = VINF_EM_OFF then
    let vm1 : VM := { vm with enmState := EMSTATE_TERMINATING }
    let vm2 := vm1.callVoid Call.TMVirtualPause e.c.TMVirtualPause
    let vm3 := vm2.callVoid Call.TMCpuTickPause e.c.TMCpuTickPause
    let vm4 := vm3.callVoid Call.VMMR3Unlock e.c.VMMR3Unlock
    Transition.ret Exit.powerOff rc vm4
  else if rc = VINF_EM_TERMINATE then
    let vm1 : VM := { vm with enmState := EMSTATE_TERMINATING }
    let vm2 := vm1.callVoid Call.TMVirtualPause e.c.TMVirtualPause
    let vm3 := vm2.callVoid Call.TMCpuTickPause e.c.TMCpuTickPause
    Transition.ret Exit.terminate rc vm3
  else if rc = VINF_EM_DBG_STEPPED ∨ rc = VINF_EM_DBG_STOP ∨ rc = VINF_EM_DBG_BREAKPOINT
      ∨ rc = VINF_EM_DBG_STEP then
    if vm.enmState = EMSTATE_RAW then
      Transition.go rc { vm with enmState := EMSTATE_DEBUG_GUEST_RAW }
    else Transition.go rc { vm with enmState := EMSTATE_DEBUG_GUEST_REM }
  else if rc = VINF_EM_DBG_HYPER_STEPPED ∨ rc = VINF_EM_DBG_HYPER_BREAKPOINT
      ∨ rc = VINF_EM_DBG_HYPER_ASSERTION then
    Transition.go rc { vm with enmState := EMSTATE_DEBUG_HYPER }
  else if rc = VERR_VMM_RING0_ASSERTION then
    Transition.go rc { vm with enmState := EMSTATE_GURU_MEDITATION }
  else
    let rc1 : Int := if RT_SUCCESS rc then VERR_EM_INTERNAL_ERROR else rc
    Transition.go rc1 { vm with enmState := EMSTATE_GURU_MEDITATION }

/-- The `switch (pVM->em.s.enmState)` of `EMR3ExecuteVM` ("Act on the state"). -/
def EMR3ExecuteVM_dispatch (e : Env) (idCpu : Nat) (fuel : Nat) (vm : VM) (rc : Int)
    (fFFDone : Bool) : Outcome :=
  match vm.enmState with
  | EMSTATE_RAW =>
    match vm.run Call.emR3RawExecute e.i.emR3RawExecute with
    | none => Outcome.hang
    | some ((rc1, fFFDone1), vm1) => Outcome.next rc1 fFFDone1 vm1
  | EMSTATE_HWACC =>
    match vm.run (Call.emR3HwAccExecute idCpu) (e.i.emR3HwAccExecute idCpu) with
    | none => Outcome.hang
    | some ((rc1, fFFDone1), vm1) => Outcome.next rc1 fFFDone1 vm1
  | EMSTATE_REM =>
    match vm.run Call.emR3RemExecute e.i.emR3RemExecute with
    | none => Outcome.hang
    | some ((rc1, fFFDone1), vm1) => Outcome.next rc1 fFFDone1 vm1
  | EMSTATE_HALTED =>
    let fIgnoreInterrupts : Bool := decide (CPUMGetGuestEFlags vm &&& X86_EFL_IF = 0)
    let r := vm.call (Call.VMR3WaitHalted fIgnoreInterrupts) (e.c.VMR3WaitHalted fIgnoreInterrupts)
    Outcome.next r.1 fFFDone r.2
  | EMSTATE_SUSPENDED =>
    let vm1 := vm.callVoid Call.TMVirtualPause e.c.TMVirtualPause
    let vm2 := vm1.callVoid Call.TMCpuTickPause e.c.TMCpuTickPause
    let vm3 := vm2.callVoid Call.VMMR3Unlock e.c.VMMR3Unlock
    Outcome.ret Exit.suspended VINF_EM_SUSPEND vm3
  | EMSTATE_DEBUG_GUEST_REM | EMSTATE_DEBUG_GUEST_RAW =>
    let vm1 := vm.callVoid Call.TMVirtualPause e.c.TMVirtualPause
    let vm2 := vm1.callVoid Call.TMCpuTickPause e.c.TMCpuTickPause
    match emR3Debug e fuel vm2 rc with
    | none => Outcome.hang
    | some (rc1, vm3) =>
      let vm4 := vm3.callVoid Call.TMVirtualResume e.c.TMVirtualResume
      let vm5 := vm4.callVoid Call.TMCpuTickResume e.c.TMCpuTickResume
      Outcome.next rc1 fFFDone vm5
  | EMSTATE_DEBUG_HYPER =>
    let vm1 := vm.callVoid Call.TMVirtualPause e.c.TMVirtualPause
    let vm2 := vm1.callVoid Call.TMCpuTickPause e.c.TMCpuTickPause
    match emR3Debug e fuel vm2 rc with
    | none => Outcome.hang
    | some (rc1, vm3) =>
      if rc1 ≠ VINF_SUCCESS then
        let vm4 : VM := { vm3 with enmState := EMSTATE_GURU_MEDITATION }
        let vm5 := vm4.callVoid (Call.VMMR3FatalDump rc1) (e.c.VMMR3FatalDump rc1)
        Outcome.ret Exit.debugHyper rc1 vm5
      else
        let vm4 := vm3.callVoid Call.TMVirtualResume e.c.TMVirtualResume
        let vm5 := vm4.callVoid Call.TMCpuTickResume e.c.TMCpuTickResume
        Outcome.next rc1 fFFDone vm5
  | EMSTATE_GURU_MEDITATION =>
    let vm1 := vm.callVoid Call.TMVirtualPause e.c.TMVirtualPause
    let vm2 := vm1.callVoid Call.TMCpuTickPause e.c.TMCpuTickPause
    let vm3 := vm2.callVoid (Call.VMMR3FatalDump rc) (e.c.VMMR3FatalDump rc)
    match emR3Debug e fuel vm3 rc with
    | none => Outcome.hang
    | some (_, vm4) =>
      let vm5 := vm4.callVoid Call.VMMR3Unlock e.c.VMMR3Unlock
      Outcome.ret Exit.guruMeditation rc vm5
  | EMSTATE_NONE | EMSTATE_TERMINATING | EMSTATE_PARAV =>
    let vm1 : VM := { vm with enmState := EMSTATE_GURU_MEDITATION }
    let vm2 := vm1.callVoid Call.TMVirtualPause e.c.TMVirtualPause
    let vm3 := vm2.callVoid Call.TMCpuTickPause e.c.TMCpuTickPause
    let vm4 := vm3.callVoid Call.VMMR3Unlock e.c.VMMR3Unlock
    Outcome.ret Exit.invalidState VERR_EM_INTERNAL_ERROR vm4

/-- A round of the outer loop from the transition `switch` on: the `switch`, the
`VMMR3Unlock`/`VMMR3Lock` pair that wakes waiters, and the dispatch on the
state. -/
def EMR3ExecuteVM_act (e : Env) (idCpu : Nat) (fuel : Nat) (vm : VM) (rc : Int)
    (fFFDone : Bool) : Outcome :=
  match EMR3ExecuteVM_switch e vm rc with
  | Transition.ret site rc1 vm1 => Outcome.ret site rc1 vm1
  | Transition.go rc1 vm1 =>
    let vm2 := vm1.callVoid Call.VMMR3Unlock e.c.VMMR3Unlock
    let vm3 := vm2.callVoid Call.VMMR3Lock e.c.VMMR3Lock
    EMR3ExecuteVM_dispatch e idCpu fuel vm3 rc1 fFFDone

/-- One round of the outer loop `for (;;)` of `EMR3ExecuteVM`. -/
def EMR3ExecuteVM_round (e : Env) (idCpu : Nat) (fuel : Nat) (vm : VM) (rc : Int)
    (fFFDone : Bool) : Outcome :=
  let s := EMR3ExecuteVM_forcedActions e vm rc fFFDone
  EMR3ExecuteVM_act e idCpu fuel s.2.2 s.1 s.2.1

/-- The outer loop of `EMR3ExecuteVM`, at most `fuel` rounds of it; the debug
loop gets the same bound. `none` says that the function did not return within
that bound. -/
def EMR3ExecuteVM_loop (e : Env) (idCpu : Nat) :
    Nat → VM → Int → Bool → Option (Exit × Int × VM)
  | 0, _, _, _ => none
  | fuel + 1, vm, rc, fFFDone =>
    match EMR3ExecuteVM_round e idCpu (fuel + 1) vm rc fFFDone with
    | Outcome.hang => none
    | Outcome.ret site rc1 vm1 => some (site, rc1, vm1)
    | Outcome.next rc1 fFFDone1 vm1 => EMR3ExecuteVM_loop e idCpu fuel vm1 rc1 fFFDone1

/-- The branch of `EMR3ExecuteVM` that is entered when `setjmp` returns a
nonzero `rc`, that is, after `EMR3FatalError` made the long jump. -/
def EMR3ExecuteVM_fatal (e : Env) (fuel : Nat) (vm : VM) (rc : Int) :
    Option (Exit × Int × VM) :=
  let vm1 := vm.callVoid Call.TMVirtualPause e.c.TMVirtualPause
  let vm2 := vm1.callVoid Call.TMCpuTickPause e.c.TMCpuTickPause
  let vm3 := vm2.callVoid (Call.VMMR3FatalDump rc) (e.c.VMMR3FatalDump rc)
  match emR3Debug e fuel vm3 rc with
  | none => none
  | some (_, vm4) =>
    let vm5 := vm4.callVoid Call.VMMR3Unlock e.c.VMMR3Unlock
    some (Exit.fatalLongJump, rc, vm5)

/-- The function `EMR3ExecuteVM(pVM, idCpu)` on the path on which `setjmp`
returns 0: the lock is taken, the virtual time is started, the first state is
chosen by `emR3Reschedule`, and the outer loop runs. A long jump of
`EMR3FatalError` out of a callee is not part of this definition; where it lands
is `EMR3ExecuteVM_fatal`. -/
def EMR3ExecuteVM (e : Env) (idCpu : Nat) (fuel : Nat) (vm : VM) : Option (Exit × Int × VM) :=
  let vm1 := vm.callVoid Call.VMMR3Lock e.c.VMMR3Lock
  let vm2 := vm1.callVoid Call.TMVirtualResume e.c.TMVirtualResume
  let vm3 := vm2.callVoid Call.TMCpuTickResume e.c.TMCpuTickResume
  let r := emR3Reschedule e.q vm3 vm3.ctx
  let vm4 : VM := { r.2 with enmState := r.1 }
  EMR3ExecuteVM_loop e idCpu fuel vm4 VINF_SUCCESS false

/-! ## Concrete environments -/

/-- Modelled from the spec: the masks of `VBox/vm.h` (not among the sources).
The post, normal and pre masks hold the flags that the assertion closing the
block of `emR3ForcedActions` lists; `VM_FF_ALL_BUT_RAW_MASK` holds every flag
but the descriptor-table, page-table, handy-page and interrupt-shadow flags
that the raw pre pass owns, `VM_FF_CSAM_PENDING_ACTION` and
`VM_FF_PDM_CRITSECT`. -/
def vmMasks : Masks where
  VM_FF_NORMAL_PRIORITY_POST_MASK :=
    [VM_FF_TERMINATE, VM_FF_DBGF, VM_FF_RESET, VM_FF_CSAM_SCAN_PAGE]
  VM_FF_NORMAL_PRIORITY_MASK :=
    [VM_FF_REQUEST, VM_FF_PDM_QUEUES, VM_FF_PDM_DMA, VM_FF_REM_HANDLER_NOTIFY]
  VM_FF_HIGH_PRIORITY_PRE_MASK :=
    [VM_FF_TIMER, VM_FF_INTERRUPT_APIC, VM_FF_INTERRUPT_PIC, VM_FF_DBGF, VM_FF_PGM_SYNC_CR3,
     VM_FF_PGM_SYNC_CR3_NON_GLOBAL, VM_FF_SELM_SYNC_TSS, VM_FF_TRPM_SYNC_IDT,
     VM_FF_SELM_SYNC_GDT, VM_FF_SELM_SYNC_LDT, VM_FF_TERMINATE, VM_FF_DEBUG_SUSPEND,
     VM_FF_INHIBIT_INTERRUPTS, VM_FF_PGM_NEED_HANDY_PAGES]
  VM_FF_ALL_BUT_RAW_MASK :=
    [VM_FF_INTERRUPT_APIC, VM_FF_INTERRUPT_PIC, VM_FF_TIMER, VM_FF_PDM_QUEUES, VM_FF_PDM_DMA,
     VM_FF_DBGF, VM_FF_REQUEST, VM_FF_TERMINATE, VM_FF_RESET, VM_FF_CSAM_SCAN_PAGE,
     VM_FF_TO_R3, VM_FF_REM_HANDLER_NOTIFY, VM_FF_DEBUG_SUSPEND]

/-- The VM with one more flag raised (what `VM_FF_SET` of `VBox/vm.h` does when
another thread or a collaborator raises a flag). -/
def VM.raise (vm : VM) (f : VMFF) : VM :=
  { vm with ff := fun g => if g = f then true else vm.ff g }

/-- Collaborators that succeed and change nothing; no debugger is attached, so
every debug event reports `VERR_DBGF_NOT_ATTACHED`. -/
def cQuiet : Collab where
  VMMR3Lock := fun vm => vm
  VMMR3Unlock := fun vm => vm
  TMVirtualResume := fun vm => vm
  TMCpuTickResume := fun vm => vm
  TMVirtualPause := fun vm => vm
  TMCpuTickPause := fun vm => vm
  VMMR3FatalDump := fun _ vm => vm
  VMR3WaitHalted := fun _ vm => (VINF_SUCCESS, vm)
  DBGFR3Event := fun _ vm => (VERR_DBGF_NOT_ATTACHED, vm)
  DBGFR3EventBreakpoint := fun _ vm => (VERR_DBGF_NOT_ATTACHED, vm)
  DBGFR3EventSrc := fun _ vm => (VERR_DBGF_NOT_ATTACHED, vm)
  DBGFR3EventAssertion := fun _ vm => (VERR_DBGF_NOT_ATTACHED, vm)
  DBGFR3VMMForcedAction := fun vm => (VINF_SUCCESS, vm)
  VMR3Reset := fun vm => (VINF_SUCCESS, vm)
  CSAMR3CheckCodeEx := fun _ vm => vm
  PDMR3QueueFlushAll := fun vm => vm
  PDMR3DmaRun := fun vm => vm
  VMR3ReqProcessU := fun vm => (VINF_SUCCESS, vm)
  REMR3ReplayHandlerNotifications := fun vm => vm
  PDMR3Poll := fun vm => vm
  TMR3TimerQueuesDo := fun vm => vm
  TRPMR3InjectEvent := fun vm => (VINF_SUCCESS, vm)
  PGMR3PhysAllocateHandyPages := fun vm => (VINF_SUCCESS, vm)

/-- Inner loops that return the given status at once, with `*pfFFDone` false and
the VM as it was; steppers that report one step. -/
def iReturn (rc : Int) : Inner where
  emR3RawExecute := fun vm => some ((rc, false), vm)
  emR3HwAccExecute := fun _ vm => some ((rc, false), vm)
  emR3RemExecute := fun vm => some ((rc, false), vm)
  emR3RawStep := fun vm => some (VINF_EM_DBG_STEPPED, vm)
  emR3RemStep := fun vm => some (VINF_EM_DBG_STEPPED, vm)
  emR3RawResumeHyper := fun vm => some (VINF_SUCCESS, vm)

/-- An environment with the masks of `vm.h`, quiet collaborators, and inner
loops that return `rc` at once. -/
def envReturn (rc : Int) : Env where
  m := vmMasks
  q := qNo
  c := cQuiet
  i := iReturn rc

/-- The guest executes HLT (the raw inner loop returns `VINF_EM_HALT`); while
the VM is halted the terminate flag is raised and the wait reports the failure
`VERR_INTERNAL_ERROR`. -/
def envHaltedTerminate : Env where
  m := vmMasks
  q := qNo
  c := { cQuiet with
         VMR3WaitHalted := fun _ vm => (VERR_INTERNAL_ERROR, vm.raise VM_FF_TERMINATE) }
  i := iReturn VINF_EM_HALT

/-- Request processing asks for a reschedule and the handy-page allocation that
follows fails. -/
def envRescheduleThenFail : Env where
  m := vmMasks
  q := qNo
  c := { cQuiet with
         VMR3ReqProcessU := fun vm => (VINF_EM_RESCHEDULE, vm)
         PGMR3PhysAllocateHandyPages := fun vm => (VERR_INTERNAL_ERROR, vm) }
  i := iReturn VINF_SUCCESS

/-- The VM `vmInit` with a request of another thread queued and the handy-page
reserve low. -/
def vmRequestHandy : VM := (vmInit.raise VM_FF_REQUEST).raise VM_FF_PGM_NEED_HANDY_PAGES

/-- What a run of `EMR3ExecuteVM` shows to its caller: the `return` statement
taken, the status, the EM state and the calls that were made. -/
def summary (r : Option (Exit × Int × VM)) : Option (Exit × Int × EMSTATE × List Call) :=
  r.map fun x => (x.1, x.2.1, x.2.2.enmState, x.2.2.trace)

/-! ## Predicates used by the theorems -/

/-- What every step of `emR3ForcedActions` keeps: the EM state, and an `rc` that
is a failure. -/
def StepKeeps (f : Int × VM → Int × VM) : Prop :=
  ∀ s : Int × VM, (f s).2.enmState = s.2.enmState ∧ (s.1 < 0 → (f s).1 = s.1)

/-- The VM with which the case `EMSTATE_GURU_MEDITATION` of `EMR3ExecuteVM`
calls `emR3Debug(pVM, rc)` in a round whose transition `switch` has just set
that state: after `VMMR3Unlock`, `VMMR3Lock`, `TMVirtualPause`, `TMCpuTickPause`
and `VMMR3FatalDump(pVM, rc)`. -/
def guruEntry (e : Env) (vm : VM) (rc : Int) : VM :=
  ((((({ vm with enmState := EMSTATE_GURU_MEDITATION } : VM).callVoid Call.VMMR3Unlock
    e.c.VMMR3Unlock).callVoid Call.VMMR3Lock e.c.VMMR3Lock).callVoid Call.TMVirtualPause
    e.c.TMVirtualPause).callVoid Call.TMCpuTickPause e.c.TMCpuTickPause).callVoid
    (Call.VMMR3FatalDump rc) (e.c.VMMR3FatalDump rc)

/-- The status with which the `default` case of the transition `switch` of
`EMR3ExecuteVM` goes on: `VERR_EM_INTERNAL_ERROR` in place of a status of the
success range, the status itself when it is a failure. -/
def guruStatus (rc : Int) : Int := if RT_SUCCESS rc then VERR_EM_INTERNAL_ERROR else rc

/-- What `EMR3ExecuteVM` returns when the recompiler loop gives up with
`VERR_REM_TOO_MANY_TRAPS` and no debugger is attached (the second component of
`getD` is never used: the run returns). -/
def runTooManyTraps : Exit × Int × VM :=
  (EMR3ExecuteVM (envReturn VERR_REM_TOO_MANY_TRAPS) 0 3 vmTF).getD (Exit.invalidState, 0, vmInit)

/-- The debugger poll answers with `VINF_EM_TERMINATE` (and lowers its flag),
and the deferred reset answers with `VINF_EM_OFF`. -/
def envDbgfTerminate : Env where
  m := vmMasks
  q := qNo
  c := { cQuiet with
         DBGFR3VMMForcedAction := fun vm => (VINF_EM_TERMINATE, VM_FF_CLEAR vm VM_FF_DBGF)
         VMR3Reset := fun vm => (VINF_EM_OFF, vm) }
  i := iReturn VINF_SUCCESS

/-- The debugger poll answers with `VINF_EM_TERMINATE` (and lowers its flag),
and the handy-page allocation that follows fails. -/
def envDbgfTerminateThenFail : Env where
  m := vmMasks
  q := qNo
  c := { cQuiet with
         DBGFR3VMMForcedAction := fun vm => (VINF_EM_TERMINATE, VM_FF_CLEAR vm VM_FF_DBGF)
         PGMR3PhysAllocateHandyPages := fun vm => (VERR_INTERNAL_ERROR, vm) }
  i := iReturn VINF_SUCCESS

/-- Request processing answers with `VINF_EM_OFF`. -/
def envRequestOff : Env where
  m := vmMasks
  q := qNo
  c := { cQuiet with VMR3ReqProcessU := fun vm => (VINF_EM_OFF, vm) }
  i := iReturn VINF_SUCCESS

/-- The VM `vmInit` with the debugger flag, the reset flag, the request flag and
the timer flag raised. -/
def vmDbgfResetRequestTimer : VM :=
  (((vmInit.raise VM_FF_DBGF).raise VM_FF_RESET).raise VM_FF_REQUEST).raise VM_FF_TIMER

/-- The VM `vmInit` with the debugger flag raised and the handy-page reserve
low. -/
def vmDbgfHandy : VM := (vmInit.raise VM_FF_DBGF).raise VM_FF_PGM_NEED_HANDY_PAGES

/-- The VM `vmInit` with a request of another thread queued and a timer
expired. -/
def vmRequestTimer : VM := (vmInit.raise VM_FF_REQUEST).raise VM_FF_TIMER

/-- The calls recorded between `vm` and `vm'`: the trace of `vm'` is the trace
of `vm` followed by calls that are taken from the list `l` in the order of `l`,
each position of `l` used at most once. -/
def Appends (vm vm' : VM) (l : List Call) : Prop :=
  ∃ t : List Call, vm'.trace = vm.trace ++ t ∧ t.Sublist l

/-- The VM `vmInit` inside the interrupt shadow: `VM_FF_INHIBIT_INTERRUPTS` is
raised and the recorded address is the guest EIP. -/
def vmInhibit : VM :=
  { vmInit.raise VM_FF_INHIBIT_INTERRUPTS with GCPtrInhibitInterrupts := ctxRing0.eip }

/-- An environment with the masks of `vm.h` and quiet collaborators in which the
guest has its interrupts enabled (`PATMAreInterruptsEnabled` answers yes). -/
def envInterruptsEnabled : Env where
  m := vmMasks
  q := { qNo with PATMAreInterruptsEnabled := fun _ => true }
  c := cQuiet
  i := iReturn VINF_SUCCESS

/-- The VM `vmInhibit` (inside the interrupt shadow) with an interrupt of the
PIC pending. -/
def vmInhibitPic : VM := vmInhibit.raise VM_FF_INTERRUPT_PIC

/-- The VM `vmInit` in the state `EMSTATE_HALTED`. -/
def vmHalted : VM := { vmInit with enmState := EMSTATE_HALTED }

/-- The status, `fFFDone` and the VM with which a round of the outer loop goes
on; `none` when the round returns or hangs. -/
def Outcome.next? : Outcome → Option (Int × Bool × VM)
  | Outcome.next rc fFFDone vm => some (rc, fFFDone, vm)
  | _ => none

/-- The round of `EMR3ExecuteVM` in which the halted VM `vmHalted` waits, in the
environment `envHaltedTerminate`: the wait ends with the failure
`VERR_INTERNAL_ERROR` and the terminate flag raised. -/
def haltedWait : Int × Bool × VM :=
  ((EMR3ExecuteVM_round envHaltedTerminate 0 1 vmHalted VINF_SUCCESS false).next?).getD
    (VINF_SUCCESS, false, vmHalted)

/-! ## Raw-mode execution: constants and collaborators -/

/-- Modelled from the spec: the bit field `Bits.u1IF` of the `X86EFLAGS` union
(`x86.h`, not among the sources) is bit 9 of the `u32` view. -/
def X86EFLAGS_u1IF (eflags : Nat) : Nat := eflags / 2 ^ 9 % 2
/-- Modelled from the spec: `x86.h` is not among the sources; the general
protection fault is exception 13. -/
def X86_XCPT_GP : Nat := 13

/-- Modelled from the spec: raw-mode exit status of `VBox/err.h`. -/
def VINF_EM_RAW_GUEST_TRAP : Int := 1121
/-- Modelled from the spec: raw-mode exit status of `VBox/err.h`. -/
def VINF_EM_RAW_INTERRUPT : Int := 1122
/-- Modelled from the spec: raw-mode exit status of `VBox/err.h`. -/
def VINF_EM_RAW_RING_SWITCH : Int := 1124
/-- Modelled from the spec: raw-mode exit status of `VBox/err.h`. -/
def VINF_EM_RAW_RING_SWITCH_INT : Int := 1125
/-- Modelled from the spec: raw-mode exit status of `VBox/err.h`. -/
def VINF_EM_RAW_EXCEPTION_PRIVILEGED : Int := 1126
/-- Modelled from the spec: raw-mode exit status of `VBox/err.h`. -/
def VINF_EM_RAW_EMULATE_INSTR : Int := 1127
/-- Modelled from the spec: raw-mode exit status of `VBox/err.h`. -/
def VINF_EM_RAW_EMULATE_INSTR_TSS_FAULT : Int := 1128
/-- Modelled from the spec: raw-mode exit status of `VBox/err.h`. -/
def VINF_EM_RAW_EMULATE_INSTR_LDT_FAULT : Int := 1129
/-- Modelled from the spec: raw-mode exit status of `VBox/err.h`. -/
def VINF_EM_RAW_EMULATE_INSTR_IDT_FAULT : Int := 1130
/-- Modelled from the spec: raw-mode exit status of `VBox/err.h`. -/
def VINF_EM_RAW_EMULATE_INSTR_GDT_FAULT : Int := 1131
/-- Modelled from the spec: raw-mode exit status of `VBox/err.h`. -/
def VINF_EM_RAW_EMULATE_INSTR_PD_FAULT : Int := 1132
/-- Modelled from the spec: raw-mode exit status of `VBox/err.h`. -/
def VINF_EM_RAW_EMULATE_INSTR_HLT : Int := 1133
/-- Modelled from the spec: raw-mode exit status of `VBox/err.h`. -/
def VINF_EM_RAW_TO_R3 : Int := 1135
/-- Modelled from the spec: raw-mode exit status of `VBox/err.h`. -/
def VINF_EM_RAW_TIMER_PENDING : Int := 1136
/-- Modelled from the spec: raw-mode exit status of `VBox/err.h`. -/
def VINF_EM_RAW_INTERRUPT_PENDING : Int := 1137
/-- Modelled from the spec: failure status of the interpreter, `VBox/err.h`. -/
def VERR_EM_INTERPRETER : Int := -1148
/-- Modelled from the spec: raw-mode exit status of `VBox/err.h`. -/
def VINF_EM_PENDING_REQUEST : Int := 1150
/-- Modelled from the spec: failure status of `VBox/err.h`. -/
def VERR_EM_RAW_PATCH_CONFLICT : Int := -1151
/-- Modelled from the spec: patch-manager status of `VBox/err.h`. -/
def VINF_PATM_PATCH_INT3 : Int := 1400
/-- Modelled from the spec: patch-manager status of `VBox/err.h`. -/
def VINF_PATCH_EMULATE_INSTR : Int := 1401
/-- Modelled from the spec: patch-manager status of `VBox/err.h`. -/
def VINF_PATM_HC_MMIO_PATCH_READ : Int := 1402
/-- Modelled from the spec: patch-manager status of `VBox/err.h`. -/
def VINF_PATM_HC_MMIO_PATCH_WRITE : Int := 1403
/-- Modelled from the spec: patch-manager status of `VBox/err.h`. -/
def VINF_PATM_DUPLICATE_FUNCTION : Int := 1404
/-- Modelled from the spec: patch-manager status of `VBox/err.h`. -/
def VINF_PATM_PATCH_TRAP_PF : Int := 1408
/-- Modelled from the spec: patch-manager status of `VBox/err.h`. -/
def VINF_PATM_PATCH_TRAP_GP : Int := 1409
/-- Modelled from the spec: patch-manager status of `VBox/err.h`. -/
def VINF_PATM_PENDING_IRQ_AFTER_IRET : Int := 1410
/-- Modelled from the spec: patch-manager status of `VBox/err.h`. -/
def VINF_PATM_CHECK_PATCH_PAGE : Int := 1411
/-- Modelled from the spec: patch-manager failure status of `VBox/err.h`. -/
def VERR_PATCH_DISABLED : Int := -1413
/-- Modelled from the spec: patch-manager status of `VBox/err.h`. -/
def VINF_PATCH_CONTINUE : Int := 1416
/-- Modelled from the spec: page-manager status of `VBox/err.h`. -/
def VINF_PGM_SYNC_CR3 : Int := 1610
/-- Modelled from the spec: page-manager status of `VBox/err.h`. -/
def VINF_PGM_CHANGE_MODE : Int := 1612
/-- Modelled from the spec: recompiler status of `VBox/err.h`. -/
def VINF_REM_INTERRUPED_FF : Int := 2301
/-- Modelled from the spec: recompiler failure status of `VBox/err.h`. -/
def VERR_REM_FLUSHED_PAGES_OVERFLOW : Int := -2302
/-- Modelled from the spec: I/O-manager status of `VBox/err.h`. -/
def VINF_IOM_HC_IOPORT_READ : Int := 2620
/-- Modelled from the spec: I/O-manager status of `VBox/err.h`. -/
def VINF_IOM_HC_IOPORT_WRITE : Int := 2621
/-- Modelled from the spec: I/O-manager status of `VBox/err.h`. -/
def VINF_IOM_HC_MMIO_READ : Int := 2623
/-- Modelled from the spec: I/O-manager status of `VBox/err.h`. -/
def VINF_IOM_HC_MMIO_WRITE : Int := 2624
/-- Modelled from the spec: I/O-manager status of `VBox/err.h`. -/
def VINF_IOM_HC_MMIO_READ_WRITE : Int := 2625
/-- Modelled from the spec: scanner status of `VBox/err.h`. -/
def VINF_CSAM_PENDING_ACTION : Int := 3700
/-- Modelled from the spec: the VT-x failure codes of `VBox/err.h` that
`emR3RawHandleRC` names: `VERR_VMX_INVALID_VMCS_FIELD`,
`VERR_VMX_INVALID_VMCS_PTR`, `VERR_VMX_INVALID_VMXON_PTR`,
`VERR_VMX_UNEXPECTED_INTERRUPTION_EXIT_CODE`, `VERR_VMX_UNEXPECTED_EXCEPTION`,
`VERR_VMX_UNEXPECTED_EXIT_CODE`, `VERR_VMX_INVALID_GUEST_STATE`,
`VERR_VMX_UNABLE_TO_START_VM`, `VERR_VMX_UNABLE_TO_RESUME_VM`. -/
def vmxErrors : List Int :=
  [-4000, -4001, -4002, -4004, -4005, -4006, -4007, -4008, -4009]

/-- Modelled from the spec: the CPU modes `CPUMMODE` of `cpum.h` (not among the
sources). -/
inductive CPUMODE
  | CPUMODE_REAL
  | CPUMODE_16BIT
  | CPUMODE_32BIT
  | CPUMODE_64BIT
  deriving DecidableEq, Repr

/-- Modelled from the spec: the translation states `PATMTRANSSTATE` of `patm.h`
(not among the sources). -/
inductive PATMTRANSSTATE
  | PATMTRANS_SAFE
  | PATMTRANS_PATCHSTART
  | PATMTRANS_OVERWRITTEN
  | PATMTRANS_INHIBITIRQ
  deriving DecidableEq, Repr

/-- Modelled from the spec: the opcodes of `dis.h` (not among the sources) that
`emR3RawPrivileged` tells apart outside its statistics; every other opcode is
`OP_OTHER`. -/
inductive OPCODE
  | OP_CLI
  | OP_STI
  | OP_HLT
  | OP_MOV_CR
  | OP_MOV_DR
  | OP_OTHER
  deriving DecidableEq, Repr

/-- The part of the disassembler state `DISCPUSTATE` that `emR3RawPrivileged`
reads: `pCurInstr->opcode`, `opsize`, and whether `param1.flags` is
`USE_REG_CR` (the instruction writes a control register). -/
structure DISCPUSTATE where
  opcode : OPCODE
  opsize : Nat
  param1_is_USE_REG_CR : Bool
  deriving DecidableEq, Repr

/-- Modelled from the spec: the segment registers `DIS_SELREG_*` of `dis.h`
(not among the sources) that EM.cpp passes to `SELMToFlat`. -/
inductive DIS_SELREG
  | DIS_SELREG_CS
  | DIS_SELREG_SS
  deriving DecidableEq, Repr

/-- Modelled from the spec: the flag `PATMFL_CODE32` of `patm.h` (not among the
sources) that asks for a patch of 32-bit code. -/
def PATMFL_CODE32 : Nat := 2 ^ 0
/-- Modelled from the spec: the flag `PATMFL_MMIO_ACCESS` of `patm.h` (not among
the sources). -/
def PATMFL_MMIO_ACCESS : Nat := 2 ^ 1
/-- Modelled from the spec: the value `TRPM_INVALID_HANDLER` of `trpm.h` (not
among the sources). -/
def TRPM_INVALID_HANDLER : Nat := 0

/-- The masks of `VBox/vm.h` (not among the sources) that the inner loops test,
as parameters. -/
structure RawMasks where
  VM_FF_HIGH_PRIORITY_PRE_RAW_MASK : List VMFF
  VM_FF_HIGH_PRIORITY_POST_MASK : List VMFF
  VM_FF_RESUME_GUEST_MASK : List VMFF
  VM_FF_ALL_MASK : List VMFF

/-- The queries that the raw-mode code puts to other components; they change
nothing that EM sees. `PATMIsPatchGCAddr` reads the state of the patch manager,
which is part of `ext`, and the address. The arguments that are fields of the
guest context are not passed separately: the query receives the VM.
`CPUMR3DisasmInstrCPU` yields its status and the disassembler state;
`PATMR3PatchToGCPtr` yields the original address and the translation state;
`TRPMQueryTrapAll` yields its status and the trap number. -/
structure RawQueries where
  PATMIsPatchGCAddr : Nat → Nat → Bool
  PATMIsEnabled : VM → Bool
  PATMR3IsInsidePatchJump : VM → Nat → Bool
  PATMIsInt3Patch : VM → Nat → Bool
  PATMR3PatchToGCPtr : VM → Nat → Nat × PATMTRANSSTATE
  SELMToFlat : VM → DIS_SELREG → Nat → Nat
  SELMGetCpuModeFromSelector : VM → CPUMODE
  CPUMR3DisasmInstrCPU : VM → Int × DISCPUSTATE
  TRPMQueryTrapAll : VM → Int × Nat
  TRPMGetTrapNo : VM → Nat
  TRPMR3GetGuestTrapHandler : VM → Nat → Nat

/-- The calls with an effect that the raw-mode code makes to other components:
a function from the VM before the call to the status (where there is one) and
the VM after the call. `PATMR3HandleTrap` yields its status and `*ppNewEip`. -/
structure RawCollab where
  SELMR3UpdateFromCPUM : VM → Int × VM
  TRPMR3SyncIDT : VM → Int × VM
  SELMR3SyncTSS : VM → Int × VM
  PGMSyncCR3 : VM → Int × VM
  PGMPrefetchPage : Nat → VM → Int × VM
  CPUMRawEnter : VM → Int × VM
  CPUMRawLeave : Int → VM → Int × VM
  VMMR3RawRunGC : VM → Int × VM
  VMMR3HwAccRunGC : Nat → VM → Int × VM
  REMR3State : VM → Int × VM
  REMR3Run : VM → Int × VM
  REMR3StateBack : VM → VM
  TMTimerPoll : VM → VM
  PDMR3CritSectFF : VM → VM
  CSAMR3DoPendingAction : VM → VM
  PATMR3InstallPatch : Nat → Nat → VM → Int × VM
  PATMR3DetectConflict : Nat → VM → Int × VM
  PATMR3HandleTrap : Nat → VM → (Int × Nat) × VM
  PATMR3RemovePatch : Nat → VM → VM
  PATMR3DuplicateFunctionRequest : VM → Int × VM
  PATMR3HandleMonitoredPage : VM → Int × VM
  TRPMResetTrap : VM → VM
  EMInterpretInstructionCPU : DISCPUSTATE → VM → Int × VM
  PGMChangeMode : VM → Int × VM
  CSAMR3CheckGates : Nat → VM → VM
  REMR3ReplayInvalidatedPages : VM → VM
  HWACCMR3CheckError : Int → VM → VM

/-- The functions of EM.cpp that the classifier of the exit status calls and
that are parameters of the embedding: the single-instruction emulation
`emR3RawExecuteInstruction(pVM, pszPrefix, rcGC)` (the prefix is used for
logging only), `emR3RawExecuteIOInstruction`, `emR3RawGuestTrap` and
`emR3RawRingSwitch`. `none` stands for a call that never returns. -/
structure RawInner where
  emR3RawExecuteInstruction : Int → VM → Option (Int × VM)
  emR3RawExecuteIOInstruction : VM → Option (Int × VM)
  emR3RawGuestTrap : VM → Option (Int × VM)
  emR3RawRingSwitch : VM → Option (Int × VM)

/-- Everything the raw-mode functions are parameterised by, besides `Env`. -/
structure RawEnv where
  m : RawMasks
  q : RawQueries
  c : RawCollab
  i : RawInner

/-- A call of a collaborator that yields a result other than a status. The call
is recorded; the EM state and the static counter of `emR3ForcedActions` are
kept, as in `VM.call`. -/
def VM.callR {α : Type} (vm : VM) (what : Call) (f : VM → α × VM) : α × VM :=
  ((f vm).1,
   { (f vm).2 with enmState := vm.enmState, cLast := vm.cLast, trace := vm.trace ++ [what] })

/-- The macro `VM_FF_CLEAR(pVM, mask)` for a mask of several flags. -/
def VM_FF_CLEAR_MASK (vm : VM) (mask : List VMFF) : VM :=
  { vm with ff := fun g => if g ∈ mask then false else vm.ff g }

/-- All forced-action flags. -/
def VMFF.all : List VMFF :=
  [VM_FF_INTERRUPT_APIC, VM_FF_INTERRUPT_PIC, VM_FF_TIMER, VM_FF_PDM_QUEUES, VM_FF_PDM_DMA,
   VM_FF_PDM_CRITSECT, VM_FF_DBGF, VM_FF_REQUEST, VM_FF_TERMINATE, VM_FF_RESET,
   VM_FF_PGM_SYNC_CR3, VM_FF_PGM_SYNC_CR3_NON_GLOBAL, VM_FF_PGM_NEED_HANDY_PAGES,
   VM_FF_TRPM_SYNC_IDT, VM_FF_SELM_SYNC_TSS, VM_FF_SELM_SYNC_GDT, VM_FF_SELM_SYNC_LDT,
   VM_FF_INHIBIT_INTERRUPTS, VM_FF_CSAM_SCAN_PAGE, VM_FF_CSAM_PENDING_ACTION, VM_FF_TO_R3,
   VM_FF_REM_HANDLER_NOTIFY, VM_FF_DEBUG_SUSPEND]

/-- The complement `~mask` of a mask: the flags that are not in it. -/
def VM_FF_NOT (mask : List VMFF) : List VMFF := VMFF.all.filter fun f => decide (f ∉ mask)

/-- Modelled from the spec: `EMSetInhibitInterruptsPC` (`EMAll.cpp`, not among
the sources) records the address after which interrupts may be delivered again
and raises `VM_FF_INHIBIT_INTERRUPTS`. -/
def EMSetInhibitInterruptsPC (vm : VM) (PC : Nat) : VM :=
  { vm with
    GCPtrInhibitInterrupts := PC
    ff := fun g => if g = VM_FF_INHIBIT_INTERRUPTS then true else vm.ff g }
/-! ## `emR3RawForcedActions` and `emR3HighPriorityPostForcedActions` -/

/-- The last block of `emR3RawForcedActions`, "Allocate handy pages", and the
final `return VINF_SUCCESS`. -/
def emR3RawForcedActions_handy (e : Env) (vm : VM) : Int × VM :=
  if VM_FF_ISSET vm VM_FF_PGM_NEED_HANDY_PAGES then
    let x := vm.call Call.PGMR3PhysAllocateHandyPages e.c.PGMR3PhysAllocateHandyPages
    if RT_FAILURE x.1 then x else (VINF_SUCCESS, x.2)
  else (VINF_SUCCESS, vm)

/-- The block "Sync page directory" of `emR3RawForcedActions` and what follows
it: `PGMSyncCR3`, the prefetch of the pages of EIP and ESP, and one more
`PGMSyncCR3` when a prefetch answers `VINF_PGM_SYNC_CR3`. -/
def emR3RawForcedActions_cr3 (e : Env) (r : RawEnv) (vm : VM) : Int × VM :=
  if VM_FF_ISPENDING vm [VM_FF_PGM_SYNC_CR3, VM_FF_PGM_SYNC_CR3_NON_GLOBAL] then
    let x := vm.call (Call.raw RawCall.PGMSyncCR3) r.c.PGMSyncCR3
    if RT_FAILURE x.1 then x
    else
      let a := r.q.SELMToFlat x.2 DIS_SELREG.DIS_SELREG_CS x.2.ctx.eip
      let y := x.2.call (Call.raw (RawCall.PGMPrefetchPage a)) (r.c.PGMPrefetchPage a)
      let z :=
        if y.1 = VINF_SUCCESS then
          let b := r.q.SELMToFlat y.2 DIS_SELREG.DIS_SELREG_SS y.2.ctx.esp
          y.2.call (Call.raw (RawCall.PGMPrefetchPage b)) (r.c.PGMPrefetchPage b)
        else y
      if z.1 ≠ VINF_SUCCESS then
        if z.1 ≠ VINF_PGM_SYNC_CR3 then z
        else
          let w := z.2.call (Call.raw RawCall.PGMSyncCR3) r.c.PGMSyncCR3
          if RT_FAILURE w.1 then w else emR3RawForcedActions_handy e w.2
      else emR3RawForcedActions_handy e z.2
  else emR3RawForcedActions_handy e vm

/-- The block "Sync TSS" of `emR3RawForcedActions` and what follows it. -/
def emR3RawForcedActions_tss (e : Env) (r : RawEnv) (vm : VM) : Int × VM :=
  if VM_FF_ISSET vm VM_FF_SELM_SYNC_TSS then
    let x := vm.call (Call.raw RawCall.SELMR3SyncTSS) r.c.SELMR3SyncTSS
    if RT_FAILURE x.1 then x else emR3RawForcedActions_cr3 e r x.2
  else emR3RawForcedActions_cr3 e r vm

/-- The block "Sync IDT" of `emR3RawForcedActions` and what follows it. -/
def emR3RawForcedActions_idt (e : Env) (r : RawEnv) (vm : VM) : Int × VM :=
  if VM_FF_ISSET vm VM_FF_TRPM_SYNC_IDT then
    let x := vm.call (Call.raw RawCall.TRPMR3SyncIDT) r.c.TRPMR3SyncIDT
    if RT_FAILURE x.1 then x else emR3RawForcedActions_tss e r x.2
  else emR3RawForcedActions_tss e r vm

/-- The function `emR3RawForcedActions(pVM, pCtx)`: the block "Sync selector
tables" and what follows it. Every `if (RT_FAILURE(rc)) return rc;` of the
source is the first branch of an `if` here. -/
def emR3RawForcedActions (e : Env) (r : RawEnv) (vm : VM) : Int × VM :=
  if VM_FF_ISPENDING vm [VM_FF_SELM_SYNC_GDT, VM_FF_SELM_SYNC_LDT] then
    let x := vm.call (Call.raw RawCall.SELMR3UpdateFromCPUM) r.c.SELMR3UpdateFromCPUM
    if RT_FAILURE x.1 then x else emR3RawForcedActions_idt e r x.2
  else emR3RawForcedActions_idt e r vm

/-- The function `emR3HighPriorityPostForcedActions(pVM, rc)`. -/
def emR3HighPriorityPostForcedActions (r : RawEnv) (vm : VM) (rc : Int) : Int × VM :=
  let vm1 :=
    if VM_FF_ISSET vm VM_FF_PDM_CRITSECT then
      vm.callVoid (Call.raw RawCall.PDMR3CritSectFF) r.c.PDMR3CritSectFF
    else vm
  let vm2 :=
    if VM_FF_ISSET vm1 VM_FF_CSAM_PENDING_ACTION then
      vm1.callVoid (Call.raw RawCall.CSAMR3DoPendingAction) r.c.CSAMR3DoPendingAction
    else vm1
  (rc, vm2)

/-! ## The classifier of the exit status: `emR3RawHandleRC` -/

/-- The function `emR3RawUpdateForceFlag(pVM, pCtx, rc)`. -/
def emR3RawUpdateForceFlag (r : RawEnv) (vm : VM) (rc : Int) : Int × VM :=
  if r.q.PATMIsPatchGCAddr vm.ext vm.ctx.eip then
    let rc1 : Int :=
      if rc = VINF_EM_RESCHEDULE ∨ rc = VINF_EM_RESCHEDULE_REM then VINF_SUCCESS else rc
    (rc1, { vm with fForceRAW := true })
  else (rc, { vm with fForceRAW := false })

/-- A call of `emR3RawExecuteInstruction(pVM, pszPrefix, rcGC)`. -/
def callExecuteInstruction (r : RawEnv) (vm : VM) (rcGC : Int) : Option (Int × VM) :=
  vm.run (Call.raw (RawCall.emR3RawExecuteInstruction rcGC)) (r.i.emR3RawExecuteInstruction rcGC)

/-- The code of `emR3PatchTrap` from "Deal with traps inside patch code" on,
for the trap number `u8TrapNo`. -/
def emR3PatchTrap_handle (r : RawEnv) (vm : VM) (u8TrapNo : Nat) : Option (Int × VM) :=
  if u8TrapNo ≠ 1 then
    let x := vm.callR (Call.raw (RawCall.PATMR3HandleTrap vm.ctx.eip))
      (r.c.PATMR3HandleTrap vm.ctx.eip)
    let rc := x.1.1
    let pNewEip := x.1.2
    let vm1 : VM := { x.2 with ctx := { x.2.ctx with eip := pNewEip % 2 ^ 32 } }
    if rc = VINF_SUCCESS then
      if X86EFLAGS_u1IF vm1.ctx.eflags ≠ 0 then
        let vm2 :=
          if u8TrapNo = X86_XCPT_GP ∧ r.q.PATMIsInt3Patch vm1 vm1.ctx.eip = true then
            vm1.callVoid (Call.raw (RawCall.PATMR3RemovePatch vm1.ctx.eip))
              (r.c.PATMR3RemovePatch vm1.ctx.eip)
          else vm1
        callExecuteInstruction r vm2 VINF_SUCCESS
      else some (VINF_EM_RESCHEDULE_REM, vm1)
    else if rc = VINF_PATCH_EMULATE_INSTR then callExecuteInstruction r vm1 VINF_SUCCESS
    else if rc = VERR_PATCH_DISABLED then
      if X86EFLAGS_u1IF vm1.ctx.eflags ≠ 0 then callExecuteInstruction r vm1 VINF_SUCCESS
      else some (VINF_EM_RESCHEDULE_REM, vm1)
    else if rc = VINF_PATCH_CONTINUE then some (VINF_SUCCESS, x.2)
    else some (VERR_INTERNAL_ERROR, x.2)
  else some (VINF_SUCCESS, vm)

/-- The function `emR3PatchTrap(pVM, pCtx, gcret)`: the trap number is 3 for
`VINF_PATM_PATCH_INT3`, `X86_XCPT_GP` for `VINF_PATM_PATCH_TRAP_GP`, and
otherwise the one `TRPMQueryTrapAll` reports (the trap is then reset). -/
def emR3PatchTrap (r : RawEnv) (vm : VM) (gcret : Int) : Option (Int × VM) :=
  if gcret = VINF_PATM_PATCH_INT3 then emR3PatchTrap_handle r vm 3
  else if gcret = VINF_PATM_PATCH_TRAP_GP then emR3PatchTrap_handle r vm X86_XCPT_GP
  else
    let q := r.q.TRPMQueryTrapAll vm
    if RT_FAILURE q.1 then some (q.1, vm)
    else
      emR3PatchTrap_handle r (vm.callVoid (Call.raw RawCall.TRPMResetTrap) r.c.TRPMResetTrap) q.2

/-- The address that `emR3RawPrivileged` takes from `PATMR3PatchToGCPtr` for the
patch address `addr`: when the translation state is `PATMTRANS_OVERWRITTEN`,
`PATMR3DetectConflict` is called and the state becomes `PATMTRANS_SAFE`; the
original address is then stored whatever the state was. The result is the VM
after the call and the original address. -/
def emR3RawPrivileged_translate (r : RawEnv) (vm : VM) (addr : Nat) : Nat × VM :=
  let t := r.q.PATMR3PatchToGCPtr vm addr
  let pOrgInstrGC := t.1
  let s : PATMTRANSSTATE × VM :=
    if t.2 = PATMTRANSSTATE.PATMTRANS_OVERWRITTEN then
      (PATMTRANSSTATE.PATMTRANS_SAFE,
       (vm.call (Call.raw (RawCall.PATMR3DetectConflict pOrgInstrGC))
         (r.c.PATMR3DetectConflict pOrgInstrGC)).2)
    else (t.2, vm)
  if s.1 ≠ PATMTRANSSTATE.PATMTRANS_OVERWRITTEN then (pOrgInstrGC, s.2) else (addr, s.2)

/-- The end of `emR3RawPrivileged`: `emR3PatchTrap` with
`VINF_PATM_PATCH_TRAP_GP` when the guest EIP lies in patch memory, and
`emR3RawExecuteInstruction` otherwise. -/
def emR3RawPrivileged_fallback (r : RawEnv) (vm : VM) : Option (Int × VM) :=
  if r.q.PATMIsPatchGCAddr vm.ext vm.ctx.eip then emR3PatchTrap r vm VINF_PATM_PATCH_TRAP_GP
  else callExecuteInstruction r vm VINF_SUCCESS

/-- The cases `OP_HLT` (after its translation of EIP), `OP_MOV_CR` and
`OP_MOV_DR` of `emR3RawPrivileged`: the instruction is interpreted by
`EMInterpretInstructionCPU`. -/
def emR3RawPrivileged_interpret (r : RawEnv) (vm : VM) (Cpu : DISCPUSTATE) :
    Option (Int × VM) :=
  let x := vm.call (Call.raw RawCall.EMInterpretInstructionCPU) (r.c.EMInterpretInstructionCPU Cpu)
  if RT_SUCCESS x.1 then
    let vm1 : VM := { x.2 with ctx := { x.2.ctx with eip := (x.2.ctx.eip + Cpu.opsize) % 2 ^ 32 } }
    if Cpu.opcode = OPCODE.OP_MOV_CR ∧ Cpu.param1_is_USE_REG_CR = true then
      let vm2 : VM :=
        if r.q.PATMIsPatchGCAddr vm1.ext vm1.ctx.eip = true
            ∧ vm1.ctx.cr0 &&& (X86_CR0_WP ||| X86_CR0_PG ||| X86_CR0_PE)
                ≠ (X86_CR0_WP ||| X86_CR0_PG ||| X86_CR0_PE) then
          let t := emR3RawPrivileged_translate r vm1 vm1.ctx.eip
          { t.2 with ctx := { t.2.ctx with eip := t.1 % 2 ^ 32 } }
        else vm1
      some (VINF_EM_RESCHEDULE, vm2)
    else some (x.1, vm1)
  else if x.1 ≠ VERR_EM_INTERPRETER then some (x.1, x.2)
  else emR3RawPrivileged_fallback r x.2

/-- The `switch (Cpu.pCurInstr->opcode)` of `emR3RawPrivileged` for ring-0
32-bit code. -/
def emR3RawPrivileged_emulate (r : RawEnv) (vm : VM) (Cpu : DISCPUSTATE) : Option (Int × VM) :=
  match Cpu.opcode with
  | OPCODE.OP_CLI =>
    some (VINF_EM_RESCHEDULE_REM,
      { vm with ctx := { vm.ctx with
          eflags := vm.ctx.eflags - (vm.ctx.eflags &&& X86_EFL_IF)
          eip := (vm.ctx.eip + Cpu.opsize) % 2 ^ 32 } })
  | OPCODE.OP_STI =>
    let vm1 : VM := { vm with ctx := { vm.ctx with eflags := vm.ctx.eflags ||| X86_EFL_IF } }
    let vm2 := EMSetInhibitInterruptsPC vm1 (vm1.ctx.eip + Cpu.opsize)
    some (VINF_SUCCESS,
      { vm2 with ctx := { vm2.ctx with eip := (vm2.ctx.eip + Cpu.opsize) % 2 ^ 32 } })
  | OPCODE.OP_HLT =>
    if r.q.PATMIsPatchGCAddr vm.ext vm.ctx.eip then
      let t := emR3RawPrivileged_translate r vm vm.ctx.eip
      emR3RawPrivileged_interpret r { t.2 with ctx := { t.2.ctx with eip := t.1 % 2 ^ 32 } } Cpu
    else emR3RawPrivileged_interpret r vm Cpu
  | OPCODE.OP_MOV_CR | OPCODE.OP_MOV_DR => emR3RawPrivileged_interpret r vm Cpu
  | OPCODE.OP_OTHER => emR3RawPrivileged_fallback r vm

/-- The code of `emR3RawPrivileged` from "Instruction statistics and logging"
on: the instruction is disassembled, and in ring-0 32-bit code the `switch` on
the opcode is entered. -/
def emR3RawPrivileged_disasm (r : RawEnv) (vm : VM) : Option (Int × VM) :=
  let d := r.q.CPUMR3DisasmInstrCPU vm
  if RT_SUCCESS d.1 then
    if vm.ctx.ss &&& X86_SEL_RPL = 0 ∧ X86EFLAGS_u1VM vm.ctx.eflags = 0
        ∧ r.q.SELMGetCpuModeFromSelector vm = CPUMODE.CPUMODE_32BIT then
      emR3RawPrivileged_emulate r vm d.2
    else emR3RawPrivileged_fallback r vm
  else emR3RawPrivileged_fallback r vm

/-- The function `emR3RawPrivileged(pVM)`. -/
def emR3RawPrivileged (r : RawEnv) (vm : VM) : Option (Int × VM) :=
  if r.q.PATMIsEnabled vm then
    if r.q.PATMR3IsInsidePatchJump vm vm.ctx.eip then some (VERR_EM_RAW_PATCH_CONFLICT, vm)
    else if vm.ctx.ss &&& X86_SEL_RPL = 0 ∧ X86EFLAGS_u1VM vm.ctx.eflags = 0
        ∧ r.q.PATMIsPatchGCAddr vm.ext vm.ctx.eip = false then
      let a := r.q.SELMToFlat vm DIS_SELREG.DIS_SELREG_CS vm.ctx.eip
      let fl := if r.q.SELMGetCpuModeFromSelector vm = CPUMODE.CPUMODE_32BIT then PATMFL_CODE32
        else 0
      let x := vm.call (Call.raw (RawCall.PATMR3InstallPatch a fl)) (r.c.PATMR3InstallPatch a fl)
      if RT_SUCCESS x.1 then some (VINF_SUCCESS, x.2) else emR3RawPrivileged_disasm r x.2
    else emR3RawPrivileged_disasm r vm
  else emR3RawPrivileged_disasm r vm
/-- The function `emR3RawHandleRC(pVM, pCtx, rc)`: the `switch (rc)` of the
source, case by case in the order of the source. The cases that only `break`
("Up a level", ...) leave `rc` as it is, like the `default`; they are the last
branch. -/
def emR3RawHandleRC (e : Env) (r : RawEnv) (vm : VM) (rc : Int) : Option (Int × VM) :=
  if rc = VINF_SUCCESS then some (rc, vm)
  else if rc = VINF_EM_RESCHEDULE_RAW ∨ rc = VINF_EM_RESCHEDULE_HWACC ∨ rc = VINF_EM_RAW_INTERRUPT
      ∨ rc = VINF_EM_RAW_TO_R3 ∨ rc = VINF_EM_RAW_TIMER_PENDING
      ∨ rc = VINF_EM_PENDING_REQUEST then
    some (VINF_SUCCESS, vm)
  else if rc = VINF_EM_RAW_EXCEPTION_PRIVILEGED ∨ rc = VINF_PATM_PATCH_TRAP_GP then
    emR3RawPrivileged r vm
  else if rc = VINF_EM_RAW_GUEST_TRAP then
    if r.q.PATMR3IsInsidePatchJump vm vm.ctx.eip then some (VERR_EM_RAW_PATCH_CONFLICT, vm)
    else vm.run (Call.raw RawCall.emR3RawGuestTrap) r.i.emR3RawGuestTrap
  else if rc = VINF_PATM_PATCH_TRAP_PF ∨ rc = VINF_PATM_PATCH_INT3 then emR3PatchTrap r vm rc
  else if rc = VINF_PATM_DUPLICATE_FUNCTION then
    some (VINF_SUCCESS,
      (vm.call (Call.raw RawCall.PATMR3DuplicateFunctionRequest)
        r.c.PATMR3DuplicateFunctionRequest).2)
  else if rc = VINF_PATM_CHECK_PATCH_PAGE then
    some (VINF_SUCCESS,
      (vm.call (Call.raw RawCall.PATMR3HandleMonitoredPage) r.c.PATMR3HandleMonitoredPage).2)
  else if rc = VERR_EM_RAW_PATCH_CONFLICT then some (rc, vm)
  else if rc = VINF_PATM_HC_MMIO_PATCH_READ then
    let a := r.q.SELMToFlat vm DIS_SELREG.DIS_SELREG_CS vm.ctx.eip
    let fl := PATMFL_MMIO_ACCESS |||
      (if r.q.SELMGetCpuModeFromSelector vm = CPUMODE.CPUMODE_32BIT then PATMFL_CODE32 else 0)
    let x := vm.call (Call.raw (RawCall.PATMR3InstallPatch a fl)) (r.c.PATMR3InstallPatch a fl)
    if RT_FAILURE x.1 then callExecuteInstruction r x.2 VINF_SUCCESS else some x
  else if rc = VINF_PATM_HC_MMIO_PATCH_WRITE then callExecuteInstruction r vm VINF_SUCCESS
  else if rc = VINF_PGM_SYNC_CR3 then some (VINF_SUCCESS, vm)
  else if rc = VINF_PGM_CHANGE_MODE then
    let x := vm.call (Call.raw RawCall.PGMChangeMode) r.c.PGMChangeMode
    if RT_SUCCESS x.1 then some (VINF_EM_RESCHEDULE, x.2) else some x
  else if rc = VINF_CSAM_PENDING_ACTION then some (VINF_SUCCESS, vm)
  else if rc = VINF_EM_RAW_INTERRUPT_PENDING ∨ rc = VINF_EM_RAW_RING_SWITCH_INT then
    let vm1 :=
      if e.q.TRPMHasTrap vm = true
          ∧ r.q.TRPMR3GetGuestTrapHandler vm (r.q.TRPMGetTrapNo vm) = TRPM_INVALID_HANDLER then
        vm.callVoid (Call.raw (RawCall.CSAMR3CheckGates (r.q.TRPMGetTrapNo vm)))
          (r.c.CSAMR3CheckGates (r.q.TRPMGetTrapNo vm))
      else vm
    some (VINF_EM_RESCHEDULE_REM, vm1)
  else if rc = VINF_EM_RAW_RING_SWITCH then
    vm.run (Call.raw RawCall.emR3RawRingSwitch) r.i.emR3RawRingSwitch
  else if rc = VERR_REM_FLUSHED_PAGES_OVERFLOW then
    some (VINF_SUCCESS,
      vm.callVoid (Call.raw RawCall.REMR3ReplayInvalidatedPages) r.c.REMR3ReplayInvalidatedPages)
  else if rc = VINF_IOM_HC_IOPORT_READ ∨ rc = VINF_IOM_HC_IOPORT_WRITE then
    vm.run (Call.raw RawCall.emR3RawExecuteIOInstruction) r.i.emR3RawExecuteIOInstruction
  else if rc = VINF_IOM_HC_MMIO_READ ∨ rc = VINF_IOM_HC_MMIO_WRITE
      ∨ rc = VINF_IOM_HC_MMIO_READ_WRITE then
    callExecuteInstruction r vm VINF_SUCCESS
  else if rc = VINF_EM_RAW_EMULATE_INSTR_LDT_FAULT ∨ rc = VINF_EM_RAW_EMULATE_INSTR_GDT_FAULT
      ∨ rc = VINF_EM_RAW_EMULATE_INSTR_IDT_FAULT ∨ rc = VINF_EM_RAW_EMULATE_INSTR_TSS_FAULT
      ∨ rc = VINF_EM_RAW_EMULATE_INSTR_PD_FAULT then
    callExecuteInstruction r vm VINF_SUCCESS
  else if rc = VINF_EM_RAW_EMULATE_INSTR_HLT then emR3RawPrivileged r vm
  else if rc = VINF_PATM_PENDING_IRQ_AFTER_IRET then
    callExecuteInstruction r vm VINF_PATM_PENDING_IRQ_AFTER_IRET
  else if rc = VINF_EM_RAW_EMULATE_INSTR ∨ rc = VINF_PATCH_EMULATE_INSTR then
    callExecuteInstruction r vm VINF_SUCCESS
  else if rc = VINF_EM_RAW_STALE_SELECTOR ∨ rc = VINF_EM_RAW_IRET_TRAP then
    let vm1 : VM :=
      if r.q.PATMIsPatchGCAddr vm.ext vm.ctx.eip then
        { vm with ctx := { vm.ctx with eip := (r.q.PATMR3PatchToGCPtr vm vm.ctx.eip).1 % 2 ^ 32 } }
      else vm
    some (VINF_EM_RESCHEDULE_REM, vm1)
  else if rc ∈ vmxErrors then
    some (rc, vm.callVoid (Call.raw (RawCall.HWACCMR3CheckError rc)) (r.c.HWACCMR3CheckError rc))
  else some (rc, vm)

/-! ## The inner loops `emR3RawExecute`, `emR3HwAccExecute`, `emR3RemExecute` -/

/-- The `break` statements of the inner loops. -/
inductive Break
  | prePassFailed
  | rawEnterFailed
  | remStateFailed
  | schedulingStatus
  | classifiedStatus
  | unknownStatus
  | forcedActionStatus
  deriving DecidableEq, Repr

/-- How one round of an inner loop ends: the loop is left at the `break`
statement `site` with the status `rc` and `*pfFFDone`, the loop goes on, or a
callee never returned. -/
inductive LoopStep
  | brk (site : Break) (rc : Int) (fFFDone : Bool) (vm : VM)
  | cont (vm : VM)
  | hang

/-- How the part of a round that precedes the burst ends: the loop is left, or
the engine is entered with this VM. -/
inductive Enter
  | brk (site : Break) (rc : Int) (vm : VM)
  | run (vm : VM)

/-- A call of `emR3RawForcedActions(pVM, pCtx)` from an inner loop. -/
def callRawForcedActions (e : Env) (r : RawEnv) (vm : VM) : Int × VM :=
  emR3RawForcedActions e r
    { vm with trace := vm.trace ++ [Call.raw RawCall.emR3RawForcedActions] }

/-- A round of `emR3RawExecute` from `CPUMRawEnter` to the burst: the guest
state is prepared by `CPUMRawEnter`, and ring-0 and ring-1 code outside patch
memory is scanned by `CSAMR3CheckCodeEx`. -/
def emR3RawExecute_rawEnter (e : Env) (r : RawEnv) (vm : VM) : Enter :=
  let y := vm.call (Call.raw RawCall.CPUMRawEnter) r.c.CPUMRawEnter
  if y.1 ≠ VINF_SUCCESS then Enter.brk Break.rawEnterFailed y.1 y.2
  else if y.2.ctx.ss &&& X86_SEL_RPL ≤ 1 ∧ X86EFLAGS_u1VM y.2.ctx.eflags = 0
      ∧ r.q.PATMIsPatchGCAddr y.2.ext y.2.ctx.eip = false then
    Enter.run (y.2.callVoid (Call.CSAMR3CheckCodeEx y.2.ctx.eip)
      (e.c.CSAMR3CheckCodeEx y.2.ctx.eip))
  else Enter.run y.2

/-- A round of `emR3RawExecute` up to the burst: the raw pre pass when a flag of
`VM_FF_HIGH_PRIORITY_PRE_RAW_MASK` is pending (the loop is left when it fails),
and then `emR3RawExecute_rawEnter`. -/
def emR3RawExecute_enter (e : Env) (r : RawEnv) (vm : VM) : Enter :=
  if VM_FF_ISPENDING vm r.m.VM_FF_HIGH_PRIORITY_PRE_RAW_MASK then
    let p := callRawForcedActions e r vm
    if RT_FAILURE p.1 then Enter.brk Break.prePassFailed p.1 p.2
    else emR3RawExecute_rawEnter e r p.2
  else emR3RawExecute_rawEnter e r vm

/-- The high-priority post pass of an inner loop:
`if (VM_FF_ISPENDING(pVM, VM_FF_HIGH_PRIORITY_POST_MASK)) rc =
emR3HighPriorityPostForcedActions(pVM, rc);`. -/
def postForcedActions (r : RawEnv) (vm : VM) (rc : Int) : Int × VM :=
  if VM_FF_ISPENDING vm r.m.VM_FF_HIGH_PRIORITY_POST_MASK then
    emR3HighPriorityPostForcedActions r vm rc
  else (rc, vm)

/-- The burst of `emR3RawExecute`: `VMMR3RawRunGC` between `VMMR3Unlock` and
`VMMR3Lock`, then `CPUMRawLeave`, the clearing of `VM_FF_RESUME_GUEST_MASK`,
and the high-priority post pass. -/
def emR3RawExecute_burst (e : Env) (r : RawEnv) (vm : VM) : Int × VM :=
  let vm1 := vm.callVoid Call.VMMR3Unlock e.c.VMMR3Unlock
  let x := vm1.call (Call.raw RawCall.VMMR3RawRunGC) r.c.VMMR3RawRunGC
  let vm2 := x.2.callVoid Call.VMMR3Lock e.c.VMMR3Lock
  let y := vm2.call (Call.raw (RawCall.CPUMRawLeave x.1)) (r.c.CPUMRawLeave x.1)
  postForcedActions r (VM_FF_CLEAR_MASK y.2 r.m.VM_FF_RESUME_GUEST_MASK) y.1

/-- A call of `emR3ForcedActions(pVM, rc)` from an inner loop. -/
def callForcedActions (e : Env) (vm : VM) (rc : Int) : Int × VM :=
  emR3ForcedActions e { vm with trace := vm.trace ++ [Call.emR3ForcedActions rc] } rc

/-- The end of a round of `emR3RawExecute`, "Check and execute forced
actions", entered with `rc` equal to `VINF_SUCCESS`. -/
def emR3RawExecute_ff (e : Env) (r : RawEnv) (vm : VM) (rc : Int) : LoopStep :=
  let vm1 := vm.callVoid (Call.raw RawCall.TMTimerPoll) r.c.TMTimerPoll
  if VM_FF_ISPENDING vm1 (VM_FF_NOT r.m.VM_FF_HIGH_PRIORITY_PRE_RAW_MASK) then
    let x := callForcedActions e vm1 rc
    if x.1 ≠ VINF_SUCCESS ∧ x.1 ≠ VINF_EM_RESCHEDULE_RAW then
      let w := emR3RawUpdateForceFlag r x.2 x.1
      if w.1 ≠ VINF_SUCCESS then LoopStep.brk Break.forcedActionStatus w.1 true w.2
      else LoopStep.cont w.2
    else LoopStep.cont x.2
  else LoopStep.cont vm1

/-- A round of `emR3RawExecute` from "Process the returned status code" on. -/
def emR3RawExecute_tail (e : Env) (r : RawEnv) (vm : VM) (rc : Int) : LoopStep :=
  if rc ≥ VINF_EM_FIRST ∧ rc ≤ VINF_EM_LAST then LoopStep.brk Break.schedulingStatus rc false vm
  else
    match emR3RawHandleRC e r vm rc with
    | none => LoopStep.hang
    | some (rc1, vm1) =>
      if rc1 ≠ VINF_SUCCESS then
        let u := emR3RawUpdateForceFlag r vm1 rc1
        if u.1 ≠ VINF_SUCCESS then LoopStep.brk Break.classifiedStatus u.1 false u.2
        else emR3RawExecute_ff e r u.2 u.1
      else emR3RawExecute_ff e r vm1 rc1

/-- One round of the loop `for (;;)` of `emR3RawExecute`. -/
def emR3RawExecute_round (e : Env) (r : RawEnv) (vm : VM) : LoopStep :=
  match emR3RawExecute_enter e r vm with
  | Enter.brk site rc vm1 => LoopStep.brk site rc false vm1
  | Enter.run vm1 =>
    let b := emR3RawExecute_burst e r vm1
    emR3RawExecute_tail e r b.2 b.1

/-- The loop of `emR3RawExecute`, at most `fuel` rounds of it: the `break`
statement at which the loop is left, the status, `*pfFFDone`, and the VM. -/
def emR3RawExecute_loop (e : Env) (r : RawEnv) : Nat → VM → Option (Break × (Int × Bool) × VM)
  | 0, _ => none
  | fuel + 1, vm =>
    match emR3RawExecute_round e r vm with
    | LoopStep.hang => none
    | LoopStep.brk site rc fFFDone vm1 => some (site, (rc, fFFDone), vm1)
    | LoopStep.cont vm1 => emR3RawExecute_loop e r fuel vm1

/-- The function `emR3RawExecute(pVM, pfFFDone)` together with the `break`
statement through which it returns: the force-raw flag is cleared, `*pfFFDone`
is set to false, and the loop runs. -/
def emR3RawExecute_at (e : Env) (r : RawEnv) (fuel : Nat) (vm : VM) :
    Option (Break × (Int × Bool) × VM) :=
  emR3RawExecute_loop e r fuel { vm with fForceRAW := false }

/-- The function `emR3RawExecute(pVM, pfFFDone)`: the status, `*pfFFDone`, and
the VM. -/
def emR3RawExecute (e : Env) (r : RawEnv) (fuel : Nat) (vm : VM) : Option ((Int × Bool) × VM) :=
  (emR3RawExecute_at e r fuel vm).map fun x => x.2
/-- A round of `emR3HwAccExecute` up to the burst: the descriptor-table, IDT and
TSS sync flags are cleared, and the raw pre pass runs when a flag of
`VM_FF_HIGH_PRIORITY_PRE_RAW_MASK` is pending (the loop is left when it
fails). -/
def emR3HwAccExecute_enter (e : Env) (r : RawEnv) (vm : VM) : Enter :=
  let vm0 := VM_FF_CLEAR_MASK vm
    [VM_FF_SELM_SYNC_GDT, VM_FF_SELM_SYNC_LDT, VM_FF_TRPM_SYNC_IDT, VM_FF_SELM_SYNC_TSS]
  if VM_FF_ISPENDING vm0 r.m.VM_FF_HIGH_PRIORITY_PRE_RAW_MASK then
    let p := callRawForcedActions e r vm0
    if RT_FAILURE p.1 then Enter.brk Break.prePassFailed p.1 p.2 else Enter.run p.2
  else Enter.run vm0

/-- The burst of `emR3HwAccExecute`: `VMMR3HwAccRunGC` between `VMMR3Unlock` and
`VMMR3Lock`, then the clearing of `VM_FF_RESUME_GUEST_MASK` and the
high-priority post pass. -/
def emR3HwAccExecute_burst (e : Env) (r : RawEnv) (idCpu : Nat) (vm : VM) : Int × VM :=
  let vm1 := vm.callVoid Call.VMMR3Unlock e.c.VMMR3Unlock
  let x := vm1.call (Call.raw (RawCall.VMMR3HwAccRunGC idCpu)) (r.c.VMMR3HwAccRunGC idCpu)
  let vm2 := x.2.callVoid Call.VMMR3Lock e.c.VMMR3Lock
  postForcedActions r (VM_FF_CLEAR_MASK vm2 r.m.VM_FF_RESUME_GUEST_MASK) x.1

/-- A round of `emR3HwAccExecute` from "Process the returned status code" on. -/
def emR3HwAccExecute_tail (e : Env) (r : RawEnv) (vm : VM) (rc : Int) : LoopStep :=
  if rc ≥ VINF_EM_FIRST ∧ rc ≤ VINF_EM_LAST then LoopStep.brk Break.schedulingStatus rc false vm
  else
    match emR3RawHandleRC e r vm rc with
    | none => LoopStep.hang
    | some (rc1, vm1) =>
      if rc1 ≠ VINF_SUCCESS then LoopStep.brk Break.classifiedStatus rc1 false vm1
      else
        let vm2 := vm1.callVoid (Call.raw RawCall.TMTimerPoll) r.c.TMTimerPoll
        if VM_FF_ISPENDING vm2 r.m.VM_FF_ALL_MASK then
          let x := callForcedActions e vm2 rc1
          if x.1 ≠ VINF_SUCCESS ∧ x.1 ≠ VINF_EM_RESCHEDULE_HWACC then
            LoopStep.brk Break.forcedActionStatus x.1 true x.2
          else LoopStep.cont x.2
        else LoopStep.cont vm2

/-- One round of the loop `for (;;)` of `emR3HwAccExecute`. -/
def emR3HwAccExecute_round (e : Env) (r : RawEnv) (idCpu : Nat) (vm : VM) : LoopStep :=
  match emR3HwAccExecute_enter e r vm with
  | Enter.brk site rc vm1 => LoopStep.brk site rc false vm1
  | Enter.run vm1 =>
    let b := emR3HwAccExecute_burst e r idCpu vm1
    emR3HwAccExecute_tail e r b.2 b.1

/-- The loop of `emR3HwAccExecute`, at most `fuel` rounds of it. -/
def emR3HwAccExecute_loop (e : Env) (r : RawEnv) (idCpu : Nat) :
    Nat → VM → Option (Break × (Int × Bool) × VM)
  | 0, _ => none
  | fuel + 1, vm =>
    match emR3HwAccExecute_round e r idCpu vm with
    | LoopStep.hang => none
    | LoopStep.brk site rc fFFDone vm1 => some (site, (rc, fFFDone), vm1)
    | LoopStep.cont vm1 => emR3HwAccExecute_loop e r idCpu fuel vm1

/-- The function `emR3HwAccExecute(pVM, idCpu, pfFFDone)`: the status,
`*pfFFDone`, and the VM. -/
def emR3HwAccExecute (e : Env) (r : RawEnv) (fuel : Nat) (idCpu : Nat) (vm : VM) :
    Option ((Int × Bool) × VM) :=
  (emR3HwAccExecute_loop e r idCpu fuel vm).map fun x => x.2

/-- How the part of a round of `emR3RemExecute` that precedes the burst ends:
the loop is left, the burst is skipped in favour of the forced actions (the
`goto l_REMDoForcedActions`), or the recompiler is run. -/
inductive RemEnter
  | brk (site : Break) (rc : Int) (vm : VM)
  | skip (rc : Int) (vm : VM)
  | run (vm : VM)

/-- A round of `emR3RemExecute` up to the burst, "Update REM state if not
already in sync". -/
def emR3RemExecute_enter (r : RawEnv) (fInREMState : Bool) (vm : VM) : RemEnter :=
  if ¬ fInREMState then
    let x := vm.call (Call.raw RawCall.REMR3State) r.c.REMR3State
    if RT_FAILURE x.1 then RemEnter.brk Break.remStateFailed x.1 x.2
    else if VM_FF_ISPENDING x.2 [VM_FF_REQUEST, VM_FF_TIMER, VM_FF_PDM_QUEUES, VM_FF_DBGF,
        VM_FF_TERMINATE, VM_FF_RESET] then
      RemEnter.skip x.1 x.2
    else RemEnter.run x.2
  else RemEnter.run vm

/-- The burst of `emR3RemExecute`: `REMR3Run` and the high-priority post
pass. -/
def emR3RemExecute_burst (r : RawEnv) (vm : VM) : Int × VM :=
  let x := vm.call (Call.raw RawCall.REMR3Run) r.c.REMR3Run
  postForcedActions r x.2 x.1

/-- How one round of `emR3RemExecute` ends: like `LoopStep`, with the variable
`fInREMState`. -/
inductive RemStep
  | brk (site : Break) (rc : Int) (fFFDone : Bool) (fInREMState : Bool) (vm : VM)
  | cont (fInREMState : Bool) (vm : VM)

/-- The label `l_REMDoForcedActions` of `emR3RemExecute`: the state is synced
back when the recompiler holds it, and `emR3ForcedActions` runs. -/
def emR3RemExecute_ff (e : Env) (r : RawEnv) (fInREMState : Bool) (vm : VM) (rc : Int) :
    RemStep :=
  let vm1 :=
    if fInREMState then vm.callVoid (Call.raw RawCall.REMR3StateBack) r.c.REMR3StateBack
    else vm
  let x := callForcedActions e vm1 rc
  if x.1 ≠ VINF_SUCCESS ∧ x.1 ≠ VINF_EM_RESCHEDULE_REM then
    RemStep.brk Break.forcedActionStatus x.1 true false x.2
  else RemStep.cont false x.2

/-- A round of `emR3RemExecute` from "Process the returned status code" on;
the recompiler holds the state (`fInREMState` is true). -/
def emR3RemExecute_tail (e : Env) (r : RawEnv) (vm : VM) (rc : Int) : RemStep :=
  if rc ≠ VINF_SUCCESS ∧ (rc ≥ VINF_EM_FIRST ∧ rc ≤ VINF_EM_LAST) then
    RemStep.brk Break.schedulingStatus rc false true vm
  else if rc ≠ VINF_SUCCESS ∧ rc ≠ VINF_REM_INTERRUPED_FF then
    RemStep.brk Break.unknownStatus rc false true vm
  else
    let vm1 := vm.callVoid (Call.raw RawCall.TMTimerPoll) r.c.TMTimerPoll
    if VM_FF_ISPENDING vm1 (e.m.VM_FF_ALL_BUT_RAW_MASK.filter fun f =>
        decide (f ≠ VM_FF_CSAM_PENDING_ACTION ∧ f ≠ VM_FF_CSAM_SCAN_PAGE)) then
      emR3RemExecute_ff e r true vm1 rc
    else RemStep.cont true vm1

/-- One round of the loop `for (;;)` of `emR3RemExecute`. -/
def emR3RemExecute_round (e : Env) (r : RawEnv) (fInREMState : Bool) (vm : VM) : RemStep :=
  match emR3RemExecute_enter r fInREMState vm with
  | RemEnter.brk site rc vm1 => RemStep.brk site rc false fInREMState vm1
  | RemEnter.skip rc vm1 => emR3RemExecute_ff e r true vm1 rc
  | RemEnter.run vm1 =>
    let b := emR3RemExecute_burst r vm1
    emR3RemExecute_tail e r b.2 b.1

/-- The loop of `emR3RemExecute`, at most `fuel` rounds of it, and the code
after the loop, "Returning. Sync back the VM state if required". -/
def emR3RemExecute_loop (e : Env) (r : RawEnv) :
    Nat → Bool → VM → Option (Break × (Int × Bool) × VM)
  | 0, _, _ => none
  | fuel + 1, fInREMState, vm =>
    match emR3RemExecute_round e r fInREMState vm with
    | RemStep.brk site rc fFFDone fIn vm1 =>
      some (site, (rc, fFFDone),
        if fIn then vm1.callVoid (Call.raw RawCall.REMR3StateBack) r.c.REMR3StateBack else vm1)
    | RemStep.cont fIn vm1 => emR3RemExecute_loop e r fuel fIn vm1

/-- The function `emR3RemExecute(pVM, pfFFDone)`: the status, `*pfFFDone`, and
the VM. -/
def emR3RemExecute (e : Env) (r : RawEnv) (fuel : Nat) (vm : VM) : Option ((Int × Bool) × VM) :=
  (emR3RemExecute_loop e r fuel false vm).map fun x => x.2

/-- The inner loops of an environment replaced by the embedded ones, each with
the bound `fuel` on its rounds; the steppers stay parameters. -/
def Env.withLoops (e : Env) (r : RawEnv) (fuel : Nat) : Env :=
  { e with
    i := { e.i with
           emR3RawExecute := emR3RawExecute e r fuel
           emR3HwAccExecute := emR3HwAccExecute e r fuel
           emR3RemExecute := emR3RemExecute e r fuel } }

/-! ## Concrete environments for the inner loops -/

/-- Modelled from the spec: the masks of `VBox/vm.h` (not among the sources)
that the inner loops test. The raw pre mask holds the flags that
`emR3RawForcedActions` services and the interrupt shadow; the post mask holds
the two flags that `emR3HighPriorityPostForcedActions` services;
`VM_FF_RESUME_GUEST_MASK` is `VM_FF_TO_R3`; `VM_FF_ALL_MASK` holds every
flag. -/
def rawMasks : RawMasks where
  VM_FF_HIGH_PRIORITY_PRE_RAW_MASK :=
    [VM_FF_PGM_SYNC_CR3, VM_FF_PGM_SYNC_CR3_NON_GLOBAL, VM_FF_SELM_SYNC_TSS, VM_FF_TRPM_SYNC_IDT,
     VM_FF_SELM_SYNC_GDT, VM_FF_SELM_SYNC_LDT, VM_FF_INHIBIT_INTERRUPTS,
     VM_FF_PGM_NEED_HANDY_PAGES]
  VM_FF_HIGH_PRIORITY_POST_MASK := [VM_FF_PDM_CRITSECT, VM_FF_CSAM_PENDING_ACTION]
  VM_FF_RESUME_GUEST_MASK := [VM_FF_TO_R3]
  VM_FF_ALL_MASK := VMFF.all

/-- The first address of the patch memory of the concrete environments. -/
def patchMemBase : Nat := 0xA0000000

/-- Queries of a patch manager that is enabled and owns the addresses from
`patchMemBase` on; patch addresses translate to themselves; the guest runs
32-bit code with a flat address space; the instruction at the guest EIP is the
one given; no trap is pending. -/
def rqPatch (Cpu : DISCPUSTATE) : RawQueries where
  PATMIsPatchGCAddr := fun _ a => decide (patchMemBase ≤ a)
  PATMIsEnabled := fun _ => true
  PATMR3IsInsidePatchJump := fun _ _ => false
  PATMIsInt3Patch := fun _ _ => false
  PATMR3PatchToGCPtr := fun _ a => (a, PATMTRANSSTATE.PATMTRANS_SAFE)
  SELMToFlat := fun _ _ a => a
  SELMGetCpuModeFromSelector := fun _ => CPUMODE.CPUMODE_32BIT
  CPUMR3DisasmInstrCPU := fun _ => (VINF_SUCCESS, Cpu)
  TRPMQueryTrapAll := fun _ => (VERR_INTERNAL_ERROR, 0)
  TRPMGetTrapNo := fun _ => 0
  TRPMR3GetGuestTrapHandler := fun _ _ => 1

/-- An instruction that `emR3RawPrivileged` does not emulate itself. -/
def cpuOther : DISCPUSTATE where
  opcode := OPCODE.OP_OTHER
  opsize := 1
  param1_is_USE_REG_CR := false

/-- The instruction `cli`. -/
def cpuCli : DISCPUSTATE where
  opcode := OPCODE.OP_CLI
  opsize := 1
  param1_is_USE_REG_CR := false

/-- An instruction `mov crN, reg` that writes a control register. -/
def cpuMovToCr : DISCPUSTATE where
  opcode := OPCODE.OP_MOV_CR
  opsize := 3
  param1_is_USE_REG_CR := true

/-- Collaborators of the inner loops that succeed: every handler lowers the
flags it services and changes nothing else, the engines return `rcRun`, and the
patch manager resolves a trap in patch code with the status `rcTrap` at the
address `newEip`. -/
def rcQuiet (rcRun rcTrap : Int) (newEip : Nat) : RawCollab where
  SELMR3UpdateFromCPUM := fun vm =>
    (VINF_SUCCESS, VM_FF_CLEAR_MASK vm [VM_FF_SELM_SYNC_GDT, VM_FF_SELM_SYNC_LDT])
  TRPMR3SyncIDT := fun vm => (VINF_SUCCESS, VM_FF_CLEAR vm VM_FF_TRPM_SYNC_IDT)
  SELMR3SyncTSS := fun vm => (VINF_SUCCESS, VM_FF_CLEAR vm VM_FF_SELM_SYNC_TSS)
  PGMSyncCR3 := fun vm =>
    (VINF_SUCCESS, VM_FF_CLEAR_MASK vm [VM_FF_PGM_SYNC_CR3, VM_FF_PGM_SYNC_CR3_NON_GLOBAL])
  PGMPrefetchPage := fun _ vm => (VINF_SUCCESS, vm)
  CPUMRawEnter := fun vm => (VINF_SUCCESS, vm)
  CPUMRawLeave := fun rc vm => (rc, vm)
  VMMR3RawRunGC := fun vm => (rcRun, vm)
  VMMR3HwAccRunGC := fun _ vm => (rcRun, vm)
  REMR3State := fun vm => (VINF_SUCCESS, vm)
  REMR3Run := fun vm => (rcRun, vm)
  REMR3StateBack := fun vm => vm
  TMTimerPoll := fun vm => vm
  PDMR3CritSectFF := fun vm => VM_FF_CLEAR vm VM_FF_PDM_CRITSECT
  CSAMR3DoPendingAction := fun vm => VM_FF_CLEAR vm VM_FF_CSAM_PENDING_ACTION
  PATMR3InstallPatch := fun _ _ vm => (VINF_SUCCESS, vm)
  PATMR3DetectConflict := fun _ vm => (VERR_PATCH_DISABLED, vm)
  PATMR3HandleTrap := fun _ vm => ((rcTrap, newEip), vm)
  PATMR3RemovePatch := fun _ vm => vm
  PATMR3DuplicateFunctionRequest := fun vm => (VINF_SUCCESS, vm)
  PATMR3HandleMonitoredPage := fun vm => (VINF_SUCCESS, vm)
  TRPMResetTrap := fun vm => vm
  EMInterpretInstructionCPU := fun _ vm => (VINF_SUCCESS, vm)
  PGMChangeMode := fun vm => (VINF_SUCCESS, vm)
  CSAMR3CheckGates := fun _ vm => vm
  REMR3ReplayInvalidatedPages := fun vm => vm
  HWACCMR3CheckError := fun _ vm => vm

/-- Functions of EM that emulate one instruction, handle a guest trap or a ring
switch, and answer with `rc`, leaving the VM as it was. -/
def riReturn (rc : Int) : RawInner where
  emR3RawExecuteInstruction := fun _ vm => some (rc, vm)
  emR3RawExecuteIOInstruction := fun vm => some (rc, vm)
  emR3RawGuestTrap := fun vm => some (rc, vm)
  emR3RawRingSwitch := fun vm => some (rc, vm)

/-- An environment of the inner loops with the masks of `vm.h`, the patch
manager of `rqPatch`, quiet collaborators and an emulation that reports
success: the instruction at the guest EIP is `Cpu`, the engines return `rcRun`,
and a trap in patch code is resolved with `rcTrap` at `newEip`. -/
def rawEnv (Cpu : DISCPUSTATE) (rcRun rcTrap : Int) (newEip : Nat) : RawEnv where
  m := rawMasks
  q := rqPatch Cpu
  c := rcQuiet rcRun rcTrap newEip
  i := riReturn VINF_SUCCESS

/-- The VM `vmInit` with the flags of the GDT, the IDT and the TSS raised. -/
def vmSyncAll : VM :=
  ((vmInit.raise VM_FF_SELM_SYNC_GDT).raise VM_FF_TRPM_SYNC_IDT).raise VM_FF_SELM_SYNC_TSS

/-- The VM `vmInit` with the guest EIP in patch memory: ring-0 code, the
interrupt flag set. -/
def vmInPatch : VM := { vmInit with ctx := { ctxRing0 with eip := patchMemBase + 0x1000 } }

/-- The VM `vmInPatch` (guest EIP in patch memory) with the force-raw flag
set. -/
def vmInPatchForced : VM := { vmInPatch with fForceRAW := true }

/-- The run of `emR3RawExecute` from `vmInPatch` in which the raw-mode engine
gives up with `VERR_TRPM_PANIC` while the guest EIP is in patch memory. -/
def rawRunPanic : Break × (Int × Bool) × VM :=
  (emR3RawExecute_at (envReturn 0) (rawEnv cpuOther VERR_TRPM_PANIC VINF_SUCCESS 0) 1
    vmInPatch).getD (Break.prePassFailed, (VINF_SUCCESS, false), vmInPatch)

/-- The VM with which the engine is entered, when the part of a round that
precedes the burst ends with entering the engine. -/
def Enter.vm? : Enter → Option VM
  | Enter.run vm => some vm
  | Enter.brk _ _ _ => none

/-- The VM with which the recompiler is run, when the part of a round of
`emR3RemExecute` that precedes the burst ends with running it. -/
def RemEnter.vm? : RemEnter → Option VM
  | RemEnter.run vm => some vm
  | RemEnter.skip _ _ => none
  | RemEnter.brk _ _ _ => none

/-- The VM `vmInit` with an interrupt of the PIC pending. -/
def vmPic : VM := vmInit.raise VM_FF_INTERRUPT_PIC

/-- Request processing asks for the suspension of the VM, and while it runs the
flag `VM_FF_PDM_CRITSECT` is raised. -/
def envRequestSuspend : Env where
  m := vmMasks
  q := qNo
  c := { cQuiet with
         VMR3ReqProcessU := fun vm => (VINF_EM_SUSPEND, vm.raise VM_FF_PDM_CRITSECT) }
  i := iReturn VINF_SUCCESS

/-- What one pass of `emR3RawForcedActions` may leave behind, for the calls `t`
that the pass recorded and its status `rc`: the status is `VINF_SUCCESS`, or a
failure, or the status other than `VINF_PGM_SYNC_CR3` that a call of
`PGMPrefetchPage` recorded in `t` reported; `PGMSyncCR3` is recorded at most
twice, and twice only when `t` holds a call of `PGMPrefetchPage` and a page
prefetch reported `VINF_PGM_SYNC_CR3`. -/
def PrePass (r : RawEnv) (t : List Call) (rc : Int) : Prop :=
  (rc = VINF_SUCCESS ∨ rc < 0
      ∨ ∃ (a : Nat) (v : VM), Call.raw (RawCall.PGMPrefetchPage a) ∈ t
          ∧ rc = (r.c.PGMPrefetchPage a v).1 ∧ rc ≠ VINF_PGM_SYNC_CR3)
    ∧ t.count (Call.raw RawCall.PGMSyncCR3) ≤ 2
    ∧ (t.count (Call.raw RawCall.PGMSyncCR3) = 2 →
        ∃ (a : Nat) (v : VM), Call.raw (RawCall.PGMPrefetchPage a) ∈ t
          ∧ (r.c.PGMPrefetchPage a v).1 = VINF_PGM_SYNC_CR3)

/-- The VM with which a part of a round that precedes the burst ends, whether
the loop is left or the engine is entered. -/
def Enter.out : Enter → VM
  | Enter.run vm => vm
  | Enter.brk _ _ vm => vm

/-- The states that the dispatch `switch` of `EMR3ExecuteVM` has a case of its
own for: every state but `EMSTATE_NONE`, `EMSTATE_TERMINATING` and
`EMSTATE_PARAV` (whose case is compiled only when `VBOX_WITH_VMI` is
defined). -/
def EMSTATE.dispatched (s : EMSTATE) : Bool :=
  decide (s ≠ EMSTATE_NONE ∧ s ≠ EMSTATE_TERMINATING ∧ s ≠ EMSTATE_PARAV)

/-- The VM `vmInit` in the state `EMSTATE_DEBUG_HYPER`. -/
def vmDebugHyper : VM := { vmInit with enmState := EMSTATE_DEBUG_HYPER }

/-- Request processing asks for a reschedule (`VINF_EM_RESCHEDULE`, the status
with which `EMR3RawSetMode` answers in the state `EMSTATE_RAW`) and lowers its
flag. -/
def envRequestReschedule : Env where
  m := vmMasks
  q := qNo
  c := { cQuiet with
         VMR3ReqProcessU := fun vm => (VINF_EM_RESCHEDULE, VM_FF_CLEAR vm VM_FF_REQUEST) }
  i := iReturn VINF_EM_TERMINATE

/-- Collaborators of the inner loops that succeed. During the first burst of the
raw-mode engine another thread queues a request, and the burst ends with
`VINF_EM_PENDING_REQUEST`, the guest EIP where it was; every later burst runs
the guest on to the address 0x2000, outside patch memory, and asks for the
recompiler (`VINF_EM_RESCHEDULE_REM`); `ext` counts the bursts. The recompiler
comes back with `VINF_EM_TERMINATE`. -/
def rcRequestThenRem : RawCollab :=
  { rcQuiet VINF_EM_TERMINATE VINF_SUCCESS 0 with
    VMMR3RawRunGC := fun vm =>
      if vm.ext = 0 then
        (VINF_EM_PENDING_REQUEST, { vm.raise VM_FF_REQUEST with ext := 1 })
      else
        (VINF_EM_RESCHEDULE_REM,
         { vm with ctx := { vm.ctx with eip := 0x2000 }, ext := vm.ext + 1 }) }

/-- The environment of the inner loops `rawEnv` with the collaborators
`rcRequestThenRem`. -/
def rawEnvRequestThenRem : RawEnv :=
  { rawEnv cpuOther VINF_EM_TERMINATE VINF_SUCCESS 0 with c := rcRequestThenRem }

/-- The environment `envRequestReschedule` with the embedded inner loops over
`rawEnvRequestThenRem`, each bounded by two rounds. -/
def envStaleForceRaw : Env := envRequestReschedule.withLoops rawEnvRequestThenRem 2

/-- The VM with which the outer loop of `EMR3ExecuteVM` starts when the function
is entered with `vmInPatch` and quiet collaborators: the lock and the clocks
have been taken, and `emR3Reschedule` has chosen `EMSTATE_RAW`. -/
def vmPatchEntry : VM :=
  { ((vmInPatch.callVoid Call.VMMR3Lock cQuiet.VMMR3Lock).callVoid Call.TMVirtualResume
      cQuiet.TMVirtualResume).callVoid Call.TMCpuTickResume cQuiet.TMCpuTickResume with
    enmState := EMSTATE_RAW }

/-- The first round of the outer loop from `vmPatchEntry` in the environment
`envStaleForceRaw`: the status, `fFFDone` and the VM with which the second round
starts. -/
def staleRound : Int × Bool × VM :=
  ((EMR3ExecuteVM_round envStaleForceRaw 0 3 vmPatchEntry VINF_SUCCESS false).next?).getD
    (VINF_SUCCESS, false, vmPatchEntry)

/-- The VM with which the second round of that run reaches the dispatch: the
transition `switch` has set `EMSTATE_REM`, and the lock has been released and
taken again. -/
def staleDispatch : VM :=
  (({ staleRound.2.2 with enmState := EMSTATE_REM } : VM).callVoid Call.VMMR3Unlock
    cQuiet.VMMR3Unlock).callVoid Call.VMMR3Lock cQuiet.VMMR3Lock

/-! ## Saved state: `emR3Save` and `emR3Load` -/

/-- Modelled from the spec: the saved-state handle `SSMHANDLE` of the
save/restore subsystem (SSM, not among the sources), reduced to the data unit
of EM: the bytes written so far when the unit is saved, the bytes not yet read
when it is loaded. -/
structure SSMHANDLE where
  data : List Nat

/-- Modelled from the spec: `EM_SAVED_STATE_VERSION` (`EMInternal.h`, not among
the sources), the version `EMR3Init` registers the data unit with. -/
def EM_SAVED_STATE_VERSION : Nat := 3
/-- Modelled from the spec: a failure status of `VBox/err.h`. -/
def VERR_SSM_UNSUPPORTED_DATA_UNIT_VERSION : Int := -1822
/-- Modelled from the spec: a failure status of `VBox/err.h`, reported when a
unit is read past its end. -/
def VERR_SSM_LOADED_TOO_MUCH : Int := -1831

/-- Modelled from the spec: `SSMR3PutBool(pSSM, fBool)` appends one byte to the
unit, 1 for true and 0 for false, and succeeds. -/
def SSMR3PutBool (ssm : SSMHANDLE) (fBool : Bool) : Int × SSMHANDLE :=
  (VINF_SUCCESS, { data := ssm.data ++ [if fBool then 1 else 0] })

/-- Modelled from the spec: `SSMR3GetBool(pSSM, pfBool)` reads one byte of the
unit and stores whether it is nonzero; at the end of the unit it fails and
stores nothing. -/
def SSMR3GetBool (ssm : SSMHANDLE) : Int × Option Bool × SSMHANDLE :=
  match ssm.data with
  | [] => (VERR_SSM_LOADED_TOO_MUCH, none, ssm)
  | b :: rest => (VINF_SUCCESS, some (decide (b ≠ 0)), { data := rest })

/-- The function `emR3Save(pVM, pSSM)`: the status and the handle. -/
def emR3Save (vm : VM) (ssm : SSMHANDLE) : Int × SSMHANDLE :=
  SSMR3PutBool ssm vm.fForceRAW

/-- The function `emR3Load(pVM, pSSM, u32Version)`: the status, the VM and the
handle. The flag is written through the pointer `&pVM->em.s.fForceRAW` when
`SSMR3GetBool` stores a value, and cleared when it fails. -/
def emR3Load (vm : VM) (ssm : SSMHANDLE) (u32Version : Nat) : Int × VM × SSMHANDLE :=
  if u32Version ≠ EM_SAVED_STATE_VERSION then (VERR_SSM_UNSUPPORTED_DATA_UNIT_VERSION, vm, ssm)
  else
    let g := SSMR3GetBool ssm
    let vm1 : VM :=
      match g.2.1 with
      | some b => { vm with fForceRAW := b }
      | none => vm
    let vm2 : VM := if RT_FAILURE g.1 then { vm1 with fForceRAW := false } else vm1
    (g.1, vm2, g.2.2)

/-- The VM `vmInhibitPic` (interrupt shadow, an interrupt of the PIC pending)
after the guest has executed the instruction in the shadow: the guest EIP has
moved past the recorded address. -/
def vmShadowLeftPic : VM := { vmInhibitPic with ctx := { ctxRing0 with eip := 0x1001 } }

/-- What a handler leaves alone when it keeps the forced-action flags, the guest
context and the address recorded for the interrupt shadow. -/
def VM.sameGuest (v v' : VM) : Prop :=
  v'.ff = v.ff ∧ v'.ctx = v.ctx ∧ v'.GCPtrInhibitInterrupts = v.GCPtrInhibitInterrupts

/-- The handlers that `emR3ForcedActions` calls leave the forced-action flags,
the guest context and the address recorded for the interrupt shadow as they
are. -/
def HandlersKeep (c : Collab) : Prop :=
  ∀ v : VM,
    v.sameGuest (c.DBGFR3VMMForcedAction v).2 ∧ v.sameGuest (c.VMR3Reset v).2
    ∧ (∀ a : Nat, v.sameGuest (c.CSAMR3CheckCodeEx a v))
    ∧ v.sameGuest (c.PDMR3QueueFlushAll v) ∧ v.sameGuest (c.PDMR3DmaRun v)
    ∧ v.sameGuest (c.VMR3ReqProcessU v).2
    ∧ v.sameGuest (c.REMR3ReplayHandlerNotifications v) ∧ v.sameGuest (c.PDMR3Poll v)
    ∧ v.sameGuest (c.TMR3TimerQueuesDo v) ∧ v.sameGuest (c.TRPMR3InjectEvent v).2
    ∧ v.sameGuest (c.PGMR3PhysAllocateHandyPages v).2

/-- What `emR3ForcedActions` itself does to the flags between `v` and `v'`: the
guest context and the recorded address are kept, and every flag is as it was,
unless it has been lowered and is `VM_FF_RESET`, `VM_FF_CSAM_SCAN_PAGE`, or
`VM_FF_INHIBIT_INTERRUPTS` with the guest EIP off the recorded address. -/
def Lowered (v v' : VM) : Prop :=
  v'.ctx = v.ctx ∧ v'.GCPtrInhibitInterrupts = v.GCPtrInhibitInterrupts
  ∧ ∀ g : VMFF, v'.ff g = v.ff g
      ∨ (v'.ff g = false
          ∧ (g = VM_FF_RESET ∨ g = VM_FF_CSAM_SCAN_PAGE
              ∨ (g = VM_FF_INHIBIT_INTERRUPTS
                  ∧ CPUMGetGuestEIP v ≠ EMGetInhibitInterruptsPC v)))

/-- The VM `vmInit` with a reset postponed, a page scan asked for and the
interrupt shadow left behind: `VM_FF_RESET`, `VM_FF_CSAM_SCAN_PAGE`, `VM_FF_TIMER`
and `VM_FF_INHIBIT_INTERRUPTS` are raised, and the recorded address is not the
guest EIP. -/
def vmResetScanShadow : VM :=
  { (((vmInit.raise VM_FF_RESET).raise VM_FF_CSAM_SCAN_PAGE).raise VM_FF_TIMER).raise
      VM_FF_INHIBIT_INTERRUPTS with GCPtrInhibitInterrupts := 0xfff }

/-- The VM with which the part of a round of `emR3RemExecute` that precedes the
burst ends, whether the loop is left, the burst is skipped or the recompiler is
run. -/
def RemEnter.out : RemEnter → VM
  | RemEnter.run vm => vm
  | RemEnter.skip _ vm => vm
  | RemEnter.brk _ _ vm => vm

/-- Collaborators of the inner loops that succeed; each engine completes its
first burst with `VINF_SUCCESS` and reports `VINF_EM_HALT` on every later burst
(`ext` counts the bursts). -/
def rcSuccessThenHalt : RawCollab :=
  { rcQuiet VINF_EM_HALT VINF_SUCCESS 0 with
    VMMR3RawRunGC := fun vm =>
      (if vm.ext = 0 then VINF_SUCCESS else VINF_EM_HALT, { vm with ext := vm.ext + 1 })
    VMMR3HwAccRunGC := fun _ vm =>
      (if vm.ext = 0 then VINF_SUCCESS else VINF_EM_HALT, { vm with ext := vm.ext + 1 })
    REMR3Run := fun vm =>
      (if vm.ext = 0 then VINF_SUCCESS else VINF_EM_HALT, { vm with ext := vm.ext + 1 }) }

/-- The environment of the inner loops `rawEnv` with the collaborators
`rcSuccessThenHalt`. -/
def rawEnvSuccessThenHalt : RawEnv :=
  { rawEnv cpuOther VINF_EM_HALT VINF_SUCCESS 0 with c := rcSuccessThenHalt }

/-! # Theorems -/

/-! ## Bit tests -/

theorem and_two_pow_ne_zero (x k : Nat) : x &&& 2 ^ k ≠ 0 ↔ x.testBit k = true := by
  rw [Nat.and_two_pow]
  cases x.testBit k <;> simp

theorem mod_and_two_pow_ne_zero (x k : Nat) (hk : k < 32) :
    x % 2 ^ 32 &&& 2 ^ k ≠ 0 ↔ x.testBit k = true := by
  rw [and_two_pow_ne_zero, Nat.testBit_mod_two_pow]
  simp [hk]

theorem cr0_pg_pe (x : Nat) :
    x % 2 ^ 32 &&& (X86_CR0_PG ||| X86_CR0_PE) ≠ (X86_CR0_PG ||| X86_CR0_PE)
      ↔ ¬ (x.testBit 31 = true ∧ x.testBit 0 = true) := by
  have h31 : (x % 2 ^ 32).testBit 31 = x.testBit 31 := by
    rw [Nat.testBit_mod_two_pow]; simp
  have h0 : (x % 2 ^ 32).testBit 0 = x.testBit 0 := by
    rw [Nat.testBit_mod_two_pow]; simp
  rw [← h31, ← h0]
  generalize x % 2 ^ 32 = y
  unfold X86_CR0_PG X86_CR0_PE
  rw [Nat.and_or_distrib_left, Nat.and_two_pow, Nat.and_two_pow]
  cases y.testBit 31 <;> cases y.testBit 0 <;> decide

theorem and_rpl (x : Nat) : x &&& X86_SEL_RPL = x % 4 := by
  have := Nat.and_pow_two_sub_one_eq_mod x 2
  simpa [X86_SEL_RPL] using this

theorem u1VM_ne_zero (x : Nat) : X86EFLAGS_u1VM x ≠ 0 ↔ x.testBit 17 = true := by
  unfold X86EFLAGS_u1VM
  rw [Nat.testBit_to_div_mod]
  simp only [decide_eq_true_eq]
  omega

theorem u2IOPL_eq (x : Nat) :
    X86EFLAGS_u2IOPL x = 2 * (x.testBit 13).toNat + (x.testBit 12).toNat := by
  unfold X86EFLAGS_u2IOPL
  have h12 : x.testBit 12 = decide (x / 2 ^ 12 % 2 = 1) := Nat.testBit_to_div_mod
  have h13 : x.testBit 13 = decide (x / 2 ^ 13 % 2 = 1) := Nat.testBit_to_div_mod
  have e : x / 2 ^ 13 = x / 2 ^ 12 / 2 := by
    rw [Nat.div_div_eq_div_mul]; rfl
  rw [h12, h13, e]
  generalize x / 2 ^ 12 = y
  by_cases a : y % 2 = 1 <;> by_cases b : y / 2 % 2 = 1 <;> simp [a, b] <;> omega

/-! ## `emR3Reschedule` -/

/-- With the force-raw flag clear, `emR3Reschedule` leaves the VM as it was and
returns what the decision procedure of the specification returns. -/
theorem emR3Reschedule_noForce (q : Queries) (vm : VM) (c : CPUMCTX)
    (h : vm.fForceRAW = false) :
    emR3Reschedule q vm c = (rescheduleDecision q vm c, vm) := by
  unfold emR3Reschedule rescheduleDecision rawModeAllowed
  simp only [h, HWACCMIsEnabled, EMIsRawRing3Enabled, EMIsRawRing0Enabled,
    X86_EFL_TF, X86_EFL_IF, X86_EFL_VM, X86_CR0_WP, X86_CR4_PAE, X86_CPUID_FEATURE_EDX_PAE,
    and_two_pow_ne_zero, mod_and_two_pow_ne_zero _ 16 (by decide), cr0_pg_pe, and_rpl,
    u1VM_ne_zero, u2IOPL_eq,
    CPUMCTX.TF, CPUMCTX.IF, CPUMCTX.V86, CPUMCTX.IOPL, CPUMCTX.PE, CPUMCTX.WP, CPUMCTX.PG,
    CPUMCTX.PAE, CPUMCTX.RPL, Queries.cpuidPAE]
  by_cases hw : vm.fHWACCMEnabled = true
  · simp [hw]
    by_cases hc : q.HWACCMR3CanExecuteGuest vm c = true <;> simp [hc]
  by_cases tf : c.eflags.testBit 8 = true
  · simp [hw, tf]
  by_cases v86 : c.eflags.testBit 17 = true
  · simp [hw, tf, v86]
  by_cases pg : c.cr0.testBit 31 = true
  swap
  · simp [hw, tf, v86, pg]
  by_cases pe : c.cr0.testBit 0 = true
  swap
  · simp [hw, tf, v86, pg, pe]
  by_cases pae : c.cr4.testBit 5 = true ∧ ¬ (q.CPUMGetGuestCpuId vm 1).testBit 6 = true
  · simp [hw, tf, v86, pg, pe, pae]
  simp only [hw, tf, v86, pg, pe, if_false, if_true, Bool.false_eq_true,
    and_self, not_true_eq_false, true_and, not_false_eq_true, Bool.not_eq_true, false_or]
  by_cases r3 : c.ss % 4 = 3
  · have r0 : ¬ c.ss % 4 = 0 := by omega
    simp only [r3, r0, if_true, false_and, or_false, true_and]
    by_cases e3 : vm.fRawR3Enabled = true <;> by_cases fi : c.eflags.testBit 9 = true <;>
      by_cases wp : c.cr0.testBit 16 = true <;> by_cases e0 : vm.fRawR0Enabled = true <;>
      by_cases a : c.cr4.testBit 5 = true <;>
      by_cases b : (q.CPUMGetGuestCpuId vm 1).testBit 6 = true <;>
      simp [a, b, e3, fi, wp, e0] at pae ⊢
  · simp only [r3, if_false, false_and, false_or]
    by_cases a : c.cr4.testBit 5 = true <;>
      by_cases b : (q.CPUMGetGuestCpuId vm 1).testBit 6 = true <;>
      simp only [a, b, not_true_eq_false, not_false_eq_true, and_true, and_false, and_self,
        Bool.false_eq_true] at pae
    all_goals
      by_cases e0 : vm.fRawR0Enabled = true
      swap
      · simp [a, b, e0]
      by_cases r0 : c.ss % 4 = 0
      swap
      · simp [a, b, e0, r0]
      by_cases sb : c.ssHid_u1DefBig = true
      swap
      · simp [a, b, e0, r0, sb]
      by_cases cb : c.csHid_u1DefBig = true
      swap
      · simp [a, b, e0, r0, sb, cb]
      by_cases wp : c.cr0.testBit 16 = true
      swap
      · simp [a, b, e0, r0, sb, cb, wp]
      by_cases pm : q.PATMShouldUseRawMode vm c.eip = true
      · simp [a, b, e0, r0, sb, cb, wp, pm]
      by_cases fi : c.eflags.testBit 9 = true
      swap
      · simp [a, b, e0, r0, sb, cb, wp, pm, fi]
      by_cases io : 2 * (c.eflags.testBit 13).toNat + (c.eflags.testBit 12).toNat = 0
      · simp [a, b, e0, r0, sb, cb, wp, pm, fi, io]
      · simp [a, b, e0, r0, sb, cb, wp, pm, fi, io]

/-- The trap-flag test of the source and bit 8 of EFLAGS are the same thing. -/
theorem tf_mask_iff (c : CPUMCTX) : c.eflags &&& X86_EFL_TF ≠ 0 ↔ c.TF = true := by
  unfold X86_EFL_TF CPUMCTX.TF
  exact and_two_pow_ne_zero _ _

/-- C1: whenever the force-raw flag is set, `emR3Reschedule` returns
`EMSTATE_RAW`, for every guest context, every answer of the collaborators,
every hardware-virtualization setting and every raw ring-0/ring-3 enable. -/
theorem emR3Reschedule_forceRaw (q : Queries) (vm : VM) (c : CPUMCTX)
    (h : vm.fForceRAW = true) : (emR3Reschedule q vm c).1 = EMSTATE_RAW := by
  simp [emR3Reschedule, h]

/-- Witness of C1: force-raw set, trap flag set, hardware virtualization enabled
and both raw rings disabled. -/
theorem emR3Reschedule_forceRaw_witness :
    vmForceRawTF.fForceRAW = true
      ∧ (emR3Reschedule qNo vmForceRawTF vmForceRawTF.ctx).1 = EMSTATE_RAW :=
  ⟨rfl, emR3Reschedule_forceRaw qNo vmForceRawTF vmForceRawTF.ctx rfl⟩

/-- C2 as stated fails: with the trap flag set, `emR3Reschedule` returns
`EMSTATE_RAW` when the force-raw flag is set, and `EMSTATE_HWACC` when hardware
virtualization is enabled and the hardware engine accepts the context. -/
theorem emR3Reschedule_trapFlag_counterexample :
    ctxTF.TF = true ∧ ctxTF.eflags &&& X86_EFL_TF ≠ 0
      ∧ (emR3Reschedule qNo vmForceRawTF ctxTF).1 = EMSTATE_RAW
      ∧ (emR3Reschedule qYes vmHwaccTF ctxTF).1 = EMSTATE_HWACC := by
  decide

/-- C2, amended: with the trap flag set, `emR3Reschedule` returns `EMSTATE_RAW`
if the force-raw flag is set, otherwise `EMSTATE_HWACC` if hardware
virtualization is enabled and `HWACCMR3CanExecuteGuest` is true, and
`EMSTATE_REM` in every other case. -/
theorem emR3Reschedule_trapFlag (q : Queries) (vm : VM) (c : CPUMCTX)
    (h : c.TF = true) :
    (emR3Reschedule q vm c).1 =
      if vm.fForceRAW = true then EMSTATE_RAW
      else if vm.fHWACCMEnabled = true ∧ q.HWACCMR3CanExecuteGuest vm c = true then EMSTATE_HWACC
      else EMSTATE_REM := by
  have hm : c.eflags &&& X86_EFL_TF ≠ 0 := (tf_mask_iff c).2 h
  by_cases hf : vm.fForceRAW = true
  · simp [emR3Reschedule, hf]
  · by_cases hw : vm.fHWACCMEnabled = true
    · by_cases hc : q.HWACCMR3CanExecuteGuest vm c = true <;>
        simp [emR3Reschedule, hf, hw, hc, HWACCMIsEnabled]
    · simp [emR3Reschedule, hf, hw, HWACCMIsEnabled, hm]

/-- Witness of the amended C2: trap flag set, force-raw clear, no hardware
virtualization. -/
theorem emR3Reschedule_trapFlag_witness :
    ctxTF.TF = true ∧ (emR3Reschedule qNo vmTF ctxTF).1 = EMSTATE_REM :=
  ⟨by decide, emR3Reschedule_trapFlag qNo vmTF ctxTF (by decide)⟩

/-- C3 as stated fails: hardware virtualization is enabled and
`HWACCMR3CanExecuteGuest` is true, but the force-raw flag is set and the result
is `EMSTATE_RAW`. -/
theorem emR3Reschedule_hwacc_counterexample :
    HWACCMIsEnabled vmForceRawTF = true
      ∧ qYes.HWACCMR3CanExecuteGuest vmForceRawTF vmForceRawTF.ctx = true
      ∧ (emR3Reschedule qYes vmForceRawTF vmForceRawTF.ctx).1 = EMSTATE_RAW
      ∧ (emR3Reschedule qYes vmForceRawTF vmForceRawTF.ctx).1 ≠ EMSTATE_HWACC := by
  decide

/-- C3, amended: when the force-raw flag is clear, hardware virtualization is
enabled and `HWACCMR3CanExecuteGuest` is true, `emR3Reschedule` returns
`EMSTATE_HWACC`. -/
theorem emR3Reschedule_hwacc (q : Queries) (vm : VM) (c : CPUMCTX)
    (hf : vm.fForceRAW = false) (hw : HWACCMIsEnabled vm = true)
    (hc : q.HWACCMR3CanExecuteGuest vm c = true) :
    (emR3Reschedule q vm c).1 = EMSTATE_HWACC := by
  simp [emR3Reschedule, hf, hw, hc]

/-- Witness of the amended C3. -/
theorem emR3Reschedule_hwacc_witness :
    vmHwaccTF.fForceRAW = false ∧ HWACCMIsEnabled vmHwaccTF = true
      ∧ qYes.HWACCMR3CanExecuteGuest vmHwaccTF vmHwaccTF.ctx = true
      ∧ (emR3Reschedule qYes vmHwaccTF vmHwaccTF.ctx).1 = EMSTATE_HWACC :=
  ⟨rfl, rfl, rfl, emR3Reschedule_hwacc qYes vmHwaccTF vmHwaccTF.ctx rfl rfl rfl⟩

/-- C4: with the force-raw flag clear, `emR3Reschedule` returns the VM unchanged
and its result is that of the decision procedure `rescheduleDecision`:
`EMSTATE_HWACC` or `EMSTATE_REM` according to `HWACCMR3CanExecuteGuest` when
hardware virtualization is enabled, and otherwise `EMSTATE_RAW` exactly when
`rawModeAllowed` holds and `EMSTATE_REM` in every other case. -/
theorem emR3Reschedule_decision (q : Queries) (vm : VM) (c : CPUMCTX)
    (h : vm.fForceRAW = false) :
    emR3Reschedule q vm c = (rescheduleDecision q vm c, vm)
      ∧ (vm.fHWACCMEnabled = true → (emR3Reschedule q vm c).1 ≠ EMSTATE_RAW) := by
  refine ⟨emR3Reschedule_noForce q vm c h, ?_⟩
  intro hw
  rw [emR3Reschedule_noForce q vm c h]
  unfold rescheduleDecision
  by_cases hc : q.HWACCMR3CanExecuteGuest vm c = true <;> simp [hw, hc]

/-- Witness of C4: the VM as initialised, running ring-0 code. -/
theorem emR3Reschedule_decision_witness :
    vmInit.fForceRAW = false
      ∧ (emR3Reschedule qNo vmInit vmInit.ctx = (rescheduleDecision qNo vmInit vmInit.ctx, vmInit)
        ∧ (vmInit.fHWACCMEnabled = true → (emR3Reschedule qNo vmInit vmInit.ctx).1 ≠ EMSTATE_RAW)) :=
  ⟨rfl, emR3Reschedule_decision qNo vmInit vmInit.ctx rfl⟩

/-- C5 as stated fails: ring-0 code (SS.RPL = 0, not virtual-8086) with IOPL 3,
force-raw clear and hardware virtualization disabled is scheduled raw when PATM
wants raw mode for the instruction pointer, because that test precedes the
IOPL test. -/
theorem emR3Reschedule_iopl_counterexample :
    vmIOPL3.fForceRAW = false ∧ HWACCMIsEnabled vmIOPL3 = false
      ∧ ctxIOPL3.RPL = 0 ∧ ctxIOPL3.V86 = false ∧ ctxIOPL3.IOPL = 3
      ∧ X86EFLAGS_u2IOPL ctxIOPL3.eflags = 3
      ∧ (emR3Reschedule qYes vmIOPL3 ctxIOPL3).1 = EMSTATE_RAW := by
  decide

/-- C5, amended: for supervisor code (SS.RPL = 0, not virtual-8086) with nonzero
IOPL, force-raw clear and hardware virtualization disabled, `emR3Reschedule`
returns `EMSTATE_REM` provided `PATMShouldUseRawMode` is false for the guest
EIP. -/
theorem emR3Reschedule_iopl (q : Queries) (vm : VM) (c : CPUMCTX)
    (hf : vm.fForceRAW = false) (hw : HWACCMIsEnabled vm = false)
    (hr : c.RPL = 0) (_hv : c.V86 = false) (hio : c.IOPL ≠ 0)
    (hp : q.PATMShouldUseRawMode vm c.eip = false) :
    (emR3Reschedule q vm c).1 = EMSTATE_REM := by
  rw [emR3Reschedule_noForce q vm c hf]
  unfold HWACCMIsEnabled at hw
  have hn : ¬ rawModeAllowed q vm c := by
    unfold rawModeAllowed
    rintro ⟨-, -, -, -, -, h3 | h0⟩
    · omega
    · rcases h0 with ⟨-, -, -, -, -, hpm | ⟨-, h⟩⟩
      · rw [hp] at hpm; exact Bool.noConfusion hpm
      · exact hio h
  simp [rescheduleDecision, hw, hn]

/-- Witness of the amended C5: ring-0 code with IOPL 3 outside patch code. -/
theorem emR3Reschedule_iopl_witness :
    vmIOPL3.fForceRAW = false ∧ HWACCMIsEnabled vmIOPL3 = false
      ∧ ctxIOPL3.RPL = 0 ∧ ctxIOPL3.V86 = false ∧ ctxIOPL3.IOPL ≠ 0
      ∧ qNo.PATMShouldUseRawMode vmIOPL3 ctxIOPL3.eip = false
      ∧ (emR3Reschedule qNo vmIOPL3 ctxIOPL3).1 = EMSTATE_REM :=
  ⟨rfl, rfl, by decide, by decide, by decide, rfl,
    emR3Reschedule_iopl qNo vmIOPL3 ctxIOPL3 rfl rfl (by decide) (by decide) (by decide) rfl⟩

/-! ## Calls keep the EM state -/

theorem emR3Reschedule_snd (q : Queries) (vm : VM) (c : CPUMCTX) :
    (emR3Reschedule q vm c).2 = vm := by
  by_cases h : vm.fForceRAW = true
  · simp [emR3Reschedule, h]
  · rw [emR3Reschedule_noForce q vm c (by simpa using h)]

theorem emR3Reschedule_fst_mem (q : Queries) (vm : VM) (c : CPUMCTX) :
    (emR3Reschedule q vm c).1 = EMSTATE_RAW ∨ (emR3Reschedule q vm c).1 = EMSTATE_HWACC
      ∨ (emR3Reschedule q vm c).1 = EMSTATE_REM := by
  by_cases h : vm.fForceRAW = true
  · simp [emR3Reschedule, h]
  · rw [emR3Reschedule_noForce q vm c (by simpa using h)]
    unfold rescheduleDecision
    split_ifs <;> simp

@[simp] theorem call_enmState (vm : VM) (w : Call) (f : VM → Int × VM) :
    (vm.call w f).2.enmState = vm.enmState := rfl

@[simp] theorem call_trace (vm : VM) (w : Call) (f : VM → Int × VM) :
    (vm.call w f).2.trace = vm.trace ++ [w] := rfl

@[simp] theorem callVoid_enmState (vm : VM) (w : Call) (f : VM → VM) :
    (vm.callVoid w f).enmState = vm.enmState := rfl

@[simp] theorem callVoid_trace (vm : VM) (w : Call) (f : VM → VM) :
    (vm.callVoid w f).trace = vm.trace ++ [w] := rfl

theorem run_enmState {α : Type} (vm : VM) (w : Call) (f : VM → Option (α × VM))
    (a : α) (vm' : VM) (h : vm.run w f = some (a, vm')) : vm'.enmState = vm.enmState := by
  unfold VM.run at h
  split at h
  · exact Option.noConfusion h
  · simp only [Option.some.injEq, Prod.mk.injEq] at h
    rw [← h.2]

@[simp] theorem VM_FF_CLEAR_enmState (vm : VM) (f : VMFF) :
    (VM_FF_CLEAR vm f).enmState = vm.enmState := rfl

@[simp] theorem VM_FF_CLEAR_trace (vm : VM) (f : VMFF) :
    (VM_FF_CLEAR vm f).trace = vm.trace := rfl

/-! ## The transition switch of `EMR3ExecuteVM` -/

/-- C6: the table of the transition `switch` of `EMR3ExecuteVM`. For every
environment and VM: `VINF_SUCCESS` keeps the VM and its state; the three
reschedule codes, halt and suspend set the state that bears their name; resume,
reschedule and reset set the value of `emR3Reschedule` on the current context;
the four guest debug events set `EMSTATE_DEBUG_GUEST_RAW` when the state is
`EMSTATE_RAW` and `EMSTATE_DEBUG_GUEST_REM` otherwise; the three hypervisor
debug events set `EMSTATE_DEBUG_HYPER`. Nothing but the state changes, and the
run result is passed on. -/
theorem EMR3ExecuteVM_switch_table (e : Env) (vm : VM) :
    EMR3ExecuteVM_switch e vm VINF_SUCCESS = Transition.go VINF_SUCCESS vm
    ∧ EMR3ExecuteVM_switch e vm VINF_EM_RESCHEDULE_RAW
        = Transition.go VINF_EM_RESCHEDULE_RAW { vm with enmState := EMSTATE_RAW }
    ∧ EMR3ExecuteVM_switch e vm VINF_EM_RESCHEDULE_HWACC
        = Transition.go VINF_EM_RESCHEDULE_HWACC { vm with enmState := EMSTATE_HWACC }
    ∧ EMR3ExecuteVM_switch e vm VINF_EM_RESCHEDULE_REM
        = Transition.go VINF_EM_RESCHEDULE_REM { vm with enmState := EMSTATE_REM }
    ∧ EMR3ExecuteVM_switch e vm VINF_EM_HALT
        = Transition.go VINF_EM_HALT { vm with enmState := EMSTATE_HALTED }
    ∧ EMR3ExecuteVM_switch e vm VINF_EM_SUSPEND
        = Transition.go VINF_EM_SUSPEND { vm with enmState := EMSTATE_SUSPENDED }
    ∧ (∀ rc ∈ [VINF_EM_RESUME, VINF_EM_RESCHEDULE, VINF_EM_RESET],
        EMR3ExecuteVM_switch e vm rc
          = Transition.go rc { vm with enmState := (emR3Reschedule e.q vm vm.ctx).1 })
    ∧ (∀ rc ∈ [VINF_EM_DBG_STEPPED, VINF_EM_DBG_STOP, VINF_EM_DBG_BREAKPOINT, VINF_EM_DBG_STEP],
        EMR3ExecuteVM_switch e vm rc
          = Transition.go rc { vm with enmState :=
              if vm.enmState = EMSTATE_RAW then EMSTATE_DEBUG_GUEST_RAW
              else EMSTATE_DEBUG_GUEST_REM })
    ∧ (∀ rc ∈ [VINF_EM_DBG_HYPER_STEPPED, VINF_EM_DBG_HYPER_BREAKPOINT,
          VINF_EM_DBG_HYPER_ASSERTION],
        EMR3ExecuteVM_switch e vm rc
          = Transition.go rc { vm with enmState := EMSTATE_DEBUG_HYPER }) := by
  refine ⟨?_, ?_, ?_, ?_, ?_, ?_, ?_, ?_, ?_⟩
  · simp [EMR3ExecuteVM_switch]
  · simp [EMR3ExecuteVM_switch, VINF_EM_RESCHEDULE_RAW, VINF_SUCCESS]
  · simp [EMR3ExecuteVM_switch, VINF_EM_RESCHEDULE_RAW, VINF_SUCCESS, VINF_EM_RESCHEDULE_HWACC]
  · simp [EMR3ExecuteVM_switch, VINF_EM_RESCHEDULE_RAW, VINF_SUCCESS, VINF_EM_RESCHEDULE_HWACC,
      VINF_EM_RESCHEDULE_REM]
  · simp [EMR3ExecuteVM_switch, VINF_EM_RESCHEDULE_RAW, VINF_SUCCESS, VINF_EM_RESCHEDULE_HWACC,
      VINF_EM_RESCHEDULE_REM, VINF_EM_HALT, VINF_EM_RESUME, VINF_EM_RESCHEDULE]
  · simp [EMR3ExecuteVM_switch, VINF_EM_RESCHEDULE_RAW, VINF_SUCCESS, VINF_EM_RESCHEDULE_HWACC,
      VINF_EM_RESCHEDULE_REM, VINF_EM_HALT, VINF_EM_RESUME, VINF_EM_RESCHEDULE, VINF_EM_SUSPEND]
  · intro rc hrc
    simp only [List.mem_cons, List.mem_singleton, List.not_mem_nil, or_false] at hrc
    rcases hrc with h | h | h <;> subst h <;>
      simp [EMR3ExecuteVM_switch, VINF_EM_RESCHEDULE_RAW, VINF_SUCCESS, VINF_EM_RESCHEDULE_HWACC,
        VINF_EM_RESCHEDULE_REM, VINF_EM_HALT, VINF_EM_RESUME, VINF_EM_RESCHEDULE,
        VINF_EM_SUSPEND, VINF_EM_RESET, emR3Reschedule_snd]
  · intro rc hrc
    simp only [List.mem_cons, List.mem_singleton, List.not_mem_nil, or_false] at hrc
    rcases hrc with h | h | h | h <;> subst h <;>
      by_cases hs : vm.enmState = EMSTATE_RAW <;>
      simp [EMR3ExecuteVM_switch, VINF_EM_RESCHEDULE_RAW, VINF_SUCCESS, VINF_EM_RESCHEDULE_HWACC,
        VINF_EM_RESCHEDULE_REM, VINF_EM_HALT, VINF_EM_RESUME, VINF_EM_RESCHEDULE,
        VINF_EM_SUSPEND, VINF_EM_RESET, VINF_EM_OFF, VINF_EM_TERMINATE, VINF_EM_DBG_STEPPED,
        VINF_EM_DBG_STOP, VINF_EM_DBG_BREAKPOINT, VINF_EM_DBG_STEP, hs]
  · intro rc hrc
    simp only [List.mem_cons, List.mem_singleton, List.not_mem_nil, or_false] at hrc
    rcases hrc with h | h | h <;> subst h <;>
      simp [EMR3ExecuteVM_switch, VINF_EM_RESCHEDULE_RAW, VINF_SUCCESS, VINF_EM_RESCHEDULE_HWACC,
        VINF_EM_RESCHEDULE_REM, VINF_EM_HALT, VINF_EM_RESUME, VINF_EM_RESCHEDULE,
        VINF_EM_SUSPEND, VINF_EM_RESET, VINF_EM_OFF, VINF_EM_TERMINATE, VINF_EM_DBG_STEPPED,
        VINF_EM_DBG_STOP, VINF_EM_DBG_BREAKPOINT, VINF_EM_DBG_STEP, VINF_EM_DBG_HYPER_STEPPED,
        VINF_EM_DBG_HYPER_BREAKPOINT, VINF_EM_DBG_HYPER_ASSERTION]

/-- C7: when the run result that reaches the transition `switch` is
`VINF_EM_OFF` or `VINF_EM_TERMINATE`, the round returns that code with the state
`EMSTATE_TERMINATING`, and the only calls it makes are `TMVirtualPause`,
`TMCpuTickPause` and, for `VINF_EM_OFF`, `VMMR3Unlock`: no inner loop, no halted
wait and no debug loop is called. A result that is `VINF_EM_OFF` or
`VINF_EM_TERMINATE` at the top of a round passes the forced-action step
unchanged, with the VM untouched: `emR3ForcedActions` is not called. -/
theorem EMR3ExecuteVM_terminal (e : Env) (idCpu fuel : Nat) (vm : VM) (fFFDone : Bool) :
    (∃ vm', EMR3ExecuteVM_act e idCpu fuel vm VINF_EM_OFF fFFDone
          = Outcome.ret Exit.powerOff VINF_EM_OFF vm'
        ∧ vm'.enmState = EMSTATE_TERMINATING
        ∧ vm'.trace = vm.trace ++ [Call.TMVirtualPause, Call.TMCpuTickPause, Call.VMMR3Unlock])
    ∧ (∃ vm', EMR3ExecuteVM_act e idCpu fuel vm VINF_EM_TERMINATE fFFDone
          = Outcome.ret Exit.terminate VINF_EM_TERMINATE vm'
        ∧ vm'.enmState = EMSTATE_TERMINATING
        ∧ vm'.trace = vm.trace ++ [Call.TMVirtualPause, Call.TMCpuTickPause])
    ∧ EMR3ExecuteVM_forcedActions e vm VINF_EM_OFF fFFDone = (VINF_EM_OFF, false, vm)
    ∧ EMR3ExecuteVM_forcedActions e vm VINF_EM_TERMINATE fFFDone
        = (VINF_EM_TERMINATE, false, vm)
    ∧ EMR3ExecuteVM_round e idCpu fuel vm VINF_EM_OFF fFFDone
        = EMR3ExecuteVM_act e idCpu fuel vm VINF_EM_OFF false
    ∧ EMR3ExecuteVM_round e idCpu fuel vm VINF_EM_TERMINATE fFFDone
        = EMR3ExecuteVM_act e idCpu fuel vm VINF_EM_TERMINATE false := by
  have hOff : EMR3ExecuteVM_forcedActions e vm VINF_EM_OFF fFFDone = (VINF_EM_OFF, false, vm) := by
    cases fFFDone <;> simp [EMR3ExecuteVM_forcedActions]
  have hTerm : EMR3ExecuteVM_forcedActions e vm VINF_EM_TERMINATE fFFDone
      = (VINF_EM_TERMINATE, false, vm) := by
    cases fFFDone <;> simp [EMR3ExecuteVM_forcedActions]
  refine ⟨?_, ?_, hOff, hTerm, ?_, ?_⟩
  · refine ⟨((({ vm with enmState := EMSTATE_TERMINATING } : VM).callVoid Call.TMVirtualPause
        e.c.TMVirtualPause).callVoid Call.TMCpuTickPause e.c.TMCpuTickPause).callVoid
        Call.VMMR3Unlock e.c.VMMR3Unlock, ?_, ?_, ?_⟩
    · simp [EMR3ExecuteVM_act, EMR3ExecuteVM_switch, VINF_EM_RESCHEDULE_RAW, VINF_SUCCESS,
        VINF_EM_RESCHEDULE_HWACC, VINF_EM_RESCHEDULE_REM, VINF_EM_HALT, VINF_EM_RESUME,
        VINF_EM_RESCHEDULE, VINF_EM_SUSPEND, VINF_EM_RESET, VINF_EM_OFF]
    · simp
    · simp
  · refine ⟨(({ vm with enmState := EMSTATE_TERMINATING } : VM).callVoid Call.TMVirtualPause
        e.c.TMVirtualPause).callVoid Call.TMCpuTickPause e.c.TMCpuTickPause, ?_, ?_, ?_⟩
    · simp [EMR3ExecuteVM_act, EMR3ExecuteVM_switch, VINF_EM_RESCHEDULE_RAW, VINF_SUCCESS,
        VINF_EM_RESCHEDULE_HWACC, VINF_EM_RESCHEDULE_REM, VINF_EM_HALT, VINF_EM_RESUME,
        VINF_EM_RESCHEDULE, VINF_EM_SUSPEND, VINF_EM_RESET, VINF_EM_OFF, VINF_EM_TERMINATE]
    · simp
    · simp
  · simp [EMR3ExecuteVM_round, hOff]
  · simp [EMR3ExecuteVM_round, hTerm]

/-! ## The merge rule of `emR3ForcedActions` -/

/-- C10 as stated fails. `UPDATE_RC` lets a later, numerically lower status
overwrite an aggregate that is already a non-success status: the remembered
`VINF_EM_RESCHEDULE` is replaced by `VINF_EM_SUSPEND`, and by a failure. In
`emR3ForcedActions` the reschedule request of the request queue is replaced by
the failure of the handy-page allocation that runs after it. -/
theorem UPDATE_RC_counterexample :
    VINF_EM_RESCHEDULE ≠ VINF_SUCCESS ∧ VINF_EM_SUSPEND < VINF_EM_RESCHEDULE
      ∧ UPDATE_RC VINF_EM_RESCHEDULE VINF_EM_SUSPEND = VINF_EM_SUSPEND
      ∧ UPDATE_RC VINF_EM_RESCHEDULE VERR_INTERNAL_ERROR = VERR_INTERNAL_ERROR
      ∧ (emR3ForcedActions envRescheduleThenFail vmRequestHandy VINF_SUCCESS).1
          = VERR_INTERNAL_ERROR
      ∧ (emR3ForcedActions envRescheduleThenFail vmRequestHandy VINF_SUCCESS).2.trace
          = [Call.VMR3ReqProcessU, Call.PGMR3PhysAllocateHandyPages] := by
  decide

/-- C10, amended: the merge rule of `UPDATE_RC`. A `VINF_SUCCESS` handler
result is ignored; an aggregate that is `VINF_SUCCESS` is replaced by every
non-success handler result; an aggregate that is a failure (negative) is never
replaced; an aggregate that is positive is replaced by a later non-success
handler result exactly when that result is numerically lower. -/
theorem UPDATE_RC_merge (rc rc2 : Int) :
    UPDATE_RC rc VINF_SUCCESS = rc
      ∧ (rc2 ≠ VINF_SUCCESS → UPDATE_RC VINF_SUCCESS rc2 = rc2)
      ∧ (rc < VINF_SUCCESS → UPDATE_RC rc rc2 = rc)
      ∧ (VINF_SUCCESS < rc → rc2 ≠ VINF_SUCCESS →
          UPDATE_RC rc rc2 = if rc2 < rc then rc2 else rc) := by
  unfold UPDATE_RC VINF_SUCCESS
  refine ⟨?_, ?_, ?_, ?_⟩
  · simp
  · intro h
    simp [h]
  · intro h
    simp [h]
  · intro h h2
    have h3 : ¬ rc < 0 := by omega
    have h4 : ¬ rc = 0 := by omega
    simp [h2, h3, h4]

/-! ## `emR3ForcedActions` keeps the EM state and a failure status -/

theorem UPDATE_RC_neg (rc rc2 : Int) (h : rc < 0) : UPDATE_RC rc rc2 = rc := by
  simp [UPDATE_RC, VINF_SUCCESS, h]

theorem StepKeeps.comp {f g : Int × VM → Int × VM} (hf : StepKeeps f) (hg : StepKeeps g) :
    StepKeeps (fun s => f (g s)) := by
  intro s
  obtain ⟨f1, f2⟩ := hf (g s)
  obtain ⟨g1, g2⟩ := hg s
  refine ⟨by rw [f1, g1], fun h => ?_⟩
  have hg' := g2 h
  rw [f2 (by rw [hg']; exact h), hg']

theorem ffDbgf_keeps (e : Env) : StepKeeps (ffDbgf e) := by
  intro s
  unfold ffDbgf
  split_ifs
  · exact ⟨rfl, fun h => UPDATE_RC_neg _ _ h⟩
  · exact ⟨rfl, fun _ => rfl⟩

theorem ffReset_keeps (e : Env) : StepKeeps (ffReset e) := by
  intro s
  unfold ffReset
  split_ifs
  · exact ⟨rfl, fun h => UPDATE_RC_neg _ _ h⟩
  · exact ⟨rfl, fun _ => rfl⟩

theorem ffCsamScanPage_keeps (e : Env) : StepKeeps (ffCsamScanPage e) := by
  intro s
  unfold ffCsamScanPage
  split_ifs
  · exact ⟨rfl, fun _ => rfl⟩
  · exact ⟨rfl, fun _ => rfl⟩

theorem ffTimer_keeps (e : Env) : StepKeeps (ffTimer e) := by
  intro s
  unfold ffTimer
  split_ifs
  · exact ⟨rfl, fun _ => rfl⟩
  · exact ⟨rfl, fun _ => rfl⟩

theorem ffInhibitInterrupts_keeps (e : Env) : StepKeeps (ffInhibitInterrupts e) := by
  intro s
  unfold ffInhibitInterrupts
  dsimp only
  split_ifs <;> first
    | exact ⟨rfl, fun h => UPDATE_RC_neg _ _ h⟩
    | exact ⟨rfl, fun _ => rfl⟩

theorem ffInterrupts_keeps (e : Env) : StepKeeps (ffInterrupts e) := by
  intro s
  unfold ffInterrupts
  split_ifs
  · exact ⟨rfl, fun h => UPDATE_RC_neg _ _ h⟩
  · exact ⟨rfl, fun h => UPDATE_RC_neg _ _ h⟩
  · exact ⟨rfl, fun _ => rfl⟩
  · exact ⟨rfl, fun _ => rfl⟩

theorem ffHandyPages_keeps (e : Env) : StepKeeps (ffHandyPages e) := by
  intro s
  unfold ffHandyPages
  split_ifs
  · exact ⟨rfl, fun h => UPDATE_RC_neg _ _ h⟩
  · exact ⟨rfl, fun _ => rfl⟩

theorem ffPdmQueues_enmState (e : Env) (vm : VM) : (ffPdmQueues e vm).enmState = vm.enmState := by
  unfold ffPdmQueues
  split_ifs <;> rfl

theorem ffPdmDma_enmState (e : Env) (vm : VM) : (ffPdmDma e vm).enmState = vm.enmState := by
  unfold ffPdmDma
  split_ifs <;> rfl

theorem ffRemHandlerNotify_enmState (e : Env) (vm : VM) :
    (ffRemHandlerNotify e vm).enmState = vm.enmState := by
  unfold ffRemHandlerNotify
  split_ifs <;> rfl

theorem emR3ForcedActions_post_ret (e : Env) (vm : VM) (rc r : Int) (vm' : VM)
    (h : emR3ForcedActions_post e vm rc = FFStep.ret r vm') :
    r = VINF_EM_TERMINATE ∧ vm'.enmState = vm.enmState := by
  unfold emR3ForcedActions_post at h
  by_cases h1 : VM_FF_ISPENDING vm e.m.VM_FF_NORMAL_PRIORITY_POST_MASK = true
  swap
  · rw [if_neg h1] at h
    exact FFStep.noConfusion h
  rw [if_pos h1] at h
  by_cases h2 : VM_FF_ISSET vm VM_FF_TERMINATE = true
  swap
  · rw [if_neg h2] at h
    exact FFStep.noConfusion h
  rw [if_pos h2] at h
  simp only [FFStep.ret.injEq] at h
  exact ⟨h.1.symm, by rw [← h.2]⟩

theorem emR3ForcedActions_post_go (e : Env) (vm : VM) (rc r : Int) (vm' : VM)
    (h : emR3ForcedActions_post e vm rc = FFStep.go r vm') :
    vm'.enmState = vm.enmState ∧ (rc < 0 → r = rc) := by
  have k := ((ffCsamScanPage_keeps e).comp ((ffReset_keeps e).comp (ffDbgf_keeps e))) (rc, vm)
  dsimp only at k
  unfold emR3ForcedActions_post at h
  by_cases h1 : VM_FF_ISPENDING vm e.m.VM_FF_NORMAL_PRIORITY_POST_MASK = true
  swap
  · rw [if_neg h1] at h
    simp only [FFStep.go.injEq] at h
    exact ⟨by rw [← h.2], fun _ => h.1.symm⟩
  rw [if_pos h1] at h
  by_cases h2 : VM_FF_ISSET vm VM_FF_TERMINATE = true
  · rw [if_pos h2] at h
    exact FFStep.noConfusion h
  rw [if_neg h2] at h
  simp only [FFStep.go.injEq] at h
  rw [← h.1, ← h.2]
  exact k

theorem emR3ForcedActions_normal_ret (e : Env) (vm : VM) (rc r : Int) (vm' : VM)
    (h : emR3ForcedActions_normal e vm rc = FFStep.ret r vm') :
    (r = VINF_EM_OFF ∨ r = VINF_EM_TERMINATE) ∧ vm'.enmState = vm.enmState := by
  unfold emR3ForcedActions_normal at h
  by_cases h1 : VM_FF_ISPENDING vm e.m.VM_FF_NORMAL_PRIORITY_MASK = true
  swap
  · rw [if_neg h1] at h
    exact FFStep.noConfusion h
  rw [if_pos h1] at h
  dsimp only at h
  by_cases h2 : VM_FF_ISSET (ffPdmDma e (ffPdmQueues e vm)) VM_FF_REQUEST = true
  swap
  · rw [if_neg h2] at h
    exact FFStep.noConfusion h
  rw [if_pos h2] at h
  by_cases h3 : ((ffPdmDma e (ffPdmQueues e vm)).call Call.VMR3ReqProcessU e.c.VMR3ReqProcessU).1
      = VINF_EM_OFF
    ∨ ((ffPdmDma e (ffPdmQueues e vm)).call Call.VMR3ReqProcessU e.c.VMR3ReqProcessU).1
      = VINF_EM_TERMINATE
  swap
  · rw [if_neg h3] at h
    exact FFStep.noConfusion h
  rw [if_pos h3] at h
  simp only [FFStep.ret.injEq] at h
  rw [← h.1, ← h.2]
  refine ⟨h3, ?_⟩
  rw [call_enmState, ffPdmDma_enmState, ffPdmQueues_enmState]

theorem emR3ForcedActions_normal_go (e : Env) (vm : VM) (rc r : Int) (vm' : VM)
    (h : emR3ForcedActions_normal e vm rc = FFStep.go r vm') :
    vm'.enmState = vm.enmState ∧ (rc < 0 → r = rc) := by
  unfold emR3ForcedActions_normal at h
  by_cases h1 : VM_FF_ISPENDING vm e.m.VM_FF_NORMAL_PRIORITY_MASK = true
  swap
  · rw [if_neg h1] at h
    simp only [FFStep.go.injEq] at h
    exact ⟨by rw [← h.2], fun _ => h.1.symm⟩
  rw [if_pos h1] at h
  dsimp only at h
  by_cases h2 : VM_FF_ISSET (ffPdmDma e (ffPdmQueues e vm)) VM_FF_REQUEST = true
  swap
  · rw [if_neg h2] at h
    simp only [FFStep.go.injEq] at h
    rw [← h.1, ← h.2]
    refine ⟨?_, fun _ => rfl⟩
    rw [ffRemHandlerNotify_enmState, ffPdmDma_enmState, ffPdmQueues_enmState]
  rw [if_pos h2] at h
  by_cases h3 : ((ffPdmDma e (ffPdmQueues e vm)).call Call.VMR3ReqProcessU e.c.VMR3ReqProcessU).1
      = VINF_EM_OFF
    ∨ ((ffPdmDma e (ffPdmQueues e vm)).call Call.VMR3ReqProcessU e.c.VMR3ReqProcessU).1
      = VINF_EM_TERMINATE
  · rw [if_pos h3] at h
    exact FFStep.noConfusion h
  rw [if_neg h3] at h
  simp only [FFStep.go.injEq] at h
  rw [← h.1, ← h.2]
  refine ⟨?_, fun hn => UPDATE_RC_neg _ _ hn⟩
  rw [ffRemHandlerNotify_enmState, call_enmState, ffPdmDma_enmState, ffPdmQueues_enmState]

theorem emR3ForcedActions_poll_enmState (e : Env) (vm : VM) :
    (emR3ForcedActions_poll e vm).enmState = vm.enmState := by
  unfold emR3ForcedActions_poll
  simp only []
  split_ifs <;> rfl

theorem emR3ForcedActions_pre_spec (e : Env) (vm : VM) (rc : Int) :
    (emR3ForcedActions_pre e vm rc).2.enmState = vm.enmState
      ∧ (rc < 0 → (emR3ForcedActions_pre e vm rc).1 = rc
                  ∨ (emR3ForcedActions_pre e vm rc).1 = VINF_EM_TERMINATE) := by
  have k := ((ffDbgf_keeps e).comp ((ffHandyPages_keeps e).comp ((ffInterrupts_keeps e).comp
    ((ffInhibitInterrupts_keeps e).comp (ffTimer_keeps e))))) (rc, vm)
  dsimp only at k
  unfold emR3ForcedActions_pre
  by_cases h1 : VM_FF_ISPENDING vm e.m.VM_FF_HIGH_PRIORITY_PRE_MASK = true
  swap
  · rw [if_neg h1]
    exact ⟨rfl, fun _ => Or.inl rfl⟩
  rw [if_pos h1]
  dsimp only
  by_cases h2 : VM_FF_ISSET (ffDbgf e (ffHandyPages e (ffInterrupts e
      (ffInhibitInterrupts e (ffTimer e (rc, vm)))))).2 VM_FF_TERMINATE = true
  · rw [if_pos h2]
    exact ⟨k.1, fun _ => Or.inr rfl⟩
  · rw [if_neg h2]
    exact ⟨k.1, fun h => Or.inl (k.2 h)⟩

/-- The forced-action dispatcher never touches the EM state, and it answers a
failure status with that status unless it takes one of its short-circuit
returns with `VINF_EM_TERMINATE` or `VINF_EM_OFF`. -/
theorem emR3ForcedActions_spec (e : Env) (vm : VM) (rc : Int) :
    (emR3ForcedActions e vm rc).2.enmState = vm.enmState
      ∧ (rc < 0 → (emR3ForcedActions e vm rc).1 = rc
                  ∨ (emR3ForcedActions e vm rc).1 = VINF_EM_TERMINATE
                  ∨ (emR3ForcedActions e vm rc).1 = VINF_EM_OFF) := by
  unfold emR3ForcedActions
  split
  · rename_i r vm1 h1
    obtain ⟨a, b⟩ := emR3ForcedActions_post_ret e vm rc r vm1 h1
    exact ⟨b, fun _ => Or.inr (Or.inl a)⟩
  · rename_i rc1 vm1 h1
    obtain ⟨a, b⟩ := emR3ForcedActions_post_go e vm rc rc1 vm1 h1
    split
    · rename_i r vm2 h2
      obtain ⟨c, d⟩ := emR3ForcedActions_normal_ret e vm1 rc1 r vm2 h2
      refine ⟨by rw [d, a], fun _ => ?_⟩
      rcases c with c | c
      · exact Or.inr (Or.inr c)
      · exact Or.inr (Or.inl c)
    · rename_i rc2 vm2 h2
      obtain ⟨c, d⟩ := emR3ForcedActions_normal_go e vm1 rc1 rc2 vm2 h2
      obtain ⟨p, q⟩ := emR3ForcedActions_pre_spec e (emR3ForcedActions_poll e vm2) rc2
      refine ⟨by rw [p, emR3ForcedActions_poll_enmState, c, a], fun hn => ?_⟩
      have e1 : rc1 = rc := b hn
      have e2 : rc2 = rc := by rw [d (by rw [e1]; exact hn), e1]
      rcases q (by rw [e2]; exact hn) with q | q
      · exact Or.inl (by rw [q, e2])
      · exact Or.inr (Or.inl q)

/-! ## The debug loop keeps the EM state -/

theorem emR3Debug_event_enmState (e : Env) (vm : VM) (rc r : Int) (vm' : VM)
    (h : emR3Debug_event e vm rc = some (r, vm')) : vm'.enmState = vm.enmState := by
  unfold emR3Debug_event at h
  split_ifs at h
  all_goals first
    | exact run_enmState _ _ _ _ _ h
    | (simp only [Option.some.injEq] at h
       have h2 := congrArg (fun x => x.2.enmState) h
       exact h2.symm)

theorem emR3Debug_enmState (e : Env) (fuel : Nat) :
    ∀ (vm : VM) (rc r : Int) (vm' : VM),
      emR3Debug e fuel vm rc = some (r, vm') → vm'.enmState = vm.enmState := by
  induction fuel with
  | zero =>
    intro vm rc r vm' h
    exact Option.noConfusion h
  | succ n ih =>
    intro vm rc r vm' h
    rw [emR3Debug] at h
    split at h
    · exact Option.noConfusion h
    · rename_i rc1 vm1 hev
      have h1 := emR3Debug_event_enmState e vm rc rc1 vm1 hev
      split_ifs at h with c1 c2 c3 c4 c5 c6
      · rw [ih _ _ _ _ h, h1]
      · split at h
        · exact Option.noConfusion h
        · rename_i rc2 vm2 hres
          have h2 := run_enmState _ _ _ _ _ hres
          split_ifs at h
          · rw [ih _ _ _ _ h, h2, h1]
          · simp only [Option.some.injEq, Prod.mk.injEq] at h
            rw [← h.2, h2, h1]
          · simp only [Option.some.injEq, Prod.mk.injEq] at h
            rw [← h.2, h2, h1]
      · simp only [Option.some.injEq, Prod.mk.injEq] at h
        rw [← h.2, h1]
      · simp only [Option.some.injEq, Prod.mk.injEq] at h
        rw [← h.2, h1]
      · simp only [Option.some.injEq, Prod.mk.injEq] at h
        rw [← h.2, h1]
      · simp only [Option.some.injEq, Prod.mk.injEq] at h
        rw [← h.2, h1]
      · simp only [Option.some.injEq, Prod.mk.injEq] at h
        rw [← h.2, h1]
      · rw [ih _ _ _ _ h, h1]

/-! ## The debug loop only appends to the trace -/

theorem run_trace {α : Type} (vm : VM) (w : Call) (f : VM → Option (α × VM))
    (a : α) (vm' : VM) (h : vm.run w f = some (a, vm')) : ∃ t, vm'.trace = vm.trace ++ t := by
  unfold VM.run at h
  split at h
  · exact Option.noConfusion h
  · rename_i a1 vm1 _
    simp only [Option.some.injEq, Prod.mk.injEq] at h
    exact ⟨w :: vm1.trace, by rw [← h.2]⟩

theorem emR3Debug_event_trace (e : Env) (vm : VM) (rc r : Int) (vm' : VM)
    (h : emR3Debug_event e vm rc = some (r, vm')) : ∃ t, vm'.trace = vm.trace ++ t := by
  unfold emR3Debug_event at h
  split_ifs at h
  all_goals first
    | exact run_trace _ _ _ _ _ h
    | (simp only [Option.some.injEq] at h
       have h2 := congrArg (fun x => x.2.trace) h
       exact ⟨_, h2.symm⟩)

theorem emR3Debug_trace (e : Env) (fuel : Nat) :
    ∀ (vm : VM) (rc r : Int) (vm' : VM),
      emR3Debug e fuel vm rc = some (r, vm') → ∃ t, vm'.trace = vm.trace ++ t := by
  induction fuel with
  | zero =>
    intro vm rc r vm' h
    exact Option.noConfusion h
  | succ n ih =>
    intro vm rc r vm' h
    rw [emR3Debug] at h
    split at h
    · exact Option.noConfusion h
    · rename_i rc1 vm1 hev
      obtain ⟨t1, h1⟩ := emR3Debug_event_trace e vm rc rc1 vm1 hev
      have fin : ∀ v : VM, (∃ t, v.trace = vm1.trace ++ t) → ∃ t, v.trace = vm.trace ++ t := by
        rintro v ⟨t, ht⟩
        exact ⟨t1 ++ t, by rw [ht, h1, List.append_assoc]⟩
      split_ifs at h with c1 c2 c3 c4 c5 c6
      · exact fin _ (ih _ _ _ _ h)
      · split at h
        · exact Option.noConfusion h
        · rename_i rc2 vm2 hres
          obtain ⟨t2, h2⟩ := run_trace _ _ _ _ _ hres
          have fin2 : ∀ v : VM, (∃ t, v.trace = vm2.trace ++ t) → ∃ t, v.trace = vm.trace ++ t := by
            rintro v ⟨t, ht⟩
            exact fin v ⟨t2 ++ t, by rw [ht, h2, List.append_assoc]⟩
          split_ifs at h
          · exact fin2 _ (ih _ _ _ _ h)
          · simp only [Option.some.injEq, Prod.mk.injEq] at h
            exact fin2 _ ⟨[], by rw [← h.2, List.append_nil]⟩
          · simp only [Option.some.injEq, Prod.mk.injEq] at h
            exact fin2 _ ⟨[], by rw [← h.2, List.append_nil]⟩
      · simp only [Option.some.injEq, Prod.mk.injEq] at h
        exact fin _ ⟨[], by rw [← h.2, List.append_nil]⟩
      · simp only [Option.some.injEq, Prod.mk.injEq] at h
        exact fin _ ⟨[], by rw [← h.2, List.append_nil]⟩
      · simp only [Option.some.injEq, Prod.mk.injEq] at h
        exact fin _ ⟨[], by rw [← h.2, List.append_nil]⟩
      · simp only [Option.some.injEq, Prod.mk.injEq] at h
        exact fin _ ⟨[], by rw [← h.2, List.append_nil]⟩
      · simp only [Option.some.injEq, Prod.mk.injEq] at h
        exact fin _ ⟨[], by rw [← h.2, List.append_nil]⟩
      · exact fin _ (ih _ _ _ _ h)

/-! ## One round of the outer loop -/

theorem EMR3ExecuteVM_forcedActions_enmState (e : Env) (vm : VM) (rc : Int) (f : Bool) :
    (EMR3ExecuteVM_forcedActions e vm rc f).2.2.enmState = vm.enmState := by
  unfold EMR3ExecuteVM_forcedActions
  dsimp only
  split_ifs
  · exact (emR3ForcedActions_spec e _ rc).1
  · exact (emR3ForcedActions_spec e _ rc).1
  · rfl
  · rfl

theorem EMR3ExecuteVM_forcedActions_neg (e : Env) (vm : VM) (rc : Int) (f : Bool) (h : rc < 0) :
    (EMR3ExecuteVM_forcedActions e vm rc f).1 = rc
      ∨ (EMR3ExecuteVM_forcedActions e vm rc f).1 = VINF_EM_TERMINATE
      ∨ (EMR3ExecuteVM_forcedActions e vm rc f).1 = VINF_EM_OFF := by
  unfold EMR3ExecuteVM_forcedActions
  dsimp only
  split_ifs with h1 h2
  · exfalso
    have h3 := h2.1
    rcases (emR3ForcedActions_spec e _ rc).2 h with k | k | k <;>
      rw [k] at h3 <;> simp only [VINF_EM_RESCHEDULE_REM, VINF_EM_RESCHEDULE_HWACC,
        VINF_EM_TERMINATE, VINF_EM_OFF] at h3 <;> omega
  · exact (emR3ForcedActions_spec e _ rc).2 h
  · exact Or.inl rfl
  · exact Or.inl rfl

theorem EMR3ExecuteVM_switch_unrecognized (e : Env) (vm : VM) (rc : Int)
    (h : rc ∉ switchCodes) :
    EMR3ExecuteVM_switch e vm rc
      = Transition.go (if 0 ≤ rc then VERR_EM_INTERNAL_ERROR else rc)
          { vm with enmState := EMSTATE_GURU_MEDITATION } := by
  simp only [switchCodes, List.mem_cons, List.mem_singleton, List.not_mem_nil, or_false,
    not_or] at h
  obtain ⟨h1, h2, h3, h4, h5, h6, h7, h8, h9, h10, h11, h12, h13, h14, h15, h16, h17, h18, h19⟩
    := h
  unfold EMR3ExecuteVM_switch
  simp only [h1, h2, h3, h4, h5, h6, h7, h8, h9, h10, h11, h12, h13, h14, h15, h16, h17, h18,
    h19, if_false, or_self]
  simp only [RT_SUCCESS, VINF_SUCCESS, ge_iff_le, decide_eq_true_eq]

theorem EMR3ExecuteVM_switch_neg (e : Env) (vm : VM) (rc : Int) (h : rc < 0) :
    EMR3ExecuteVM_switch e vm rc
      = Transition.go rc { vm with enmState := EMSTATE_GURU_MEDITATION } := by
  by_cases hr : rc = VERR_VMM_RING0_ASSERTION
  · subst hr
    simp [EMR3ExecuteVM_switch, VINF_SUCCESS, VINF_EM_RESCHEDULE_RAW, VINF_EM_RESCHEDULE_HWACC,
      VINF_EM_RESCHEDULE_REM, VINF_EM_RESUME, VINF_EM_RESCHEDULE, VINF_EM_HALT, VINF_EM_SUSPEND,
      VINF_EM_RESET, VINF_EM_OFF, VINF_EM_TERMINATE, VINF_EM_DBG_STEPPED, VINF_EM_DBG_STOP,
      VINF_EM_DBG_BREAKPOINT, VINF_EM_DBG_STEP, VINF_EM_DBG_HYPER_STEPPED,
      VINF_EM_DBG_HYPER_BREAKPOINT, VINF_EM_DBG_HYPER_ASSERTION, VERR_VMM_RING0_ASSERTION]
  · have hn : rc ∉ switchCodes := by
      simp only [switchCodes, List.mem_cons, List.mem_singleton, List.not_mem_nil, or_false,
        not_or, VINF_SUCCESS, VINF_EM_RESCHEDULE_RAW, VINF_EM_RESCHEDULE_HWACC,
        VINF_EM_RESCHEDULE_REM, VINF_EM_RESUME, VINF_EM_RESCHEDULE, VINF_EM_HALT,
        VINF_EM_SUSPEND, VINF_EM_RESET, VINF_EM_OFF, VINF_EM_TERMINATE, VINF_EM_DBG_STEPPED,
        VINF_EM_DBG_STOP, VINF_EM_DBG_BREAKPOINT, VINF_EM_DBG_STEP, VINF_EM_DBG_HYPER_STEPPED,
        VINF_EM_DBG_HYPER_BREAKPOINT, VINF_EM_DBG_HYPER_ASSERTION]
      refine ⟨?_, ?_, ?_, ?_, ?_, ?_, ?_, ?_, ?_, ?_, ?_, ?_, ?_, ?_, ?_, ?_, ?_, ?_, hr⟩ <;> omega
    rw [EMR3ExecuteVM_switch_unrecognized e vm rc hn, if_neg (by omega)]

theorem EMR3ExecuteVM_dispatch_guru (e : Env) (idCpu fuel : Nat) (vm : VM) (rc : Int)
    (f : Bool) (h : vm.enmState = EMSTATE_GURU_MEDITATION) :
    EMR3ExecuteVM_dispatch e idCpu fuel vm rc f
      = match emR3Debug e fuel (((vm.callVoid Call.TMVirtualPause e.c.TMVirtualPause).callVoid
            Call.TMCpuTickPause e.c.TMCpuTickPause).callVoid (Call.VMMR3FatalDump rc)
            (e.c.VMMR3FatalDump rc)) rc with
        | none => Outcome.hang
        | some x => Outcome.ret Exit.guruMeditation rc
            (x.2.callVoid Call.VMMR3Unlock e.c.VMMR3Unlock) := by
  unfold EMR3ExecuteVM_dispatch
  rw [h]
  dsimp only
  split <;> rename_i hd <;> rw [hd]

/-- A round whose transition `switch` sets `EMSTATE_GURU_MEDITATION`: it hangs
when the debug loop of the guru meditation does not return, and returns the
status at the `return` of that case, with the state unchanged, when it does. -/
theorem EMR3ExecuteVM_act_guru (e : Env) (idCpu fuel : Nat) (vm : VM) (rc r : Int) (f : Bool)
    (h : EMR3ExecuteVM_switch e vm rc
      = Transition.go r { vm with enmState := EMSTATE_GURU_MEDITATION }) :
    EMR3ExecuteVM_act e idCpu fuel vm rc f
      = match emR3Debug e fuel (guruEntry e vm r) r with
        | none => Outcome.hang
        | some x => Outcome.ret Exit.guruMeditation r
            (x.2.callVoid Call.VMMR3Unlock e.c.VMMR3Unlock) := by
  unfold EMR3ExecuteVM_act
  rw [h]
  dsimp only
  rw [EMR3ExecuteVM_dispatch_guru _ _ _ _ _ _ (by rfl)]
  rfl

theorem EMR3ExecuteVM_act_guru_cases (e : Env) (idCpu fuel : Nat) (vm : VM) (rc r : Int)
    (f : Bool)
    (h : EMR3ExecuteVM_switch e vm rc
      = Transition.go r { vm with enmState := EMSTATE_GURU_MEDITATION }) :
    (emR3Debug e fuel (guruEntry e vm r) r = none
        ∧ EMR3ExecuteVM_act e idCpu fuel vm rc f = Outcome.hang)
    ∨ (∃ vm', (emR3Debug e fuel (guruEntry e vm r) r).isSome = true
        ∧ EMR3ExecuteVM_act e idCpu fuel vm rc f = Outcome.ret Exit.guruMeditation r vm'
        ∧ vm'.enmState = EMSTATE_GURU_MEDITATION
        ∧ Call.VMMR3FatalDump r ∈ vm'.trace) := by
  rw [EMR3ExecuteVM_act_guru e idCpu fuel vm rc r f h]
  cases hd : emR3Debug e fuel (guruEntry e vm r) r with
  | none => exact Or.inl ⟨rfl, rfl⟩
  | some x =>
    refine Or.inr ⟨x.2.callVoid Call.VMMR3Unlock e.c.VMMR3Unlock, rfl, rfl, ?_, ?_⟩
    · rw [callVoid_enmState, emR3Debug_enmState e fuel _ _ x.1 x.2 hd]
      rfl
    · obtain ⟨t, ht⟩ := emR3Debug_trace e fuel _ _ x.1 x.2 hd
      rw [callVoid_trace, ht]
      simp [guruEntry]

theorem EMR3ExecuteVM_act_powerOff (e : Env) (idCpu fuel : Nat) (vm : VM) (f : Bool) :
    ∃ vm', EMR3ExecuteVM_act e idCpu fuel vm VINF_EM_OFF f
        = Outcome.ret Exit.powerOff VINF_EM_OFF vm'
      ∧ vm'.enmState = EMSTATE_TERMINATING := by
  refine ⟨((({ vm with enmState := EMSTATE_TERMINATING } : VM).callVoid Call.TMVirtualPause
      e.c.TMVirtualPause).callVoid Call.TMCpuTickPause e.c.TMCpuTickPause).callVoid
      Call.VMMR3Unlock e.c.VMMR3Unlock, ?_, rfl⟩
  simp [EMR3ExecuteVM_act, EMR3ExecuteVM_switch, VINF_EM_RESCHEDULE_RAW, VINF_SUCCESS,
    VINF_EM_RESCHEDULE_HWACC, VINF_EM_RESCHEDULE_REM, VINF_EM_HALT, VINF_EM_RESUME,
    VINF_EM_RESCHEDULE, VINF_EM_SUSPEND, VINF_EM_RESET, VINF_EM_OFF]

theorem EMR3ExecuteVM_act_terminate (e : Env) (idCpu fuel : Nat) (vm : VM) (f : Bool) :
    ∃ vm', EMR3ExecuteVM_act e idCpu fuel vm VINF_EM_TERMINATE f
        = Outcome.ret Exit.terminate VINF_EM_TERMINATE vm'
      ∧ vm'.enmState = EMSTATE_TERMINATING := by
  refine ⟨(({ vm with enmState := EMSTATE_TERMINATING } : VM).callVoid Call.TMVirtualPause
      e.c.TMVirtualPause).callVoid Call.TMCpuTickPause e.c.TMCpuTickPause, ?_, rfl⟩
  simp [EMR3ExecuteVM_act, EMR3ExecuteVM_switch, VINF_EM_RESCHEDULE_RAW, VINF_SUCCESS,
    VINF_EM_RESCHEDULE_HWACC, VINF_EM_RESCHEDULE_REM, VINF_EM_HALT, VINF_EM_RESUME,
    VINF_EM_RESCHEDULE, VINF_EM_SUSPEND, VINF_EM_RESET, VINF_EM_OFF, VINF_EM_TERMINATE]

theorem guruStatus_neg (rc : Int) : guruStatus rc < 0 := by
  unfold guruStatus RT_SUCCESS VINF_SUCCESS VERR_EM_INTERNAL_ERROR
  split_ifs with h
  · decide
  · simpa using h

theorem guruStatus_eq (rc : Int) :
    guruStatus rc = if 0 ≤ rc then VERR_EM_INTERNAL_ERROR else rc := by
  simp [guruStatus, RT_SUCCESS, VINF_SUCCESS]

theorem guruStatus_of_neg (rc : Int) (h : rc < 0) : guruStatus rc = rc := by
  rw [guruStatus_eq, if_neg (by omega)]

/-- C8 as stated fails. The guest executes HLT, and while the VM is halted the
terminate flag is raised and the wait returns the failure `VERR_INTERNAL_ERROR`,
a status the transition `switch` has no case for. The next round hands that
status to `emR3ForcedActions`, which answers `VINF_EM_TERMINATE`: the run ends in
`EMSTATE_TERMINATING` with the informational status `VINF_EM_TERMINATE`, there
is no guru meditation, and the failure status is dropped. -/
theorem EMR3ExecuteVM_unrecognized_counterexample :
    VERR_INTERNAL_ERROR ∉ switchCodes ∧ VERR_INTERNAL_ERROR ≠ VINF_SUCCESS
      ∧ (emR3ForcedActions envHaltedTerminate (vmInit.raise VM_FF_TERMINATE)
          VERR_INTERNAL_ERROR).1 = VINF_EM_TERMINATE
      ∧ summary (EMR3ExecuteVM envHaltedTerminate 0 3 vmInit)
        = some (Exit.terminate, VINF_EM_TERMINATE, EMSTATE_TERMINATING,
            [Call.VMMR3Lock, Call.TMVirtualResume, Call.TMCpuTickResume,
             Call.VMMR3Unlock, Call.VMMR3Lock, Call.emR3RawExecute,
             Call.VMMR3Unlock, Call.VMMR3Lock, Call.VMR3WaitHalted false,
             Call.emR3ForcedActions VERR_INTERNAL_ERROR,
             Call.TMVirtualPause, Call.TMCpuTickPause])
      ∧ ¬ VINF_EM_TERMINATE < 0 := by
  decide

/-- C8, amended. Let `rc` be neither `VINF_SUCCESS` nor a code the transition
`switch` of `EMR3ExecuteVM` has a case for. When `rc` reaches the `switch`, the
state becomes `EMSTATE_GURU_MEDITATION` and the status becomes `guruStatus rc`,
a failure: `rc` itself if it is negative, `VERR_EM_INTERNAL_ERROR` otherwise;
the round hangs if the debug loop of the guru meditation does not return, and
as soon as that loop returns the round returns this failure status, in state
`EMSTATE_GURU_MEDITATION` and after `VMMR3FatalDump`. A negative `rc` at the top
of a round reaches the `switch` unchanged unless the forced-action step answers
`VINF_EM_TERMINATE` or `VINF_EM_OFF`, and then the round returns that code in
state `EMSTATE_TERMINATING`. -/
theorem EMR3ExecuteVM_unrecognized (e : Env) (idCpu fuel : Nat) (vm : VM) (rc : Int)
    (fFFDone : Bool) (h : rc ∉ switchCodes) :
    guruStatus rc < 0
    ∧ (rc < 0 → guruStatus rc = rc)
    ∧ (0 ≤ rc → guruStatus rc = VERR_EM_INTERNAL_ERROR)
    ∧ EMR3ExecuteVM_switch e vm rc
        = Transition.go (guruStatus rc) { vm with enmState := EMSTATE_GURU_MEDITATION }
    ∧ (emR3Debug e fuel (guruEntry e vm (guruStatus rc)) (guruStatus rc) = none →
        EMR3ExecuteVM_act e idCpu fuel vm rc fFFDone = Outcome.hang)
    ∧ (∀ x, emR3Debug e fuel (guruEntry e vm (guruStatus rc)) (guruStatus rc) = some x →
        ∃ vm', EMR3ExecuteVM_act e idCpu fuel vm rc fFFDone
            = Outcome.ret Exit.guruMeditation (guruStatus rc) vm'
          ∧ vm'.enmState = EMSTATE_GURU_MEDITATION
          ∧ Call.VMMR3FatalDump (guruStatus rc) ∈ vm'.trace)
    ∧ (rc < 0 →
        ((EMR3ExecuteVM_forcedActions e vm rc fFFDone).1 = rc
          ∧ EMR3ExecuteVM_round e idCpu fuel vm rc fFFDone
            = EMR3ExecuteVM_act e idCpu fuel (EMR3ExecuteVM_forcedActions e vm rc fFFDone).2.2 rc
                (EMR3ExecuteVM_forcedActions e vm rc fFFDone).2.1)
        ∨ ((EMR3ExecuteVM_forcedActions e vm rc fFFDone).1 = VINF_EM_TERMINATE
          ∧ ∃ vm', EMR3ExecuteVM_round e idCpu fuel vm rc fFFDone
              = Outcome.ret Exit.terminate VINF_EM_TERMINATE vm'
            ∧ vm'.enmState = EMSTATE_TERMINATING)
        ∨ ((EMR3ExecuteVM_forcedActions e vm rc fFFDone).1 = VINF_EM_OFF
          ∧ ∃ vm', EMR3ExecuteVM_round e idCpu fuel vm rc fFFDone
              = Outcome.ret Exit.powerOff VINF_EM_OFF vm'
            ∧ vm'.enmState = EMSTATE_TERMINATING)) := by
  have hsw : EMR3ExecuteVM_switch e vm rc
      = Transition.go (guruStatus rc) { vm with enmState := EMSTATE_GURU_MEDITATION } := by
    rw [EMR3ExecuteVM_switch_unrecognized e vm rc h, guruStatus_eq]
  refine ⟨guruStatus_neg rc, guruStatus_of_neg rc, ?_, hsw, ?_, ?_, ?_⟩
  · intro h0
    rw [guruStatus_eq, if_pos h0]
  · intro hn
    rcases EMR3ExecuteVM_act_guru_cases e idCpu fuel vm rc (guruStatus rc) fFFDone hsw with
      ⟨_, k⟩ | ⟨vm', k, _⟩
    · exact k
    · rw [hn] at k
      exact Bool.noConfusion k
  · intro x hx
    rcases EMR3ExecuteVM_act_guru_cases e idCpu fuel vm rc (guruStatus rc) fFFDone hsw with
      ⟨k, _⟩ | ⟨vm', _, k⟩
    · rw [hx] at k
      exact Option.noConfusion k
    · exact ⟨vm', k⟩
  · intro hn
    rcases EMR3ExecuteVM_forcedActions_neg e vm rc fFFDone hn with k | k | k
    · refine Or.inl ⟨k, ?_⟩
      unfold EMR3ExecuteVM_round
      dsimp only
      rw [k]
    · refine Or.inr (Or.inl ⟨k, ?_⟩)
      unfold EMR3ExecuteVM_round
      dsimp only
      rw [k]
      exact EMR3ExecuteVM_act_terminate e idCpu fuel _ _
    · refine Or.inr (Or.inr ⟨k, ?_⟩)
      unfold EMR3ExecuteVM_round
      dsimp only
      rw [k]
      exact EMR3ExecuteVM_act_powerOff e idCpu fuel _ _

/-- Witness of the amended C8: the failure `VERR_REM_TOO_MANY_TRAPS`, for which the
transition `switch` has no case, in the VM as initialised with no debugger
attached. -/
theorem EMR3ExecuteVM_unrecognized_witness :
    VERR_REM_TOO_MANY_TRAPS ∉ switchCodes
    ∧ (guruStatus VERR_REM_TOO_MANY_TRAPS < 0
    ∧ (VERR_REM_TOO_MANY_TRAPS < 0 → guruStatus VERR_REM_TOO_MANY_TRAPS = VERR_REM_TOO_MANY_TRAPS)
    ∧ (0 ≤ VERR_REM_TOO_MANY_TRAPS → guruStatus VERR_REM_TOO_MANY_TRAPS = VERR_EM_INTERNAL_ERROR)
    ∧ EMR3ExecuteVM_switch (envReturn VINF_SUCCESS) vmInit VERR_REM_TOO_MANY_TRAPS
        = Transition.go (guruStatus VERR_REM_TOO_MANY_TRAPS) { vmInit with enmState := EMSTATE_GURU_MEDITATION }
    ∧ (emR3Debug (envReturn VINF_SUCCESS) 2 (guruEntry (envReturn VINF_SUCCESS) vmInit (guruStatus VERR_REM_TOO_MANY_TRAPS)) (guruStatus VERR_REM_TOO_MANY_TRAPS) = none →
        EMR3ExecuteVM_act (envReturn VINF_SUCCESS) 0 2 vmInit VERR_REM_TOO_MANY_TRAPS false = Outcome.hang)
    ∧ (∀ x, emR3Debug (envReturn VINF_SUCCESS) 2 (guruEntry (envReturn VINF_SUCCESS) vmInit (guruStatus VERR_REM_TOO_MANY_TRAPS)) (guruStatus VERR_REM_TOO_MANY_TRAPS) = some x →
        ∃ vm', EMR3ExecuteVM_act (envReturn VINF_SUCCESS) 0 2 vmInit VERR_REM_TOO_MANY_TRAPS false
            = Outcome.ret Exit.guruMeditation (guruStatus VERR_REM_TOO_MANY_TRAPS) vm'
          ∧ vm'.enmState = EMSTATE_GURU_MEDITATION
          ∧ Call.VMMR3FatalDump (guruStatus VERR_REM_TOO_MANY_TRAPS) ∈ vm'.trace)
    ∧ (VERR_REM_TOO_MANY_TRAPS < 0 →
        ((EMR3ExecuteVM_forcedActions (envReturn VINF_SUCCESS) vmInit VERR_REM_TOO_MANY_TRAPS false).1 = VERR_REM_TOO_MANY_TRAPS
          ∧ EMR3ExecuteVM_round (envReturn VINF_SUCCESS) 0 2 vmInit VERR_REM_TOO_MANY_TRAPS false
            = EMR3ExecuteVM_act (envReturn VINF_SUCCESS) 0 2 (EMR3ExecuteVM_forcedActions (envReturn VINF_SUCCESS) vmInit VERR_REM_TOO_MANY_TRAPS false).2.2 VERR_REM_TOO_MANY_TRAPS
                (EMR3ExecuteVM_forcedActions (envReturn VINF_SUCCESS) vmInit VERR_REM_TOO_MANY_TRAPS false).2.1)
        ∨ ((EMR3ExecuteVM_forcedActions (envReturn VINF_SUCCESS) vmInit VERR_REM_TOO_MANY_TRAPS false).1 = VINF_EM_TERMINATE
          ∧ ∃ vm', EMR3ExecuteVM_round (envReturn VINF_SUCCESS) 0 2 vmInit VERR_REM_TOO_MANY_TRAPS false
              = Outcome.ret Exit.terminate VINF_EM_TERMINATE vm'
            ∧ vm'.enmState = EMSTATE_TERMINATING)
        ∨ ((EMR3ExecuteVM_forcedActions (envReturn VINF_SUCCESS) vmInit VERR_REM_TOO_MANY_TRAPS false).1 = VINF_EM_OFF
          ∧ ∃ vm', EMR3ExecuteVM_round (envReturn VINF_SUCCESS) 0 2 vmInit VERR_REM_TOO_MANY_TRAPS false
              = Outcome.ret Exit.powerOff VINF_EM_OFF vm'
            ∧ vm'.enmState = EMSTATE_TERMINATING))) :=
  ⟨by decide, EMR3ExecuteVM_unrecognized (envReturn VINF_SUCCESS) 0 2 vmInit
    VERR_REM_TOO_MANY_TRAPS false (by decide)⟩

/-! ## The state with which a round ends -/

theorem EMR3ExecuteVM_dispatch_next (e : Env) (idCpu fuel : Nat) (vm : VM) (rc : Int)
    (f : Bool) (rc' : Int) (f' : Bool) (vm' : VM)
    (h : EMR3ExecuteVM_dispatch e idCpu fuel vm rc f = Outcome.next rc' f' vm') :
    vm'.enmState = vm.enmState ∧ vm.enmState ≠ EMSTATE_GURU_MEDITATION := by
  unfold EMR3ExecuteVM_dispatch at h
  split at h
  · rename_i hst
    split at h
    · exact Outcome.noConfusion h
    · rename_i rc1 f1 vm1 hr
      simp only [Outcome.next.injEq] at h
      rw [← h.2.2, run_enmState _ _ _ _ _ hr, hst]
      exact ⟨rfl, by decide⟩
  · rename_i hst
    split at h
    · exact Outcome.noConfusion h
    · rename_i rc1 f1 vm1 hr
      simp only [Outcome.next.injEq] at h
      rw [← h.2.2, run_enmState _ _ _ _ _ hr, hst]
      exact ⟨rfl, by decide⟩
  · rename_i hst
    split at h
    · exact Outcome.noConfusion h
    · rename_i rc1 f1 vm1 hr
      simp only [Outcome.next.injEq] at h
      rw [← h.2.2, run_enmState _ _ _ _ _ hr, hst]
      exact ⟨rfl, by decide⟩
  · rename_i hst
    simp only [Outcome.next.injEq] at h
    rw [← h.2.2, call_enmState, hst]
    exact ⟨rfl, by decide⟩
  · exact Outcome.noConfusion h
  · rename_i hst
    dsimp only at h
    split at h
    · exact Outcome.noConfusion h
    · rename_i rc1 vm3 hd
      simp only [Outcome.next.injEq] at h
      rw [← h.2.2, callVoid_enmState, callVoid_enmState, emR3Debug_enmState e fuel _ _ _ _ hd,
        callVoid_enmState, callVoid_enmState, hst]
      exact ⟨rfl, by decide⟩
  · rename_i hst
    dsimp only at h
    split at h
    · exact Outcome.noConfusion h
    · rename_i rc1 vm3 hd
      simp only [Outcome.next.injEq] at h
      rw [← h.2.2, callVoid_enmState, callVoid_enmState, emR3Debug_enmState e fuel _ _ _ _ hd,
        callVoid_enmState, callVoid_enmState, hst]
      exact ⟨rfl, by decide⟩
  · rename_i hst
    dsimp only at h
    split at h
    · exact Outcome.noConfusion h
    · rename_i rc1 vm3 hd
      split_ifs at h
      simp only [Outcome.next.injEq] at h
      rw [← h.2.2, callVoid_enmState, callVoid_enmState, emR3Debug_enmState e fuel _ _ _ _ hd,
        callVoid_enmState, callVoid_enmState, hst]
      exact ⟨rfl, by decide⟩
  · dsimp only at h
    split at h
    · exact Outcome.noConfusion h
    · exact Outcome.noConfusion h
  · exact Outcome.noConfusion h
  · exact Outcome.noConfusion h
  · exact Outcome.noConfusion h

theorem EMR3ExecuteVM_dispatch_ret (e : Env) (idCpu fuel : Nat) (vm : VM) (rc : Int)
    (f : Bool) (site : Exit) (r : Int) (vm' : VM)
    (h : EMR3ExecuteVM_dispatch e idCpu fuel vm rc f = Outcome.ret site r vm') :
    (site = Exit.suspended ∧ vm'.enmState = EMSTATE_SUSPENDED)
    ∨ (site = Exit.debugHyper ∧ r ≠ VINF_SUCCESS ∧ vm'.enmState = EMSTATE_GURU_MEDITATION)
    ∨ (site = Exit.guruMeditation ∧ r = rc ∧ vm.enmState = EMSTATE_GURU_MEDITATION
        ∧ vm'.enmState = EMSTATE_GURU_MEDITATION)
    ∨ (site = Exit.invalidState ∧ r = VERR_EM_INTERNAL_ERROR
        ∧ vm'.enmState = EMSTATE_GURU_MEDITATION) := by
  unfold EMR3ExecuteVM_dispatch at h
  split at h
  · split at h <;> exact Outcome.noConfusion h
  · split at h <;> exact Outcome.noConfusion h
  · split at h <;> exact Outcome.noConfusion h
  · exact Outcome.noConfusion h
  · rename_i hst
    simp only [Outcome.ret.injEq] at h
    refine Or.inl ⟨h.1.symm, ?_⟩
    rw [← h.2.2, callVoid_enmState, callVoid_enmState, callVoid_enmState, hst]
  · dsimp only at h
    split at h <;> exact Outcome.noConfusion h
  · dsimp only at h
    split at h <;> exact Outcome.noConfusion h
  · dsimp only at h
    split at h
    · exact Outcome.noConfusion h
    · rename_i rc1 vm3 hd
      split_ifs at h with hne
      simp only [Outcome.ret.injEq] at h
      refine Or.inr (Or.inl ⟨h.1.symm, ?_, ?_⟩)
      · rw [← h.2.1]
        exact hne
      · rw [← h.2.2]
        rfl
  · rename_i hst
    dsimp only at h
    split at h
    · exact Outcome.noConfusion h
    · rename_i rc1 vm4 hd
      simp only [Outcome.ret.injEq] at h
      refine Or.inr (Or.inr (Or.inl ⟨h.1.symm, h.2.1.symm, hst, ?_⟩))
      rw [← h.2.2, callVoid_enmState, emR3Debug_enmState e fuel _ _ _ _ hd, callVoid_enmState,
        callVoid_enmState, callVoid_enmState, hst]
  · simp only [Outcome.ret.injEq] at h
    refine Or.inr (Or.inr (Or.inr ⟨h.1.symm, h.2.1.symm, ?_⟩))
    rw [← h.2.2]
    rfl
  · simp only [Outcome.ret.injEq] at h
    refine Or.inr (Or.inr (Or.inr ⟨h.1.symm, h.2.1.symm, ?_⟩))
    rw [← h.2.2]
    rfl
  · simp only [Outcome.ret.injEq] at h
    refine Or.inr (Or.inr (Or.inr ⟨h.1.symm, h.2.1.symm, ?_⟩))
    rw [← h.2.2]
    rfl

/-- What the transition `switch` does, by cases: it keeps the run result and
sets a state that is the old one or is not the guru meditation; or it sets the
guru meditation with a failure status; or it returns in state
`EMSTATE_TERMINATING`. -/
theorem EMR3ExecuteVM_switch_cases (e : Env) (vm : VM) (rc : Int) :
    (∃ st, EMR3ExecuteVM_switch e vm rc = Transition.go rc { vm with enmState := st }
        ∧ (st = vm.enmState ∨ st ≠ EMSTATE_GURU_MEDITATION))
    ∨ EMR3ExecuteVM_switch e vm rc
        = Transition.go (guruStatus rc) { vm with enmState := EMSTATE_GURU_MEDITATION }
    ∨ (∃ site vm1, EMR3ExecuteVM_switch e vm rc = Transition.ret site rc vm1
        ∧ (site = Exit.powerOff ∨ site = Exit.terminate)
        ∧ vm1.enmState = EMSTATE_TERMINATING) := by
  by_cases hm : rc ∈ switchCodes
  swap
  · right
    left
    rw [EMR3ExecuteVM_switch_unrecognized e vm rc hm, guruStatus_eq]
  simp only [switchCodes, List.mem_cons, List.mem_singleton, List.not_mem_nil, or_false] at hm
  have hres := emR3Reschedule_fst_mem e.q vm vm.ctx
  have hne : (emR3Reschedule e.q vm vm.ctx).1 ≠ EMSTATE_GURU_MEDITATION := by
    intro hg
    rw [hg] at hres
    simp at hres
  rcases hm with h | h | h | h | h | h | h | h | h | h | h | h | h | h | h | h | h | h | h
  · subst h
    exact Or.inl ⟨vm.enmState, by simp [EMR3ExecuteVM_switch], Or.inl rfl⟩
  · subst h
    exact Or.inl ⟨EMSTATE_RAW, by simp [EMR3ExecuteVM_switch, VINF_EM_RESCHEDULE_RAW, VINF_SUCCESS],
      Or.inr (by decide)⟩
  · subst h
    exact Or.inl ⟨EMSTATE_HWACC, by
      simp [EMR3ExecuteVM_switch, VINF_EM_RESCHEDULE_RAW, VINF_SUCCESS, VINF_EM_RESCHEDULE_HWACC],
      Or.inr (by decide)⟩
  · subst h
    exact Or.inl ⟨EMSTATE_REM, by
      simp [EMR3ExecuteVM_switch, VINF_EM_RESCHEDULE_RAW, VINF_SUCCESS, VINF_EM_RESCHEDULE_HWACC,
        VINF_EM_RESCHEDULE_REM], Or.inr (by decide)⟩
  · subst h
    exact Or.inl ⟨(emR3Reschedule e.q vm vm.ctx).1, by
      simp [EMR3ExecuteVM_switch, VINF_EM_RESCHEDULE_RAW, VINF_SUCCESS, VINF_EM_RESCHEDULE_HWACC,
        VINF_EM_RESCHEDULE_REM, VINF_EM_RESUME, emR3Reschedule_snd], Or.inr hne⟩
  · subst h
    exact Or.inl ⟨(emR3Reschedule e.q vm vm.ctx).1, by
      simp [EMR3ExecuteVM_switch, VINF_EM_RESCHEDULE_RAW, VINF_SUCCESS, VINF_EM_RESCHEDULE_HWACC,
        VINF_EM_RESCHEDULE_REM, VINF_EM_RESUME, VINF_EM_RESCHEDULE, emR3Reschedule_snd],
      Or.inr hne⟩
  · subst h
    exact Or.inl ⟨EMSTATE_HALTED, by
      simp [EMR3ExecuteVM_switch, VINF_EM_RESCHEDULE_RAW, VINF_SUCCESS, VINF_EM_RESCHEDULE_HWACC,
        VINF_EM_RESCHEDULE_REM, VINF_EM_RESUME, VINF_EM_RESCHEDULE, VINF_EM_HALT],
      Or.inr (by decide)⟩
  · subst h
    exact Or.inl ⟨EMSTATE_SUSPENDED, by
      simp [EMR3ExecuteVM_switch, VINF_EM_RESCHEDULE_RAW, VINF_SUCCESS, VINF_EM_RESCHEDULE_HWACC,
        VINF_EM_RESCHEDULE_REM, VINF_EM_RESUME, VINF_EM_RESCHEDULE, VINF_EM_HALT,
        VINF_EM_SUSPEND], Or.inr (by decide)⟩
  · subst h
    exact Or.inl ⟨(emR3Reschedule e.q vm vm.ctx).1, by
      simp [EMR3ExecuteVM_switch, VINF_EM_RESCHEDULE_RAW, VINF_SUCCESS, VINF_EM_RESCHEDULE_HWACC,
        VINF_EM_RESCHEDULE_REM, VINF_EM_RESUME, VINF_EM_RESCHEDULE, VINF_EM_HALT,
        VINF_EM_SUSPEND, VINF_EM_RESET, emR3Reschedule_snd], Or.inr hne⟩
  · subst h
    obtain ⟨vm', k, ks⟩ := EMR3ExecuteVM_act_powerOff e 0 0 vm false
    refine Or.inr (Or.inr ⟨Exit.powerOff, vm', ?_, Or.inl rfl, ks⟩)
    unfold EMR3ExecuteVM_act at k
    split at k
    · rename_i site rc1 vm1 hsw
      simp only [Outcome.ret.injEq] at k
      rw [hsw, k.1, k.2.1, k.2.2]
    · rename_i rc1 vm1 hsw
      exfalso
      simp [EMR3ExecuteVM_switch, VINF_EM_RESCHEDULE_RAW, VINF_SUCCESS, VINF_EM_RESCHEDULE_HWACC,
        VINF_EM_RESCHEDULE_REM, VINF_EM_RESUME, VINF_EM_RESCHEDULE, VINF_EM_HALT,
        VINF_EM_SUSPEND, VINF_EM_RESET, VINF_EM_OFF] at hsw
  · subst h
    obtain ⟨vm', k, ks⟩ := EMR3ExecuteVM_act_terminate e 0 0 vm false
    refine Or.inr (Or.inr ⟨Exit.terminate, vm', ?_, Or.inr rfl, ks⟩)
    unfold EMR3ExecuteVM_act at k
    split at k
    · rename_i site rc1 vm1 hsw
      simp only [Outcome.ret.injEq] at k
      rw [hsw, k.1, k.2.1, k.2.2]
    · rename_i rc1 vm1 hsw
      exfalso
      simp [EMR3ExecuteVM_switch, VINF_EM_RESCHEDULE_RAW, VINF_SUCCESS, VINF_EM_RESCHEDULE_HWACC,
        VINF_EM_RESCHEDULE_REM, VINF_EM_RESUME, VINF_EM_RESCHEDULE, VINF_EM_HALT,
        VINF_EM_SUSPEND, VINF_EM_RESET, VINF_EM_OFF, VINF_EM_TERMINATE] at hsw
  · subst h
    refine Or.inl ⟨if vm.enmState = EMSTATE_RAW then EMSTATE_DEBUG_GUEST_RAW
      else EMSTATE_DEBUG_GUEST_REM, ?_, Or.inr ?_⟩
    · by_cases hs : vm.enmState = EMSTATE_RAW <;>
        simp [EMR3ExecuteVM_switch, VINF_EM_RESCHEDULE_RAW, VINF_SUCCESS,
      VINF_EM_RESCHEDULE_HWACC, VINF_EM_RESCHEDULE_REM, VINF_EM_HALT, VINF_EM_RESUME,
      VINF_EM_RESCHEDULE, VINF_EM_SUSPEND, VINF_EM_RESET, VINF_EM_OFF, VINF_EM_TERMINATE,
      VINF_EM_DBG_STEPPED, VINF_EM_DBG_STOP, VINF_EM_DBG_BREAKPOINT, VINF_EM_DBG_STEP,
      VINF_EM_DBG_HYPER_STEPPED, VINF_EM_DBG_HYPER_BREAKPOINT, VINF_EM_DBG_HYPER_ASSERTION,
      VERR_VMM_RING0_ASSERTION, hs]
    · split_ifs <;> decide
  · subst h
    refine Or.inl ⟨if vm.enmState = EMSTATE_RAW then EMSTATE_DEBUG_GUEST_RAW
      else EMSTATE_DEBUG_GUEST_REM, ?_, Or.inr ?_⟩
    · by_cases hs : vm.enmState = EMSTATE_RAW <;>
        simp [EMR3ExecuteVM_switch, VINF_EM_RESCHEDULE_RAW, VINF_SUCCESS,
      VINF_EM_RESCHEDULE_HWACC, VINF_EM_RESCHEDULE_REM, VINF_EM_HALT, VINF_EM_RESUME,
      VINF_EM_RESCHEDULE, VINF_EM_SUSPEND, VINF_EM_RESET, VINF_EM_OFF, VINF_EM_TERMINATE,
      VINF_EM_DBG_STEPPED, VINF_EM_DBG_STOP, VINF_EM_DBG_BREAKPOINT, VINF_EM_DBG_STEP,
      VINF_EM_DBG_HYPER_STEPPED, VINF_EM_DBG_HYPER_BREAKPOINT, VINF_EM_DBG_HYPER_ASSERTION,
      VERR_VMM_RING0_ASSERTION, hs]
    · split_ifs <;> decide
  · subst h
    refine Or.inl ⟨if vm.enmState = EMSTATE_RAW then EMSTATE_DEBUG_GUEST_RAW
      else EMSTATE_DEBUG_GUEST_REM, ?_, Or.inr ?_⟩
    · by_cases hs : vm.enmState = EMSTATE_RAW <;>
        simp [EMR3ExecuteVM_switch, VINF_EM_RESCHEDULE_RAW, VINF_SUCCESS,
      VINF_EM_RESCHEDULE_HWACC, VINF_EM_RESCHEDULE_REM, VINF_EM_HALT, VINF_EM_RESUME,
      VINF_EM_RESCHEDULE, VINF_EM_SUSPEND, VINF_EM_RESET, VINF_EM_OFF, VINF_EM_TERMINATE,
      VINF_EM_DBG_STEPPED, VINF_EM_DBG_STOP, VINF_EM_DBG_BREAKPOINT, VINF_EM_DBG_STEP,
      VINF_EM_DBG_HYPER_STEPPED, VINF_EM_DBG_HYPER_BREAKPOINT, VINF_EM_DBG_HYPER_ASSERTION,
      VERR_VMM_RING0_ASSERTION, hs]
    · split_ifs <;> decide
  · subst h
    refine Or.inl ⟨if vm.enmState = EMSTATE_RAW then EMSTATE_DEBUG_GUEST_RAW
      else EMSTATE_DEBUG_GUEST_REM, ?_, Or.inr ?_⟩
    · by_cases hs : vm.enmState = EMSTATE_RAW <;>
        simp [EMR3ExecuteVM_switch, VINF_EM_RESCHEDULE_RAW, VINF_SUCCESS,
      VINF_EM_RESCHEDULE_HWACC, VINF_EM_RESCHEDULE_REM, VINF_EM_HALT, VINF_EM_RESUME,
      VINF_EM_RESCHEDULE, VINF_EM_SUSPEND, VINF_EM_RESET, VINF_EM_OFF, VINF_EM_TERMINATE,
      VINF_EM_DBG_STEPPED, VINF_EM_DBG_STOP, VINF_EM_DBG_BREAKPOINT, VINF_EM_DBG_STEP,
      VINF_EM_DBG_HYPER_STEPPED, VINF_EM_DBG_HYPER_BREAKPOINT, VINF_EM_DBG_HYPER_ASSERTION,
      VERR_VMM_RING0_ASSERTION, hs]
    · split_ifs <;> decide
  · subst h
    refine Or.inl ⟨EMSTATE_DEBUG_HYPER, ?_, Or.inr (by decide)⟩
    simp [EMR3ExecuteVM_switch, VINF_EM_RESCHEDULE_RAW, VINF_SUCCESS,
      VINF_EM_RESCHEDULE_HWACC, VINF_EM_RESCHEDULE_REM, VINF_EM_HALT, VINF_EM_RESUME,
      VINF_EM_RESCHEDULE, VINF_EM_SUSPEND, VINF_EM_RESET, VINF_EM_OFF, VINF_EM_TERMINATE,
      VINF_EM_DBG_STEPPED, VINF_EM_DBG_STOP, VINF_EM_DBG_BREAKPOINT, VINF_EM_DBG_STEP,
      VINF_EM_DBG_HYPER_STEPPED, VINF_EM_DBG_HYPER_BREAKPOINT, VINF_EM_DBG_HYPER_ASSERTION,
      VERR_VMM_RING0_ASSERTION]
  · subst h
    refine Or.inl ⟨EMSTATE_DEBUG_HYPER, ?_, Or.inr (by decide)⟩
    simp [EMR3ExecuteVM_switch, VINF_EM_RESCHEDULE_RAW, VINF_SUCCESS,
      VINF_EM_RESCHEDULE_HWACC, VINF_EM_RESCHEDULE_REM, VINF_EM_HALT, VINF_EM_RESUME,
      VINF_EM_RESCHEDULE, VINF_EM_SUSPEND, VINF_EM_RESET, VINF_EM_OFF, VINF_EM_TERMINATE,
      VINF_EM_DBG_STEPPED, VINF_EM_DBG_STOP, VINF_EM_DBG_BREAKPOINT, VINF_EM_DBG_STEP,
      VINF_EM_DBG_HYPER_STEPPED, VINF_EM_DBG_HYPER_BREAKPOINT, VINF_EM_DBG_HYPER_ASSERTION,
      VERR_VMM_RING0_ASSERTION]
  · subst h
    refine Or.inl ⟨EMSTATE_DEBUG_HYPER, ?_, Or.inr (by decide)⟩
    simp [EMR3ExecuteVM_switch, VINF_EM_RESCHEDULE_RAW, VINF_SUCCESS,
      VINF_EM_RESCHEDULE_HWACC, VINF_EM_RESCHEDULE_REM, VINF_EM_HALT, VINF_EM_RESUME,
      VINF_EM_RESCHEDULE, VINF_EM_SUSPEND, VINF_EM_RESET, VINF_EM_OFF, VINF_EM_TERMINATE,
      VINF_EM_DBG_STEPPED, VINF_EM_DBG_STOP, VINF_EM_DBG_BREAKPOINT, VINF_EM_DBG_STEP,
      VINF_EM_DBG_HYPER_STEPPED, VINF_EM_DBG_HYPER_BREAKPOINT, VINF_EM_DBG_HYPER_ASSERTION,
      VERR_VMM_RING0_ASSERTION]
  · subst h
    right
    left
    rw [guruStatus_of_neg _ (by decide)]
    simp [EMR3ExecuteVM_switch, VINF_EM_RESCHEDULE_RAW, VINF_SUCCESS,
      VINF_EM_RESCHEDULE_HWACC, VINF_EM_RESCHEDULE_REM, VINF_EM_HALT, VINF_EM_RESUME,
      VINF_EM_RESCHEDULE, VINF_EM_SUSPEND, VINF_EM_RESET, VINF_EM_OFF, VINF_EM_TERMINATE,
      VINF_EM_DBG_STEPPED, VINF_EM_DBG_STOP, VINF_EM_DBG_BREAKPOINT, VINF_EM_DBG_STEP,
      VINF_EM_DBG_HYPER_STEPPED, VINF_EM_DBG_HYPER_BREAKPOINT, VINF_EM_DBG_HYPER_ASSERTION,
      VERR_VMM_RING0_ASSERTION]

theorem EMR3ExecuteVM_switch_ret (e : Env) (vm : VM) (rc : Int) (site : Exit) (r : Int)
    (vm1 : VM) (h : EMR3ExecuteVM_switch e vm rc = Transition.ret site r vm1) :
    (site = Exit.powerOff ∨ site = Exit.terminate) ∧ vm1.enmState = EMSTATE_TERMINATING := by
  rcases EMR3ExecuteVM_switch_cases e vm rc with ⟨st, k, _⟩ | k | ⟨s2, v2, k, ks, kt⟩
  · rw [k] at h
    exact Transition.noConfusion h
  · rw [k] at h
    exact Transition.noConfusion h
  · rw [k] at h
    simp only [Transition.ret.injEq] at h
    rw [← h.1, ← h.2.2]
    exact ⟨ks, kt⟩

theorem EMR3ExecuteVM_switch_go (e : Env) (vm : VM) (rc : Int) (r : Int) (vm1 : VM)
    (h : EMR3ExecuteVM_switch e vm rc = Transition.go r vm1)
    (hg : vm1.enmState = EMSTATE_GURU_MEDITATION) :
    r < 0 ∨ vm.enmState = EMSTATE_GURU_MEDITATION := by
  rcases EMR3ExecuteVM_switch_cases e vm rc with ⟨st, k, ks⟩ | k | ⟨s2, v2, k, _, _⟩
  · rw [k] at h
    simp only [Transition.go.injEq] at h
    rw [← h.2] at hg
    change st = EMSTATE_GURU_MEDITATION at hg
    rcases ks with ks | ks
    · right
      rw [← ks, hg]
    · exact absurd hg ks
  · rw [k] at h
    simp only [Transition.go.injEq] at h
    left
    rw [← h.1]
    exact guruStatus_neg rc
  · rw [k] at h
    exact Transition.noConfusion h

theorem EMR3ExecuteVM_act_next (e : Env) (idCpu fuel : Nat) (vm : VM) (rc : Int) (f : Bool)
    (rc' : Int) (f' : Bool) (vm' : VM)
    (h : EMR3ExecuteVM_act e idCpu fuel vm rc f = Outcome.next rc' f' vm') :
    vm'.enmState ≠ EMSTATE_GURU_MEDITATION := by
  unfold EMR3ExecuteVM_act at h
  split at h
  · exact Outcome.noConfusion h
  · dsimp only at h
    obtain ⟨a, b⟩ := EMR3ExecuteVM_dispatch_next _ _ _ _ _ _ _ _ _ h
    rw [a]
    exact b

theorem EMR3ExecuteVM_act_ret (e : Env) (idCpu fuel : Nat) (vm : VM) (rc : Int) (f : Bool)
    (site : Exit) (r : Int) (vm' : VM)
    (h : EMR3ExecuteVM_act e idCpu fuel vm rc f = Outcome.ret site r vm')
    (hv : vm.enmState ≠ EMSTATE_GURU_MEDITATION)
    (hg : vm'.enmState = EMSTATE_GURU_MEDITATION) :
    (site = Exit.debugHyper ∧ r ≠ VINF_SUCCESS)
      ∨ ((site = Exit.guruMeditation ∨ site = Exit.invalidState) ∧ r < 0) := by
  unfold EMR3ExecuteVM_act at h
  split at h
  · rename_i site1 rc1 vm1 hsw
    simp only [Outcome.ret.injEq] at h
    obtain ⟨_, k⟩ := EMR3ExecuteVM_switch_ret e vm rc site1 rc1 vm1 hsw
    rw [h.2.2, hg] at k
    exact EMSTATE.noConfusion k
  · rename_i rc1 vm1 hsw
    dsimp only at h
    rcases EMR3ExecuteVM_dispatch_ret _ _ _ _ _ _ _ _ _ h with
      ⟨_, k⟩ | ⟨k1, k2, _⟩ | ⟨k1, k2, k3, _⟩ | ⟨k1, k2, _⟩
    · rw [hg] at k
      exact EMSTATE.noConfusion k
    · exact Or.inl ⟨k1, k2⟩
    · refine Or.inr ⟨Or.inl k1, ?_⟩
      rw [callVoid_enmState, callVoid_enmState] at k3
      rcases EMR3ExecuteVM_switch_go e vm rc rc1 vm1 hsw k3 with k | k
      · rw [k2]
        exact k
      · exact absurd k hv
    · refine Or.inr ⟨Or.inr k1, ?_⟩
      rw [k2]
      decide

theorem EMR3ExecuteVM_loop_guru (e : Env) (idCpu : Nat) (fuel : Nat) :
    ∀ (vm : VM) (rc : Int) (f : Bool) (x : Exit × Int × VM),
      vm.enmState ≠ EMSTATE_GURU_MEDITATION →
      EMR3ExecuteVM_loop e idCpu fuel vm rc f = some x →
      x.2.2.enmState = EMSTATE_GURU_MEDITATION →
      (x.1 = Exit.debugHyper ∧ x.2.1 ≠ VINF_SUCCESS)
        ∨ ((x.1 = Exit.guruMeditation ∨ x.1 = Exit.invalidState) ∧ x.2.1 < 0) := by
  induction fuel with
  | zero =>
    intro vm rc f x _ h
    exact Option.noConfusion h
  | succ n ih =>
    intro vm rc f x hv h hg
    rw [EMR3ExecuteVM_loop] at h
    split at h
    · exact Option.noConfusion h
    · rename_i site rc1 vm1 hr
      simp only [Option.some.injEq] at h
      rw [← h] at hg ⊢
      unfold EMR3ExecuteVM_round at hr
      dsimp only at hr
      refine EMR3ExecuteVM_act_ret _ _ _ _ _ _ _ _ _ hr ?_ hg
      rw [EMR3ExecuteVM_forcedActions_enmState]
      exact hv
    · rename_i rc1 f1 vm1 hr
      unfold EMR3ExecuteVM_round at hr
      dsimp only at hr
      exact ih vm1 rc1 f1 x (EMR3ExecuteVM_act_next _ _ _ _ _ _ _ _ _ hr) h hg

/-! ## The status returned in a guru meditation -/

/-- C9 as stated fails. A raw-mode burst ends with the hypervisor breakpoint
event `VINF_EM_DBG_HYPER_BREAKPOINT` and no debugger is attached: `emR3Debug`
returns the event code itself, the case `EMSTATE_DEBUG_HYPER` sets
`EMSTATE_GURU_MEDITATION`, and `EMR3ExecuteVM` returns that informational
(positive) status. -/
theorem EMR3ExecuteVM_guru_status_counterexample :
    summary (EMR3ExecuteVM (envReturn VINF_EM_DBG_HYPER_BREAKPOINT) 0 3 vmInit)
        = some (Exit.debugHyper, VINF_EM_DBG_HYPER_BREAKPOINT, EMSTATE_GURU_MEDITATION,
            [Call.VMMR3Lock, Call.TMVirtualResume, Call.TMCpuTickResume,
             Call.VMMR3Unlock, Call.VMMR3Lock, Call.emR3RawExecute,
             Call.VMMR3Unlock, Call.VMMR3Lock, Call.TMVirtualPause, Call.TMCpuTickPause,
             Call.DBGFR3EventBreakpoint DBGFEVENT_BREAKPOINT_HYPER,
             Call.VMMR3FatalDump VINF_EM_DBG_HYPER_BREAKPOINT])
      ∧ ¬ VINF_EM_DBG_HYPER_BREAKPOINT < 0
      ∧ VINF_EM_DBG_HYPER_BREAKPOINT ≠ VINF_SUCCESS := by
  decide

/-- C9, amended. Whenever `EMR3ExecuteVM` returns with the state
`EMSTATE_GURU_MEDITATION`, it returns either at the `return` of the case
`EMSTATE_DEBUG_HYPER`, with the status of `emR3Debug`, which is not
`VINF_SUCCESS`; or at the `return` of the case `EMSTATE_GURU_MEDITATION` or of
the invalid-state branch, with a failure (negative) status. A status of the
success range that the transition `switch` has no case for is replaced by
`VERR_EM_INTERNAL_ERROR` there. -/
theorem EMR3ExecuteVM_guru_status (e : Env) (idCpu fuel : Nat) (vm : VM)
    (x : Exit × Int × VM) (h : EMR3ExecuteVM e idCpu fuel vm = some x)
    (hs : x.2.2.enmState = EMSTATE_GURU_MEDITATION) :
    ((x.1 = Exit.debugHyper ∧ x.2.1 ≠ VINF_SUCCESS)
        ∨ ((x.1 = Exit.guruMeditation ∨ x.1 = Exit.invalidState) ∧ x.2.1 < 0))
    ∧ (∀ (vm0 : VM) (rc : Int), rc ∉ switchCodes → 0 ≤ rc →
        EMR3ExecuteVM_switch e vm0 rc
          = Transition.go VERR_EM_INTERNAL_ERROR
              { vm0 with enmState := EMSTATE_GURU_MEDITATION }) := by
  constructor
  · unfold EMR3ExecuteVM at h
    dsimp only at h
    refine EMR3ExecuteVM_loop_guru e idCpu fuel _ _ _ x ?_ h hs
    intro hg
    have hres := emR3Reschedule_fst_mem e.q
      (((vm.callVoid Call.VMMR3Lock e.c.VMMR3Lock).callVoid Call.TMVirtualResume
        e.c.TMVirtualResume).callVoid Call.TMCpuTickResume e.c.TMCpuTickResume)
      (((vm.callVoid Call.VMMR3Lock e.c.VMMR3Lock).callVoid Call.TMVirtualResume
        e.c.TMVirtualResume).callVoid Call.TMCpuTickResume e.c.TMCpuTickResume).ctx
    change (emR3Reschedule e.q _ _).1 = EMSTATE_GURU_MEDITATION at hg
    rw [hg] at hres
    simp at hres
  · intro vm0 rc hn h0
    rw [EMR3ExecuteVM_switch_unrecognized e vm0 rc hn, if_pos h0]

theorem run_eq_getD (o : Option (Exit × Int × VM)) (d : Exit × Int × VM)
    (h : o.isSome = true) : o = some (o.getD d) := by
  cases o with
  | none => exact Bool.noConfusion h
  | some v => rfl

/-- Witness of the amended C9: the recompiler loop gives up with
`VERR_REM_TOO_MANY_TRAPS`, no debugger is attached, and `EMR3ExecuteVM` returns
that failure from the guru meditation. -/
theorem EMR3ExecuteVM_guru_status_witness :
    summary (EMR3ExecuteVM (envReturn VERR_REM_TOO_MANY_TRAPS) 0 3 vmTF)
        = some (Exit.guruMeditation, VERR_REM_TOO_MANY_TRAPS, EMSTATE_GURU_MEDITATION,
            [Call.VMMR3Lock, Call.TMVirtualResume, Call.TMCpuTickResume,
             Call.VMMR3Unlock, Call.VMMR3Lock, Call.emR3RemExecute,
             Call.VMMR3Unlock, Call.VMMR3Lock, Call.TMVirtualPause, Call.TMCpuTickPause,
             Call.VMMR3FatalDump VERR_REM_TOO_MANY_TRAPS,
             Call.DBGFR3EventSrc DBGFEVENT_DEV_STOP, Call.VMMR3Unlock])
    ∧ EMR3ExecuteVM (envReturn VERR_REM_TOO_MANY_TRAPS) 0 3 vmTF = some runTooManyTraps
    ∧ runTooManyTraps.2.2.enmState = EMSTATE_GURU_MEDITATION
    ∧ (((runTooManyTraps.1 = Exit.debugHyper ∧ runTooManyTraps.2.1 ≠ VINF_SUCCESS)
          ∨ ((runTooManyTraps.1 = Exit.guruMeditation ∨ runTooManyTraps.1 = Exit.invalidState)
              ∧ runTooManyTraps.2.1 < 0))
      ∧ (∀ (vm0 : VM) (rc : Int), rc ∉ switchCodes → 0 ≤ rc →
          EMR3ExecuteVM_switch (envReturn VERR_REM_TOO_MANY_TRAPS) vm0 rc
            = Transition.go VERR_EM_INTERNAL_ERROR
                { vm0 with enmState := EMSTATE_GURU_MEDITATION })) :=
  have h0 : (EMR3ExecuteVM (envReturn VERR_REM_TOO_MANY_TRAPS) 0 3 vmTF).isSome = true := by
    decide
  have h1 : EMR3ExecuteVM (envReturn VERR_REM_TOO_MANY_TRAPS) 0 3 vmTF = some runTooManyTraps :=
    run_eq_getD _ _ h0
  have h2 : runTooManyTraps.2.2.enmState = EMSTATE_GURU_MEDITATION := by
    decide
  ⟨by decide, h1, h2,
    EMR3ExecuteVM_guru_status (envReturn VERR_REM_TOO_MANY_TRAPS) 0 3 vmTF _ h1 h2⟩

/-! ## The status returned by `emR3ForcedActions` -/

theorem UPDATE_RC_ne_zero (rc rc2 : Int) (h : rc ≠ 0) : UPDATE_RC rc rc2 ≠ 0 := by
  unfold UPDATE_RC VINF_SUCCESS
  split_ifs with h1 h2
  · exact h
  · intro h0
    exact h1 (Or.inl h0)
  · exact h

theorem ffDbgf_ne_zero (e : Env) (s : Int × VM) (h : s.1 ≠ 0) : (ffDbgf e s).1 ≠ 0 := by
  unfold ffDbgf
  split_ifs
  · exact UPDATE_RC_ne_zero _ _ h
  · exact h

theorem ffReset_ne_zero (e : Env) (s : Int × VM) (h : s.1 ≠ 0) : (ffReset e s).1 ≠ 0 := by
  unfold ffReset
  split_ifs
  · exact UPDATE_RC_ne_zero _ _ h
  · exact h

theorem ffCsamScanPage_fst (e : Env) (s : Int × VM) : (ffCsamScanPage e s).1 = s.1 := by
  unfold ffCsamScanPage
  split_ifs <;> rfl

theorem ffTimer_fst (e : Env) (s : Int × VM) : (ffTimer e s).1 = s.1 := by
  unfold ffTimer
  split_ifs <;> rfl

theorem ffInhibitInterrupts_ne_zero (e : Env) (s : Int × VM) (h : s.1 ≠ 0) :
    (ffInhibitInterrupts e s).1 ≠ 0 := by
  unfold ffInhibitInterrupts
  dsimp only
  split_ifs <;> first
    | exact UPDATE_RC_ne_zero _ _ h
    | exact h

theorem ffInterrupts_ne_zero (e : Env) (s : Int × VM) (h : s.1 ≠ 0) :
    (ffInterrupts e s).1 ≠ 0 := by
  unfold ffInterrupts
  split_ifs <;> first
    | exact UPDATE_RC_ne_zero _ _ h
    | exact h

theorem ffHandyPages_ne_zero (e : Env) (s : Int × VM) (h : s.1 ≠ 0) :
    (ffHandyPages e s).1 ≠ 0 := by
  unfold ffHandyPages
  split_ifs
  · exact UPDATE_RC_ne_zero _ _ h
  · exact h

theorem emR3ForcedActions_post_ret_eq (e : Env) (vm : VM) (rc r : Int) (vm' : VM)
    (h : emR3ForcedActions_post e vm rc = FFStep.ret r vm') :
    r = VINF_EM_TERMINATE ∧ vm' = vm ∧ VM_FF_ISSET vm VM_FF_TERMINATE = true := by
  unfold emR3ForcedActions_post at h
  by_cases h1 : VM_FF_ISPENDING vm e.m.VM_FF_NORMAL_PRIORITY_POST_MASK = true
  swap
  · rw [if_neg h1] at h
    exact FFStep.noConfusion h
  rw [if_pos h1] at h
  by_cases h2 : VM_FF_ISSET vm VM_FF_TERMINATE = true
  swap
  · rw [if_neg h2] at h
    exact FFStep.noConfusion h
  rw [if_pos h2] at h
  simp only [FFStep.ret.injEq] at h
  exact ⟨h.1.symm, h.2.symm, h2⟩

theorem emR3ForcedActions_post_go_ne_zero (e : Env) (vm : VM) (rc r : Int) (vm' : VM)
    (h : emR3ForcedActions_post e vm rc = FFStep.go r vm') (hz : rc ≠ 0) : r ≠ 0 := by
  unfold emR3ForcedActions_post at h
  by_cases h1 : VM_FF_ISPENDING vm e.m.VM_FF_NORMAL_PRIORITY_POST_MASK = true
  swap
  · rw [if_neg h1] at h
    simp only [FFStep.go.injEq] at h
    rw [← h.1]
    exact hz
  rw [if_pos h1] at h
  by_cases h2 : VM_FF_ISSET vm VM_FF_TERMINATE = true
  · rw [if_pos h2] at h
    exact FFStep.noConfusion h
  rw [if_neg h2] at h
  simp only [FFStep.go.injEq] at h
  rw [← h.1, ffCsamScanPage_fst]
  exact ffReset_ne_zero e _ (ffDbgf_ne_zero e _ hz)

theorem emR3ForcedActions_normal_ret_trace (e : Env) (vm : VM) (rc r : Int) (vm' : VM)
    (h : emR3ForcedActions_normal e vm rc = FFStep.ret r vm') :
    (r = VINF_EM_OFF ∨ r = VINF_EM_TERMINATE)
      ∧ vm'.trace.getLast? = some Call.VMR3ReqProcessU := by
  unfold emR3ForcedActions_normal at h
  by_cases h1 : VM_FF_ISPENDING vm e.m.VM_FF_NORMAL_PRIORITY_MASK = true
  swap
  · rw [if_neg h1] at h
    exact FFStep.noConfusion h
  rw [if_pos h1] at h
  dsimp only at h
  by_cases h2 : VM_FF_ISSET (ffPdmDma e (ffPdmQueues e vm)) VM_FF_REQUEST = true
  swap
  · rw [if_neg h2] at h
    exact FFStep.noConfusion h
  rw [if_pos h2] at h
  by_cases h3 : ((ffPdmDma e (ffPdmQueues e vm)).call Call.VMR3ReqProcessU e.c.VMR3ReqProcessU).1
      = VINF_EM_OFF
    ∨ ((ffPdmDma e (ffPdmQueues e vm)).call Call.VMR3ReqProcessU e.c.VMR3ReqProcessU).1
      = VINF_EM_TERMINATE
  swap
  · rw [if_neg h3] at h
    exact FFStep.noConfusion h
  rw [if_pos h3] at h
  simp only [FFStep.ret.injEq] at h
  rw [← h.1, ← h.2]
  refine ⟨h3, ?_⟩
  rw [call_trace]
  simp

theorem emR3ForcedActions_normal_go_ne_zero (e : Env) (vm : VM) (rc r : Int) (vm' : VM)
    (h : emR3ForcedActions_normal e vm rc = FFStep.go r vm') (hz : rc ≠ 0) : r ≠ 0 := by
  unfold emR3ForcedActions_normal at h
  by_cases h1 : VM_FF_ISPENDING vm e.m.VM_FF_NORMAL_PRIORITY_MASK = true
  swap
  · rw [if_neg h1] at h
    simp only [FFStep.go.injEq] at h
    rw [← h.1]
    exact hz
  rw [if_pos h1] at h
  dsimp only at h
  by_cases h2 : VM_FF_ISSET (ffPdmDma e (ffPdmQueues e vm)) VM_FF_REQUEST = true
  swap
  · rw [if_neg h2] at h
    simp only [FFStep.go.injEq] at h
    rw [← h.1]
    exact hz
  rw [if_pos h2] at h
  by_cases h3 : ((ffPdmDma e (ffPdmQueues e vm)).call Call.VMR3ReqProcessU e.c.VMR3ReqProcessU).1
      = VINF_EM_OFF
    ∨ ((ffPdmDma e (ffPdmQueues e vm)).call Call.VMR3ReqProcessU e.c.VMR3ReqProcessU).1
      = VINF_EM_TERMINATE
  · rw [if_pos h3] at h
    exact FFStep.noConfusion h
  rw [if_neg h3] at h
  simp only [FFStep.go.injEq] at h
  rw [← h.1]
  exact UPDATE_RC_ne_zero _ _ hz

theorem emR3ForcedActions_pre_ne_zero (e : Env) (vm : VM) (rc : Int) (hz : rc ≠ 0) :
    (emR3ForcedActions_pre e vm rc).1 ≠ 0 := by
  unfold emR3ForcedActions_pre
  by_cases h1 : VM_FF_ISPENDING vm e.m.VM_FF_HIGH_PRIORITY_PRE_MASK = true
  swap
  · rw [if_neg h1]
    exact hz
  rw [if_pos h1]
  dsimp only
  split_ifs
  · simp [VINF_EM_TERMINATE]
  · apply ffDbgf_ne_zero
    apply ffHandyPages_ne_zero
    apply ffInterrupts_ne_zero
    apply ffInhibitInterrupts_ne_zero
    rw [ffTimer_fst]
    exact hz

theorem emR3ForcedActions_pre_neg (e : Env) (vm : VM) (rc : Int) (hn : rc < 0) :
    (emR3ForcedActions_pre e vm rc).1 = rc
      ∨ ((emR3ForcedActions_pre e vm rc).1 = VINF_EM_TERMINATE
          ∧ VM_FF_ISSET (emR3ForcedActions_pre e vm rc).2 VM_FF_TERMINATE = true) := by
  have k := ((ffDbgf_keeps e).comp ((ffHandyPages_keeps e).comp ((ffInterrupts_keeps e).comp
    ((ffInhibitInterrupts_keeps e).comp (ffTimer_keeps e))))) (rc, vm)
  dsimp only at k
  unfold emR3ForcedActions_pre
  by_cases h1 : VM_FF_ISPENDING vm e.m.VM_FF_HIGH_PRIORITY_PRE_MASK = true
  swap
  · rw [if_neg h1]
    exact Or.inl rfl
  rw [if_pos h1]
  dsimp only
  by_cases h2 : VM_FF_ISSET (ffDbgf e (ffHandyPages e (ffInterrupts e
      (ffInhibitInterrupts e (ffTimer e (rc, vm)))))).2 VM_FF_TERMINATE = true
  · rw [if_pos h2]
    exact Or.inr ⟨rfl, h2⟩
  · rw [if_neg h2]
    exact Or.inl (k.2 hn)

/-- C11: the status that `emR3ForcedActions` returns is at least as important
as the status it is given. An incoming status other than `VINF_SUCCESS` is
never answered with `VINF_SUCCESS`; an incoming failure status is returned
unchanged unless one of the short-circuit returns is taken, which are the
`return VINF_EM_TERMINATE` under a raised `VM_FF_TERMINATE` (the flag is then
still raised) and the return of `VINF_EM_OFF` or `VINF_EM_TERMINATE` straight
after `VMR3ReqProcessU` (which is then the last call made). -/
theorem emR3ForcedActions_importance (e : Env) (vm : VM) (rc : Int) :
    (rc ≠ VINF_SUCCESS → (emR3ForcedActions e vm rc).1 ≠ VINF_SUCCESS)
      ∧ (rc < 0 →
          (emR3ForcedActions e vm rc).1 = rc
          ∨ ((emR3ForcedActions e vm rc).1 = VINF_EM_TERMINATE
              ∧ VM_FF_ISSET (emR3ForcedActions e vm rc).2 VM_FF_TERMINATE = true)
          ∨ (((emR3ForcedActions e vm rc).1 = VINF_EM_OFF
                ∨ (emR3ForcedActions e vm rc).1 = VINF_EM_TERMINATE)
              ∧ (emR3ForcedActions e vm rc).2.trace.getLast? = some Call.VMR3ReqProcessU)) := by
  unfold emR3ForcedActions
  split
  · rename_i r vm1 h1
    obtain ⟨a, b, c⟩ := emR3ForcedActions_post_ret_eq e vm rc r vm1 h1
    subst a b
    exact ⟨fun _ => by simp [VINF_EM_TERMINATE, VINF_SUCCESS], fun _ => Or.inr (Or.inl ⟨rfl, c⟩)⟩
  · rename_i rc1 vm1 h1
    have a := emR3ForcedActions_post_go_ne_zero e vm rc rc1 vm1 h1
    have b := (emR3ForcedActions_post_go e vm rc rc1 vm1 h1).2
    split
    · rename_i r vm2 h2
      obtain ⟨c, d⟩ := emR3ForcedActions_normal_ret_trace e vm1 rc1 r vm2 h2
      refine ⟨fun _ => ?_, fun _ => Or.inr (Or.inr ⟨c, d⟩)⟩
      rcases c with c | c <;> simp [c, VINF_EM_OFF, VINF_EM_TERMINATE, VINF_SUCCESS]
    · rename_i rc2 vm2 h2
      have c := emR3ForcedActions_normal_go_ne_zero e vm1 rc1 rc2 vm2 h2
      have d := (emR3ForcedActions_normal_go e vm1 rc1 rc2 vm2 h2).2
      refine ⟨fun hz => emR3ForcedActions_pre_ne_zero e _ rc2 (c (a hz)), fun hn => ?_⟩
      have e1 : rc1 = rc := b hn
      have e2 : rc2 = rc := by rw [d (by rw [e1]; exact hn), e1]
      subst e2
      rcases emR3ForcedActions_pre_neg e (emR3ForcedActions_poll e vm2) rc2 hn with q | q
      · exact Or.inl q
      · exact Or.inr (Or.inl q)

/-! ## The short-circuit returns of `emR3ForcedActions` -/

/-- C12: when `VM_FF_TERMINATE` is raised at the entry of `emR3ForcedActions`
(and the post mask holds that flag), the function returns `VINF_EM_TERMINATE`
for every incoming status, failures included, and the VM it returns is the VM
it was given: no handler was called, nothing was added to the trace. -/
theorem emR3ForcedActions_terminate (e : Env) (vm : VM) (rc : Int)
    (hm : VM_FF_TERMINATE ∈ e.m.VM_FF_NORMAL_PRIORITY_POST_MASK)
    (hf : VM_FF_ISSET vm VM_FF_TERMINATE = true) :
    emR3ForcedActions e vm rc = (VINF_EM_TERMINATE, vm) := by
  have hp : VM_FF_ISPENDING vm e.m.VM_FF_NORMAL_PRIORITY_POST_MASK = true := by
    unfold VM_FF_ISPENDING
    rw [List.any_eq_true]
    exact ⟨VM_FF_TERMINATE, hm, hf⟩
  unfold emR3ForcedActions emR3ForcedActions_post
  rw [if_pos hp, if_pos hf]

/-- Witness of C12: the terminate flag is raised and the incoming status is the
failure `VERR_INTERNAL_ERROR`. -/
theorem emR3ForcedActions_terminate_witness :
    emR3ForcedActions (envReturn 0) (vmInit.raise VM_FF_TERMINATE) VERR_INTERNAL_ERROR
      = (VINF_EM_TERMINATE, vmInit.raise VM_FF_TERMINATE) :=
  emR3ForcedActions_terminate (envReturn 0) (vmInit.raise VM_FF_TERMINATE) VERR_INTERNAL_ERROR
    (by decide) (by decide)

/-- C13 as stated fails. When the debugger poll yields `VINF_EM_TERMINATE` and
the deferred reset yields `VINF_EM_OFF`, the pass goes on: the reset, the
request processing and the timer queues still run after the poll. And when the
handy-page allocation fails after the poll yielded `VINF_EM_TERMINATE`, the
pass returns the failure, not the terminal code. -/
theorem emR3ForcedActions_terminal_counterexample :
    ((emR3ForcedActions envDbgfTerminate vmDbgfResetRequestTimer VINF_SUCCESS).1
        = VINF_EM_TERMINATE
      ∧ (emR3ForcedActions envDbgfTerminate vmDbgfResetRequestTimer VINF_SUCCESS).2.trace
        = [Call.DBGFR3VMMForcedAction, Call.VMR3Reset, Call.VMR3ReqProcessU,
           Call.TMR3TimerQueuesDo])
    ∧ ((emR3ForcedActions envDbgfTerminateThenFail vmDbgfHandy VINF_SUCCESS).1
        = VERR_INTERNAL_ERROR
      ∧ (emR3ForcedActions envDbgfTerminateThenFail vmDbgfHandy VINF_SUCCESS).2.trace
        = [Call.DBGFR3VMMForcedAction, Call.PGMR3PhysAllocateHandyPages]) := by
  decide

/-- C13, amended: the one handler whose terminal code ends the pass is the
request processing. When `VMR3ReqProcessU` yields `VINF_EM_OFF` or
`VINF_EM_TERMINATE`, `emR3ForcedActions` returns that code and the VM as
`VMR3ReqProcessU` left it: no further handler runs. (The post block, which
holds the debugger poll and the deferred reset, has been passed with `rc1` and
`vm1`.) -/
theorem emR3ForcedActions_request_terminal (e : Env) (vm : VM) (rc : Int) (vm1 : VM) (rc1 : Int)
    (hpost : emR3ForcedActions_post e vm rc = FFStep.go rc1 vm1)
    (hn : VM_FF_ISPENDING vm1 e.m.VM_FF_NORMAL_PRIORITY_MASK = true)
    (hr : VM_FF_ISSET (ffPdmDma e (ffPdmQueues e vm1)) VM_FF_REQUEST = true)
    (ht : ((ffPdmDma e (ffPdmQueues e vm1)).call Call.VMR3ReqProcessU e.c.VMR3ReqProcessU).1
            = VINF_EM_OFF
        ∨ ((ffPdmDma e (ffPdmQueues e vm1)).call Call.VMR3ReqProcessU e.c.VMR3ReqProcessU).1
            = VINF_EM_TERMINATE) :
    emR3ForcedActions e vm rc
      = (ffPdmDma e (ffPdmQueues e vm1)).call Call.VMR3ReqProcessU e.c.VMR3ReqProcessU := by
  unfold emR3ForcedActions
  rw [hpost]
  dsimp only
  unfold emR3ForcedActions_normal
  rw [if_pos hn]
  dsimp only
  rw [if_pos hr, if_pos ht]

/-- Witness of C13, amended: a request and an expired timer are pending and
request processing yields `VINF_EM_OFF`; the pass returns `VINF_EM_OFF` and the
timer queues are not run. -/
theorem emR3ForcedActions_request_terminal_witness :
    (emR3ForcedActions envRequestOff vmRequestTimer VINF_SUCCESS).1 = VINF_EM_OFF
      ∧ (emR3ForcedActions envRequestOff vmRequestTimer VINF_SUCCESS).2.trace
          = [Call.VMR3ReqProcessU] := by
  have h := emR3ForcedActions_request_terminal envRequestOff vmRequestTimer VINF_SUCCESS
    vmRequestTimer VINF_SUCCESS rfl (by decide) (by decide) (by decide)
  rw [h]
  decide

/-! ## The calls of one pass of `emR3ForcedActions` -/

theorem Appends.refl (vm : VM) (l : List Call) : Appends vm vm l :=
  ⟨[], by simp, List.nil_sublist l⟩

theorem Appends.one (vm vm' : VM) (c : Call) (h : vm'.trace = vm.trace ++ [c]) :
    Appends vm vm' [c] :=
  ⟨[c], h, List.Sublist.refl _⟩

theorem Appends.trans {a b c : VM} {l1 l2 : List Call} (h1 : Appends a b l1)
    (h2 : Appends b c l2) : Appends a c (l1 ++ l2) := by
  obtain ⟨t1, e1, s1⟩ := h1
  obtain ⟨t2, e2, s2⟩ := h2
  exact ⟨t1 ++ t2, by rw [e2, e1, List.append_assoc], List.Sublist.append s1 s2⟩

theorem Appends.mono {a b : VM} {l l' : List Call} (h : Appends a b l) (hl : l.Sublist l') :
    Appends a b l' := by
  obtain ⟨t, e1, s1⟩ := h
  exact ⟨t, e1, s1.trans hl⟩

theorem Appends.of_trace_eq {a b : VM} (h : b.trace = a.trace) (l : List Call) :
    Appends a b l :=
  ⟨[], by simp [h], List.nil_sublist l⟩

theorem Appends.count_eq {a b : VM} {l : List Call} (h : Appends a b l) (c : Call)
    (hc : l.count c = 0) : b.trace.count c = a.trace.count c := by
  obtain ⟨t, e1, s1⟩ := h
  have h0 : t.count c = 0 := Nat.le_zero.mp (hc ▸ s1.count_le c)
  rw [e1, List.count_append, h0, Nat.add_zero]

theorem ffDbgf_appends (e : Env) (s : Int × VM) :
    Appends s.2 (ffDbgf e s).2 [Call.DBGFR3VMMForcedAction] := by
  unfold ffDbgf
  split_ifs
  · exact Appends.one _ _ _ (by simp)
  · exact Appends.refl _ _

theorem ffReset_appends (e : Env) (s : Int × VM) :
    Appends s.2 (ffReset e s).2 [Call.VMR3Reset] := by
  unfold ffReset
  split_ifs
  · exact Appends.one _ _ _ (by simp)
  · exact Appends.refl _ _

theorem ffCsamScanPage_appends (e : Env) (s : Int × VM) :
    Appends s.2 (ffCsamScanPage e s).2 [Call.CSAMR3CheckCodeEx s.2.ctx.eip] := by
  unfold ffCsamScanPage
  split_ifs
  · exact Appends.one _ _ _ (by simp)
  · exact Appends.refl _ _

theorem ffPdmQueues_appends (e : Env) (vm : VM) :
    Appends vm (ffPdmQueues e vm) [Call.PDMR3QueueFlushAll] := by
  unfold ffPdmQueues
  split_ifs
  · exact Appends.one _ _ _ (by simp)
  · exact Appends.refl _ _

theorem ffPdmDma_appends (e : Env) (vm : VM) :
    Appends vm (ffPdmDma e vm) [Call.PDMR3DmaRun] := by
  unfold ffPdmDma
  split_ifs
  · exact Appends.one _ _ _ (by simp)
  · exact Appends.refl _ _

theorem ffRemHandlerNotify_appends (e : Env) (vm : VM) :
    Appends vm (ffRemHandlerNotify e vm) [Call.REMR3ReplayHandlerNotifications] := by
  unfold ffRemHandlerNotify
  split_ifs
  · exact Appends.one _ _ _ (by simp)
  · exact Appends.refl _ _

theorem emR3ForcedActions_poll_appends (e : Env) (vm : VM) :
    Appends vm (emR3ForcedActions_poll e vm) [Call.PDMR3Poll] := by
  unfold emR3ForcedActions_poll
  dsimp only
  split_ifs
  · exact Appends.one _ _ _ (by simp)
  · exact Appends.of_trace_eq rfl _

theorem ffTimer_appends (e : Env) (s : Int × VM) :
    Appends s.2 (ffTimer e s).2 [Call.TMR3TimerQueuesDo] := by
  unfold ffTimer
  split_ifs
  · exact Appends.one _ _ _ (by simp)
  · exact Appends.refl _ _

theorem ffInhibitInterrupts_trace (e : Env) (s : Int × VM) :
    (ffInhibitInterrupts e s).2.trace = s.2.trace := by
  unfold ffInhibitInterrupts
  dsimp only
  split_ifs <;> simp

theorem ffInterrupts_appends (e : Env) (s : Int × VM) :
    Appends s.2 (ffInterrupts e s).2 [Call.TRPMR3InjectEvent] := by
  unfold ffInterrupts
  split_ifs
  · exact Appends.one _ _ _ (by simp)
  · exact Appends.refl _ _
  · exact Appends.refl _ _
  · exact Appends.refl _ _

theorem ffHandyPages_appends (e : Env) (s : Int × VM) :
    Appends s.2 (ffHandyPages e s).2 [Call.PGMR3PhysAllocateHandyPages] := by
  unfold ffHandyPages
  split_ifs
  · exact Appends.one _ _ _ (by simp)
  · exact Appends.refl _ _

theorem emR3ForcedActions_post_appends (e : Env) (vm : VM) (rc r : Int) (vm' : VM)
    (h : emR3ForcedActions_post e vm rc = FFStep.go r vm') :
    ∃ eip, Appends vm vm' [Call.DBGFR3VMMForcedAction, Call.VMR3Reset,
      Call.CSAMR3CheckCodeEx eip] := by
  unfold emR3ForcedActions_post at h
  by_cases h1 : VM_FF_ISPENDING vm e.m.VM_FF_NORMAL_PRIORITY_POST_MASK = true
  swap
  · rw [if_neg h1] at h
    simp only [FFStep.go.injEq] at h
    rw [← h.2]
    exact ⟨0, Appends.refl _ _⟩
  rw [if_pos h1] at h
  by_cases h2 : VM_FF_ISSET vm VM_FF_TERMINATE = true
  · rw [if_pos h2] at h
    exact FFStep.noConfusion h
  rw [if_neg h2] at h
  simp only [FFStep.go.injEq] at h
  rw [← h.2]
  exact ⟨_, ((ffDbgf_appends e (rc, vm)).trans (ffReset_appends e _)).trans
    (ffCsamScanPage_appends e _)⟩

theorem emR3ForcedActions_normal_appends (e : Env) (vm : VM) (rc : Int) :
    (∀ r vm', emR3ForcedActions_normal e vm rc = FFStep.ret r vm' →
      Appends vm vm' [Call.PDMR3QueueFlushAll, Call.PDMR3DmaRun, Call.VMR3ReqProcessU])
    ∧ (∀ r vm', emR3ForcedActions_normal e vm rc = FFStep.go r vm' →
      Appends vm vm' [Call.PDMR3QueueFlushAll, Call.PDMR3DmaRun, Call.VMR3ReqProcessU,
        Call.REMR3ReplayHandlerNotifications]) := by
  have hq := (ffPdmQueues_appends e vm).trans (ffPdmDma_appends e (ffPdmQueues e vm))
  have hreq : Appends (ffPdmDma e (ffPdmQueues e vm))
      ((ffPdmDma e (ffPdmQueues e vm)).call Call.VMR3ReqProcessU e.c.VMR3ReqProcessU).2
      [Call.VMR3ReqProcessU] := Appends.one _ _ _ (by simp)
  unfold emR3ForcedActions_normal
  by_cases h1 : VM_FF_ISPENDING vm e.m.VM_FF_NORMAL_PRIORITY_MASK = true
  swap
  · rw [if_neg h1]
    refine ⟨fun _ _ h => (by cases h), fun r vm' h => ?_⟩
    simp only [FFStep.go.injEq] at h
    rw [← h.2]
    exact Appends.refl _ _
  rw [if_pos h1]
  dsimp only
  by_cases h2 : VM_FF_ISSET (ffPdmDma e (ffPdmQueues e vm)) VM_FF_REQUEST = true
  swap
  · rw [if_neg h2]
    refine ⟨fun _ _ h => (by cases h), fun r vm' h => ?_⟩
    simp only [FFStep.go.injEq] at h
    rw [← h.2]
    exact ((hq.trans (Appends.refl _ [Call.VMR3ReqProcessU])).trans
      (ffRemHandlerNotify_appends e _))
  rw [if_pos h2]
  split_ifs
  · refine ⟨fun r vm' h => ?_, fun _ _ h => (by cases h)⟩
    simp only [FFStep.ret.injEq] at h
    rw [← h.2]
    exact hq.trans hreq
  · refine ⟨fun _ _ h => (by cases h), fun r vm' h => ?_⟩
    simp only [FFStep.go.injEq] at h
    rw [← h.2]
    exact (hq.trans hreq).trans (ffRemHandlerNotify_appends e _)

theorem emR3ForcedActions_pre_appends (e : Env) (vm : VM) (rc : Int) :
    Appends vm (emR3ForcedActions_pre e vm rc).2 [Call.TMR3TimerQueuesDo,
      Call.TRPMR3InjectEvent, Call.PGMR3PhysAllocateHandyPages,
      Call.DBGFR3VMMForcedAction] := by
  have k : Appends vm (ffDbgf e (ffHandyPages e (ffInterrupts e
      (ffInhibitInterrupts e (ffTimer e (rc, vm)))))).2 [Call.TMR3TimerQueuesDo,
      Call.TRPMR3InjectEvent, Call.PGMR3PhysAllocateHandyPages,
      Call.DBGFR3VMMForcedAction] :=
    ((((ffTimer_appends e (rc, vm)).trans
      (Appends.of_trace_eq (ffInhibitInterrupts_trace e _) [])).trans
      (ffInterrupts_appends e _)).trans (ffHandyPages_appends e _)).trans (ffDbgf_appends e _)
  unfold emR3ForcedActions_pre
  by_cases h1 : VM_FF_ISPENDING vm e.m.VM_FF_HIGH_PRIORITY_PRE_MASK = true
  swap
  · rw [if_neg h1]
    exact Appends.refl _ _
  rw [if_pos h1]
  dsimp only
  split_ifs
  · exact k
  · exact k

theorem emR3ForcedActions_appends (e : Env) (vm : VM) (rc : Int) :
    ∃ eip, Appends vm (emR3ForcedActions e vm rc).2
      [Call.DBGFR3VMMForcedAction, Call.VMR3Reset, Call.CSAMR3CheckCodeEx eip,
       Call.PDMR3QueueFlushAll, Call.PDMR3DmaRun, Call.VMR3ReqProcessU,
       Call.REMR3ReplayHandlerNotifications, Call.PDMR3Poll, Call.TMR3TimerQueuesDo,
       Call.TRPMR3InjectEvent, Call.PGMR3PhysAllocateHandyPages,
       Call.DBGFR3VMMForcedAction] := by
  unfold emR3ForcedActions
  split
  · rename_i r vm1 h1
    obtain ⟨_, b, _⟩ := emR3ForcedActions_post_ret_eq e vm rc r vm1 h1
    subst b
    exact ⟨0, Appends.refl _ _⟩
  · rename_i rc1 vm1 h1
    obtain ⟨eip, a⟩ := emR3ForcedActions_post_appends e vm rc rc1 vm1 h1
    refine ⟨eip, ?_⟩
    split
    · rename_i r vm2 h2
      have b := (emR3ForcedActions_normal_appends e vm1 rc1).1 r vm2 h2
      exact (a.trans b).mono (by
        simp only [List.cons_append, List.nil_append]
        repeat apply List.Sublist.cons₂
        exact List.nil_sublist _)
    · rename_i rc2 vm2 h2
      have b := (emR3ForcedActions_normal_appends e vm1 rc1).2 rc2 vm2 h2
      exact ((a.trans b).trans (emR3ForcedActions_poll_appends e vm2)).trans
        (emR3ForcedActions_pre_appends e _ rc2)

/-- C14 as stated fails. When the debugger keeps `VM_FF_DBGF` raised while it is
polled, one pass calls `DBGFR3VMMForcedAction` twice, in the post block and in
the pre block. And inside the interrupt shadow (the guest EIP is the recorded
address) a pass calls no handler at all and `VM_FF_INHIBIT_INTERRUPTS` is still
raised after it. -/
theorem emR3ForcedActions_once_counterexample :
    (emR3ForcedActions (envReturn 0) (vmInit.raise VM_FF_DBGF) VINF_SUCCESS).2.trace
        = [Call.DBGFR3VMMForcedAction, Call.DBGFR3VMMForcedAction]
    ∧ (emR3ForcedActions (envReturn 0) vmInhibit VINF_SUCCESS).2.trace = []
    ∧ VM_FF_ISSET (emR3ForcedActions (envReturn 0) vmInhibit VINF_SUCCESS).2
        VM_FF_INHIBIT_INTERRUPTS = true := by
  decide

theorem Lowered.self (v : VM) : Lowered v v := ⟨rfl, rfl, fun _ => Or.inl rfl⟩

theorem Lowered.chain {a b c : VM} (h1 : Lowered a b) (h2 : Lowered b c) : Lowered a c := by
  obtain ⟨c1, p1, f1⟩ := h1
  obtain ⟨c2, p2, f2⟩ := h2
  refine ⟨c2.trans c1, p2.trans p1, fun g => ?_⟩
  rcases f2 g with k2 | ⟨k2, k2'⟩
  · rcases f1 g with k1 | ⟨k1, k1'⟩
    · exact Or.inl (k2.trans k1)
    · exact Or.inr ⟨k2.trans k1, k1'⟩
  · refine Or.inr ⟨k2, ?_⟩
    rcases k2' with k | k | ⟨k, k'⟩
    · exact Or.inl k
    · exact Or.inr (Or.inl k)
    · refine Or.inr (Or.inr ⟨k, ?_⟩)
      unfold CPUMGetGuestEIP EMGetInhibitInterruptsPC at k' ⊢
      rw [← c1, ← p1]
      exact k'

theorem Lowered.of_same {v v' : VM} (h : v.sameGuest v') : Lowered v v' :=
  ⟨h.2.1, h.2.2, fun g => Or.inl (by rw [h.1])⟩

theorem Lowered.of_eq {v v' : VM} (h1 : v'.ff = v.ff) (h2 : v'.ctx = v.ctx)
    (h3 : v'.GCPtrInhibitInterrupts = v.GCPtrInhibitInterrupts) : Lowered v v' :=
  ⟨h2, h3, fun g => Or.inl (by rw [h1])⟩

theorem Lowered.keeps {v v' : VM} (h : Lowered v v') (g : VMFF) (h1 : g ≠ VM_FF_RESET)
    (h2 : g ≠ VM_FF_CSAM_SCAN_PAGE) (h3 : g ≠ VM_FF_INHIBIT_INTERRUPTS) :
    v'.ff g = v.ff g := by
  rcases h.2.2 g with k | ⟨_, k | k | ⟨k, _⟩⟩
  · exact k
  · exact absurd k h1
  · exact absurd k h2
  · exact absurd k h3

theorem Lowered.not_raised {v v' : VM} (h : Lowered v v') (g : VMFF) (h0 : v.ff g = false) :
    v'.ff g = false := by
  rcases h.2.2 g with k | ⟨k, _⟩
  · rw [k, h0]
  · exact k

theorem Lowered.shadow {v v' : VM} (h : Lowered v v')
    (h1 : v.ff VM_FF_INHIBIT_INTERRUPTS = true) (h2 : v'.ff VM_FF_INHIBIT_INTERRUPTS = false) :
    CPUMGetGuestEIP v ≠ EMGetInhibitInterruptsPC v := by
  rcases h.2.2 VM_FF_INHIBIT_INTERRUPTS with k | ⟨_, k | k | ⟨_, k⟩⟩
  · rw [k, h1] at h2
    exact Bool.noConfusion h2
  · exact absurd k (by decide)
  · exact absurd k (by decide)
  · exact k

theorem ffDbgf_lowered (e : Env) (hK : HandlersKeep e.c) (s : Int × VM) :
    Lowered s.2 (ffDbgf e s).2 := by
  unfold ffDbgf
  split_ifs
  · exact Lowered.of_same (hK s.2).1
  · exact Lowered.self _

theorem ffReset_lowered (e : Env) (hK : HandlersKeep e.c) (s : Int × VM) :
    Lowered s.2 (ffReset e s).2 := by
  unfold ffReset
  split_ifs
  · have h := (hK s.2).2.1
    refine ⟨h.2.1, h.2.2, fun g => ?_⟩
    by_cases hg : g = VM_FF_RESET
    · exact Or.inr ⟨by simp [VM_FF_CLEAR, hg], Or.inl hg⟩
    · refine Or.inl ?_
      show (if g = VM_FF_RESET then false else (e.c.VMR3Reset s.2).2.ff g) = s.2.ff g
      rw [if_neg hg, h.1]
  · exact Lowered.self _

theorem ffCsamScanPage_lowered (e : Env) (hK : HandlersKeep e.c) (s : Int × VM) :
    Lowered s.2 (ffCsamScanPage e s).2 := by
  unfold ffCsamScanPage
  split_ifs
  · have h := (hK s.2).2.2.1 s.2.ctx.eip
    refine ⟨h.2.1, h.2.2, fun g => ?_⟩
    by_cases hg : g = VM_FF_CSAM_SCAN_PAGE
    · exact Or.inr ⟨by simp [VM_FF_CLEAR, hg], Or.inr (Or.inl hg)⟩
    · refine Or.inl ?_
      show (if g = VM_FF_CSAM_SCAN_PAGE then false
        else (e.c.CSAMR3CheckCodeEx s.2.ctx.eip s.2).ff g) = s.2.ff g
      rw [if_neg hg, h.1]
  · exact Lowered.self _

theorem ffPdmQueues_lowered (e : Env) (hK : HandlersKeep e.c) (vm : VM) :
    Lowered vm (ffPdmQueues e vm) := by
  unfold ffPdmQueues
  split_ifs
  · exact Lowered.of_same (hK vm).2.2.2.1
  · exact Lowered.self _

theorem ffPdmDma_lowered (e : Env) (hK : HandlersKeep e.c) (vm : VM) :
    Lowered vm (ffPdmDma e vm) := by
  unfold ffPdmDma
  split_ifs
  · exact Lowered.of_same (hK vm).2.2.2.2.1
  · exact Lowered.self _

theorem ffRemHandlerNotify_lowered (e : Env) (hK : HandlersKeep e.c) (vm : VM) :
    Lowered vm (ffRemHandlerNotify e vm) := by
  unfold ffRemHandlerNotify
  split_ifs
  · exact Lowered.of_same (hK vm).2.2.2.2.2.2.1
  · exact Lowered.self _

theorem emR3ForcedActions_poll_lowered (e : Env) (hK : HandlersKeep e.c) (vm : VM) :
    Lowered vm (emR3ForcedActions_poll e vm) := by
  unfold emR3ForcedActions_poll
  dsimp only
  split_ifs
  · exact Lowered.of_same (hK { vm with cLast := (vm.cLast + 1) % 2 ^ 32 }).2.2.2.2.2.2.2.1
  · exact Lowered.of_eq rfl rfl rfl

theorem ffTimer_lowered (e : Env) (hK : HandlersKeep e.c) (s : Int × VM) :
    Lowered s.2 (ffTimer e s).2 := by
  unfold ffTimer
  split_ifs
  · exact Lowered.of_same (hK s.2).2.2.2.2.2.2.2.2.1
  · exact Lowered.self _

theorem ffInhibitInterrupts_lowered (e : Env) (s : Int × VM) :
    Lowered s.2 (ffInhibitInterrupts e s).2 := by
  unfold ffInhibitInterrupts
  split_ifs with h1 h2
  · refine ⟨rfl, rfl, fun g => ?_⟩
    by_cases hg : g = VM_FF_INHIBIT_INTERRUPTS
    · exact Or.inr ⟨by simp [VM_FF_CLEAR, hg], Or.inr (Or.inr ⟨hg, h2⟩)⟩
    · exact Or.inl (by simp [VM_FF_CLEAR, hg])
  · exact Lowered.self _
  · exact Lowered.self _

theorem ffInterrupts_lowered (e : Env) (hK : HandlersKeep e.c) (s : Int × VM) :
    Lowered s.2 (ffInterrupts e s).2 := by
  unfold ffInterrupts
  split_ifs
  · exact Lowered.of_same (hK s.2).2.2.2.2.2.2.2.2.2.1
  · exact Lowered.self _
  · exact Lowered.self _
  · exact Lowered.self _

theorem ffHandyPages_lowered (e : Env) (hK : HandlersKeep e.c) (s : Int × VM) :
    Lowered s.2 (ffHandyPages e s).2 := by
  unfold ffHandyPages
  split_ifs
  · exact Lowered.of_same (hK s.2).2.2.2.2.2.2.2.2.2.2
  · exact Lowered.self _

theorem emR3ForcedActions_post_lowered (e : Env) (hK : HandlersKeep e.c) (vm : VM)
    (rc r : Int) (vm' : VM) (h : emR3ForcedActions_post e vm rc = FFStep.go r vm') :
    Lowered vm vm' := by
  unfold emR3ForcedActions_post at h
  by_cases h1 : VM_FF_ISPENDING vm e.m.VM_FF_NORMAL_PRIORITY_POST_MASK = true
  swap
  · rw [if_neg h1] at h
    simp only [FFStep.go.injEq] at h
    rw [← h.2]
    exact Lowered.self _
  rw [if_pos h1] at h
  by_cases h2 : VM_FF_ISSET vm VM_FF_TERMINATE = true
  · rw [if_pos h2] at h
    exact FFStep.noConfusion h
  rw [if_neg h2] at h
  simp only [FFStep.go.injEq] at h
  rw [← h.2]
  exact ((ffDbgf_lowered e hK (rc, vm)).chain (ffReset_lowered e hK _)).chain
    (ffCsamScanPage_lowered e hK _)

theorem emR3ForcedActions_normal_lowered (e : Env) (hK : HandlersKeep e.c) (vm : VM)
    (rc : Int) :
    (∀ r vm', emR3ForcedActions_normal e vm rc = FFStep.ret r vm' → Lowered vm vm')
    ∧ (∀ r vm', emR3ForcedActions_normal e vm rc = FFStep.go r vm' → Lowered vm vm') := by
  have hq := (ffPdmQueues_lowered e hK vm).chain (ffPdmDma_lowered e hK (ffPdmQueues e vm))
  have hreq : Lowered (ffPdmDma e (ffPdmQueues e vm))
      ((ffPdmDma e (ffPdmQueues e vm)).call Call.VMR3ReqProcessU e.c.VMR3ReqProcessU).2 :=
    Lowered.of_same (hK _).2.2.2.2.2.1
  unfold emR3ForcedActions_normal
  by_cases h1 : VM_FF_ISPENDING vm e.m.VM_FF_NORMAL_PRIORITY_MASK = true
  swap
  · rw [if_neg h1]
    refine ⟨fun _ _ h => (by cases h), fun r vm' h => ?_⟩
    simp only [FFStep.go.injEq] at h
    rw [← h.2]
    exact Lowered.self _
  rw [if_pos h1]
  dsimp only
  by_cases h2 : VM_FF_ISSET (ffPdmDma e (ffPdmQueues e vm)) VM_FF_REQUEST = true
  swap
  · rw [if_neg h2]
    refine ⟨fun _ _ h => (by cases h), fun r vm' h => ?_⟩
    simp only [FFStep.go.injEq] at h
    rw [← h.2]
    exact hq.chain (ffRemHandlerNotify_lowered e hK _)
  rw [if_pos h2]
  split_ifs
  · refine ⟨fun r vm' h => ?_, fun _ _ h => (by cases h)⟩
    simp only [FFStep.ret.injEq] at h
    rw [← h.2]
    exact hq.chain hreq
  · refine ⟨fun _ _ h => (by cases h), fun r vm' h => ?_⟩
    simp only [FFStep.go.injEq] at h
    rw [← h.2]
    exact (hq.chain hreq).chain (ffRemHandlerNotify_lowered e hK _)

theorem emR3ForcedActions_pre_lowered (e : Env) (hK : HandlersKeep e.c) (vm : VM) (rc : Int) :
    Lowered vm (emR3ForcedActions_pre e vm rc).2 := by
  have k : Lowered vm (ffDbgf e (ffHandyPages e (ffInterrupts e
      (ffInhibitInterrupts e (ffTimer e (rc, vm)))))).2 :=
    ((((ffTimer_lowered e hK (rc, vm)).chain (ffInhibitInterrupts_lowered e _)).chain
      (ffInterrupts_lowered e hK _)).chain (ffHandyPages_lowered e hK _)).chain
      (ffDbgf_lowered e hK _)
  unfold emR3ForcedActions_pre
  by_cases h1 : VM_FF_ISPENDING vm e.m.VM_FF_HIGH_PRIORITY_PRE_MASK = true
  swap
  · rw [if_neg h1]
    exact Lowered.self _
  rw [if_pos h1]
  dsimp only
  split_ifs
  · exact k
  · exact k

/-- After the post block, whatever the rest of a pass of `emR3ForcedActions`
does: the flags are lowered at most, and no call of a handler of the post block
is recorded. -/
theorem emR3ForcedActions_rest (e : Env) (vm : VM) (rc rc1 : Int) (vm1 : VM)
    (h : emR3ForcedActions_post e vm rc = FFStep.go rc1 vm1) :
    (HandlersKeep e.c → Lowered vm1 (emR3ForcedActions e vm rc).2)
    ∧ Appends vm1 (emR3ForcedActions e vm rc).2
        [Call.PDMR3QueueFlushAll, Call.PDMR3DmaRun, Call.VMR3ReqProcessU,
         Call.REMR3ReplayHandlerNotifications, Call.PDMR3Poll, Call.TMR3TimerQueuesDo,
         Call.TRPMR3InjectEvent, Call.PGMR3PhysAllocateHandyPages,
         Call.DBGFR3VMMForcedAction] := by
  unfold emR3ForcedActions
  rw [h]
  dsimp only
  split
  · rename_i r vm2 h2
    refine ⟨fun hK => (emR3ForcedActions_normal_lowered e hK vm1 rc1).1 r vm2 h2, ?_⟩
    exact ((emR3ForcedActions_normal_appends e vm1 rc1).1 r vm2 h2).mono (by
      repeat apply List.Sublist.cons₂
      exact List.nil_sublist _)
  · rename_i rc2 vm2 h2
    refine ⟨fun hK => ((emR3ForcedActions_normal_lowered e hK vm1 rc1).2 rc2 vm2 h2).chain
      ((emR3ForcedActions_poll_lowered e hK vm2).chain
        (emR3ForcedActions_pre_lowered e hK _ rc2)), ?_⟩
    exact (((emR3ForcedActions_normal_appends e vm1 rc1).2 rc2 vm2 h2).trans
      (emR3ForcedActions_poll_appends e vm2)).trans (emR3ForcedActions_pre_appends e _ rc2)

theorem emR3ForcedActions_lowered (e : Env) (hK : HandlersKeep e.c) (vm : VM) (rc : Int) :
    Lowered vm (emR3ForcedActions e vm rc).2 := by
  cases hp : emR3ForcedActions_post e vm rc with
  | ret r vm1 =>
    obtain ⟨_, b, _⟩ := emR3ForcedActions_post_ret_eq e vm rc r vm1 hp
    unfold emR3ForcedActions
    rw [hp, b]
    exact Lowered.self _
  | go rc1 vm1 =>
    exact (emR3ForcedActions_post_lowered e hK vm rc rc1 vm1 hp).chain
      ((emR3ForcedActions_rest e vm rc rc1 vm1 hp).1 hK)

theorem ffDbgf_same (e : Env) (hK : HandlersKeep e.c) (s : Int × VM) :
    s.2.sameGuest (ffDbgf e s).2 := by
  unfold ffDbgf
  split_ifs
  · exact (hK s.2).1
  · exact ⟨rfl, rfl, rfl⟩

theorem ffReset_spec (e : Env) (hK : HandlersKeep e.c) (s : Int × VM) :
    (ffReset e s).2.ff VM_FF_RESET = false
    ∧ (∀ g : VMFF, g ≠ VM_FF_RESET → (ffReset e s).2.ff g = s.2.ff g)
    ∧ (ffReset e s).2.ctx = s.2.ctx
    ∧ (ffReset e s).2.trace.count Call.VMR3Reset
        = s.2.trace.count Call.VMR3Reset + (if s.2.ff VM_FF_RESET = true then 1 else 0)
    ∧ ∀ a : Nat, (ffReset e s).2.trace.count (Call.CSAMR3CheckCodeEx a)
        = s.2.trace.count (Call.CSAMR3CheckCodeEx a) := by
  have h := (hK s.2).2.1
  unfold ffReset
  by_cases hr : VM_FF_ISSET s.2 VM_FF_RESET = true
  · rw [if_pos hr]
    have hr' : s.2.ff VM_FF_RESET = true := hr
    refine ⟨by simp [VM_FF_CLEAR], fun g hg => ?_, h.2.1, ?_, fun a => ?_⟩
    · show (if g = VM_FF_RESET then false else (e.c.VMR3Reset s.2).2.ff g) = s.2.ff g
      rw [if_neg hg, h.1]
    · rw [if_pos hr']
      simp [List.count_append]
    · simp [List.count_append]
  · rw [if_neg hr]
    have hr' : ¬ s.2.ff VM_FF_RESET = true := hr
    refine ⟨by simpa [VM_FF_ISSET] using hr, fun _ _ => rfl, rfl, ?_, fun _ => rfl⟩
    rw [if_neg hr']
    rfl

theorem ffCsamScanPage_spec (e : Env) (hK : HandlersKeep e.c) (s : Int × VM) :
    (ffCsamScanPage e s).2.ff VM_FF_CSAM_SCAN_PAGE = false
    ∧ (∀ g : VMFF, g ≠ VM_FF_CSAM_SCAN_PAGE → (ffCsamScanPage e s).2.ff g = s.2.ff g)
    ∧ (ffCsamScanPage e s).2.trace.count (Call.CSAMR3CheckCodeEx s.2.ctx.eip)
        = s.2.trace.count (Call.CSAMR3CheckCodeEx s.2.ctx.eip)
          + (if s.2.ff VM_FF_CSAM_SCAN_PAGE = true then 1 else 0)
    ∧ (ffCsamScanPage e s).2.trace.count Call.VMR3Reset = s.2.trace.count Call.VMR3Reset := by
  have h := (hK s.2).2.2.1 s.2.ctx.eip
  unfold ffCsamScanPage
  by_cases hr : VM_FF_ISSET s.2 VM_FF_CSAM_SCAN_PAGE = true
  · rw [if_pos hr]
    have hr' : s.2.ff VM_FF_CSAM_SCAN_PAGE = true := hr
    refine ⟨by simp [VM_FF_CLEAR], fun g hg => ?_, ?_, ?_⟩
    · show (if g = VM_FF_CSAM_SCAN_PAGE then false
        else (e.c.CSAMR3CheckCodeEx s.2.ctx.eip s.2).ff g) = s.2.ff g
      rw [if_neg hg, h.1]
    · rw [if_pos hr']
      simp [List.count_append]
    · simp [List.count_append]
  · rw [if_neg hr]
    have hr' : ¬ s.2.ff VM_FF_CSAM_SCAN_PAGE = true := hr
    refine ⟨by simpa [VM_FF_ISSET] using hr, fun _ _ => rfl, ?_, rfl⟩
    rw [if_neg hr']
    rfl

/-- The post block of `emR3ForcedActions` when it runs and the terminate flag is
clear, the handlers keeping the flags: the block goes on to the next one with
`VM_FF_RESET` and `VM_FF_CSAM_SCAN_PAGE` lowered, and it has called `VMR3Reset`
and `CSAMR3CheckCodeEx` once each if the flag was raised and not at all if it
was clear. -/
theorem emR3ForcedActions_post_ran (e : Env) (hK : HandlersKeep e.c) (vm : VM) (rc : Int)
    (hp : VM_FF_ISPENDING vm e.m.VM_FF_NORMAL_PRIORITY_POST_MASK = true)
    (ht : VM_FF_ISSET vm VM_FF_TERMINATE = false) :
    ∃ (rc1 : Int) (vm1 : VM), emR3ForcedActions_post e vm rc = FFStep.go rc1 vm1
      ∧ vm1.ff VM_FF_RESET = false ∧ vm1.ff VM_FF_CSAM_SCAN_PAGE = false
      ∧ vm1.trace.count Call.VMR3Reset
          = vm.trace.count Call.VMR3Reset + (if vm.ff VM_FF_RESET = true then 1 else 0)
      ∧ vm1.trace.count (Call.CSAMR3CheckCodeEx vm.ctx.eip)
          = vm.trace.count (Call.CSAMR3CheckCodeEx vm.ctx.eip)
            + (if vm.ff VM_FF_CSAM_SCAN_PAGE = true then 1 else 0) := by
  have hd := ffDbgf_same e hK (rc, vm)
  have hdc : ∀ c : Call, c ≠ Call.DBGFR3VMMForcedAction →
      (ffDbgf e (rc, vm)).2.trace.count c = vm.trace.count c := fun c hc =>
    (ffDbgf_appends e (rc, vm)).count_eq c (by simp [List.count_cons, hc.symm])
  obtain ⟨r1, r2, r3, r4, r5⟩ := ffReset_spec e hK (ffDbgf e (rc, vm))
  obtain ⟨c1, c2, c3, c4⟩ := ffCsamScanPage_spec e hK (ffReset e (ffDbgf e (rc, vm)))
  have hctx : (ffReset e (ffDbgf e (rc, vm))).2.ctx = vm.ctx := r3.trans hd.2.1
  refine ⟨_, _, by
    unfold emR3ForcedActions_post
    rw [if_pos hp, if_neg (by rw [ht]; decide)], ?_, c1, ?_, ?_⟩
  · rw [c2 _ (by decide)]
    exact r1
  · rw [c4, r4, hdc _ (by decide), hd.1]
  · rw [hctx] at c3
    rw [c3, r5, hdc _ (by simp), r2 _ (by decide), hd.1]

/-- C14, amended: in one pass `emR3ForcedActions` calls the handlers in the
order of the source, every handler at most once, except
`DBGFR3VMMForcedAction`, which has a call in the post block and one in the pre
block and is called at most twice. And the function itself lowers three flags
only. When the handlers leave the flags, the guest context and the address
recorded for the interrupt shadow as they are: a pass whose post block runs (a
flag of `VM_FF_NORMAL_PRIORITY_POST_MASK` is pending and `VM_FF_TERMINATE` is
clear) leaves `VM_FF_RESET` and `VM_FF_CSAM_SCAN_PAGE` clear, having called
`VMR3Reset` and `CSAMR3CheckCodeEx` once each if the flag was raised and not at
all if it was clear; `VM_FF_INHIBIT_INTERRUPTS` is lowered only when the guest
EIP differs from the recorded address; every other flag is after the pass as
it was before; and no flag is raised. -/
theorem emR3ForcedActions_once (e : Env) (vm : VM) (rc : Int) :
    (∃ (eip : Nat) (t : List Call),
        (emR3ForcedActions e vm rc).2.trace = vm.trace ++ t
        ∧ t.Sublist
            [Call.DBGFR3VMMForcedAction, Call.VMR3Reset, Call.CSAMR3CheckCodeEx eip,
             Call.PDMR3QueueFlushAll, Call.PDMR3DmaRun, Call.VMR3ReqProcessU,
             Call.REMR3ReplayHandlerNotifications, Call.PDMR3Poll, Call.TMR3TimerQueuesDo,
             Call.TRPMR3InjectEvent, Call.PGMR3PhysAllocateHandyPages,
             Call.DBGFR3VMMForcedAction]
        ∧ t.count Call.DBGFR3VMMForcedAction ≤ 2
        ∧ ∀ c : Call, c ≠ Call.DBGFR3VMMForcedAction → t.count c ≤ 1)
    ∧ (HandlersKeep e.c →
        (VM_FF_ISPENDING vm e.m.VM_FF_NORMAL_PRIORITY_POST_MASK = true →
          VM_FF_ISSET vm VM_FF_TERMINATE = false →
          VM_FF_ISSET (emR3ForcedActions e vm rc).2 VM_FF_RESET = false
          ∧ VM_FF_ISSET (emR3ForcedActions e vm rc).2 VM_FF_CSAM_SCAN_PAGE = false
          ∧ (emR3ForcedActions e vm rc).2.trace.count Call.VMR3Reset
              = vm.trace.count Call.VMR3Reset
                + (if VM_FF_ISSET vm VM_FF_RESET = true then 1 else 0)
          ∧ (emR3ForcedActions e vm rc).2.trace.count
                (Call.CSAMR3CheckCodeEx (CPUMGetGuestEIP vm))
              = vm.trace.count (Call.CSAMR3CheckCodeEx (CPUMGetGuestEIP vm))
                + (if VM_FF_ISSET vm VM_FF_CSAM_SCAN_PAGE = true then 1 else 0))
        ∧ (VM_FF_ISSET vm VM_FF_INHIBIT_INTERRUPTS = true →
            VM_FF_ISSET (emR3ForcedActions e vm rc).2 VM_FF_INHIBIT_INTERRUPTS = false →
            CPUMGetGuestEIP vm ≠ EMGetInhibitInterruptsPC vm)
        ∧ (∀ g : VMFF, g ≠ VM_FF_RESET → g ≠ VM_FF_CSAM_SCAN_PAGE →
            g ≠ VM_FF_INHIBIT_INTERRUPTS →
            VM_FF_ISSET (emR3ForcedActions e vm rc).2 g = VM_FF_ISSET vm g)
        ∧ (∀ g : VMFF, VM_FF_ISSET vm g = false →
            VM_FF_ISSET (emR3ForcedActions e vm rc).2 g = false)) := by
  constructor
  · obtain ⟨eip, t, h1, h2⟩ := emR3ForcedActions_appends e vm rc
    refine ⟨eip, t, h1, h2, ?_, fun c hc => ?_⟩
    · exact (h2.count_le _).trans (by simp [List.count_cons])
    · refine (h2.count_le c).trans ?_
      cases c <;> simp [List.count_cons] at hc ⊢
      split_ifs <;> simp
  intro hK
  have hL := emR3ForcedActions_lowered e hK vm rc
  refine ⟨fun hp ht => ?_, fun h1 h2 => hL.shadow h1 h2,
    fun g h1 h2 h3 => hL.keeps g h1 h2 h3, fun g h0 => hL.not_raised g h0⟩
  obtain ⟨rc1, vm1, hpost, f1, f2, n1, n2⟩ := emR3ForcedActions_post_ran e hK vm rc hp ht
  obtain ⟨hl, ha⟩ := emR3ForcedActions_rest e vm rc rc1 vm1 hpost
  refine ⟨(hl hK).not_raised _ f1, (hl hK).not_raised _ f2, ?_, ?_⟩
  · rw [ha.count_eq Call.VMR3Reset (by decide)]
    exact n1
  · rw [ha.count_eq (Call.CSAMR3CheckCodeEx (CPUMGetGuestEIP vm)) (by simp [List.count_cons])]
    exact n2

theorem cQuiet_handlersKeep : HandlersKeep cQuiet := fun _ =>
  ⟨⟨rfl, rfl, rfl⟩, ⟨rfl, rfl, rfl⟩, fun _ => ⟨rfl, rfl, rfl⟩, ⟨rfl, rfl, rfl⟩, ⟨rfl, rfl, rfl⟩,
    ⟨rfl, rfl, rfl⟩, ⟨rfl, rfl, rfl⟩, ⟨rfl, rfl, rfl⟩, ⟨rfl, rfl, rfl⟩, ⟨rfl, rfl, rfl⟩,
    ⟨rfl, rfl, rfl⟩⟩

/-- Witness of C14, amended: quiet handlers; a reset is postponed, a page scan
is asked for, a timer has expired and the guest has left the interrupt shadow.
The pass calls `VMR3Reset`, `CSAMR3CheckCodeEx` and `TMR3TimerQueuesDo` once
each and lowers `VM_FF_RESET`, `VM_FF_CSAM_SCAN_PAGE` and
`VM_FF_INHIBIT_INTERRUPTS`; `VM_FF_TIMER`, which the function leaves to its
handler, is as it was. -/
theorem emR3ForcedActions_once_witness :
    (emR3ForcedActions (envReturn 0) vmResetScanShadow VINF_SUCCESS).2.trace
        = [Call.VMR3Reset, Call.CSAMR3CheckCodeEx 0x1000, Call.TMR3TimerQueuesDo]
    ∧ VM_FF_ISSET (emR3ForcedActions (envReturn 0) vmResetScanShadow VINF_SUCCESS).2
        VM_FF_RESET = false
    ∧ VM_FF_ISSET (emR3ForcedActions (envReturn 0) vmResetScanShadow VINF_SUCCESS).2
        VM_FF_CSAM_SCAN_PAGE = false
    ∧ VM_FF_ISSET (emR3ForcedActions (envReturn 0) vmResetScanShadow VINF_SUCCESS).2
        VM_FF_INHIBIT_INTERRUPTS = false
    ∧ VM_FF_ISSET (emR3ForcedActions (envReturn 0) vmResetScanShadow VINF_SUCCESS).2
        VM_FF_TIMER = VM_FF_ISSET vmResetScanShadow VM_FF_TIMER :=
  ⟨by decide,
    (((emR3ForcedActions_once (envReturn 0) vmResetScanShadow VINF_SUCCESS).2
      cQuiet_handlersKeep).1 (by decide) (by decide)).1,
    (((emR3ForcedActions_once (envReturn 0) vmResetScanShadow VINF_SUCCESS).2
      cQuiet_handlersKeep).1 (by decide) (by decide)).2.1,
    by decide,
    ((emR3ForcedActions_once (envReturn 0) vmResetScanShadow VINF_SUCCESS).2
      cQuiet_handlersKeep).2.2.1 VM_FF_TIMER (by decide) (by decide) (by decide)⟩

/-! ## The interrupt shadow in the pre block of `emR3ForcedActions` -/

theorem ffInterrupts_inhibited (e : Env) (s : Int × VM)
    (hI : VM_FF_ISSET s.2 VM_FF_INHIBIT_INTERRUPTS = true) : ffInterrupts e s = s := by
  unfold ffInterrupts
  rw [if_neg]
  intro h
  exact h.1 hI

theorem emR3ForcedActions_pre_steps (e : Env) (vm : VM) (rc : Int)
    (hP : VM_FF_ISPENDING vm e.m.VM_FF_HIGH_PRIORITY_PRE_MASK = true) :
    emR3ForcedActions_pre e vm rc
      = ffTerminate (ffDbgf e (ffHandyPages e (ffInterrupts e
          (ffInhibitInterrupts e (ffTimer e (rc, vm)))))) := by
  unfold emR3ForcedActions_pre ffTerminate
  rw [if_pos hP]

theorem ffTerminate_snd (s : Int × VM) : (ffTerminate s).2 = s.2 := by
  unfold ffTerminate
  split_ifs <;> rfl

theorem ffHandyPages_ff (e : Env) (s : Int × VM) (g : VMFF)
    (hk : ∀ v : VM, (e.c.PGMR3PhysAllocateHandyPages v).2.ff g = v.ff g) :
    (ffHandyPages e s).2.ff g = s.2.ff g := by
  unfold ffHandyPages
  split_ifs
  · exact hk _
  · rfl

theorem ffDbgf_ff (e : Env) (s : Int × VM) (g : VMFF)
    (hk : ∀ v : VM, (e.c.DBGFR3VMMForcedAction v).2.ff g = v.ff g) :
    (ffDbgf e s).2.ff g = s.2.ff g := by
  unfold ffDbgf
  split_ifs
  · exact hk _
  · rfl

theorem ffInterrupts_ff (e : Env) (s : Int × VM) (g : VMFF)
    (hk : ∀ v : VM, (e.c.TRPMR3InjectEvent v).2.ff g = v.ff g) :
    (ffInterrupts e s).2.ff g = s.2.ff g := by
  unfold ffInterrupts
  split_ifs
  · exact hk _
  · rfl
  · rfl
  · rfl

/-- C15: let the pre block of `emR3ForcedActions` run (a flag of
`VM_FF_HIGH_PRIORITY_PRE_MASK` is pending) and let `VM_FF_INHIBIT_INTERRUPTS` be
raised at its test, that is in the VM that the timer step leaves behind. When
the guest EIP differs from the address recorded by `EMSetInhibitInterruptsPC`,
the block lowers the flag and goes on to the interrupt step with the flag
lowered. When the EIP still is that address, the block leaves the VM as it is
and skips the interrupt step: it goes straight on to the handy pages, and it
records no call of `TRPMR3InjectEvent`. Nothing else in the block writes the
flag: when the handlers that follow leave the flag as it is, it is clear after
the block in the first case and raised in the second. -/
theorem emR3ForcedActions_pre_inhibit (e : Env) (vm : VM) (rc : Int)
    (hP : VM_FF_ISPENDING vm e.m.VM_FF_HIGH_PRIORITY_PRE_MASK = true)
    (hI : VM_FF_ISSET (ffTimer e (rc, vm)).2 VM_FF_INHIBIT_INTERRUPTS = true) :
    (CPUMGetGuestEIP (ffTimer e (rc, vm)).2 ≠ EMGetInhibitInterruptsPC (ffTimer e (rc, vm)).2 →
        (∃ rc' : Int,
          emR3ForcedActions_pre e vm rc
            = ffTerminate (ffDbgf e (ffHandyPages e (ffInterrupts e
                (rc', VM_FF_CLEAR (ffTimer e (rc, vm)).2 VM_FF_INHIBIT_INTERRUPTS)))))
        ∧ ((∀ v : VM, (e.c.TRPMR3InjectEvent v).2.ff VM_FF_INHIBIT_INTERRUPTS
              = v.ff VM_FF_INHIBIT_INTERRUPTS) →
           (∀ v : VM, (e.c.PGMR3PhysAllocateHandyPages v).2.ff VM_FF_INHIBIT_INTERRUPTS
              = v.ff VM_FF_INHIBIT_INTERRUPTS) →
           (∀ v : VM, (e.c.DBGFR3VMMForcedAction v).2.ff VM_FF_INHIBIT_INTERRUPTS
              = v.ff VM_FF_INHIBIT_INTERRUPTS) →
           VM_FF_ISSET (emR3ForcedActions_pre e vm rc).2 VM_FF_INHIBIT_INTERRUPTS = false))
    ∧ (CPUMGetGuestEIP (ffTimer e (rc, vm)).2 = EMGetInhibitInterruptsPC (ffTimer e (rc, vm)).2 →
        (∃ rc' : Int,
          emR3ForcedActions_pre e vm rc
            = ffTerminate (ffDbgf e (ffHandyPages e (rc', (ffTimer e (rc, vm)).2))))
        ∧ (∃ t : List Call,
            (emR3ForcedActions_pre e vm rc).2.trace = (ffTimer e (rc, vm)).2.trace ++ t
            ∧ t.Sublist [Call.PGMR3PhysAllocateHandyPages, Call.DBGFR3VMMForcedAction])
        ∧ (emR3ForcedActions_pre e vm rc).2.trace.count Call.TRPMR3InjectEvent
            = vm.trace.count Call.TRPMR3InjectEvent
        ∧ ((∀ v : VM, (e.c.PGMR3PhysAllocateHandyPages v).2.ff VM_FF_INHIBIT_INTERRUPTS
              = v.ff VM_FF_INHIBIT_INTERRUPTS) →
           (∀ v : VM, (e.c.DBGFR3VMMForcedAction v).2.ff VM_FF_INHIBIT_INTERRUPTS
              = v.ff VM_FF_INHIBIT_INTERRUPTS) →
           VM_FF_ISSET (emR3ForcedActions_pre e vm rc).2 VM_FF_INHIBIT_INTERRUPTS = true)) := by
  have hsteps := emR3ForcedActions_pre_steps e vm rc hP
  constructor
  · intro hne
    have hinh : ffInhibitInterrupts e (ffTimer e (rc, vm))
        = ((ffInhibitInterrupts e (ffTimer e (rc, vm))).1,
            VM_FF_CLEAR (ffTimer e (rc, vm)).2 VM_FF_INHIBIT_INTERRUPTS) := by
      unfold ffInhibitInterrupts
      rw [if_pos hI]
      dsimp only
      rw [if_pos hne]
    refine ⟨⟨_, by rw [hsteps, hinh]⟩, fun k1 k2 k3 => ?_⟩
    rw [hsteps, hinh]
    simp only [VM_FF_ISSET]
    rw [ffTerminate_snd, ffDbgf_ff e _ _ k3, ffHandyPages_ff e _ _ k2, ffInterrupts_ff e _ _ k1]
    simp [VM_FF_CLEAR]
  · intro heq
    have hinh : ffInhibitInterrupts e (ffTimer e (rc, vm))
        = ((ffInhibitInterrupts e (ffTimer e (rc, vm))).1, (ffTimer e (rc, vm)).2) := by
      unfold ffInhibitInterrupts
      rw [if_pos hI]
      dsimp only
      rw [if_neg (not_not.mpr heq)]
    have hint : ffInterrupts e ((ffInhibitInterrupts e (ffTimer e (rc, vm))).1,
        (ffTimer e (rc, vm)).2)
        = ((ffInhibitInterrupts e (ffTimer e (rc, vm))).1, (ffTimer e (rc, vm)).2) :=
      ffInterrupts_inhibited e _ hI
    have hpre : emR3ForcedActions_pre e vm rc
        = ffTerminate (ffDbgf e (ffHandyPages e
            ((ffInhibitInterrupts e (ffTimer e (rc, vm))).1, (ffTimer e (rc, vm)).2))) := by
      rw [hsteps, hinh, hint]
    have k : Appends (ffTimer e (rc, vm)).2 (emR3ForcedActions_pre e vm rc).2
        ([Call.PGMR3PhysAllocateHandyPages] ++ [Call.DBGFR3VMMForcedAction]) := by
      rw [hpre, ffTerminate_snd]
      exact (ffHandyPages_appends e
        ((ffInhibitInterrupts e (ffTimer e (rc, vm))).1, (ffTimer e (rc, vm)).2)).trans
        (ffDbgf_appends e _)
    refine ⟨⟨_, hpre⟩, k, ?_, fun k2 k3 => ?_⟩
    · exact ((ffTimer_appends e (rc, vm)).trans k).count_eq Call.TRPMR3InjectEvent (by decide)
    · rw [hpre]
      simp only [VM_FF_ISSET]
      rw [ffTerminate_snd, ffDbgf_ff e _ _ k3, ffHandyPages_ff e _ _ k2]
      exact hI

/-- Witness of C15: the guest has its interrupts enabled and an interrupt of the
PIC is pending. Inside the shadow (the guest EIP is the recorded address) the
flag is still raised after the block and no call is recorded; once the EIP has
moved on, the block lowers the flag and injects the interrupt. -/
theorem emR3ForcedActions_pre_inhibit_witness :
    VM_FF_ISSET (emR3ForcedActions_pre envInterruptsEnabled vmInhibitPic VINF_SUCCESS).2
        VM_FF_INHIBIT_INTERRUPTS = true
    ∧ (emR3ForcedActions_pre envInterruptsEnabled vmInhibitPic VINF_SUCCESS).2.trace = []
    ∧ VM_FF_ISSET (emR3ForcedActions_pre envInterruptsEnabled vmShadowLeftPic VINF_SUCCESS).2
        VM_FF_INHIBIT_INTERRUPTS = false
    ∧ (emR3ForcedActions_pre envInterruptsEnabled vmShadowLeftPic VINF_SUCCESS).2.trace
        = [Call.TRPMR3InjectEvent] :=
  ⟨((emR3ForcedActions_pre_inhibit envInterruptsEnabled vmInhibitPic VINF_SUCCESS
      (by decide) (by decide)).2 (by decide)).2.2.2 (fun _ => rfl) (fun _ => rfl),
    by decide,
    ((emR3ForcedActions_pre_inhibit envInterruptsEnabled vmShadowLeftPic VINF_SUCCESS
      (by decide) (by decide)).1 (by decide)).2 (fun _ => rfl) (fun _ => rfl) (fun _ => rfl),
    by decide⟩

/-! ## The terminate flag ends a halt -/

theorem emR3ForcedActions_of_terminate (e : Env) (vm : VM) (rc : Int)
    (hm : VM_FF_TERMINATE ∈ e.m.VM_FF_NORMAL_PRIORITY_POST_MASK)
    (hf : VM_FF_ISSET vm VM_FF_TERMINATE = true) :
    emR3ForcedActions e vm rc = (VINF_EM_TERMINATE, vm) := by
  have hp : VM_FF_ISPENDING vm e.m.VM_FF_NORMAL_PRIORITY_POST_MASK = true := by
    unfold VM_FF_ISPENDING
    rw [List.any_eq_true]
    exact ⟨VM_FF_TERMINATE, hm, hf⟩
  unfold emR3ForcedActions emR3ForcedActions_post
  rw [if_pos hp, if_pos hf]

theorem EMR3ExecuteVM_forcedActions_fFFDone (e : Env) (vm : VM) (rc : Int) (f : Bool) :
    (EMR3ExecuteVM_forcedActions e vm rc f).2.1 = false := by
  unfold EMR3ExecuteVM_forcedActions
  cases f
  · dsimp only
    split_ifs <;> rfl
  · simp

theorem EMR3ExecuteVM_dispatch_halted (e : Env) (idCpu fuel : Nat) (vm : VM) (rc : Int)
    (f : Bool) (h : vm.enmState = EMSTATE_HALTED) :
    EMR3ExecuteVM_dispatch e idCpu fuel vm rc f
      = Outcome.next
          (vm.call (Call.VMR3WaitHalted (decide (CPUMGetGuestEFlags vm &&& X86_EFL_IF = 0)))
            (e.c.VMR3WaitHalted (decide (CPUMGetGuestEFlags vm &&& X86_EFL_IF = 0)))).1
          f
          (vm.call (Call.VMR3WaitHalted (decide (CPUMGetGuestEFlags vm &&& X86_EFL_IF = 0)))
            (e.c.VMR3WaitHalted (decide (CPUMGetGuestEFlags vm &&& X86_EFL_IF = 0)))).2 := by
  unfold EMR3ExecuteVM_dispatch
  rw [h]

theorem EMR3ExecuteVM_round_halted (e : Env) (idCpu fuel : Nat) (vm : VM) (rc : Int) (f : Bool)
    (vm1 : VM) (rc1 : Int) (f1 : Bool)
    (h1 : EMR3ExecuteVM_round e idCpu fuel vm rc f = Outcome.next rc1 f1 vm1)
    (hH : vm1.enmState = EMSTATE_HALTED) :
    f1 = false ∧ ∃ b, vm1.trace.getLast? = some (Call.VMR3WaitHalted b) := by
  unfold EMR3ExecuteVM_round at h1
  dsimp only at h1
  rw [EMR3ExecuteVM_forcedActions_fFFDone] at h1
  unfold EMR3ExecuteVM_act at h1
  split at h1
  · exact Outcome.noConfusion h1
  · dsimp only at h1
    have hs := (EMR3ExecuteVM_dispatch_next _ _ _ _ _ _ _ _ _ h1).1
    rw [hH] at hs
    rw [EMR3ExecuteVM_dispatch_halted _ _ _ _ _ _ hs.symm] at h1
    simp only [Outcome.next.injEq] at h1
    refine ⟨h1.2.1.symm, ?_⟩
    rw [← h1.2.2, call_trace]
    simp

theorem EMR3ExecuteVM_act_terminate_trace (e : Env) (idCpu fuel : Nat) (vm : VM) (f : Bool) :
    ∃ vm', EMR3ExecuteVM_act e idCpu fuel vm VINF_EM_TERMINATE f
        = Outcome.ret Exit.terminate VINF_EM_TERMINATE vm'
      ∧ vm'.enmState = EMSTATE_TERMINATING
      ∧ vm'.trace = vm.trace ++ [Call.TMVirtualPause, Call.TMCpuTickPause] := by
  refine ⟨(({ vm with enmState := EMSTATE_TERMINATING } : VM).callVoid Call.TMVirtualPause
      e.c.TMVirtualPause).callVoid Call.TMCpuTickPause e.c.TMCpuTickPause, ?_, rfl, by simp⟩
  simp [EMR3ExecuteVM_act, EMR3ExecuteVM_switch, VINF_EM_RESCHEDULE_RAW, VINF_SUCCESS,
    VINF_EM_RESCHEDULE_HWACC, VINF_EM_RESCHEDULE_REM, VINF_EM_HALT, VINF_EM_RESUME,
    VINF_EM_RESCHEDULE, VINF_EM_SUSPEND, VINF_EM_RESET, VINF_EM_OFF, VINF_EM_TERMINATE]

theorem EMR3ExecuteVM_act_powerOff_trace (e : Env) (idCpu fuel : Nat) (vm : VM) (f : Bool) :
    ∃ vm', EMR3ExecuteVM_act e idCpu fuel vm VINF_EM_OFF f
        = Outcome.ret Exit.powerOff VINF_EM_OFF vm'
      ∧ vm'.enmState = EMSTATE_TERMINATING
      ∧ vm'.trace = vm.trace ++ [Call.TMVirtualPause, Call.TMCpuTickPause, Call.VMMR3Unlock] := by
  refine ⟨((({ vm with enmState := EMSTATE_TERMINATING } : VM).callVoid Call.TMVirtualPause
      e.c.TMVirtualPause).callVoid Call.TMCpuTickPause e.c.TMCpuTickPause).callVoid
      Call.VMMR3Unlock e.c.VMMR3Unlock, ?_, rfl, by simp⟩
  simp [EMR3ExecuteVM_act, EMR3ExecuteVM_switch, VINF_EM_RESCHEDULE_RAW, VINF_SUCCESS,
    VINF_EM_RESCHEDULE_HWACC, VINF_EM_RESCHEDULE_REM, VINF_EM_HALT, VINF_EM_RESUME,
    VINF_EM_RESCHEDULE, VINF_EM_SUSPEND, VINF_EM_RESET, VINF_EM_OFF]

/-- C16: let a round of the outer loop of `EMR3ExecuteVM` end in the state
`EMSTATE_HALTED` with `VM_FF_TERMINATE` raised (the masks `VM_FF_ALL_BUT_RAW_MASK`
and `VM_FF_NORMAL_PRIORITY_POST_MASK` hold that flag). Then the last call of that
round was `VMR3WaitHalted`, and for every status `rc1` of the wait the next round
returns: with `VINF_EM_TERMINATE`, or with `VINF_EM_OFF` when that is what the
wait returned; the state is `EMSTATE_TERMINATING`; and the calls of that round
are among `emR3ForcedActions`, `TMVirtualPause`, `TMCpuTickPause` and
`VMMR3Unlock`: no second wait and no inner loop. -/
theorem EMR3ExecuteVM_halted_terminate (e : Env) (idCpu fuel fuel' : Nat) (vm : VM) (rc : Int)
    (f : Bool) (vm1 : VM) (rc1 : Int) (f1 : Bool)
    (hA : VM_FF_TERMINATE ∈ e.m.VM_FF_ALL_BUT_RAW_MASK)
    (hP : VM_FF_TERMINATE ∈ e.m.VM_FF_NORMAL_PRIORITY_POST_MASK)
    (h1 : EMR3ExecuteVM_round e idCpu fuel vm rc f = Outcome.next rc1 f1 vm1)
    (hH : vm1.enmState = EMSTATE_HALTED)
    (hT : VM_FF_ISSET vm1 VM_FF_TERMINATE = true) :
    (∃ b, vm1.trace.getLast? = some (Call.VMR3WaitHalted b))
    ∧ ∃ (site : Exit) (r : Int) (vm2 : VM) (t : List Call),
        EMR3ExecuteVM_round e idCpu fuel' vm1 rc1 f1 = Outcome.ret site r vm2
        ∧ ((site = Exit.terminate ∧ r = VINF_EM_TERMINATE)
            ∨ (site = Exit.powerOff ∧ r = VINF_EM_OFF ∧ rc1 = VINF_EM_OFF))
        ∧ vm2.enmState = EMSTATE_TERMINATING
        ∧ vm2.trace = vm1.trace ++ t
        ∧ t.Sublist [Call.emR3ForcedActions rc1, Call.TMVirtualPause, Call.TMCpuTickPause,
            Call.VMMR3Unlock] := by
  obtain ⟨hf1, hw⟩ := EMR3ExecuteVM_round_halted e idCpu fuel vm rc f vm1 rc1 f1 h1 hH
  subst hf1
  refine ⟨hw, ?_⟩
  by_cases hOff : rc1 = VINF_EM_OFF
  · subst hOff
    obtain ⟨vm2, a, b, c⟩ := EMR3ExecuteVM_act_powerOff_trace e idCpu fuel' vm1 false
    refine ⟨Exit.powerOff, VINF_EM_OFF, vm2, _, ?_, Or.inr ⟨rfl, rfl, rfl⟩, b, c, ?_⟩
    · rw [← a]
      simp [EMR3ExecuteVM_round, EMR3ExecuteVM_forcedActions]
    · exact List.Sublist.cons _ (List.Sublist.refl _)
  by_cases hTerm : rc1 = VINF_EM_TERMINATE
  · subst hTerm
    obtain ⟨vm2, a, b, c⟩ := EMR3ExecuteVM_act_terminate_trace e idCpu fuel' vm1 false
    refine ⟨Exit.terminate, VINF_EM_TERMINATE, vm2, _, ?_, Or.inl ⟨rfl, rfl⟩, b, c, ?_⟩
    · rw [← a]
      simp [EMR3ExecuteVM_round, EMR3ExecuteVM_forcedActions]
    · exact List.Sublist.cons _ (List.Sublist.cons₂ _ (List.Sublist.cons₂ _ (List.nil_sublist _)))
  have hp : VM_FF_ISPENDING vm1 e.m.VM_FF_ALL_BUT_RAW_MASK = true := by
    unfold VM_FF_ISPENDING
    rw [List.any_eq_true]
    exact ⟨VM_FF_TERMINATE, hA, hT⟩
  have hfa : EMR3ExecuteVM_forcedActions e vm1 rc1 false
      = (VINF_EM_TERMINATE, false,
          { vm1 with trace := vm1.trace ++ [Call.emR3ForcedActions rc1] }) := by
    unfold EMR3ExecuteVM_forcedActions
    rw [if_pos ⟨by simp, hTerm, hOff, hp⟩]
    dsimp only
    rw [emR3ForcedActions_of_terminate e
      { vm1 with trace := vm1.trace ++ [Call.emR3ForcedActions rc1] } rc1 hP hT]
    simp [VINF_EM_TERMINATE, VINF_EM_RESCHEDULE_REM, VINF_EM_RESCHEDULE_HWACC]
  obtain ⟨vm2, a, b, c⟩ := EMR3ExecuteVM_act_terminate_trace e idCpu fuel'
    { vm1 with trace := vm1.trace ++ [Call.emR3ForcedActions rc1] } false
  refine ⟨Exit.terminate, VINF_EM_TERMINATE, vm2,
    [Call.emR3ForcedActions rc1, Call.TMVirtualPause, Call.TMCpuTickPause],
    ?_, Or.inl ⟨rfl, rfl⟩, b, ?_, ?_⟩
  · rw [← a]
    simp [EMR3ExecuteVM_round, hfa]
  · rw [c]
    simp
  · exact List.Sublist.cons₂ _ (List.Sublist.cons₂ _ (List.Sublist.cons₂ _ (List.nil_sublist _)))

/-- Witness of C16: the halted VM waits, the wait ends with the failure
`VERR_INTERNAL_ERROR` and the terminate flag raised, and the next round returns
`VINF_EM_TERMINATE` in the state `EMSTATE_TERMINATING`. -/
theorem EMR3ExecuteVM_halted_terminate_witness :
    haltedWait.1 = VERR_INTERNAL_ERROR
    ∧ (∃ b, haltedWait.2.2.trace.getLast? = some (Call.VMR3WaitHalted b))
    ∧ ∃ (site : Exit) (r : Int) (vm2 : VM) (t : List Call),
        EMR3ExecuteVM_round envHaltedTerminate 0 1 haltedWait.2.2 haltedWait.1 haltedWait.2.1
          = Outcome.ret site r vm2
        ∧ ((site = Exit.terminate ∧ r = VINF_EM_TERMINATE)
            ∨ (site = Exit.powerOff ∧ r = VINF_EM_OFF ∧ haltedWait.1 = VINF_EM_OFF))
        ∧ vm2.enmState = EMSTATE_TERMINATING
        ∧ vm2.trace = haltedWait.2.2.trace ++ t
        ∧ t.Sublist [Call.emR3ForcedActions haltedWait.1, Call.TMVirtualPause,
            Call.TMCpuTickPause, Call.VMMR3Unlock] :=
  ⟨by decide,
   EMR3ExecuteVM_halted_terminate envHaltedTerminate 0 1 1 vmHalted VINF_SUCCESS false
    haltedWait.2.2 haltedWait.1 haltedWait.2.1 (by decide) (by decide) rfl (by decide)
    (by decide)⟩

/-! ## The trace and the flags after a call -/

theorem callR_trace {α : Type} (vm : VM) (w : Call) (f : VM → α × VM) :
    (vm.callR w f).2.trace = vm.trace ++ [w] := rfl

theorem call_ff (vm : VM) (w : Call) (f : VM → Int × VM) : (vm.call w f).2.ff = (f vm).2.ff :=
  rfl

/-! ## A privileged instruction in patch memory -/

theorem run_trace_mem {α : Type} (vm : VM) (w : Call) (f : VM → Option (α × VM)) (a : α)
    (vm' : VM) (h : vm.run w f = some (a, vm')) : w ∈ vm'.trace := by
  unfold VM.run at h
  split at h
  · exact Option.noConfusion h
  · simp only [Option.some.injEq, Prod.mk.injEq] at h
    rw [← h.2]
    simp

theorem emR3RawHandleRC_privileged (e : Env) (r : RawEnv) (vm : VM) :
    emR3RawHandleRC e r vm VINF_EM_RAW_EXCEPTION_PRIVILEGED = emR3RawPrivileged r vm := by
  unfold emR3RawHandleRC
  rw [if_neg (by decide), if_neg (by decide), if_pos (by decide)]

theorem emR3RawPrivileged_fallback_patch (r : RawEnv) (vm : VM)
    (hpatch : r.q.PATMIsPatchGCAddr vm.ext vm.ctx.eip = true) :
    emR3RawPrivileged_fallback r vm = emR3PatchTrap_handle r vm X86_XCPT_GP := by
  unfold emR3RawPrivileged_fallback
  rw [if_pos hpatch]
  unfold emR3PatchTrap
  rw [if_neg (by decide), if_pos rfl]

theorem emR3RawPrivileged_disasm_patch (r : RawEnv) (vm : VM)
    (hpatch : r.q.PATMIsPatchGCAddr vm.ext vm.ctx.eip = true)
    (hop : RT_SUCCESS (r.q.CPUMR3DisasmInstrCPU vm).1 = true →
      vm.ctx.ss &&& X86_SEL_RPL = 0 ∧ X86EFLAGS_u1VM vm.ctx.eflags = 0
        ∧ r.q.SELMGetCpuModeFromSelector vm = CPUMODE.CPUMODE_32BIT →
      (r.q.CPUMR3DisasmInstrCPU vm).2.opcode = OPCODE.OP_OTHER) :
    emR3RawPrivileged_disasm r vm = emR3PatchTrap_handle r vm X86_XCPT_GP := by
  unfold emR3RawPrivileged_disasm
  dsimp only
  by_cases h1 : RT_SUCCESS (r.q.CPUMR3DisasmInstrCPU vm).1 = true
  swap
  · rw [if_neg h1]
    exact emR3RawPrivileged_fallback_patch r vm hpatch
  rw [if_pos h1]
  by_cases h2 : vm.ctx.ss &&& X86_SEL_RPL = 0 ∧ X86EFLAGS_u1VM vm.ctx.eflags = 0
      ∧ r.q.SELMGetCpuModeFromSelector vm = CPUMODE.CPUMODE_32BIT
  swap
  · rw [if_neg h2]
    exact emR3RawPrivileged_fallback_patch r vm hpatch
  rw [if_pos h2]
  unfold emR3RawPrivileged_emulate
  rw [hop h1 h2]
  exact emR3RawPrivileged_fallback_patch r vm hpatch

theorem emR3RawPrivileged_patch (r : RawEnv) (vm : VM)
    (hpatch : r.q.PATMIsPatchGCAddr vm.ext vm.ctx.eip = true)
    (hjump : r.q.PATMIsEnabled vm = true → r.q.PATMR3IsInsidePatchJump vm vm.ctx.eip = false)
    (hop : RT_SUCCESS (r.q.CPUMR3DisasmInstrCPU vm).1 = true →
      vm.ctx.ss &&& X86_SEL_RPL = 0 ∧ X86EFLAGS_u1VM vm.ctx.eflags = 0
        ∧ r.q.SELMGetCpuModeFromSelector vm = CPUMODE.CPUMODE_32BIT →
      (r.q.CPUMR3DisasmInstrCPU vm).2.opcode = OPCODE.OP_OTHER) :
    emR3RawPrivileged r vm = emR3PatchTrap_handle r vm X86_XCPT_GP := by
  unfold emR3RawPrivileged
  by_cases h1 : r.q.PATMIsEnabled vm = true
  swap
  · rw [if_neg h1]
    exact emR3RawPrivileged_disasm_patch r vm hpatch hop
  rw [if_pos h1, if_neg (by rw [hjump h1]; simp), if_neg (by rw [hpatch]; simp)]
  exact emR3RawPrivileged_disasm_patch r vm hpatch hop

/-- C19 as stated fails. With the guest EIP in patch memory and the interrupt
flag set, `emR3RawHandleRC` answers `VINF_EM_RAW_EXCEPTION_PRIVILEGED` for a
write to a control register with `VINF_EM_RESCHEDULE` (the instruction is
interpreted by `EMInterpretInstructionCPU`), and for `cli` with
`VINF_EM_RESCHEDULE_REM` (the flag is cleared in place); in both runs
`emR3RawExecuteInstruction` is not called. -/
theorem emR3RawHandleRC_privileged_counterexample :
    (rqPatch cpuMovToCr).PATMIsPatchGCAddr vmInPatch.ext vmInPatch.ctx.eip = true
    ∧ X86EFLAGS_u1IF vmInPatch.ctx.eflags = 1
    ∧ (emR3RawHandleRC (envReturn 0) (rawEnv cpuMovToCr VINF_SUCCESS VINF_SUCCESS 0) vmInPatch
          VINF_EM_RAW_EXCEPTION_PRIVILEGED).map (fun x => (x.1, x.2.trace))
        = some (VINF_EM_RESCHEDULE, [Call.raw RawCall.EMInterpretInstructionCPU])
    ∧ (emR3RawHandleRC (envReturn 0) (rawEnv cpuCli VINF_SUCCESS VINF_SUCCESS 0) vmInPatch
          VINF_EM_RAW_EXCEPTION_PRIVILEGED).map (fun x => (x.1, x.2.trace))
        = some (VINF_EM_RESCHEDULE_REM, []) := by
  decide

/-- C19, amended: let a burst end with `VINF_EM_RAW_EXCEPTION_PRIVILEGED` while
the guest EIP lies in patch memory; let the EIP not lie inside a patch jump, and
let the instruction be none of those that `emR3RawPrivileged` emulates itself
in ring-0 32-bit code (`cli`, `sti`, `hlt`, moves to and from control and debug
registers). Then `emR3RawHandleRC` takes the patch-trap path: `PATMR3HandleTrap`
is called, and when it answers `VINF_SUCCESS` or `VERR_PATCH_DISABLED` with the
interrupt flag set, or `VINF_PATCH_EMULATE_INSTR`, the result is that of
`emR3RawExecuteInstruction`. With the interrupt flag set after
`PATMR3HandleTrap`, `VINF_EM_RESCHEDULE` and `VINF_EM_RESCHEDULE_REM` are
returned only by that emulation. -/
theorem emR3RawHandleRC_privileged_patch (e : Env) (r : RawEnv) (vm : VM)
    (hpatch : r.q.PATMIsPatchGCAddr vm.ext vm.ctx.eip = true)
    (hjump : r.q.PATMIsEnabled vm = true → r.q.PATMR3IsInsidePatchJump vm vm.ctx.eip = false)
    (hop : RT_SUCCESS (r.q.CPUMR3DisasmInstrCPU vm).1 = true →
      vm.ctx.ss &&& X86_SEL_RPL = 0 ∧ X86EFLAGS_u1VM vm.ctx.eflags = 0
        ∧ r.q.SELMGetCpuModeFromSelector vm = CPUMODE.CPUMODE_32BIT →
      (r.q.CPUMR3DisasmInstrCPU vm).2.opcode = OPCODE.OP_OTHER)
    (hIF : X86EFLAGS_u1IF
      (vm.callR (Call.raw (RawCall.PATMR3HandleTrap vm.ctx.eip))
        (r.c.PATMR3HandleTrap vm.ctx.eip)).2.ctx.eflags ≠ 0) :
    emR3RawHandleRC e r vm VINF_EM_RAW_EXCEPTION_PRIVILEGED
        = emR3PatchTrap_handle r vm X86_XCPT_GP
    ∧ ((vm.callR (Call.raw (RawCall.PATMR3HandleTrap vm.ctx.eip))
            (r.c.PATMR3HandleTrap vm.ctx.eip)).1.1 ∈
          [VINF_SUCCESS, VINF_PATCH_EMULATE_INSTR, VERR_PATCH_DISABLED] →
        ∃ vm2 : VM, emR3RawHandleRC e r vm VINF_EM_RAW_EXCEPTION_PRIVILEGED
          = callExecuteInstruction r vm2 VINF_SUCCESS)
    ∧ (∀ res : Int × VM, emR3RawHandleRC e r vm VINF_EM_RAW_EXCEPTION_PRIVILEGED = some res →
        res.1 = VINF_EM_RESCHEDULE ∨ res.1 = VINF_EM_RESCHEDULE_REM →
        Call.raw (RawCall.emR3RawExecuteInstruction VINF_SUCCESS) ∈ res.2.trace) := by
  have h0 : emR3RawHandleRC e r vm VINF_EM_RAW_EXCEPTION_PRIVILEGED
      = emR3PatchTrap_handle r vm X86_XCPT_GP := by
    rw [emR3RawHandleRC_privileged, emR3RawPrivileged_patch r vm hpatch hjump hop]
  have hIF' : X86EFLAGS_u1IF
      ({ (vm.callR (Call.raw (RawCall.PATMR3HandleTrap vm.ctx.eip))
            (r.c.PATMR3HandleTrap vm.ctx.eip)).2 with
          ctx := { (vm.callR (Call.raw (RawCall.PATMR3HandleTrap vm.ctx.eip))
            (r.c.PATMR3HandleTrap vm.ctx.eip)).2.ctx with
              eip := (vm.callR (Call.raw (RawCall.PATMR3HandleTrap vm.ctx.eip))
                (r.c.PATMR3HandleTrap vm.ctx.eip)).1.2 % 2 ^ 32 } } : VM).ctx.eflags ≠ 0 := hIF
  refine ⟨h0, ?_, ?_⟩
  · intro hm
    rw [h0]
    unfold emR3PatchTrap_handle
    rw [if_pos (by decide)]
    dsimp only
    simp only [List.mem_cons, List.mem_singleton, List.not_mem_nil, or_false] at hm
    by_cases c1 : (vm.callR (Call.raw (RawCall.PATMR3HandleTrap vm.ctx.eip))
        (r.c.PATMR3HandleTrap vm.ctx.eip)).1.1 = VINF_SUCCESS
    · rw [if_pos c1, if_pos hIF']
      exact ⟨_, rfl⟩
    rw [if_neg c1]
    by_cases c2 : (vm.callR (Call.raw (RawCall.PATMR3HandleTrap vm.ctx.eip))
        (r.c.PATMR3HandleTrap vm.ctx.eip)).1.1 = VINF_PATCH_EMULATE_INSTR
    · rw [if_pos c2]
      exact ⟨_, rfl⟩
    rw [if_neg c2]
    have c3 := (hm.resolve_left c1).resolve_left c2
    rw [if_pos c3, if_pos hIF']
    exact ⟨_, rfl⟩
  · intro res hres hrs
    rw [h0] at hres
    unfold emR3PatchTrap_handle at hres
    rw [if_pos (by decide)] at hres
    dsimp only at hres
    by_cases c1 : (vm.callR (Call.raw (RawCall.PATMR3HandleTrap vm.ctx.eip))
        (r.c.PATMR3HandleTrap vm.ctx.eip)).1.1 = VINF_SUCCESS
    · rw [if_pos c1, if_pos hIF'] at hres
      exact run_trace_mem _ _ _ _ _ hres
    rw [if_neg c1] at hres
    by_cases c2 : (vm.callR (Call.raw (RawCall.PATMR3HandleTrap vm.ctx.eip))
        (r.c.PATMR3HandleTrap vm.ctx.eip)).1.1 = VINF_PATCH_EMULATE_INSTR
    · rw [if_pos c2] at hres
      exact run_trace_mem _ _ _ _ _ hres
    rw [if_neg c2] at hres
    by_cases c3 : (vm.callR (Call.raw (RawCall.PATMR3HandleTrap vm.ctx.eip))
        (r.c.PATMR3HandleTrap vm.ctx.eip)).1.1 = VERR_PATCH_DISABLED
    · rw [if_pos c3, if_pos hIF'] at hres
      exact run_trace_mem _ _ _ _ _ hres
    rw [if_neg c3] at hres
    exfalso
    split_ifs at hres
    · simp only [Option.some.injEq] at hres
      rw [← hres] at hrs
      simp [VINF_SUCCESS, VERR_INTERNAL_ERROR, VINF_EM_RESCHEDULE, VINF_EM_RESCHEDULE_REM] at hrs
    · simp only [Option.some.injEq] at hres
      rw [← hres] at hrs
      simp [VINF_SUCCESS, VERR_INTERNAL_ERROR, VINF_EM_RESCHEDULE, VINF_EM_RESCHEDULE_REM] at hrs

/-- Witness of C19, amended: the guest EIP is in patch memory, the interrupt
flag is set, the instruction is none that `emR3RawPrivileged` emulates itself,
and the patch manager resolves the trap with `VINF_SUCCESS`. -/
theorem emR3RawHandleRC_privileged_patch_witness :
    emR3RawHandleRC (envReturn 0) (rawEnv cpuOther VINF_SUCCESS VINF_SUCCESS 0x2000) vmInPatch
        VINF_EM_RAW_EXCEPTION_PRIVILEGED
      = emR3PatchTrap_handle (rawEnv cpuOther VINF_SUCCESS VINF_SUCCESS 0x2000) vmInPatch
          X86_XCPT_GP
    ∧ (emR3RawHandleRC (envReturn 0) (rawEnv cpuOther VINF_SUCCESS VINF_SUCCESS 0x2000)
          vmInPatch VINF_EM_RAW_EXCEPTION_PRIVILEGED).map (fun x => (x.1, x.2.trace))
        = some (VINF_SUCCESS, [Call.raw (RawCall.PATMR3HandleTrap (patchMemBase + 0x1000)),
            Call.raw (RawCall.emR3RawExecuteInstruction VINF_SUCCESS)]) :=
  ⟨(emR3RawHandleRC_privileged_patch (envReturn 0)
      (rawEnv cpuOther VINF_SUCCESS VINF_SUCCESS 0x2000) vmInPatch (by decide)
      (fun _ => by decide) (fun _ _ => by decide) (by decide)).1,
   by decide⟩

/-! ## The force-raw flag when `emR3RawExecute` returns -/

theorem emR3RawUpdateForceFlag_spec (r : RawEnv) (vm : VM) (rc : Int) :
    (emR3RawUpdateForceFlag r vm rc).2.fForceRAW
      = r.q.PATMIsPatchGCAddr (emR3RawUpdateForceFlag r vm rc).2.ext
          (emR3RawUpdateForceFlag r vm rc).2.ctx.eip := by
  unfold emR3RawUpdateForceFlag
  by_cases h : r.q.PATMIsPatchGCAddr vm.ext vm.ctx.eip = true
  · rw [if_pos h]
    exact h.symm
  · rw [if_neg h]
    simp only [Bool.not_eq_true] at h
    exact h.symm

theorem emR3RawExecute_ff_brk (e : Env) (r : RawEnv) (vm : VM) (rc : Int) (site : Break)
    (rc' : Int) (f : Bool) (vm' : VM)
    (h : emR3RawExecute_ff e r vm rc = LoopStep.brk site rc' f vm') :
    site = Break.forcedActionStatus
      ∧ vm'.fForceRAW = r.q.PATMIsPatchGCAddr vm'.ext vm'.ctx.eip := by
  unfold emR3RawExecute_ff at h
  dsimp only at h
  split_ifs at h
  · simp only [LoopStep.brk.injEq] at h
    rw [← h.1, ← h.2.2.2]
    exact ⟨rfl, emR3RawUpdateForceFlag_spec r _ _⟩

theorem emR3RawExecute_tail_brk (e : Env) (r : RawEnv) (vm : VM) (rc : Int) (site : Break)
    (rc' : Int) (f : Bool) (vm' : VM)
    (h : emR3RawExecute_tail e r vm rc = LoopStep.brk site rc' f vm') :
    (site = Break.schedulingStatus ∧ rc' = rc ∧ vm' = vm)
      ∨ ((site = Break.classifiedStatus ∨ site = Break.forcedActionStatus)
          ∧ vm'.fForceRAW = r.q.PATMIsPatchGCAddr vm'.ext vm'.ctx.eip) := by
  unfold emR3RawExecute_tail at h
  by_cases h1 : rc ≥ VINF_EM_FIRST ∧ rc ≤ VINF_EM_LAST
  · rw [if_pos h1] at h
    simp only [LoopStep.brk.injEq] at h
    exact Or.inl ⟨h.1.symm, h.2.1.symm, h.2.2.2.symm⟩
  rw [if_neg h1] at h
  right
  split at h
  · exact LoopStep.noConfusion h
  · rename_i rc1 vm1 _
    by_cases h2 : rc1 ≠ VINF_SUCCESS
    · rw [if_pos h2] at h
      dsimp only at h
      by_cases h3 : (emR3RawUpdateForceFlag r vm1 rc1).1 ≠ VINF_SUCCESS
      · rw [if_pos h3] at h
        simp only [LoopStep.brk.injEq] at h
        rw [← h.1, ← h.2.2.2]
        exact ⟨Or.inl rfl, emR3RawUpdateForceFlag_spec r _ _⟩
      · rw [if_neg h3] at h
        obtain ⟨a, b⟩ := emR3RawExecute_ff_brk _ _ _ _ _ _ _ _ h
        exact ⟨Or.inr a, b⟩
    · rw [if_neg h2] at h
      obtain ⟨a, b⟩ := emR3RawExecute_ff_brk _ _ _ _ _ _ _ _ h
      exact ⟨Or.inr a, b⟩

theorem emR3RawExecute_round_brk (e : Env) (r : RawEnv) (vm : VM) (site : Break)
    (rc' : Int) (f : Bool) (vm' : VM)
    (h : emR3RawExecute_round e r vm = LoopStep.brk site rc' f vm')
    (hs : site = Break.classifiedStatus ∨ site = Break.forcedActionStatus) :
    vm'.fForceRAW = r.q.PATMIsPatchGCAddr vm'.ext vm'.ctx.eip := by
  unfold emR3RawExecute_round at h
  split at h
  · rename_i site1 rc1 vm1 hen
    simp only [LoopStep.brk.injEq] at h
    exfalso
    unfold emR3RawExecute_enter emR3RawExecute_rawEnter at hen
    dsimp only at hen
    split_ifs at hen <;> simp only [Enter.brk.injEq] at hen <;>
      (rw [← h.1, ← hen.1] at hs; revert hs; decide)
  · dsimp only at h
    rcases emR3RawExecute_tail_brk _ _ _ _ _ _ _ _ h with ⟨a, _, _⟩ | ⟨_, b⟩
    · exfalso
      rw [a] at hs
      revert hs
      decide
    · exact b

theorem emR3RawExecute_loop_forceRaw (e : Env) (r : RawEnv) (fuel : Nat) :
    ∀ (vm : VM) (site : Break) (rc : Int) (f : Bool) (vm' : VM),
      emR3RawExecute_loop e r fuel vm = some (site, (rc, f), vm') →
      site = Break.classifiedStatus ∨ site = Break.forcedActionStatus →
      vm'.fForceRAW = r.q.PATMIsPatchGCAddr vm'.ext vm'.ctx.eip := by
  induction fuel with
  | zero =>
    intro vm site rc f vm' h
    simp [emR3RawExecute_loop] at h
  | succ n ih =>
    intro vm site rc f vm' h hs
    unfold emR3RawExecute_loop at h
    split at h
    · exact Option.noConfusion h
    · rename_i site1 rc1 f1 vm1 hr
      simp only [Option.some.injEq, Prod.mk.injEq] at h
      obtain ⟨a, ⟨_, _⟩, d⟩ := h
      subst a d
      exact emR3RawExecute_round_brk e r vm site1 rc1 f1 vm1 hr hs
    · exact ih _ _ _ _ _ h hs

/-- C20 does not hold of `emR3RawExecute`: a return through the `break` on a
scheduling status skips `emR3RawUpdateForceFlag`. In the first run the guest
EIP is in patch memory and the engine comes back with the scheduling status
`VINF_EM_RESCHEDULE_REM`: the function returns that status with the force-raw
flag clear although the guest EIP still is in patch memory. In the second run
the flag is set in the first round (a request asks for a reschedule while the
guest EIP is in patch memory, which `emR3RawUpdateForceFlag` ignores), the
second burst runs the guest out of patch memory and ends with
`VINF_EM_RESCHEDULE_REM`: the function returns with the force-raw flag set
although the guest EIP has left patch memory. -/
theorem emR3RawExecute_forceRaw_counterexample :
    (emR3RawExecute (envReturn 0) (rawEnv cpuOther VINF_EM_RESCHEDULE_REM VINF_SUCCESS 0) 1
        vmInPatchForced).map
      (fun x => (x.1, x.2.fForceRAW, (rqPatch cpuOther).PATMIsPatchGCAddr x.2.ext x.2.ctx.eip,
        x.2.trace))
      = some ((VINF_EM_RESCHEDULE_REM, false), false, true,
          [Call.raw RawCall.CPUMRawEnter, Call.VMMR3Unlock, Call.raw RawCall.VMMR3RawRunGC,
           Call.VMMR3Lock, Call.raw (RawCall.CPUMRawLeave VINF_EM_RESCHEDULE_REM)])
    ∧ (emR3RawExecute envRequestReschedule rawEnvRequestThenRem 2 vmInPatch).map
      (fun x => (x.1, x.2.fForceRAW, (rqPatch cpuOther).PATMIsPatchGCAddr x.2.ext x.2.ctx.eip,
        x.2.trace))
      = some ((VINF_EM_RESCHEDULE_REM, false), true, false,
          [Call.raw RawCall.CPUMRawEnter, Call.VMMR3Unlock, Call.raw RawCall.VMMR3RawRunGC,
           Call.VMMR3Lock, Call.raw (RawCall.CPUMRawLeave VINF_EM_PENDING_REQUEST),
           Call.raw RawCall.TMTimerPoll, Call.emR3ForcedActions VINF_SUCCESS,
           Call.VMR3ReqProcessU,
           Call.raw RawCall.CPUMRawEnter, Call.VMMR3Unlock, Call.raw RawCall.VMMR3RawRunGC,
           Call.VMMR3Lock, Call.raw (RawCall.CPUMRawLeave VINF_EM_RESCHEDULE_REM)]) := by
  decide

/-- Where the force-raw flag is up to date: whenever `emR3RawExecute` returns
through one of the two `break` statements that follow `emR3RawUpdateForceFlag`
(with a status that `emR3RawHandleRC` classified, or with a status of the
forced actions), the force-raw flag equals `PATMIsPatchGCAddr` of the guest
EIP. -/
theorem emR3RawExecute_forceRaw (e : Env) (r : RawEnv) (fuel : Nat) (vm : VM) (site : Break)
    (rc : Int) (f : Bool) (vm' : VM)
    (h : emR3RawExecute_at e r fuel vm = some (site, (rc, f), vm'))
    (hs : site = Break.classifiedStatus ∨ site = Break.forcedActionStatus) :
    emR3RawExecute e r fuel vm = some ((rc, f), vm')
      ∧ vm'.fForceRAW = r.q.PATMIsPatchGCAddr vm'.ext vm'.ctx.eip := by
  refine ⟨by simp [emR3RawExecute, h], ?_⟩
  exact emR3RawExecute_loop_forceRaw e r fuel _ site rc f vm' h hs

/-- An instance of `emR3RawExecute_forceRaw`: the engine gives up with
`VERR_TRPM_PANIC` while the guest EIP is in patch memory; `emR3RawExecute`
returns that status with the force-raw flag set. -/
theorem emR3RawExecute_forceRaw_witness :
    rawRunPanic.1 = Break.classifiedStatus
    ∧ rawRunPanic.2.1 = (VERR_TRPM_PANIC, false)
    ∧ rawRunPanic.2.2.fForceRAW = true
    ∧ emR3RawExecute (envReturn 0) (rawEnv cpuOther VERR_TRPM_PANIC VINF_SUCCESS 0) 1 vmInPatch
        = some (rawRunPanic.2.1, rawRunPanic.2.2)
    ∧ rawRunPanic.2.2.fForceRAW
        = (rawEnv cpuOther VERR_TRPM_PANIC VINF_SUCCESS 0).q.PATMIsPatchGCAddr
            rawRunPanic.2.2.ext rawRunPanic.2.2.ctx.eip :=
  ⟨by decide, by decide, by decide,
   emR3RawExecute_forceRaw (envReturn 0) (rawEnv cpuOther VERR_TRPM_PANIC VINF_SUCCESS 0) 1
    vmInPatch rawRunPanic.1 rawRunPanic.2.1.1 rawRunPanic.2.1.2 rawRunPanic.2.2 rfl
    (Or.inl (by decide))⟩

/-! ## The pre pass and the post pass of the inner loops -/

theorem callVoid_ff (vm : VM) (w : Call) (f : VM → VM) : (vm.callVoid w f).ff = (f vm).ff := rfl

theorem postForcedActions_spec (r : RawEnv)
    (hP : ∀ (v : VM) (g : VMFF),
      (r.c.PDMR3CritSectFF v).ff g = if g = VM_FF_PDM_CRITSECT then false else v.ff g)
    (hC : ∀ (v : VM) (g : VMFF),
      (r.c.CSAMR3DoPendingAction v).ff g
        = if g = VM_FF_CSAM_PENDING_ACTION then false else v.ff g)
    (hm : ∀ f ∈ r.m.VM_FF_HIGH_PRIORITY_POST_MASK,
      f = VM_FF_PDM_CRITSECT ∨ f = VM_FF_CSAM_PENDING_ACTION)
    (vm : VM) (rc : Int) :
    (postForcedActions r vm rc).1 = rc
      ∧ VM_FF_ISPENDING (postForcedActions r vm rc).2 r.m.VM_FF_HIGH_PRIORITY_POST_MASK
          = false := by
  unfold postForcedActions
  by_cases h0 : VM_FF_ISPENDING vm r.m.VM_FF_HIGH_PRIORITY_POST_MASK = true
  swap
  · rw [if_neg h0]
    exact ⟨rfl, by simpa using h0⟩
  rw [if_pos h0]
  refine ⟨rfl, ?_⟩
  unfold emR3HighPriorityPostForcedActions
  dsimp only
  -- the flags after the first handler
  have h1 : (if VM_FF_ISSET vm VM_FF_PDM_CRITSECT = true then
        vm.callVoid (Call.raw RawCall.PDMR3CritSectFF) r.c.PDMR3CritSectFF
      else vm).ff VM_FF_PDM_CRITSECT = false := by
    split_ifs with h
    · rw [callVoid_ff, hP]
      simp
    · simpa [VM_FF_ISSET] using h
  generalize (if VM_FF_ISSET vm VM_FF_PDM_CRITSECT = true then
        vm.callVoid (Call.raw RawCall.PDMR3CritSectFF) r.c.PDMR3CritSectFF
      else vm) = vm1 at h1 ⊢
  have h2 : (if VM_FF_ISSET vm1 VM_FF_CSAM_PENDING_ACTION = true then
        vm1.callVoid (Call.raw RawCall.CSAMR3DoPendingAction) r.c.CSAMR3DoPendingAction
      else vm1).ff VM_FF_PDM_CRITSECT = false
      ∧ (if VM_FF_ISSET vm1 VM_FF_CSAM_PENDING_ACTION = true then
        vm1.callVoid (Call.raw RawCall.CSAMR3DoPendingAction) r.c.CSAMR3DoPendingAction
      else vm1).ff VM_FF_CSAM_PENDING_ACTION = false := by
    split_ifs with h
    · rw [callVoid_ff, hC, hC]
      simp [h1]
    · exact ⟨h1, by simpa [VM_FF_ISSET] using h⟩
  generalize (if VM_FF_ISSET vm1 VM_FF_CSAM_PENDING_ACTION = true then
        vm1.callVoid (Call.raw RawCall.CSAMR3DoPendingAction) r.c.CSAMR3DoPendingAction
      else vm1) = vm2 at h2 ⊢
  unfold VM_FF_ISPENDING
  rw [List.any_eq_false]
  intro f hf
  rcases hm f hf with rfl | rfl
  · simp [h2.1]
  · simp [h2.2]

theorem rcQuiet_post (rcRun rcTrap : Int) (newEip : Nat) :
    (∀ (v : VM) (g : VMFF), ((rcQuiet rcRun rcTrap newEip).PDMR3CritSectFF v).ff g
        = if g = VM_FF_PDM_CRITSECT then false else v.ff g)
    ∧ (∀ (v : VM) (g : VMFF), ((rcQuiet rcRun rcTrap newEip).CSAMR3DoPendingAction v).ff g
        = if g = VM_FF_CSAM_PENDING_ACTION then false else v.ff g) := by
  constructor <;> intro v g <;> simp [rcQuiet, VM_FF_CLEAR]

/-- C18 as stated fails. An interrupt of the PIC is pending (a flag of
`VM_FF_HIGH_PRIORITY_PRE_MASK`) while the guest has its interrupts disabled:
each of the three inner loops enters its engine with that flag raised. And when
`VM_FF_PDM_CRITSECT` (a flag of `VM_FF_HIGH_PRIORITY_POST_MASK`) is raised while
the forced actions that end a round run, `emR3RawExecute` returns with that
flag raised. -/
theorem inner_loops_pre_post_counterexample :
    ((emR3RawExecute_enter (envReturn 0) (rawEnv cpuOther VINF_EM_HALT VINF_SUCCESS 0)
        vmPic).vm?.map (fun v => VM_FF_ISPENDING v vmMasks.VM_FF_HIGH_PRIORITY_PRE_MASK)
      = some true
    ∧ (emR3HwAccExecute_enter (envReturn 0) (rawEnv cpuOther VINF_EM_HALT VINF_SUCCESS 0)
        vmPic).vm?.map (fun v => VM_FF_ISPENDING v vmMasks.VM_FF_HIGH_PRIORITY_PRE_MASK)
      = some true
    ∧ (emR3RemExecute_enter (rawEnv cpuOther VINF_EM_HALT VINF_SUCCESS 0) false
        vmPic).vm?.map (fun v => VM_FF_ISPENDING v vmMasks.VM_FF_HIGH_PRIORITY_PRE_MASK)
      = some true
    ∧ (emR3RemExecute (envReturn 0) (rawEnv cpuOther VINF_EM_HALT VINF_SUCCESS 0) 1 vmPic).map
        (fun x => (x.1, x.2.trace))
      = some ((VINF_EM_HALT, false), [Call.raw RawCall.REMR3State, Call.raw RawCall.REMR3Run,
          Call.raw RawCall.REMR3StateBack]))
    ∧ (emR3RawExecute envRequestSuspend (rawEnv cpuOther VINF_EM_RAW_TO_R3 VINF_SUCCESS 0) 1
        (vmInit.raise VM_FF_REQUEST)).map
        (fun x => (x.1, VM_FF_ISPENDING x.2 rawMasks.VM_FF_HIGH_PRIORITY_POST_MASK))
      = some ((VINF_EM_SUSPEND, true), true) := by
  decide

/-- C18, amended: a round of `emR3RawExecute` that finds a flag of
`VM_FF_HIGH_PRIORITY_PRE_RAW_MASK` pending runs the raw pre pass
`emR3RawForcedActions` first, leaves the loop when the pass fails, and goes on
to `CPUMRawEnter` and the engine only when it has not failed. A round of
`emR3HwAccExecute` first lowers the flags of the GDT, the LDT, the IDT and the
TSS; it runs the pass when a flag of the mask is pending after that, leaving
the loop when the pass fails, and it enters the engine without a pass when none
is. `emR3RemExecute` runs no pre pass: before the burst it calls `REMR3State`
at most. Each of the three loops runs the post pass right after the burst: when
`PDMR3CritSectFF` and `CSAMR3DoPendingAction` lower the flags they service and
the post mask holds those two flags only, no flag of
`VM_FF_HIGH_PRIORITY_POST_MASK` is pending when the status of the burst is
looked at. -/
theorem inner_loops_pre_post (e : Env) (r : RawEnv)
    (hP : ∀ (v : VM) (g : VMFF),
      (r.c.PDMR3CritSectFF v).ff g = if g = VM_FF_PDM_CRITSECT then false else v.ff g)
    (hC : ∀ (v : VM) (g : VMFF),
      (r.c.CSAMR3DoPendingAction v).ff g
        = if g = VM_FF_CSAM_PENDING_ACTION then false else v.ff g)
    (hm : ∀ f ∈ r.m.VM_FF_HIGH_PRIORITY_POST_MASK,
      f = VM_FF_PDM_CRITSECT ∨ f = VM_FF_CSAM_PENDING_ACTION) :
    (∀ vm : VM, VM_FF_ISPENDING vm r.m.VM_FF_HIGH_PRIORITY_PRE_RAW_MASK = true →
        emR3RawExecute_enter e r vm
          = if RT_FAILURE (callRawForcedActions e r vm).1 then
              Enter.brk Break.prePassFailed (callRawForcedActions e r vm).1
                (callRawForcedActions e r vm).2
            else emR3RawExecute_rawEnter e r (callRawForcedActions e r vm).2)
    ∧ (∀ vm : VM,
        VM_FF_ISPENDING
            (VM_FF_CLEAR_MASK vm [VM_FF_SELM_SYNC_GDT, VM_FF_SELM_SYNC_LDT, VM_FF_TRPM_SYNC_IDT,
              VM_FF_SELM_SYNC_TSS])
            r.m.VM_FF_HIGH_PRIORITY_PRE_RAW_MASK = true →
        emR3HwAccExecute_enter e r vm
          = if RT_FAILURE (callRawForcedActions e r
                (VM_FF_CLEAR_MASK vm [VM_FF_SELM_SYNC_GDT, VM_FF_SELM_SYNC_LDT,
                  VM_FF_TRPM_SYNC_IDT, VM_FF_SELM_SYNC_TSS])).1 then
              Enter.brk Break.prePassFailed
                (callRawForcedActions e r
                  (VM_FF_CLEAR_MASK vm [VM_FF_SELM_SYNC_GDT, VM_FF_SELM_SYNC_LDT,
                    VM_FF_TRPM_SYNC_IDT, VM_FF_SELM_SYNC_TSS])).1
                (callRawForcedActions e r
                  (VM_FF_CLEAR_MASK vm [VM_FF_SELM_SYNC_GDT, VM_FF_SELM_SYNC_LDT,
                    VM_FF_TRPM_SYNC_IDT, VM_FF_SELM_SYNC_TSS])).2
            else
              Enter.run (callRawForcedActions e r
                (VM_FF_CLEAR_MASK vm [VM_FF_SELM_SYNC_GDT, VM_FF_SELM_SYNC_LDT,
                  VM_FF_TRPM_SYNC_IDT, VM_FF_SELM_SYNC_TSS])).2)
    ∧ (∀ vm : VM,
        VM_FF_ISPENDING
            (VM_FF_CLEAR_MASK vm [VM_FF_SELM_SYNC_GDT, VM_FF_SELM_SYNC_LDT, VM_FF_TRPM_SYNC_IDT,
              VM_FF_SELM_SYNC_TSS])
            r.m.VM_FF_HIGH_PRIORITY_PRE_RAW_MASK = false →
        emR3HwAccExecute_enter e r vm
          = Enter.run (VM_FF_CLEAR_MASK vm [VM_FF_SELM_SYNC_GDT, VM_FF_SELM_SYNC_LDT,
              VM_FF_TRPM_SYNC_IDT, VM_FF_SELM_SYNC_TSS]))
    ∧ (∀ (fIn : Bool) (vm : VM), ∃ t : List Call,
        (emR3RemExecute_enter r fIn vm).out.trace = vm.trace ++ t
          ∧ t.Sublist [Call.raw RawCall.REMR3State])
    ∧ (∀ vm : VM,
        VM_FF_ISPENDING (emR3RawExecute_burst e r vm).2 r.m.VM_FF_HIGH_PRIORITY_POST_MASK
          = false)
    ∧ (∀ (idCpu : Nat) (vm : VM),
        VM_FF_ISPENDING (emR3HwAccExecute_burst e r idCpu vm).2
          r.m.VM_FF_HIGH_PRIORITY_POST_MASK = false)
    ∧ (∀ vm : VM,
        VM_FF_ISPENDING (emR3RemExecute_burst r vm).2 r.m.VM_FF_HIGH_PRIORITY_POST_MASK
          = false) := by
  refine ⟨?_, ?_, ?_, ?_, ?_, ?_, ?_⟩
  · intro vm hp
    unfold emR3RawExecute_enter
    rw [if_pos hp]
  · intro vm hp
    unfold emR3HwAccExecute_enter
    dsimp only
    rw [if_pos hp]
  · intro vm hp
    unfold emR3HwAccExecute_enter
    dsimp only
    rw [if_neg (by rw [hp]; decide)]
  · intro fIn vm
    unfold emR3RemExecute_enter
    cases fIn
    · rw [if_pos (by decide)]
      dsimp only
      split_ifs
      · exact ⟨[Call.raw RawCall.REMR3State], by simp [RemEnter.out], List.Sublist.refl _⟩
      · exact ⟨[Call.raw RawCall.REMR3State], by simp [RemEnter.out], List.Sublist.refl _⟩
      · exact ⟨[Call.raw RawCall.REMR3State], by simp [RemEnter.out], List.Sublist.refl _⟩
    · rw [if_neg (by decide)]
      exact ⟨[], by simp [RemEnter.out], List.nil_sublist _⟩
  · intro vm
    exact (postForcedActions_spec r hP hC hm _ _).2
  · intro idCpu vm
    exact (postForcedActions_spec r hP hC hm _ _).2
  · intro vm
    exact (postForcedActions_spec r hP hC hm _ _).2

/-- Witness of C18, amended: the masks of `vm.h` and quiet collaborators; the
flags of the GDT, the IDT and the TSS are pending at the top of the round. The
raw loop runs the pre pass, which makes the three sync calls, and goes on to
`CPUMRawEnter`; the hardware-accelerated loop lowers the flags and enters the
engine without a pass. -/
theorem inner_loops_pre_post_witness :
    emR3RawExecute_enter (envReturn 0) (rawEnv cpuOther VINF_EM_HALT VINF_SUCCESS 0) vmSyncAll
        = emR3RawExecute_rawEnter (envReturn 0) (rawEnv cpuOther VINF_EM_HALT VINF_SUCCESS 0)
            (callRawForcedActions (envReturn 0) (rawEnv cpuOther VINF_EM_HALT VINF_SUCCESS 0)
              vmSyncAll).2
    ∧ (emR3RawExecute_enter (envReturn 0) (rawEnv cpuOther VINF_EM_HALT VINF_SUCCESS 0)
        vmSyncAll).vm?.map (fun v => v.trace)
      = some [Call.raw RawCall.emR3RawForcedActions, Call.raw RawCall.SELMR3UpdateFromCPUM,
          Call.raw RawCall.TRPMR3SyncIDT, Call.raw RawCall.SELMR3SyncTSS,
          Call.raw RawCall.CPUMRawEnter, Call.CSAMR3CheckCodeEx 0x1000]
    ∧ emR3HwAccExecute_enter (envReturn 0) (rawEnv cpuOther VINF_EM_HALT VINF_SUCCESS 0)
        vmSyncAll
        = Enter.run (VM_FF_CLEAR_MASK vmSyncAll [VM_FF_SELM_SYNC_GDT, VM_FF_SELM_SYNC_LDT,
            VM_FF_TRPM_SYNC_IDT, VM_FF_SELM_SYNC_TSS])
    ∧ (∀ vm : VM,
        VM_FF_ISPENDING
          (emR3RawExecute_burst (envReturn 0) (rawEnv cpuOther VINF_EM_HALT VINF_SUCCESS 0) vm).2
          (rawEnv cpuOther VINF_EM_HALT VINF_SUCCESS 0).m.VM_FF_HIGH_PRIORITY_POST_MASK
          = false) :=
  ⟨((inner_loops_pre_post (envReturn 0) (rawEnv cpuOther VINF_EM_HALT VINF_SUCCESS 0)
      (rcQuiet_post _ _ _).1 (rcQuiet_post _ _ _).2 (by decide)).1 vmSyncAll (by decide)).trans
      (if_neg (by decide)),
    by decide,
    (inner_loops_pre_post (envReturn 0) (rawEnv cpuOther VINF_EM_HALT VINF_SUCCESS 0)
      (rcQuiet_post _ _ _).1 (rcQuiet_post _ _ _).2 (by decide)).2.2.1 vmSyncAll (by decide),
    (inner_loops_pre_post (envReturn 0) (rawEnv cpuOther VINF_EM_HALT VINF_SUCCESS 0)
      (rcQuiet_post _ _ _).1 (rcQuiet_post _ _ _).2 (by decide)).2.2.2.2.1⟩

/-! ## The status and the calls of the raw pre pass -/

theorem RT_FAILURE_iff (rc : Int) : RT_FAILURE rc = true ↔ rc < 0 := by
  simp [RT_FAILURE, RT_SUCCESS, VINF_SUCCESS]

theorem PrePass.fail (r : RawEnv) (c : Call) (rc : Int) (h : rc < 0)
    (hc : c ≠ Call.raw RawCall.PGMSyncCR3) : PrePass r [c] rc := by
  refine ⟨Or.inr (Or.inl h), ?_, ?_⟩
  · simp [List.count_cons, hc]
  · intro h2
    simp [List.count_cons, hc] at h2

theorem PrePass.cons (r : RawEnv) (c : Call) (t : List Call) (rc : Int)
    (hc : c ≠ Call.raw RawCall.PGMSyncCR3) (h : PrePass r t rc) : PrePass r (c :: t) rc := by
  obtain ⟨h1, h2, h3⟩ := h
  have hcount : (c :: t).count (Call.raw RawCall.PGMSyncCR3)
      = t.count (Call.raw RawCall.PGMSyncCR3) := by
    rw [List.count_cons]
    simp [hc]
  refine ⟨?_, ?_, ?_⟩
  · rcases h1 with h | h | ⟨a, v, ha, hb, hd⟩
    · exact Or.inl h
    · exact Or.inr (Or.inl h)
    · exact Or.inr (Or.inr ⟨a, v, List.mem_cons_of_mem _ ha, hb, hd⟩)
  · rw [hcount]
    exact h2
  · rw [hcount]
    intro h4
    obtain ⟨a, v, ha, hb⟩ := h3 h4
    exact ⟨a, v, List.mem_cons_of_mem _ ha, hb⟩

theorem emR3RawForcedActions_handy_pass (e : Env) (vm : VM) :
    ∃ t : List Call, (emR3RawForcedActions_handy e vm).2.trace = vm.trace ++ t
      ∧ ((emR3RawForcedActions_handy e vm).1 = VINF_SUCCESS
          ∨ (emR3RawForcedActions_handy e vm).1 < 0)
      ∧ t.count (Call.raw RawCall.PGMSyncCR3) = 0
      ∧ ∀ c ∈ t, c = Call.PGMR3PhysAllocateHandyPages := by
  unfold emR3RawForcedActions_handy
  by_cases h : VM_FF_ISSET vm VM_FF_PGM_NEED_HANDY_PAGES = true
  · rw [if_pos h]
    dsimp only
    by_cases hf : RT_FAILURE
        (vm.call Call.PGMR3PhysAllocateHandyPages e.c.PGMR3PhysAllocateHandyPages).1 = true
    · rw [if_pos hf]
      exact ⟨[Call.PGMR3PhysAllocateHandyPages], rfl, Or.inr ((RT_FAILURE_iff _).1 hf), by decide,
        by simp⟩
    · rw [if_neg hf]
      exact ⟨[Call.PGMR3PhysAllocateHandyPages], rfl, Or.inl rfl, by decide, by simp⟩
  · rw [if_neg h]
    exact ⟨[], by simp, Or.inl rfl, by decide, by simp⟩

theorem emR3RawForcedActions_cr3_rest (e : Env) (r : RawEnv) (vm0 : VM) (z : Int × VM)
    (a : Nat) (v : VM) (tz : List Call)
    (hz : z.2.trace = vm0.trace ++ Call.raw RawCall.PGMSyncCR3 :: tz)
    (hcount : tz.count (Call.raw RawCall.PGMSyncCR3) = 0)
    (ha : Call.raw (RawCall.PGMPrefetchPage a) ∈ tz)
    (hv : z.1 = (r.c.PGMPrefetchPage a v).1) :
    ∃ t : List Call,
      (if z.1 ≠ VINF_SUCCESS then
          if z.1 ≠ VINF_PGM_SYNC_CR3 then z
          else
            if RT_FAILURE (z.2.call (Call.raw RawCall.PGMSyncCR3) r.c.PGMSyncCR3).1 then
              z.2.call (Call.raw RawCall.PGMSyncCR3) r.c.PGMSyncCR3
            else emR3RawForcedActions_handy e
              (z.2.call (Call.raw RawCall.PGMSyncCR3) r.c.PGMSyncCR3).2
        else emR3RawForcedActions_handy e z.2).2.trace = vm0.trace ++ t
      ∧ PrePass r t
        (if z.1 ≠ VINF_SUCCESS then
          if z.1 ≠ VINF_PGM_SYNC_CR3 then z
          else
            if RT_FAILURE (z.2.call (Call.raw RawCall.PGMSyncCR3) r.c.PGMSyncCR3).1 then
              z.2.call (Call.raw RawCall.PGMSyncCR3) r.c.PGMSyncCR3
            else emR3RawForcedActions_handy e
              (z.2.call (Call.raw RawCall.PGMSyncCR3) r.c.PGMSyncCR3).2
        else emR3RawForcedActions_handy e z.2).1 := by
  have hmem : ∀ l : List Call, Call.raw (RawCall.PGMPrefetchPage a)
      ∈ Call.raw RawCall.PGMSyncCR3 :: (tz ++ l) :=
    fun l => List.mem_cons_of_mem _ (List.mem_append_left _ ha)
  by_cases h1 : z.1 ≠ VINF_SUCCESS
  · rw [if_pos h1]
    by_cases h2 : z.1 ≠ VINF_PGM_SYNC_CR3
    · rw [if_pos h2]
      refine ⟨Call.raw RawCall.PGMSyncCR3 :: tz, hz, Or.inr (Or.inr ⟨a, v, ?_, hv, h2⟩), ?_, ?_⟩
      · exact List.mem_cons_of_mem _ ha
      · rw [List.count_cons_self, hcount]
        decide
      · rw [List.count_cons_self, hcount]
        intro h
        exact absurd h (by decide)
    · rw [if_neg h2]
      have h2' : z.1 = VINF_PGM_SYNC_CR3 := by
        by_contra hn
        exact h2 hn
      have hsync : (r.c.PGMPrefetchPage a v).1 = VINF_PGM_SYNC_CR3 := by
        rw [← hv]
        exact h2'
      by_cases hf : RT_FAILURE (z.2.call (Call.raw RawCall.PGMSyncCR3) r.c.PGMSyncCR3).1 = true
      · rw [if_pos hf]
        refine ⟨Call.raw RawCall.PGMSyncCR3 :: (tz ++ [Call.raw RawCall.PGMSyncCR3]), ?_,
          Or.inr (Or.inl ((RT_FAILURE_iff _).1 hf)), ?_, ?_⟩
        · rw [call_trace, hz]
          simp
        · rw [List.count_cons_self, List.count_append, hcount]
          decide
        · intro _
          exact ⟨a, v, hmem _, hsync⟩
      · rw [if_neg hf]
        obtain ⟨th, hth, hrc, hc0, _⟩ := emR3RawForcedActions_handy_pass e
          (z.2.call (Call.raw RawCall.PGMSyncCR3) r.c.PGMSyncCR3).2
        refine ⟨Call.raw RawCall.PGMSyncCR3 :: (tz ++ (Call.raw RawCall.PGMSyncCR3 :: th)), ?_,
          ?_, ?_, ?_⟩
        · rw [hth, call_trace, hz]
          simp
        · rcases hrc with k | k
          · exact Or.inl k
          · exact Or.inr (Or.inl k)
        · rw [List.count_cons_self, List.count_append, hcount, List.count_cons_self, hc0]
        · intro _
          exact ⟨a, v, hmem _, hsync⟩
  · rw [if_neg h1]
    obtain ⟨th, hth, hrc, hc0, _⟩ := emR3RawForcedActions_handy_pass e z.2
    refine ⟨Call.raw RawCall.PGMSyncCR3 :: (tz ++ th), ?_, ?_, ?_, ?_⟩
    · rw [hth, hz]
      simp
    · rcases hrc with k | k
      · exact Or.inl k
      · exact Or.inr (Or.inl k)
    · rw [List.count_cons_self, List.count_append, hcount, hc0]
      decide
    · rw [List.count_cons_self, List.count_append, hcount, hc0]
      intro h
      exact absurd h (by decide)

theorem emR3RawForcedActions_cr3_pass (e : Env) (r : RawEnv) (vm : VM) :
    ∃ t : List Call, (emR3RawForcedActions_cr3 e r vm).2.trace = vm.trace ++ t
      ∧ PrePass r t (emR3RawForcedActions_cr3 e r vm).1 := by
  unfold emR3RawForcedActions_cr3
  by_cases h : VM_FF_ISPENDING vm [VM_FF_PGM_SYNC_CR3, VM_FF_PGM_SYNC_CR3_NON_GLOBAL] = true
  swap
  · rw [if_neg h]
    obtain ⟨th, hth, hrc, hc0, _⟩ := emR3RawForcedActions_handy_pass e vm
    refine ⟨th, hth, ?_, ?_, ?_⟩
    · rcases hrc with k | k
      · exact Or.inl k
      · exact Or.inr (Or.inl k)
    · rw [hc0]
      decide
    · rw [hc0]
      intro h
      exact absurd h (by decide)
  rw [if_pos h]
  dsimp only
  by_cases hf : RT_FAILURE (vm.call (Call.raw RawCall.PGMSyncCR3) r.c.PGMSyncCR3).1 = true
  · rw [if_pos hf]
    refine ⟨[Call.raw RawCall.PGMSyncCR3], rfl, Or.inr (Or.inl ((RT_FAILURE_iff _).1 hf)), ?_, ?_⟩
    · decide
    · intro h
      exact absurd h (by decide)
  rw [if_neg hf]
  generalize hx : (vm.call (Call.raw RawCall.PGMSyncCR3) r.c.PGMSyncCR3).2 = x
  have hxt : x.trace = vm.trace ++ [Call.raw RawCall.PGMSyncCR3] := by
    rw [← hx]
    rfl
  generalize hy : x.call
    (Call.raw (RawCall.PGMPrefetchPage (r.q.SELMToFlat x DIS_SELREG.DIS_SELREG_CS x.ctx.eip)))
    (r.c.PGMPrefetchPage (r.q.SELMToFlat x DIS_SELREG.DIS_SELREG_CS x.ctx.eip)) = y
  have hyt : y.2.trace = vm.trace ++ Call.raw RawCall.PGMSyncCR3 ::
      [Call.raw (RawCall.PGMPrefetchPage
        (r.q.SELMToFlat x DIS_SELREG.DIS_SELREG_CS x.ctx.eip))] := by
    rw [← hy, call_trace, hxt]
    simp
  have hy1 : y.1 = (r.c.PGMPrefetchPage
      (r.q.SELMToFlat x DIS_SELREG.DIS_SELREG_CS x.ctx.eip) x).1 := by
    rw [← hy]
    rfl
  by_cases hys : y.1 = VINF_SUCCESS
  · simp only [if_pos hys]
    refine emR3RawForcedActions_cr3_rest e r vm _
      (r.q.SELMToFlat y.2 DIS_SELREG.DIS_SELREG_SS y.2.ctx.esp) y.2
      [Call.raw (RawCall.PGMPrefetchPage (r.q.SELMToFlat x DIS_SELREG.DIS_SELREG_CS x.ctx.eip)),
       Call.raw (RawCall.PGMPrefetchPage
        (r.q.SELMToFlat y.2 DIS_SELREG.DIS_SELREG_SS y.2.ctx.esp))] ?_ ?_ ?_ rfl
    · rw [call_trace, hyt]
      simp
    · simp [List.count_cons]
    · simp
  · simp only [if_neg hys]
    exact emR3RawForcedActions_cr3_rest e r vm y
      (r.q.SELMToFlat x DIS_SELREG.DIS_SELREG_CS x.ctx.eip) x
      [Call.raw (RawCall.PGMPrefetchPage (r.q.SELMToFlat x DIS_SELREG.DIS_SELREG_CS x.ctx.eip))]
      hyt (by simp [List.count_cons]) (by simp) hy1

theorem emR3RawForcedActions_block_pass (r : RawEnv) (vm : VM) (cond : Prop) [Decidable cond]
    (c : Call) (f : VM → Int × VM) (next : VM → Int × VM)
    (hc : c ≠ Call.raw RawCall.PGMSyncCR3)
    (hnext : ∀ v : VM, ∃ t : List Call, (next v).2.trace = v.trace ++ t
      ∧ PrePass r t (next v).1) :
    ∃ t : List Call,
      (if cond then if RT_FAILURE (vm.call c f).1 then vm.call c f else next (vm.call c f).2
        else next vm).2.trace = vm.trace ++ t
      ∧ PrePass r t
        (if cond then if RT_FAILURE (vm.call c f).1 then vm.call c f else next (vm.call c f).2
          else next vm).1 := by
  by_cases h : cond
  · rw [if_pos h]
    by_cases hf : RT_FAILURE (vm.call c f).1 = true
    · rw [if_pos hf]
      exact ⟨[c], rfl, PrePass.fail r c _ ((RT_FAILURE_iff _).1 hf) hc⟩
    · rw [if_neg hf]
      obtain ⟨t, ht, hp⟩ := hnext (vm.call c f).2
      refine ⟨c :: t, ?_, PrePass.cons r c t _ hc hp⟩
      rw [ht, call_trace]
      simp
  · rw [if_neg h]
    exact hnext vm

theorem emR3RawForcedActions_pass (e : Env) (r : RawEnv) (vm : VM) :
    ∃ t : List Call, (emR3RawForcedActions e r vm).2.trace = vm.trace ++ t
      ∧ PrePass r t (emR3RawForcedActions e r vm).1 := by
  have h3 : ∀ v : VM, ∃ t : List Call, (emR3RawForcedActions_tss e r v).2.trace = v.trace ++ t
      ∧ PrePass r t (emR3RawForcedActions_tss e r v).1 := fun v =>
    emR3RawForcedActions_block_pass r v _ _ _ _ (by decide)
      (emR3RawForcedActions_cr3_pass e r)
  have h2 : ∀ v : VM, ∃ t : List Call, (emR3RawForcedActions_idt e r v).2.trace = v.trace ++ t
      ∧ PrePass r t (emR3RawForcedActions_idt e r v).1 := fun v =>
    emR3RawForcedActions_block_pass r v _ _ _ _ (by decide) h3
  exact emR3RawForcedActions_block_pass r vm _ _ _ _ (by decide) h2

theorem emR3RawForcedActions_cr3_tail_calls (e : Env) (r : RawEnv) (vm0 : VM) (z : Int × VM)
    (tz : List Call) (hz : z.2.trace = vm0.trace ++ tz)
    (hq : ∀ c ∈ tz, c = Call.raw RawCall.PGMSyncCR3
      ∨ (∃ a, c = Call.raw (RawCall.PGMPrefetchPage a)) ∨ c = Call.PGMR3PhysAllocateHandyPages) :
    ∃ t : List Call,
      (if z.1 ≠ VINF_SUCCESS then
          if z.1 ≠ VINF_PGM_SYNC_CR3 then z
          else
            if RT_FAILURE (z.2.call (Call.raw RawCall.PGMSyncCR3) r.c.PGMSyncCR3).1 then
              z.2.call (Call.raw RawCall.PGMSyncCR3) r.c.PGMSyncCR3
            else emR3RawForcedActions_handy e
              (z.2.call (Call.raw RawCall.PGMSyncCR3) r.c.PGMSyncCR3).2
        else emR3RawForcedActions_handy e z.2).2.trace = vm0.trace ++ t
      ∧ ∀ c ∈ t, c = Call.raw RawCall.PGMSyncCR3
          ∨ (∃ a, c = Call.raw (RawCall.PGMPrefetchPage a))
          ∨ c = Call.PGMR3PhysAllocateHandyPages := by
  have hh : ∀ v : VM, ∃ th : List Call, (emR3RawForcedActions_handy e v).2.trace = v.trace ++ th
      ∧ ∀ c ∈ th, c = Call.PGMR3PhysAllocateHandyPages := fun v => by
    obtain ⟨th, a, _, _, b⟩ := emR3RawForcedActions_handy_pass e v
    exact ⟨th, a, b⟩
  by_cases h1 : z.1 ≠ VINF_SUCCESS
  · rw [if_pos h1]
    by_cases h2 : z.1 ≠ VINF_PGM_SYNC_CR3
    · rw [if_pos h2]
      exact ⟨tz, hz, hq⟩
    · rw [if_neg h2]
      by_cases hf : RT_FAILURE (z.2.call (Call.raw RawCall.PGMSyncCR3) r.c.PGMSyncCR3).1 = true
      · rw [if_pos hf]
        refine ⟨tz ++ [Call.raw RawCall.PGMSyncCR3], ?_, ?_⟩
        · rw [call_trace, hz, List.append_assoc]
        · intro c hc
          rcases List.mem_append.1 hc with k | k
          · exact hq c k
          · exact Or.inl (List.mem_singleton.1 k)
      · rw [if_neg hf]
        obtain ⟨th, hth, hall⟩ := hh (z.2.call (Call.raw RawCall.PGMSyncCR3) r.c.PGMSyncCR3).2
        refine ⟨tz ++ (Call.raw RawCall.PGMSyncCR3 :: th), ?_, ?_⟩
        · rw [hth, call_trace, hz]
          simp
        · intro c hc
          rcases List.mem_append.1 hc with k | k
          · exact hq c k
          · rcases List.mem_cons.1 k with k | k
            · exact Or.inl k
            · exact Or.inr (Or.inr (hall c k))
  · rw [if_neg h1]
    obtain ⟨th, hth, hall⟩ := hh z.2
    refine ⟨tz ++ th, ?_, ?_⟩
    · rw [hth, hz, List.append_assoc]
    · intro c hc
      rcases List.mem_append.1 hc with k | k
      · exact hq c k
      · exact Or.inr (Or.inr (hall c k))

theorem emR3RawForcedActions_cr3_calls (e : Env) (r : RawEnv) (vm : VM) :
    ∃ t : List Call, (emR3RawForcedActions_cr3 e r vm).2.trace = vm.trace ++ t
      ∧ ∀ c ∈ t, c = Call.raw RawCall.PGMSyncCR3 ∨ (∃ a, c = Call.raw (RawCall.PGMPrefetchPage a))
          ∨ c = Call.PGMR3PhysAllocateHandyPages := by
  unfold emR3RawForcedActions_cr3
  by_cases h : VM_FF_ISPENDING vm [VM_FF_PGM_SYNC_CR3, VM_FF_PGM_SYNC_CR3_NON_GLOBAL] = true
  swap
  · rw [if_neg h]
    obtain ⟨th, a, _, _, b⟩ := emR3RawForcedActions_handy_pass e vm
    exact ⟨th, a, fun c hc => Or.inr (Or.inr (b c hc))⟩
  rw [if_pos h]
  dsimp only
  by_cases hf : RT_FAILURE (vm.call (Call.raw RawCall.PGMSyncCR3) r.c.PGMSyncCR3).1 = true
  · rw [if_pos hf]
    exact ⟨[Call.raw RawCall.PGMSyncCR3], rfl, fun c hc => Or.inl (List.mem_singleton.1 hc)⟩
  rw [if_neg hf]
  generalize hx : (vm.call (Call.raw RawCall.PGMSyncCR3) r.c.PGMSyncCR3).2 = x
  have hxt : x.trace = vm.trace ++ [Call.raw RawCall.PGMSyncCR3] := by
    rw [← hx]
    rfl
  generalize hy : x.call
    (Call.raw (RawCall.PGMPrefetchPage (r.q.SELMToFlat x DIS_SELREG.DIS_SELREG_CS x.ctx.eip)))
    (r.c.PGMPrefetchPage (r.q.SELMToFlat x DIS_SELREG.DIS_SELREG_CS x.ctx.eip)) = y
  have hyt : y.2.trace = vm.trace ++ [Call.raw RawCall.PGMSyncCR3,
      Call.raw (RawCall.PGMPrefetchPage
        (r.q.SELMToFlat x DIS_SELREG.DIS_SELREG_CS x.ctx.eip))] := by
    rw [← hy, call_trace, hxt]
    simp
  by_cases hys : y.1 = VINF_SUCCESS
  · simp only [if_pos hys]
    refine emR3RawForcedActions_cr3_tail_calls e r vm _
      [Call.raw RawCall.PGMSyncCR3,
       Call.raw (RawCall.PGMPrefetchPage (r.q.SELMToFlat x DIS_SELREG.DIS_SELREG_CS x.ctx.eip)),
       Call.raw (RawCall.PGMPrefetchPage
        (r.q.SELMToFlat y.2 DIS_SELREG.DIS_SELREG_SS y.2.ctx.esp))] ?_ ?_
    · rw [call_trace, hyt]
      simp
    · intro c hc
      simp only [List.mem_cons, List.mem_singleton, List.not_mem_nil, or_false] at hc
      rcases hc with k | k | k
      · exact Or.inl k
      · exact Or.inr (Or.inl ⟨_, k⟩)
      · exact Or.inr (Or.inl ⟨_, k⟩)
  · simp only [if_neg hys]
    refine emR3RawForcedActions_cr3_tail_calls e r vm y _ hyt ?_
    intro c hc
    simp only [List.mem_cons, List.mem_singleton, List.not_mem_nil, or_false] at hc
    rcases hc with k | k
    · exact Or.inl k
    · exact Or.inr (Or.inl ⟨_, k⟩)

/-- The status and the `PGMSyncCR3` calls of one pass of `emR3RawForcedActions`,
for all collaborators: the status is `VINF_SUCCESS`, or a failure (negative)
status, or the status other than `VINF_PGM_SYNC_CR3` that a page prefetch of
this pass reported, which the function returns as it is. One pass calls
`PGMSyncCR3` at most twice, and twice only when a page prefetch of the pass
reported `VINF_PGM_SYNC_CR3`. -/
theorem emR3RawForcedActions_status (e : Env) (r : RawEnv) (vm : VM) :
    ∃ t : List Call, (emR3RawForcedActions e r vm).2.trace = vm.trace ++ t
      ∧ ((emR3RawForcedActions e r vm).1 = VINF_SUCCESS
          ∨ (emR3RawForcedActions e r vm).1 < 0
          ∨ ∃ (a : Nat) (v : VM), Call.raw (RawCall.PGMPrefetchPage a) ∈ t
              ∧ (emR3RawForcedActions e r vm).1 = (r.c.PGMPrefetchPage a v).1
              ∧ (emR3RawForcedActions e r vm).1 ≠ VINF_PGM_SYNC_CR3)
      ∧ t.count (Call.raw RawCall.PGMSyncCR3) ≤ 2
      ∧ (t.count (Call.raw RawCall.PGMSyncCR3) = 2 →
          ∃ (a : Nat) (v : VM), Call.raw (RawCall.PGMPrefetchPage a) ∈ t
            ∧ (r.c.PGMPrefetchPage a v).1 = VINF_PGM_SYNC_CR3) :=
  emR3RawForcedActions_pass e r vm

/-! ## The three sync calls of the raw pre pass -/

theorem callRawForcedActions_cleared (e : Env) (r : RawEnv) (vm : VM) :
    callRawForcedActions e r
        (VM_FF_CLEAR_MASK vm [VM_FF_SELM_SYNC_GDT, VM_FF_SELM_SYNC_LDT, VM_FF_TRPM_SYNC_IDT,
          VM_FF_SELM_SYNC_TSS])
      = emR3RawForcedActions_cr3 e r
          { VM_FF_CLEAR_MASK vm [VM_FF_SELM_SYNC_GDT, VM_FF_SELM_SYNC_LDT, VM_FF_TRPM_SYNC_IDT,
              VM_FF_SELM_SYNC_TSS] with
            trace := vm.trace ++ [Call.raw RawCall.emR3RawForcedActions] } := by
  unfold callRawForcedActions emR3RawForcedActions emR3RawForcedActions_idt
    emR3RawForcedActions_tss
  simp [VM_FF_ISPENDING, VM_FF_ISSET, VM_FF_CLEAR_MASK]

/-- C26: every round of `emR3HwAccExecute` lowers the flags of the GDT, the LDT,
the IDT and the TSS before it tests the raw pre mask. The part of the round up
to the burst is the `VM_FF_CLEAR` of the four flags (every other flag is kept)
followed, when a flag of `VM_FF_HIGH_PRIORITY_PRE_RAW_MASK` is still pending, by
a raw pre pass that finds the four flags lowered and so consists of its last
blocks only (the page-table sync and the handy pages,
`emR3RawForcedActions_cr3`); the loop is left when that pass fails and the
engine is entered otherwise. Whether the round leaves the loop or enters the
engine, the calls it has recorded up to there hold no call of
`SELMR3UpdateFromCPUM`, `TRPMR3SyncIDT` or `SELMR3SyncTSS`. -/
theorem emR3HwAccExecute_enter_sync (e : Env) (r : RawEnv) (vm : VM) :
    emR3HwAccExecute_enter e r vm
      = (if VM_FF_ISPENDING
            (VM_FF_CLEAR_MASK vm [VM_FF_SELM_SYNC_GDT, VM_FF_SELM_SYNC_LDT, VM_FF_TRPM_SYNC_IDT,
              VM_FF_SELM_SYNC_TSS]) r.m.VM_FF_HIGH_PRIORITY_PRE_RAW_MASK then
          if RT_FAILURE (emR3RawForcedActions_cr3 e r
              { VM_FF_CLEAR_MASK vm [VM_FF_SELM_SYNC_GDT, VM_FF_SELM_SYNC_LDT,
                  VM_FF_TRPM_SYNC_IDT, VM_FF_SELM_SYNC_TSS] with
                trace := vm.trace ++ [Call.raw RawCall.emR3RawForcedActions] }).1 then
            Enter.brk Break.prePassFailed
              (emR3RawForcedActions_cr3 e r
                { VM_FF_CLEAR_MASK vm [VM_FF_SELM_SYNC_GDT, VM_FF_SELM_SYNC_LDT,
                    VM_FF_TRPM_SYNC_IDT, VM_FF_SELM_SYNC_TSS] with
                  trace := vm.trace ++ [Call.raw RawCall.emR3RawForcedActions] }).1
              (emR3RawForcedActions_cr3 e r
                { VM_FF_CLEAR_MASK vm [VM_FF_SELM_SYNC_GDT, VM_FF_SELM_SYNC_LDT,
                    VM_FF_TRPM_SYNC_IDT, VM_FF_SELM_SYNC_TSS] with
                  trace := vm.trace ++ [Call.raw RawCall.emR3RawForcedActions] }).2
          else
            Enter.run (emR3RawForcedActions_cr3 e r
              { VM_FF_CLEAR_MASK vm [VM_FF_SELM_SYNC_GDT, VM_FF_SELM_SYNC_LDT,
                  VM_FF_TRPM_SYNC_IDT, VM_FF_SELM_SYNC_TSS] with
                trace := vm.trace ++ [Call.raw RawCall.emR3RawForcedActions] }).2
        else
          Enter.run (VM_FF_CLEAR_MASK vm [VM_FF_SELM_SYNC_GDT, VM_FF_SELM_SYNC_LDT,
            VM_FF_TRPM_SYNC_IDT, VM_FF_SELM_SYNC_TSS]))
    ∧ (∀ g : VMFF,
        VM_FF_ISSET (VM_FF_CLEAR_MASK vm [VM_FF_SELM_SYNC_GDT, VM_FF_SELM_SYNC_LDT,
            VM_FF_TRPM_SYNC_IDT, VM_FF_SELM_SYNC_TSS]) g
          = if g ∈ [VM_FF_SELM_SYNC_GDT, VM_FF_SELM_SYNC_LDT, VM_FF_TRPM_SYNC_IDT,
              VM_FF_SELM_SYNC_TSS] then false else VM_FF_ISSET vm g)
    ∧ ∃ t : List Call, (emR3HwAccExecute_enter e r vm).out.trace = vm.trace ++ t
        ∧ Call.raw RawCall.SELMR3UpdateFromCPUM ∉ t
        ∧ Call.raw RawCall.TRPMR3SyncIDT ∉ t
        ∧ Call.raw RawCall.SELMR3SyncTSS ∉ t := by
  have heq := callRawForcedActions_cleared e r vm
  refine ⟨?_, fun g => rfl, ?_⟩
  · unfold emR3HwAccExecute_enter
    dsimp only
    rw [heq]
  generalize hv : VM_FF_CLEAR_MASK vm [VM_FF_SELM_SYNC_GDT, VM_FF_SELM_SYNC_LDT,
    VM_FF_TRPM_SYNC_IDT, VM_FF_SELM_SYNC_TSS] = vm0 at heq
  have htr : vm0.trace = vm.trace := by
    rw [← hv]
    rfl
  obtain ⟨t, ht, hall⟩ := emR3RawForcedActions_cr3_calls e r
    { vm0 with trace := vm.trace ++ [Call.raw RawCall.emR3RawForcedActions] }
  have hnot : ∀ c : Call, c ≠ Call.raw RawCall.emR3RawForcedActions →
      c ≠ Call.raw RawCall.PGMSyncCR3 → (∀ a, c ≠ Call.raw (RawCall.PGMPrefetchPage a)) →
      c ≠ Call.PGMR3PhysAllocateHandyPages →
      c ∉ Call.raw RawCall.emR3RawForcedActions :: t := by
    intro c h1 h2 h3 h4 hm
    rcases List.mem_cons.1 hm with k | k
    · exact h1 k
    · rcases hall c k with k | ⟨a, k⟩ | k
      · exact h2 k
      · exact h3 a k
      · exact h4 k
  have hout : (∃ t' : List Call, (emR3HwAccExecute_enter e r vm).out.trace = vm.trace ++ t'
      ∧ (t' = [] ∨ t' = Call.raw RawCall.emR3RawForcedActions :: t)) := by
    unfold emR3HwAccExecute_enter
    dsimp only
    rw [hv]
    by_cases hp : VM_FF_ISPENDING vm0 r.m.VM_FF_HIGH_PRIORITY_PRE_RAW_MASK = true
    · rw [if_pos hp]
      refine ⟨Call.raw RawCall.emR3RawForcedActions :: t, ?_, Or.inr rfl⟩
      have hboth : (callRawForcedActions e r vm0).2.trace
          = vm.trace ++ Call.raw RawCall.emR3RawForcedActions :: t := by
        rw [heq, ht]
        simp
      by_cases hf : RT_FAILURE (callRawForcedActions e r vm0).1 = true
      · rw [if_pos hf]
        exact hboth
      · rw [if_neg hf]
        exact hboth
    · rw [if_neg hp]
      exact ⟨[], by simp [Enter.out, htr], Or.inl rfl⟩
  obtain ⟨t', ht', hcase⟩ := hout
  refine ⟨t', ht', ?_, ?_, ?_⟩
  all_goals
    rcases hcase with k | k
    · rw [k]
      simp
    · rw [k]
      exact hnot _ (by decide) (by decide) (fun a => by simp) (by decide)

/-! ## Traps in patch code: `emR3PatchTrap` -/

theorem emR3PatchTrap_eq_handle (r : RawEnv) (vm : VM) (gcret : Int) (u8TrapNo : Nat) (vmT : VM)
    (hT : (gcret = VINF_PATM_PATCH_INT3 ∧ u8TrapNo = 3 ∧ vmT = vm)
      ∨ (gcret = VINF_PATM_PATCH_TRAP_GP ∧ u8TrapNo = X86_XCPT_GP ∧ vmT = vm)
      ∨ (gcret ≠ VINF_PATM_PATCH_INT3 ∧ gcret ≠ VINF_PATM_PATCH_TRAP_GP
          ∧ RT_FAILURE (r.q.TRPMQueryTrapAll vm).1 = false
          ∧ u8TrapNo = (r.q.TRPMQueryTrapAll vm).2
          ∧ vmT = vm.callVoid (Call.raw RawCall.TRPMResetTrap) r.c.TRPMResetTrap)) :
    emR3PatchTrap r vm gcret = emR3PatchTrap_handle r vmT u8TrapNo := by
  unfold emR3PatchTrap
  rcases hT with ⟨a, b, c⟩ | ⟨a, b, c⟩ | ⟨a, b, c, d, f⟩
  · rw [if_pos a, b, c]
  · have hne : gcret ≠ VINF_PATM_PATCH_INT3 := by
      rw [a]
      decide
    rw [if_neg hne, if_pos a, b, c]
  · rw [if_neg a, if_neg b]
    dsimp only
    rw [c, d, f]
    simp

/-- C24: `emR3PatchTrap` for a trap other than \#DB. The trap number is 3 for
`VINF_PATM_PATCH_INT3`, `X86_XCPT_GP` for `VINF_PATM_PATCH_TRAP_GP`, and
otherwise the one that `TRPMQueryTrapAll` reports without failing (the trap is
then reset). Let `x` be what `PATMR3HandleTrap` answers and `vm1` the VM with
the guest EIP set to the resolved address (EIP is a 32-bit register: the address
modulo `2 ^ 32`). When the status is `VINF_SUCCESS` or `VERR_PATCH_DISABLED`:
with IF set the result is that of `emR3RawExecuteInstruction`, called on `vm1`
(for `VINF_SUCCESS`, a \#GP and an int3 patch at the new EIP, after
`PATMR3RemovePatch`); with IF clear the result is `VINF_EM_RESCHEDULE_REM` on
`vm1`. `VINF_PATCH_EMULATE_INSTR` gives the result of
`emR3RawExecuteInstruction` on `vm1`. `VINF_PATCH_CONTINUE` gives `VINF_SUCCESS`
and EM does not write EIP. Every other status gives `VERR_INTERNAL_ERROR`. -/
theorem emR3PatchTrap_cases (r : RawEnv) (vm : VM) (gcret : Int) (u8TrapNo : Nat) (vmT : VM)
    (x : (Int × Nat) × VM) (vm1 : VM)
    (hT : (gcret = VINF_PATM_PATCH_INT3 ∧ u8TrapNo = 3 ∧ vmT = vm)
      ∨ (gcret = VINF_PATM_PATCH_TRAP_GP ∧ u8TrapNo = X86_XCPT_GP ∧ vmT = vm)
      ∨ (gcret ≠ VINF_PATM_PATCH_INT3 ∧ gcret ≠ VINF_PATM_PATCH_TRAP_GP
          ∧ RT_FAILURE (r.q.TRPMQueryTrapAll vm).1 = false
          ∧ u8TrapNo = (r.q.TRPMQueryTrapAll vm).2
          ∧ vmT = vm.callVoid (Call.raw RawCall.TRPMResetTrap) r.c.TRPMResetTrap))
    (h1 : u8TrapNo ≠ 1)
    (hx : x = vmT.callR (Call.raw (RawCall.PATMR3HandleTrap vmT.ctx.eip))
      (r.c.PATMR3HandleTrap vmT.ctx.eip))
    (hv : vm1 = { x.2 with ctx := { x.2.ctx with eip := x.1.2 % 2 ^ 32 } }) :
    vm1.ctx.eip = x.1.2 % 2 ^ 32
    ∧ (x.1.1 = VINF_SUCCESS ∨ x.1.1 = VERR_PATCH_DISABLED →
        (X86EFLAGS_u1IF vm1.ctx.eflags ≠ 0 →
          ∃ vm2 : VM, emR3PatchTrap r vm gcret = callExecuteInstruction r vm2 VINF_SUCCESS
            ∧ (vm2 = vm1
                ∨ (x.1.1 = VINF_SUCCESS ∧ u8TrapNo = X86_XCPT_GP
                    ∧ r.q.PATMIsInt3Patch vm1 vm1.ctx.eip = true
                    ∧ vm2 = vm1.callVoid (Call.raw (RawCall.PATMR3RemovePatch vm1.ctx.eip))
                        (r.c.PATMR3RemovePatch vm1.ctx.eip))))
        ∧ (X86EFLAGS_u1IF vm1.ctx.eflags = 0 →
            emR3PatchTrap r vm gcret = some (VINF_EM_RESCHEDULE_REM, vm1)))
    ∧ (x.1.1 = VINF_PATCH_EMULATE_INSTR →
        emR3PatchTrap r vm gcret = callExecuteInstruction r vm1 VINF_SUCCESS)
    ∧ (x.1.1 = VINF_PATCH_CONTINUE →
        emR3PatchTrap r vm gcret = some (VINF_SUCCESS, x.2)
          ∧ x.2.ctx.eip = (r.c.PATMR3HandleTrap vmT.ctx.eip vmT).2.ctx.eip)
    ∧ (x.1.1 ≠ VINF_SUCCESS → x.1.1 ≠ VERR_PATCH_DISABLED → x.1.1 ≠ VINF_PATCH_EMULATE_INSTR →
        x.1.1 ≠ VINF_PATCH_CONTINUE →
        emR3PatchTrap r vm gcret = some (VERR_INTERNAL_ERROR, x.2)) := by
  rw [emR3PatchTrap_eq_handle r vm gcret u8TrapNo vmT hT]
  unfold emR3PatchTrap_handle
  rw [if_pos h1]
  dsimp only
  rw [← hx, ← hv]
  have he : vm1.ctx.eflags = x.2.ctx.eflags := by rw [hv]
  have hip : vm1.ctx.eip = x.1.2 % 2 ^ 32 := by rw [hv]
  rw [he, hip]
  refine ⟨rfl, ?_, ?_, ?_, ?_⟩
  · intro hs
    constructor
    · intro hif
      rcases hs with hs | hs
      · rw [if_pos hs, if_pos hif]
        by_cases hg : u8TrapNo = X86_XCPT_GP ∧ r.q.PATMIsInt3Patch vm1 (x.1.2 % 2 ^ 32) = true
        · rw [if_pos hg]
          exact ⟨_, rfl, Or.inr ⟨hs, hg.1, hg.2, rfl⟩⟩
        · rw [if_neg hg]
          exact ⟨_, rfl, Or.inl rfl⟩
      · have h0 : x.1.1 ≠ VINF_SUCCESS := by
          rw [hs]
          decide
        have h2 : x.1.1 ≠ VINF_PATCH_EMULATE_INSTR := by
          rw [hs]
          decide
        rw [if_neg h0, if_neg h2, if_pos hs, if_pos hif]
        exact ⟨_, rfl, Or.inl rfl⟩
    · intro hif
      have hn : ¬ X86EFLAGS_u1IF x.2.ctx.eflags ≠ 0 := fun k => k hif
      rcases hs with hs | hs
      · rw [if_pos hs, if_neg hn]
      · have h0 : x.1.1 ≠ VINF_SUCCESS := by
          rw [hs]
          decide
        have h2 : x.1.1 ≠ VINF_PATCH_EMULATE_INSTR := by
          rw [hs]
          decide
        rw [if_neg h0, if_neg h2, if_pos hs, if_neg hn]
  · intro hs
    have h0 : x.1.1 ≠ VINF_SUCCESS := by
      rw [hs]
      decide
    rw [if_neg h0, if_pos hs]
  · intro hs
    have h0 : x.1.1 ≠ VINF_SUCCESS := by
      rw [hs]
      decide
    have h2 : x.1.1 ≠ VINF_PATCH_EMULATE_INSTR := by
      rw [hs]
      decide
    have h3 : x.1.1 ≠ VERR_PATCH_DISABLED := by
      rw [hs]
      decide
    rw [if_neg h0, if_neg h2, if_neg h3, if_pos hs]
    refine ⟨rfl, ?_⟩
    rw [hx]
    rfl
  · intro h0 h3 h2 h4
    rw [if_neg h0, if_neg h2, if_neg h3, if_neg h4]

/-- Witness of C24: an int3 trap in patch code at `patchMemBase + 0x1000` with
IF set; the patch manager answers `VERR_PATCH_DISABLED` and resolves the
address `0x2000`. The instruction at `0x2000` is executed by
`emR3RawExecuteInstruction`. -/
theorem emR3PatchTrap_cases_witness :
    (3 : Nat) ≠ 1
    ∧ X86EFLAGS_u1IF vmInPatch.ctx.eflags ≠ 0
    ∧ (emR3PatchTrap (rawEnv cpuOther VINF_SUCCESS VERR_PATCH_DISABLED 0x2000) vmInPatch
        VINF_PATM_PATCH_INT3).map (fun y => (y.1, y.2.ctx.eip, y.2.trace))
      = some (VINF_SUCCESS, 0x2000,
          [Call.raw (RawCall.PATMR3HandleTrap (patchMemBase + 0x1000)),
           Call.raw (RawCall.emR3RawExecuteInstruction VINF_SUCCESS)])
    ∧ ∃ vm2 : VM,
        emR3PatchTrap (rawEnv cpuOther VINF_SUCCESS VERR_PATCH_DISABLED 0x2000) vmInPatch
            VINF_PATM_PATCH_INT3
          = callExecuteInstruction (rawEnv cpuOther VINF_SUCCESS VERR_PATCH_DISABLED 0x2000) vm2
              VINF_SUCCESS
        ∧ vm2.ctx.eip = 0x2000 :=
  ⟨by decide, by decide, by decide,
    by
      obtain ⟨vm2, h, hc⟩ :=
        ((emR3PatchTrap_cases (rawEnv cpuOther VINF_SUCCESS VERR_PATCH_DISABLED 0x2000) vmInPatch
          VINF_PATM_PATCH_INT3 3 vmInPatch _ _ (Or.inl ⟨rfl, rfl, rfl⟩) (by decide) rfl rfl).2.1
          (Or.inr rfl)).1 (by decide)
      refine ⟨vm2, h, ?_⟩
      rcases hc with k | ⟨k, _⟩
      · rw [k]
        rfl
      · exact absurd k (by decide)⟩

/-! ## The status with which the inner loops return -/

theorem emR3RawExecute_enter_brk (e : Env) (r : RawEnv) (vm : VM) (site : Break) (rc : Int)
    (vm' : VM) (h : emR3RawExecute_enter e r vm = Enter.brk site rc vm') :
    rc ≠ VINF_SUCCESS ∧ (site = Break.prePassFailed ∨ site = Break.rawEnterFailed) := by
  have hraw : ∀ v : VM, emR3RawExecute_rawEnter e r v = Enter.brk site rc vm' →
      rc ≠ VINF_SUCCESS ∧ (site = Break.prePassFailed ∨ site = Break.rawEnterFailed) := by
    intro v hv
    unfold emR3RawExecute_rawEnter at hv
    dsimp only at hv
    by_cases h1 : (v.call (Call.raw RawCall.CPUMRawEnter) r.c.CPUMRawEnter).1 ≠ VINF_SUCCESS
    · rw [if_pos h1] at hv
      simp only [Enter.brk.injEq] at hv
      rw [← hv.1, ← hv.2.1]
      exact ⟨h1, Or.inr rfl⟩
    · rw [if_neg h1] at hv
      split_ifs at hv
  unfold emR3RawExecute_enter at h
  by_cases hp : VM_FF_ISPENDING vm r.m.VM_FF_HIGH_PRIORITY_PRE_RAW_MASK = true
  · rw [if_pos hp] at h
    dsimp only at h
    by_cases hf : RT_FAILURE (callRawForcedActions e r vm).1 = true
    · rw [if_pos hf] at h
      simp only [Enter.brk.injEq] at h
      rw [← h.1, ← h.2.1]
      have := (RT_FAILURE_iff _).1 hf
      refine ⟨?_, Or.inl rfl⟩
      intro h0
      rw [h0] at this
      exact absurd this (by decide)
    · rw [if_neg hf] at h
      exact hraw _ h
  · rw [if_neg hp] at h
    exact hraw _ h

theorem emR3RawExecute_ff_status (e : Env) (r : RawEnv) (vm : VM) (rc : Int) (site : Break)
    (rc' : Int) (f : Bool) (vm' : VM)
    (h : emR3RawExecute_ff e r vm rc = LoopStep.brk site rc' f vm') :
    rc' ≠ VINF_SUCCESS ∧ rc' ≠ VINF_EM_RESCHEDULE_RAW ∧ f = true
      ∧ site = Break.forcedActionStatus := by
  unfold emR3RawExecute_ff at h
  dsimp only at h
  split_ifs at h with h1 h2 h3
  simp only [LoopStep.brk.injEq] at h
  rw [← h.1, ← h.2.1, ← h.2.2.1]
  refine ⟨h3, ?_, rfl, rfl⟩
  unfold emR3RawUpdateForceFlag at h3 ⊢
  split_ifs at h3 ⊢ with k1 k2
  · exact absurd rfl h3
  · exact h2.2
  · exact h2.2

theorem emR3RawExecute_tail_status (e : Env) (r : RawEnv) (vm : VM) (rc : Int) (site : Break)
    (rc' : Int) (f : Bool) (vm' : VM)
    (h : emR3RawExecute_tail e r vm rc = LoopStep.brk site rc' f vm') :
    rc' ≠ VINF_SUCCESS ∧ (site = Break.forcedActionStatus → rc' ≠ VINF_EM_RESCHEDULE_RAW) := by
  unfold emR3RawExecute_tail at h
  by_cases h1 : rc ≥ VINF_EM_FIRST ∧ rc ≤ VINF_EM_LAST
  · rw [if_pos h1] at h
    simp only [LoopStep.brk.injEq] at h
    rw [← h.1, ← h.2.1]
    refine ⟨?_, fun k => absurd k (by decide)⟩
    intro h0
    rw [h0] at h1
    exact absurd h1.1 (by decide)
  rw [if_neg h1] at h
  split at h
  · exact LoopStep.noConfusion h
  · rename_i rc1 vm1 _
    by_cases h2 : rc1 ≠ VINF_SUCCESS
    · rw [if_pos h2] at h
      dsimp only at h
      by_cases h3 : (emR3RawUpdateForceFlag r vm1 rc1).1 ≠ VINF_SUCCESS
      · rw [if_pos h3] at h
        simp only [LoopStep.brk.injEq] at h
        rw [← h.1, ← h.2.1]
        exact ⟨h3, fun k => absurd k (by decide)⟩
      · rw [if_neg h3] at h
        obtain ⟨a, b, _, _⟩ := emR3RawExecute_ff_status _ _ _ _ _ _ _ _ h
        exact ⟨a, fun _ => b⟩
    · rw [if_neg h2] at h
      obtain ⟨a, b, _, _⟩ := emR3RawExecute_ff_status _ _ _ _ _ _ _ _ h
      exact ⟨a, fun _ => b⟩

theorem emR3RawExecute_round_status (e : Env) (r : RawEnv) (vm : VM) (site : Break)
    (rc' : Int) (f : Bool) (vm' : VM)
    (h : emR3RawExecute_round e r vm = LoopStep.brk site rc' f vm') :
    rc' ≠ VINF_SUCCESS ∧ (site = Break.forcedActionStatus → rc' ≠ VINF_EM_RESCHEDULE_RAW) := by
  unfold emR3RawExecute_round at h
  split at h
  · rename_i site1 rc1 vm1 hen
    simp only [LoopStep.brk.injEq] at h
    obtain ⟨a, b⟩ := emR3RawExecute_enter_brk e r vm site1 rc1 vm1 hen
    rw [← h.1, ← h.2.1]
    refine ⟨a, fun k => ?_⟩
    rcases b with b | b <;> rw [b] at k <;> exact absurd k (by decide)
  · dsimp only at h
    exact emR3RawExecute_tail_status _ _ _ _ _ _ _ _ h

theorem emR3RawExecute_loop_status (e : Env) (r : RawEnv) (fuel : Nat) :
    ∀ (vm : VM) (site : Break) (rc : Int) (f : Bool) (vm' : VM),
      emR3RawExecute_loop e r fuel vm = some (site, (rc, f), vm') →
      rc ≠ VINF_SUCCESS ∧ (site = Break.forcedActionStatus → rc ≠ VINF_EM_RESCHEDULE_RAW) := by
  induction fuel with
  | zero =>
    intro vm site rc f vm' h
    simp [emR3RawExecute_loop] at h
  | succ n ih =>
    intro vm site rc f vm' h
    unfold emR3RawExecute_loop at h
    split at h
    · exact Option.noConfusion h
    · rename_i site1 rc1 f1 vm1 hr
      simp only [Option.some.injEq, Prod.mk.injEq] at h
      obtain ⟨a, ⟨b, _⟩, _⟩ := h
      subst a b
      exact emR3RawExecute_round_status e r vm site1 rc1 f1 vm1 hr
    · exact ih _ _ _ _ _ h

theorem emR3HwAccExecute_tail_status (e : Env) (r : RawEnv) (vm : VM) (rc : Int)
    (site : Break) (rc' : Int) (f : Bool) (vm' : VM)
    (h : emR3HwAccExecute_tail e r vm rc = LoopStep.brk site rc' f vm') :
    rc' ≠ VINF_SUCCESS := by
  unfold emR3HwAccExecute_tail at h
  by_cases h1 : rc ≥ VINF_EM_FIRST ∧ rc ≤ VINF_EM_LAST
  · rw [if_pos h1] at h
    simp only [LoopStep.brk.injEq] at h
    rw [← h.2.1]
    intro h0
    rw [h0] at h1
    exact absurd h1.1 (by decide)
  rw [if_neg h1] at h
  split at h
  · exact LoopStep.noConfusion h
  · rename_i rc1 vm1 _
    dsimp only at h
    split_ifs at h with h2 h3 h4
    · simp only [LoopStep.brk.injEq] at h
      rw [← h.2.1]
      exact h2
    · simp only [LoopStep.brk.injEq] at h
      rw [← h.2.1]
      exact h4.1

theorem emR3HwAccExecute_round_status (e : Env) (r : RawEnv) (idCpu : Nat) (vm : VM)
    (site : Break) (rc' : Int) (f : Bool) (vm' : VM)
    (h : emR3HwAccExecute_round e r idCpu vm = LoopStep.brk site rc' f vm') :
    rc' ≠ VINF_SUCCESS := by
  unfold emR3HwAccExecute_round at h
  split at h
  · rename_i site1 rc1 vm1 hen
    simp only [LoopStep.brk.injEq] at h
    rw [← h.2.1]
    unfold emR3HwAccExecute_enter at hen
    dsimp only at hen
    split_ifs at hen with h1 h2
    simp only [Enter.brk.injEq] at hen
    rw [← hen.2.1]
    have := (RT_FAILURE_iff _).1 h2
    intro h0
    rw [h0] at this
    exact absurd this (by decide)
  · dsimp only at h
    exact emR3HwAccExecute_tail_status _ _ _ _ _ _ _ _ h

theorem emR3HwAccExecute_loop_status (e : Env) (r : RawEnv) (idCpu : Nat) (fuel : Nat) :
    ∀ (vm : VM) (site : Break) (rc : Int) (f : Bool) (vm' : VM),
      emR3HwAccExecute_loop e r idCpu fuel vm = some (site, (rc, f), vm') →
      rc ≠ VINF_SUCCESS := by
  induction fuel with
  | zero =>
    intro vm site rc f vm' h
    simp [emR3HwAccExecute_loop] at h
  | succ n ih =>
    intro vm site rc f vm' h
    unfold emR3HwAccExecute_loop at h
    split at h
    · exact Option.noConfusion h
    · rename_i site1 rc1 f1 vm1 hr
      simp only [Option.some.injEq, Prod.mk.injEq] at h
      obtain ⟨_, ⟨b, _⟩, _⟩ := h
      subst b
      exact emR3HwAccExecute_round_status e r idCpu vm site1 rc1 f1 vm1 hr
    · exact ih _ _ _ _ _ h

theorem emR3RemExecute_ff_status (e : Env) (r : RawEnv) (fIn : Bool) (vm : VM) (rc : Int)
    (site : Break) (rc' : Int) (f fIn' : Bool) (vm' : VM)
    (h : emR3RemExecute_ff e r fIn vm rc = RemStep.brk site rc' f fIn' vm') :
    rc' ≠ VINF_SUCCESS := by
  unfold emR3RemExecute_ff at h
  dsimp only at h
  split_ifs at h with h1 h2 h3 <;> simp only [RemStep.brk.injEq] at h <;> rw [← h.2.1]
  · exact h2.1
  · exact h3.1

theorem emR3RemExecute_round_status (e : Env) (r : RawEnv) (fIn : Bool) (vm : VM)
    (site : Break) (rc' : Int) (f fIn' : Bool) (vm' : VM)
    (h : emR3RemExecute_round e r fIn vm = RemStep.brk site rc' f fIn' vm') :
    rc' ≠ VINF_SUCCESS := by
  unfold emR3RemExecute_round at h
  split at h
  · rename_i site1 rc1 vm1 hen
    simp only [RemStep.brk.injEq] at h
    rw [← h.2.1]
    unfold emR3RemExecute_enter at hen
    dsimp only at hen
    split_ifs at hen with h1 h2 h3
    simp only [RemEnter.brk.injEq] at hen
    rw [← hen.2.1]
    have := (RT_FAILURE_iff _).1 h2
    intro h0
    rw [h0] at this
    exact absurd this (by decide)
  · exact emR3RemExecute_ff_status _ _ _ _ _ _ _ _ _ _ h
  · dsimp only at h
    unfold emR3RemExecute_tail at h
    dsimp only at h
    split_ifs at h with h1 h2 h3
    · simp only [RemStep.brk.injEq] at h
      rw [← h.2.1]
      exact h1.1
    · simp only [RemStep.brk.injEq] at h
      rw [← h.2.1]
      exact h2.1
    · exact emR3RemExecute_ff_status _ _ _ _ _ _ _ _ _ _ h

theorem emR3RemExecute_loop_status (e : Env) (r : RawEnv) (fuel : Nat) :
    ∀ (fIn : Bool) (vm : VM) (site : Break) (rc : Int) (f : Bool) (vm' : VM),
      emR3RemExecute_loop e r fuel fIn vm = some (site, (rc, f), vm') →
      rc ≠ VINF_SUCCESS := by
  induction fuel with
  | zero =>
    intro fIn vm site rc f vm' h
    simp [emR3RemExecute_loop] at h
  | succ n ih =>
    intro fIn vm site rc f vm' h
    unfold emR3RemExecute_loop at h
    split at h
    · rename_i site1 rc1 f1 fIn1 vm1 hr
      simp only [Option.some.injEq, Prod.mk.injEq] at h
      obtain ⟨_, ⟨b, _⟩, _⟩ := h
      subst b
      exact emR3RemExecute_round_status e r fIn vm site1 rc1 f1 fIn1 vm1 hr
    · exact ih _ _ _ _ _ _ h

theorem emR3RawExecute_loop_cont (e : Env) (r : RawEnv) (fuel : Nat) (vm v' : VM)
    (h : emR3RawExecute_round e r vm = LoopStep.cont v') :
    emR3RawExecute_loop e r (fuel + 1) vm = emR3RawExecute_loop e r fuel v' := by
  rw [emR3RawExecute_loop, h]

theorem emR3RawExecute_loop_brk (e : Env) (r : RawEnv) (fuel : Nat) (vm : VM) (site : Break)
    (rc : Int) (f : Bool) (v' : VM)
    (h : emR3RawExecute_round e r vm = LoopStep.brk site rc f v') :
    emR3RawExecute_loop e r (fuel + 1) vm = some (site, (rc, f), v') := by
  rw [emR3RawExecute_loop, h]

theorem emR3HwAccExecute_loop_cont (e : Env) (r : RawEnv) (idCpu fuel : Nat) (vm v' : VM)
    (h : emR3HwAccExecute_round e r idCpu vm = LoopStep.cont v') :
    emR3HwAccExecute_loop e r idCpu (fuel + 1) vm = emR3HwAccExecute_loop e r idCpu fuel v' := by
  rw [emR3HwAccExecute_loop, h]

theorem emR3HwAccExecute_loop_brk (e : Env) (r : RawEnv) (idCpu fuel : Nat) (vm : VM)
    (site : Break) (rc : Int) (f : Bool) (v' : VM)
    (h : emR3HwAccExecute_round e r idCpu vm = LoopStep.brk site rc f v') :
    emR3HwAccExecute_loop e r idCpu (fuel + 1) vm = some (site, (rc, f), v') := by
  rw [emR3HwAccExecute_loop, h]

theorem emR3RemExecute_loop_cont (e : Env) (r : RawEnv) (fuel : Nat) (fIn fIn' : Bool)
    (vm v' : VM) (h : emR3RemExecute_round e r fIn vm = RemStep.cont fIn' v') :
    emR3RemExecute_loop e r (fuel + 1) fIn vm = emR3RemExecute_loop e r fuel fIn' v' := by
  rw [emR3RemExecute_loop, h]

theorem emR3RemExecute_loop_brk (e : Env) (r : RawEnv) (fuel : Nat) (fIn : Bool) (vm : VM)
    (site : Break) (rc : Int) (f fIn' : Bool) (v' : VM)
    (h : emR3RemExecute_round e r fIn vm = RemStep.brk site rc f fIn' v') :
    emR3RemExecute_loop e r (fuel + 1) fIn vm
      = some (site, (rc, f),
          if fIn' then v'.callVoid (Call.raw RawCall.REMR3StateBack) r.c.REMR3StateBack
          else v') := by
  rw [emR3RemExecute_loop, h]

theorem emR3RawExecute_round_cont (e : Env) (r : RawEnv) (vm vmB v1 : VM)
    (he : emR3RawExecute_enter e r vm = Enter.run vmB)
    (hr : ¬ ((emR3RawExecute_burst e r vmB).1 ≥ VINF_EM_FIRST
      ∧ (emR3RawExecute_burst e r vmB).1 ≤ VINF_EM_LAST))
    (hc : emR3RawHandleRC e r (emR3RawExecute_burst e r vmB).2 (emR3RawExecute_burst e r vmB).1
      = some (VINF_SUCCESS, v1))
    (hf : VM_FF_ISPENDING (v1.callVoid (Call.raw RawCall.TMTimerPoll) r.c.TMTimerPoll)
        (VM_FF_NOT r.m.VM_FF_HIGH_PRIORITY_PRE_RAW_MASK) = true →
      (callForcedActions e (v1.callVoid (Call.raw RawCall.TMTimerPoll) r.c.TMTimerPoll)
          VINF_SUCCESS).1 = VINF_SUCCESS) :
    emR3RawExecute_round e r vm
      = LoopStep.cont
          (if VM_FF_ISPENDING (v1.callVoid (Call.raw RawCall.TMTimerPoll) r.c.TMTimerPoll)
              (VM_FF_NOT r.m.VM_FF_HIGH_PRIORITY_PRE_RAW_MASK) then
            (callForcedActions e (v1.callVoid (Call.raw RawCall.TMTimerPoll) r.c.TMTimerPoll)
              VINF_SUCCESS).2
          else v1.callVoid (Call.raw RawCall.TMTimerPoll) r.c.TMTimerPoll) := by
  unfold emR3RawExecute_round
  rw [he]
  dsimp only
  unfold emR3RawExecute_tail
  rw [if_neg hr, hc]
  dsimp only
  rw [if_neg (fun k => k rfl)]
  unfold emR3RawExecute_ff
  dsimp only
  by_cases hp : VM_FF_ISPENDING (v1.callVoid (Call.raw RawCall.TMTimerPoll) r.c.TMTimerPoll)
      (VM_FF_NOT r.m.VM_FF_HIGH_PRIORITY_PRE_RAW_MASK) = true
  · rw [if_pos hp, if_pos hp, if_neg (fun k => k.1 (hf hp))]
  · rw [if_neg hp, if_neg hp]

theorem emR3HwAccExecute_round_cont (e : Env) (r : RawEnv) (idCpu : Nat) (vm vmB v1 : VM)
    (he : emR3HwAccExecute_enter e r vm = Enter.run vmB)
    (hr : ¬ ((emR3HwAccExecute_burst e r idCpu vmB).1 ≥ VINF_EM_FIRST
      ∧ (emR3HwAccExecute_burst e r idCpu vmB).1 ≤ VINF_EM_LAST))
    (hc : emR3RawHandleRC e r (emR3HwAccExecute_burst e r idCpu vmB).2
        (emR3HwAccExecute_burst e r idCpu vmB).1 = some (VINF_SUCCESS, v1))
    (hf : VM_FF_ISPENDING (v1.callVoid (Call.raw RawCall.TMTimerPoll) r.c.TMTimerPoll)
        r.m.VM_FF_ALL_MASK = true →
      (callForcedActions e (v1.callVoid (Call.raw RawCall.TMTimerPoll) r.c.TMTimerPoll)
          VINF_SUCCESS).1 = VINF_SUCCESS) :
    emR3HwAccExecute_round e r idCpu vm
      = LoopStep.cont
          (if VM_FF_ISPENDING (v1.callVoid (Call.raw RawCall.TMTimerPoll) r.c.TMTimerPoll)
              r.m.VM_FF_ALL_MASK then
            (callForcedActions e (v1.callVoid (Call.raw RawCall.TMTimerPoll) r.c.TMTimerPoll)
              VINF_SUCCESS).2
          else v1.callVoid (Call.raw RawCall.TMTimerPoll) r.c.TMTimerPoll) := by
  unfold emR3HwAccExecute_round
  rw [he]
  dsimp only
  unfold emR3HwAccExecute_tail
  rw [if_neg hr, hc]
  dsimp only
  rw [if_neg (fun k => k rfl)]
  by_cases hp : VM_FF_ISPENDING (v1.callVoid (Call.raw RawCall.TMTimerPoll) r.c.TMTimerPoll)
      r.m.VM_FF_ALL_MASK = true
  · rw [if_pos hp, if_pos hp, if_neg (fun k => k.1 (hf hp))]
  · rw [if_neg hp, if_neg hp]

theorem emR3RemExecute_round_cont (e : Env) (r : RawEnv) (fIn : Bool) (vm vmB : VM)
    (he : emR3RemExecute_enter r fIn vm = RemEnter.run vmB)
    (hb : (emR3RemExecute_burst r vmB).1 = VINF_SUCCESS)
    (hf : VM_FF_ISPENDING
        ((emR3RemExecute_burst r vmB).2.callVoid (Call.raw RawCall.TMTimerPoll) r.c.TMTimerPoll)
        (e.m.VM_FF_ALL_BUT_RAW_MASK.filter fun f =>
          decide (f ≠ VM_FF_CSAM_PENDING_ACTION ∧ f ≠ VM_FF_CSAM_SCAN_PAGE)) = true →
      (callForcedActions e
          (((emR3RemExecute_burst r vmB).2.callVoid (Call.raw RawCall.TMTimerPoll)
            r.c.TMTimerPoll).callVoid (Call.raw RawCall.REMR3StateBack) r.c.REMR3StateBack)
          VINF_SUCCESS).1 = VINF_SUCCESS) :
    emR3RemExecute_round e r fIn vm
      = if VM_FF_ISPENDING
            ((emR3RemExecute_burst r vmB).2.callVoid (Call.raw RawCall.TMTimerPoll)
              r.c.TMTimerPoll)
            (e.m.VM_FF_ALL_BUT_RAW_MASK.filter fun f =>
              decide (f ≠ VM_FF_CSAM_PENDING_ACTION ∧ f ≠ VM_FF_CSAM_SCAN_PAGE)) then
          RemStep.cont false
            (callForcedActions e
              (((emR3RemExecute_burst r vmB).2.callVoid (Call.raw RawCall.TMTimerPoll)
                r.c.TMTimerPoll).callVoid (Call.raw RawCall.REMR3StateBack) r.c.REMR3StateBack)
              VINF_SUCCESS).2
        else
          RemStep.cont true
            ((emR3RemExecute_burst r vmB).2.callVoid (Call.raw RawCall.TMTimerPoll)
              r.c.TMTimerPoll) := by
  unfold emR3RemExecute_round
  rw [he]
  dsimp only
  rw [hb]
  unfold emR3RemExecute_tail
  rw [if_neg (fun k => k.1 rfl), if_neg (fun k => k.1 rfl)]
  dsimp only
  by_cases hp : VM_FF_ISPENDING
      ((emR3RemExecute_burst r vmB).2.callVoid (Call.raw RawCall.TMTimerPoll) r.c.TMTimerPoll)
      (e.m.VM_FF_ALL_BUT_RAW_MASK.filter fun f =>
        decide (f ≠ VM_FF_CSAM_PENDING_ACTION ∧ f ≠ VM_FF_CSAM_SCAN_PAGE)) = true
  · rw [if_pos hp, if_pos hp]
    unfold emR3RemExecute_ff
    dsimp only
    rw [if_pos rfl, if_neg (fun k => k.1 (hf hp))]
  · rw [if_neg hp, if_neg hp]

/-- C27: each of the three inner loops returns only with a status other than
`VINF_SUCCESS`, and only through a `break` of one of its rounds: a round that
breaks makes the loop return the status of that break, which is not
`VINF_SUCCESS`. And the loops go on: when a round of `emR3RawExecute` or
`emR3HwAccExecute` enters its engine, the status of the burst lies outside the
scheduling range and is classified as `VINF_SUCCESS` by `emR3RawHandleRC`, and
the forced-action pass, when one runs, answers `VINF_SUCCESS`, the round ends
without a `break` and the loop runs its next round from the VM that the round
leaves behind; likewise for `emR3RemExecute` when the recompiler comes back
with `VINF_SUCCESS`. (`VINF_EM_FIRST` is positive, so the scheduling codes are
not `VINF_SUCCESS`.) -/
theorem inner_loops_status (e : Env) (r : RawEnv) (idCpu : Nat) :
    (∀ (fuel : Nat) (vm : VM) (res : (Int × Bool) × VM),
        (emR3RawExecute e r fuel vm = some res ∨ emR3HwAccExecute e r fuel idCpu vm = some res
          ∨ emR3RemExecute e r fuel vm = some res) → res.1.1 ≠ VINF_SUCCESS)
    ∧ (∀ (fuel : Nat) (vm : VM) (site : Break) (rc : Int) (f : Bool) (v' : VM),
        emR3RawExecute_round e r vm = LoopStep.brk site rc f v' →
        rc ≠ VINF_SUCCESS ∧ emR3RawExecute_loop e r (fuel + 1) vm = some (site, (rc, f), v'))
    ∧ (∀ (fuel : Nat) (vm : VM) (site : Break) (rc : Int) (f : Bool) (v' : VM),
        emR3HwAccExecute_round e r idCpu vm = LoopStep.brk site rc f v' →
        rc ≠ VINF_SUCCESS
          ∧ emR3HwAccExecute_loop e r idCpu (fuel + 1) vm = some (site, (rc, f), v'))
    ∧ (∀ (fuel : Nat) (fIn : Bool) (vm : VM) (site : Break) (rc : Int) (f fIn' : Bool)
        (v' : VM),
        emR3RemExecute_round e r fIn vm = RemStep.brk site rc f fIn' v' →
        rc ≠ VINF_SUCCESS
          ∧ emR3RemExecute_loop e r (fuel + 1) fIn vm
            = some (site, (rc, f),
                if fIn' then v'.callVoid (Call.raw RawCall.REMR3StateBack) r.c.REMR3StateBack
                else v'))
    ∧ (∀ (fuel : Nat) (vm vmB v1 : VM),
        emR3RawExecute_enter e r vm = Enter.run vmB →
        ¬ ((emR3RawExecute_burst e r vmB).1 ≥ VINF_EM_FIRST
          ∧ (emR3RawExecute_burst e r vmB).1 ≤ VINF_EM_LAST) →
        emR3RawHandleRC e r (emR3RawExecute_burst e r vmB).2 (emR3RawExecute_burst e r vmB).1
          = some (VINF_SUCCESS, v1) →
        (VM_FF_ISPENDING (v1.callVoid (Call.raw RawCall.TMTimerPoll) r.c.TMTimerPoll)
            (VM_FF_NOT r.m.VM_FF_HIGH_PRIORITY_PRE_RAW_MASK) = true →
          (callForcedActions e (v1.callVoid (Call.raw RawCall.TMTimerPoll) r.c.TMTimerPoll)
            VINF_SUCCESS).1 = VINF_SUCCESS) →
        emR3RawExecute_round e r vm
            = LoopStep.cont
              (if VM_FF_ISPENDING (v1.callVoid (Call.raw RawCall.TMTimerPoll) r.c.TMTimerPoll)
                  (VM_FF_NOT r.m.VM_FF_HIGH_PRIORITY_PRE_RAW_MASK) then
                (callForcedActions e
                  (v1.callVoid (Call.raw RawCall.TMTimerPoll) r.c.TMTimerPoll) VINF_SUCCESS).2
              else v1.callVoid (Call.raw RawCall.TMTimerPoll) r.c.TMTimerPoll)
          ∧ emR3RawExecute_loop e r (fuel + 1) vm
            = emR3RawExecute_loop e r fuel
              (if VM_FF_ISPENDING (v1.callVoid (Call.raw RawCall.TMTimerPoll) r.c.TMTimerPoll)
                  (VM_FF_NOT r.m.VM_FF_HIGH_PRIORITY_PRE_RAW_MASK) then
                (callForcedActions e
                  (v1.callVoid (Call.raw RawCall.TMTimerPoll) r.c.TMTimerPoll) VINF_SUCCESS).2
              else v1.callVoid (Call.raw RawCall.TMTimerPoll) r.c.TMTimerPoll))
    ∧ (∀ (fuel : Nat) (vm vmB v1 : VM),
        emR3HwAccExecute_enter e r vm = Enter.run vmB →
        ¬ ((emR3HwAccExecute_burst e r idCpu vmB).1 ≥ VINF_EM_FIRST
          ∧ (emR3HwAccExecute_burst e r idCpu vmB).1 ≤ VINF_EM_LAST) →
        emR3RawHandleRC e r (emR3HwAccExecute_burst e r idCpu vmB).2
          (emR3HwAccExecute_burst e r idCpu vmB).1 = some (VINF_SUCCESS, v1) →
        (VM_FF_ISPENDING (v1.callVoid (Call.raw RawCall.TMTimerPoll) r.c.TMTimerPoll)
            r.m.VM_FF_ALL_MASK = true →
          (callForcedActions e (v1.callVoid (Call.raw RawCall.TMTimerPoll) r.c.TMTimerPoll)
            VINF_SUCCESS).1 = VINF_SUCCESS) →
        emR3HwAccExecute_round e r idCpu vm
            = LoopStep.cont
              (if VM_FF_ISPENDING (v1.callVoid (Call.raw RawCall.TMTimerPoll) r.c.TMTimerPoll)
                  r.m.VM_FF_ALL_MASK then
                (callForcedActions e
                  (v1.callVoid (Call.raw RawCall.TMTimerPoll) r.c.TMTimerPoll) VINF_SUCCESS).2
              else v1.callVoid (Call.raw RawCall.TMTimerPoll) r.c.TMTimerPoll)
          ∧ emR3HwAccExecute_loop e r idCpu (fuel + 1) vm
            = emR3HwAccExecute_loop e r idCpu fuel
              (if VM_FF_ISPENDING (v1.callVoid (Call.raw RawCall.TMTimerPoll) r.c.TMTimerPoll)
                  r.m.VM_FF_ALL_MASK then
                (callForcedActions e
                  (v1.callVoid (Call.raw RawCall.TMTimerPoll) r.c.TMTimerPoll) VINF_SUCCESS).2
              else v1.callVoid (Call.raw RawCall.TMTimerPoll) r.c.TMTimerPoll))
    ∧ (∀ (fuel : Nat) (fIn : Bool) (vm vmB : VM),
        emR3RemExecute_enter r fIn vm = RemEnter.run vmB →
        (emR3RemExecute_burst r vmB).1 = VINF_SUCCESS →
        (VM_FF_ISPENDING
            ((emR3RemExecute_burst r vmB).2.callVoid (Call.raw RawCall.TMTimerPoll)
              r.c.TMTimerPoll)
            (e.m.VM_FF_ALL_BUT_RAW_MASK.filter fun f =>
              decide (f ≠ VM_FF_CSAM_PENDING_ACTION ∧ f ≠ VM_FF_CSAM_SCAN_PAGE)) = true →
          (callForcedActions e
            (((emR3RemExecute_burst r vmB).2.callVoid (Call.raw RawCall.TMTimerPoll)
              r.c.TMTimerPoll).callVoid (Call.raw RawCall.REMR3StateBack) r.c.REMR3StateBack)
            VINF_SUCCESS).1 = VINF_SUCCESS) →
        emR3RemExecute_loop e r (fuel + 1) fIn vm
          = if VM_FF_ISPENDING
                ((emR3RemExecute_burst r vmB).2.callVoid (Call.raw RawCall.TMTimerPoll)
                  r.c.TMTimerPoll)
                (e.m.VM_FF_ALL_BUT_RAW_MASK.filter fun f =>
                  decide (f ≠ VM_FF_CSAM_PENDING_ACTION ∧ f ≠ VM_FF_CSAM_SCAN_PAGE)) then
              emR3RemExecute_loop e r fuel false
                (callForcedActions e
                  (((emR3RemExecute_burst r vmB).2.callVoid (Call.raw RawCall.TMTimerPoll)
                    r.c.TMTimerPoll).callVoid (Call.raw RawCall.REMR3StateBack)
                    r.c.REMR3StateBack) VINF_SUCCESS).2
            else
              emR3RemExecute_loop e r fuel true
                ((emR3RemExecute_burst r vmB).2.callVoid (Call.raw RawCall.TMTimerPoll)
                  r.c.TMTimerPoll)) := by
  refine ⟨?_, ?_, ?_, ?_, ?_, ?_, ?_⟩
  · intro fuel vm res h
    rcases h with h | h | h
    · unfold emR3RawExecute emR3RawExecute_at at h
      cases hl : emR3RawExecute_loop e r fuel { vm with fForceRAW := false } with
      | none =>
        rw [hl] at h
        exact Option.noConfusion h
      | some y =>
        rw [hl] at h
        simp only [Option.map_some', Option.some.injEq] at h
        rw [← h]
        exact (emR3RawExecute_loop_status e r fuel _ y.1 y.2.1.1 y.2.1.2 y.2.2 hl).1
    · unfold emR3HwAccExecute at h
      cases hl : emR3HwAccExecute_loop e r idCpu fuel vm with
      | none =>
        rw [hl] at h
        exact Option.noConfusion h
      | some y =>
        rw [hl] at h
        simp only [Option.map_some', Option.some.injEq] at h
        rw [← h]
        exact emR3HwAccExecute_loop_status e r idCpu fuel _ y.1 y.2.1.1 y.2.1.2 y.2.2 hl
    · unfold emR3RemExecute at h
      cases hl : emR3RemExecute_loop e r fuel false vm with
      | none =>
        rw [hl] at h
        exact Option.noConfusion h
      | some y =>
        rw [hl] at h
        simp only [Option.map_some', Option.some.injEq] at h
        rw [← h]
        exact emR3RemExecute_loop_status e r fuel _ _ y.1 y.2.1.1 y.2.1.2 y.2.2 hl
  · intro fuel v site rc f v' hr
    exact ⟨(emR3RawExecute_round_status e r v site rc f v' hr).1,
      emR3RawExecute_loop_brk e r fuel v site rc f v' hr⟩
  · intro fuel v site rc f v' hr
    exact ⟨emR3HwAccExecute_round_status e r idCpu v site rc f v' hr,
      emR3HwAccExecute_loop_brk e r idCpu fuel v site rc f v' hr⟩
  · intro fuel fIn v site rc f fIn' v' hr
    exact ⟨emR3RemExecute_round_status e r fIn v site rc f fIn' v' hr,
      emR3RemExecute_loop_brk e r fuel fIn v site rc f fIn' v' hr⟩
  · intro fuel vm vmB v1 he hr hc hf
    have h := emR3RawExecute_round_cont e r vm vmB v1 he hr hc hf
    exact ⟨h, emR3RawExecute_loop_cont e r fuel vm _ h⟩
  · intro fuel vm vmB v1 he hr hc hf
    have h := emR3HwAccExecute_round_cont e r idCpu vm vmB v1 he hr hc hf
    exact ⟨h, emR3HwAccExecute_loop_cont e r idCpu fuel vm _ h⟩
  · intro fuel fIn vm vmB he hb hf
    have h := emR3RemExecute_round_cont e r fIn vm vmB he hb hf
    by_cases hp : VM_FF_ISPENDING
        ((emR3RemExecute_burst r vmB).2.callVoid (Call.raw RawCall.TMTimerPoll) r.c.TMTimerPoll)
        (e.m.VM_FF_ALL_BUT_RAW_MASK.filter fun f =>
          decide (f ≠ VM_FF_CSAM_PENDING_ACTION ∧ f ≠ VM_FF_CSAM_SCAN_PAGE)) = true
    · rw [if_pos hp] at h ⊢
      exact emR3RemExecute_loop_cont e r fuel fIn false vm _ h
    · rw [if_neg hp] at h ⊢
      exact emR3RemExecute_loop_cont e r fuel fIn true vm _ h

/-- Witness of C27: engines that complete their first burst with `VINF_SUCCESS`
and report `VINF_EM_HALT` on the second. Each loop runs two bursts and returns
`VINF_EM_HALT`; the first round of `emR3RawExecute` ends without a `break`, and
the loop goes on from the VM that round leaves behind. -/
theorem inner_loops_status_witness :
    (emR3RawExecute (envReturn 0) rawEnvSuccessThenHalt 2 vmInit).map
        (fun x => (x.1, x.2.trace))
      = some ((VINF_EM_HALT, false),
          [Call.raw RawCall.CPUMRawEnter, Call.CSAMR3CheckCodeEx 0x1000, Call.VMMR3Unlock,
           Call.raw RawCall.VMMR3RawRunGC, Call.VMMR3Lock,
           Call.raw (RawCall.CPUMRawLeave VINF_SUCCESS), Call.raw RawCall.TMTimerPoll,
           Call.raw RawCall.CPUMRawEnter, Call.CSAMR3CheckCodeEx 0x1000, Call.VMMR3Unlock,
           Call.raw RawCall.VMMR3RawRunGC, Call.VMMR3Lock,
           Call.raw (RawCall.CPUMRawLeave VINF_EM_HALT)])
    ∧ (emR3HwAccExecute (envReturn 0) rawEnvSuccessThenHalt 2 0 vmInit).map
        (fun x => (x.1, x.2.trace))
      = some ((VINF_EM_HALT, false),
          [Call.VMMR3Unlock, Call.raw (RawCall.VMMR3HwAccRunGC 0), Call.VMMR3Lock,
           Call.raw RawCall.TMTimerPoll,
           Call.VMMR3Unlock, Call.raw (RawCall.VMMR3HwAccRunGC 0), Call.VMMR3Lock])
    ∧ (emR3RemExecute (envReturn 0) rawEnvSuccessThenHalt 2 vmInit).map
        (fun x => (x.1, x.2.trace))
      = some ((VINF_EM_HALT, false),
          [Call.raw RawCall.REMR3State, Call.raw RawCall.REMR3Run, Call.raw RawCall.TMTimerPoll,
           Call.raw RawCall.REMR3Run, Call.raw RawCall.REMR3StateBack])
    ∧ ∃ v' : VM,
        emR3RawExecute_round (envReturn 0) rawEnvSuccessThenHalt vmInit = LoopStep.cont v'
        ∧ emR3RawExecute_loop (envReturn 0) rawEnvSuccessThenHalt 2 vmInit
          = emR3RawExecute_loop (envReturn 0) rawEnvSuccessThenHalt 1 v'
        ∧ v'.trace = [Call.raw RawCall.CPUMRawEnter, Call.CSAMR3CheckCodeEx 0x1000,
            Call.VMMR3Unlock, Call.raw RawCall.VMMR3RawRunGC, Call.VMMR3Lock,
            Call.raw (RawCall.CPUMRawLeave VINF_SUCCESS), Call.raw RawCall.TMTimerPoll] :=
  ⟨by decide, by decide, by decide, _,
    ((inner_loops_status (envReturn 0) rawEnvSuccessThenHalt 0).2.2.2.2.1 1 vmInit
      (Enter.out (emR3RawExecute_enter (envReturn 0) rawEnvSuccessThenHalt vmInit))
      (emR3RawExecute_burst (envReturn 0) rawEnvSuccessThenHalt
        (Enter.out (emR3RawExecute_enter (envReturn 0) rawEnvSuccessThenHalt vmInit))).2
      rfl (by decide) rfl (fun h => absurd h (by decide))).1,
    ((inner_loops_status (envReturn 0) rawEnvSuccessThenHalt 0).2.2.2.2.1 1 vmInit
      (Enter.out (emR3RawExecute_enter (envReturn 0) rawEnvSuccessThenHalt vmInit))
      (emR3RawExecute_burst (envReturn 0) rawEnvSuccessThenHalt
        (Enter.out (emR3RawExecute_enter (envReturn 0) rawEnvSuccessThenHalt vmInit))).2
      rfl (by decide) rfl (fun h => absurd h (by decide))).2,
    by decide⟩

/-! ## A scheduling status of the engine ends the spinning of `emR3RawExecute` -/

/-- C28 does not hold of `emR3RawExecute`. The raw-mode engine comes back with
`VINF_EM_RESCHEDULE_RAW`: the status lies between `VINF_EM_FIRST` and
`VINF_EM_LAST`, so the loop is left before `emR3RawHandleRC` is asked (its case
`VINF_EM_RESCHEDULE_RAW` would have turned the status into `VINF_SUCCESS`), and
`emR3RawExecute` returns `VINF_EM_RESCHEDULE_RAW` after one burst instead of
spinning. -/
theorem emR3RawExecute_spin_counterexample :
    (emR3RawExecute_at (envReturn 0) (rawEnv cpuOther VINF_EM_RESCHEDULE_RAW VINF_SUCCESS 0) 1
        vmInit).map (fun x => (x.1, x.2.1, x.2.2.trace))
      = some (Break.schedulingStatus, (VINF_EM_RESCHEDULE_RAW, false),
          [Call.raw RawCall.CPUMRawEnter, Call.CSAMR3CheckCodeEx 0x1000, Call.VMMR3Unlock,
           Call.raw RawCall.VMMR3RawRunGC, Call.VMMR3Lock,
           Call.raw (RawCall.CPUMRawLeave VINF_EM_RESCHEDULE_RAW)])
    ∧ (emR3RawExecute (envReturn 0) (rawEnv cpuOther VINF_EM_RESCHEDULE_RAW VINF_SUCCESS 0) 1
        vmInit).map (fun x => x.1) = some (VINF_EM_RESCHEDULE_RAW, false)
    ∧ (VINF_EM_RESCHEDULE_RAW ≥ VINF_EM_FIRST ∧ VINF_EM_RESCHEDULE_RAW ≤ VINF_EM_LAST) := by
  decide

/-! ## The states that reach the dispatch -/

theorem EMR3ExecuteVM_switch_dispatched (e : Env) (vm : VM) (rc : Int) (r : Int) (vm1 : VM)
    (h : EMR3ExecuteVM_switch e vm rc = Transition.go r vm1)
    (hv : vm.enmState.dispatched = true) : vm1.enmState.dispatched = true := by
  have hres := emR3Reschedule_fst_mem e.q vm vm.ctx
  have hresd : (emR3Reschedule e.q vm vm.ctx).1.dispatched = true := by
    rcases hres with k | k | k <;> rw [k] <;> decide
  by_cases hm : rc ∈ switchCodes
  swap
  · rw [EMR3ExecuteVM_switch_unrecognized e vm rc hm] at h
    simp only [Transition.go.injEq] at h
    rw [← h.2]
    rfl
  simp only [switchCodes, List.mem_cons, List.mem_singleton, List.not_mem_nil, or_false] at hm
  rcases hm with h0 | h0 | h0 | h0 | h0 | h0 | h0 | h0 | h0 | h0 | h0 | h0 | h0 | h0 | h0 | h0
    | h0 | h0 | h0 <;> subst h0 <;>
    simp only [EMR3ExecuteVM_switch, VINF_EM_RESCHEDULE_RAW, VINF_SUCCESS,
      VINF_EM_RESCHEDULE_HWACC, VINF_EM_RESCHEDULE_REM, VINF_EM_HALT, VINF_EM_RESUME,
      VINF_EM_RESCHEDULE, VINF_EM_SUSPEND, VINF_EM_RESET, VINF_EM_OFF, VINF_EM_TERMINATE,
      VINF_EM_DBG_STEPPED, VINF_EM_DBG_STOP, VINF_EM_DBG_BREAKPOINT, VINF_EM_DBG_STEP,
      VINF_EM_DBG_HYPER_STEPPED, VINF_EM_DBG_HYPER_BREAKPOINT, VINF_EM_DBG_HYPER_ASSERTION,
      VERR_VMM_RING0_ASSERTION, emR3Reschedule_snd, Transition.go.injEq, if_true, if_false,
      or_true, true_or, or_false, false_or, reduceCtorEq, Int.reduceEq, Int.reduceNeg] at h <;>
    first
    | exact Transition.noConfusion h
    | (rw [← h.2]; exact hv)
    | (rw [← h.2]; exact hresd)
    | (rw [← h.2]; rfl)
    | (split_ifs at h <;> simp only [Transition.go.injEq] at h <;> rw [← h.2] <;> rfl)

theorem EMR3ExecuteVM_forcedActions_trace (e : Env) (vm : VM) (rc : Int) (f : Bool) :
    ∃ t : List Call, (EMR3ExecuteVM_forcedActions e vm rc f).2.2.trace = vm.trace ++ t := by
  unfold EMR3ExecuteVM_forcedActions
  dsimp only
  obtain ⟨eip, t, ht, _⟩ := emR3ForcedActions_appends e
    { vm with trace := vm.trace ++ [Call.emR3ForcedActions rc] } rc
  have hx : (emR3ForcedActions e { vm with trace := vm.trace ++ [Call.emR3ForcedActions rc] }
      rc).2.trace = vm.trace ++ (Call.emR3ForcedActions rc :: t) := by
    rw [ht]
    simp
  split_ifs
  · exact ⟨_, hx⟩
  · exact ⟨_, hx⟩
  · exact ⟨[], by simp⟩
  · exact ⟨[], by simp⟩

theorem EMR3ExecuteVM_switch_go_trace (e : Env) (vm : VM) (rc : Int) (r : Int) (vm1 : VM)
    (h : EMR3ExecuteVM_switch e vm rc = Transition.go r vm1) : vm1.trace = vm.trace := by
  rcases EMR3ExecuteVM_switch_cases e vm rc with ⟨st, k, _⟩ | k | ⟨s2, v2, k, _, _⟩
  · rw [k] at h
    simp only [Transition.go.injEq] at h
    rw [← h.2]
  · rw [k] at h
    simp only [Transition.go.injEq] at h
    rw [← h.2]
  · rw [k] at h
    exact Transition.noConfusion h

theorem EMR3ExecuteVM_dispatch_next_trace (e : Env) (idCpu fuel : Nat) (vm : VM) (rc : Int)
    (f : Bool) (rc' : Int) (f' : Bool) (vm' : VM)
    (h : EMR3ExecuteVM_dispatch e idCpu fuel vm rc f = Outcome.next rc' f' vm') :
    ∃ t : List Call, vm'.trace = vm.trace ++ t := by
  unfold EMR3ExecuteVM_dispatch at h
  split at h
  · split at h
    · exact Outcome.noConfusion h
    · rename_i rc1 f1 vm1 hr
      simp only [Outcome.next.injEq] at h
      rw [← h.2.2]
      exact run_trace _ _ _ _ _ hr
  · split at h
    · exact Outcome.noConfusion h
    · rename_i rc1 f1 vm1 hr
      simp only [Outcome.next.injEq] at h
      rw [← h.2.2]
      exact run_trace _ _ _ _ _ hr
  · split at h
    · exact Outcome.noConfusion h
    · rename_i rc1 f1 vm1 hr
      simp only [Outcome.next.injEq] at h
      rw [← h.2.2]
      exact run_trace _ _ _ _ _ hr
  · simp only [Outcome.next.injEq] at h
    rw [← h.2.2]
    exact ⟨_, rfl⟩
  · exact Outcome.noConfusion h
  · dsimp only at h
    split at h
    · exact Outcome.noConfusion h
    · rename_i rc1 vm3 hd
      simp only [Outcome.next.injEq] at h
      obtain ⟨t, ht⟩ := emR3Debug_trace e fuel _ _ _ _ hd
      rw [← h.2.2]
      simp only [callVoid_trace, ht, List.append_assoc]
      exact ⟨_, rfl⟩
  · dsimp only at h
    split at h
    · exact Outcome.noConfusion h
    · rename_i rc1 vm3 hd
      simp only [Outcome.next.injEq] at h
      obtain ⟨t, ht⟩ := emR3Debug_trace e fuel _ _ _ _ hd
      rw [← h.2.2]
      simp only [callVoid_trace, ht, List.append_assoc]
      exact ⟨_, rfl⟩
  · dsimp only at h
    split at h
    · exact Outcome.noConfusion h
    · rename_i rc1 vm3 hd
      split_ifs at h
      simp only [Outcome.next.injEq] at h
      obtain ⟨t, ht⟩ := emR3Debug_trace e fuel _ _ _ _ hd
      rw [← h.2.2]
      simp only [callVoid_trace, ht, List.append_assoc]
      exact ⟨_, rfl⟩
  · dsimp only at h
    split at h
    · exact Outcome.noConfusion h
    · exact Outcome.noConfusion h
  · exact Outcome.noConfusion h
  · exact Outcome.noConfusion h
  · exact Outcome.noConfusion h

theorem EMR3ExecuteVM_dispatch_ret_dump (e : Env) (idCpu fuel : Nat) (vm : VM) (rc : Int)
    (f : Bool) (site : Exit) (r : Int) (vm' : VM)
    (h : EMR3ExecuteVM_dispatch e idCpu fuel vm rc f = Outcome.ret site r vm') :
    (site = Exit.invalidState → vm.enmState.dispatched = false)
    ∧ (site = Exit.debugHyper ∨ site = Exit.guruMeditation →
        ∃ (t : List Call) (rc' : Int), vm'.trace = vm.trace ++ t
          ∧ Call.VMMR3FatalDump rc' ∈ t) := by
  unfold EMR3ExecuteVM_dispatch at h
  split at h
  · split at h <;> exact Outcome.noConfusion h
  · split at h <;> exact Outcome.noConfusion h
  · split at h <;> exact Outcome.noConfusion h
  · exact Outcome.noConfusion h
  · simp only [Outcome.ret.injEq] at h
    rw [← h.1]
    exact ⟨fun k => Exit.noConfusion k, fun k => by rcases k with k | k <;> exact Exit.noConfusion k⟩
  · dsimp only at h
    split at h <;> exact Outcome.noConfusion h
  · dsimp only at h
    split at h <;> exact Outcome.noConfusion h
  · dsimp only at h
    split at h
    · exact Outcome.noConfusion h
    · rename_i rc1 vm3 hd
      split_ifs at h with hne
      simp only [Outcome.ret.injEq] at h
      obtain ⟨t, ht⟩ := emR3Debug_trace e fuel _ _ _ _ hd
      rw [← h.1, ← h.2.2]
      refine ⟨fun k => Exit.noConfusion k, fun _ =>
        ⟨[Call.TMVirtualPause, Call.TMCpuTickPause] ++ t ++ [Call.VMMR3FatalDump rc1], rc1,
          ?_, ?_⟩⟩
      · simp only [callVoid_trace, ht, List.append_assoc]
        rfl
      · simp
  · dsimp only at h
    split at h
    · exact Outcome.noConfusion h
    · rename_i rc1 vm4 hd
      simp only [Outcome.ret.injEq] at h
      obtain ⟨t, ht⟩ := emR3Debug_trace e fuel _ _ _ _ hd
      rw [← h.1, ← h.2.2]
      refine ⟨fun k => Exit.noConfusion k, fun _ =>
        ⟨[Call.TMVirtualPause, Call.TMCpuTickPause, Call.VMMR3FatalDump rc] ++ t
          ++ [Call.VMMR3Unlock], rc, ?_, ?_⟩⟩
      · simp only [callVoid_trace, ht, List.append_assoc]
        rfl
      · simp
  · rename_i hst
    simp only [Outcome.ret.injEq] at h
    rw [← h.1]
    refine ⟨fun _ => by rw [hst]; rfl, fun k => ?_⟩
    rcases k with k | k <;> exact Exit.noConfusion k
  · rename_i hst
    simp only [Outcome.ret.injEq] at h
    rw [← h.1]
    refine ⟨fun _ => by rw [hst]; rfl, fun k => ?_⟩
    rcases k with k | k <;> exact Exit.noConfusion k
  · rename_i hst
    simp only [Outcome.ret.injEq] at h
    rw [← h.1]
    refine ⟨fun _ => by rw [hst]; rfl, fun k => ?_⟩
    rcases k with k | k <;> exact Exit.noConfusion k

theorem EMR3ExecuteVM_round_next_inv (e : Env) (idCpu fuel : Nat) (vm : VM) (rc : Int)
    (f : Bool) (rc' : Int) (f' : Bool) (vm' : VM)
    (h : EMR3ExecuteVM_round e idCpu fuel vm rc f = Outcome.next rc' f' vm')
    (hv : vm.enmState.dispatched = true) :
    vm'.enmState.dispatched = true ∧ ∃ t : List Call, vm'.trace = vm.trace ++ t := by
  unfold EMR3ExecuteVM_round EMR3ExecuteVM_act at h
  dsimp only at h
  obtain ⟨t0, ht0⟩ := EMR3ExecuteVM_forcedActions_trace e vm rc f
  have hs0 := EMR3ExecuteVM_forcedActions_enmState e vm rc f
  split at h
  · exact Outcome.noConfusion h
  · rename_i rc1 vm1 hsw
    have hd1 : vm1.enmState.dispatched = true :=
      EMR3ExecuteVM_switch_dispatched e _ _ rc1 vm1 hsw (by rw [hs0]; exact hv)
    have ht1 := EMR3ExecuteVM_switch_go_trace e _ _ rc1 vm1 hsw
    obtain ⟨a, _⟩ := EMR3ExecuteVM_dispatch_next _ _ _ _ _ _ _ _ _ h
    obtain ⟨t, ht⟩ := EMR3ExecuteVM_dispatch_next_trace _ _ _ _ _ _ _ _ _ h
    refine ⟨?_, t0 ++ [Call.VMMR3Unlock, Call.VMMR3Lock] ++ t, ?_⟩
    · rw [a]
      exact hd1
    · rw [ht]
      simp only [callVoid_trace, ht1, ht0, List.append_assoc]
      rfl

theorem EMR3ExecuteVM_round_ret_dump (e : Env) (idCpu fuel : Nat) (vm : VM) (rc : Int)
    (f : Bool) (site : Exit) (r : Int) (vm' : VM)
    (h : EMR3ExecuteVM_round e idCpu fuel vm rc f = Outcome.ret site r vm')
    (hv : vm.enmState.dispatched = true) :
    site ≠ Exit.invalidState
      ∧ (vm'.enmState = EMSTATE_GURU_MEDITATION →
          ∃ (t : List Call) (rc' : Int), vm'.trace = vm.trace ++ t
            ∧ Call.VMMR3FatalDump rc' ∈ t) := by
  unfold EMR3ExecuteVM_round EMR3ExecuteVM_act at h
  dsimp only at h
  obtain ⟨t0, ht0⟩ := EMR3ExecuteVM_forcedActions_trace e vm rc f
  have hs0 := EMR3ExecuteVM_forcedActions_enmState e vm rc f
  split at h
  · rename_i site1 rc1 vm1 hsw
    simp only [Outcome.ret.injEq] at h
    obtain ⟨k1, k2⟩ := EMR3ExecuteVM_switch_ret e _ _ site1 rc1 vm1 hsw
    rw [← h.1, ← h.2.2]
    refine ⟨?_, fun hg => ?_⟩
    · rcases k1 with k | k <;> rw [k] <;> decide
    · rw [k2] at hg
      exact EMSTATE.noConfusion hg
  · rename_i rc1 vm1 hsw
    have hd1 : vm1.enmState.dispatched = true :=
      EMR3ExecuteVM_switch_dispatched e _ _ rc1 vm1 hsw (by rw [hs0]; exact hv)
    have ht1 := EMR3ExecuteVM_switch_go_trace e _ _ rc1 vm1 hsw
    obtain ⟨hinv, hdump⟩ := EMR3ExecuteVM_dispatch_ret_dump _ _ _ _ _ _ _ _ _ h
    have hsite : site ≠ Exit.invalidState := by
      intro k
      have := hinv k
      rw [callVoid_enmState, callVoid_enmState, hd1] at this
      exact Bool.noConfusion this
    refine ⟨hsite, fun hg => ?_⟩
    have hcase : site = Exit.debugHyper ∨ site = Exit.guruMeditation := by
      rcases EMR3ExecuteVM_dispatch_ret _ _ _ _ _ _ _ _ _ h with
        ⟨_, k⟩ | ⟨k, _⟩ | ⟨k, _⟩ | ⟨k, _⟩
      · rw [hg] at k
        exact EMSTATE.noConfusion k
      · exact Or.inl k
      · exact Or.inr k
      · exact absurd k hsite
    obtain ⟨t, rc', ht, hm⟩ := hdump hcase
    refine ⟨t0 ++ [Call.VMMR3Unlock, Call.VMMR3Lock] ++ t, rc', ?_, ?_⟩
    · rw [ht]
      simp only [callVoid_trace, ht1, ht0, List.append_assoc]
      rfl
    · exact List.mem_append_right _ hm

theorem EMR3ExecuteVM_loop_dump (e : Env) (idCpu : Nat) (fuel : Nat) :
    ∀ (vm : VM) (rc : Int) (f : Bool) (x : Exit × Int × VM),
      vm.enmState.dispatched = true →
      EMR3ExecuteVM_loop e idCpu fuel vm rc f = some x →
      x.1 ≠ Exit.invalidState
        ∧ (x.2.2.enmState = EMSTATE_GURU_MEDITATION →
            ∃ (t : List Call) (rc' : Int), x.2.2.trace = vm.trace ++ t
              ∧ Call.VMMR3FatalDump rc' ∈ t) := by
  induction fuel with
  | zero =>
    intro vm rc f x _ h
    exact Option.noConfusion h
  | succ n ih =>
    intro vm rc f x hv h
    rw [EMR3ExecuteVM_loop] at h
    split at h
    · exact Option.noConfusion h
    · rename_i site rc1 vm1 hr
      simp only [Option.some.injEq] at h
      rw [← h]
      exact EMR3ExecuteVM_round_ret_dump e idCpu _ vm rc f site rc1 vm1 hr hv
    · rename_i rc1 f1 vm1 hr
      obtain ⟨hd, t1, ht1⟩ := EMR3ExecuteVM_round_next_inv e idCpu _ vm rc f rc1 f1 vm1 hr hv
      obtain ⟨a, b⟩ := ih vm1 rc1 f1 x hd h
      refine ⟨a, fun hg => ?_⟩
      obtain ⟨t, rc', ht, hm⟩ := b hg
      exact ⟨t1 ++ t, rc', by rw [ht, ht1, List.append_assoc], List.mem_append_right _ hm⟩

/-- C23: whenever `EMR3ExecuteVM` returns, it does not return through the
invalid-state branch of the dispatch (the state that reaches the dispatch is
never `EMSTATE_NONE`, `EMSTATE_TERMINATING` or `EMSTATE_PARAV`: the first state
is the one `emR3Reschedule` chooses, the transition `switch` sets no such state
without returning, and no callee writes the state); and when it returns in the
state `EMSTATE_GURU_MEDITATION`, a call of `VMMR3FatalDump` is among the calls
it has made. The branch entered after the long jump of `EMR3FatalError` calls
`VMMR3FatalDump` with the status of the jump before it returns. -/
theorem EMR3ExecuteVM_guru_dump (e : Env) (idCpu fuel : Nat) (vm : VM) (x : Exit × Int × VM)
    (h : EMR3ExecuteVM e idCpu fuel vm = some x) :
    x.1 ≠ Exit.invalidState
    ∧ (x.2.2.enmState = EMSTATE_GURU_MEDITATION →
        ∃ (t : List Call) (rc' : Int), x.2.2.trace = vm.trace ++ t
          ∧ Call.VMMR3FatalDump rc' ∈ t)
    ∧ (∀ (v : VM) (rc : Int) (y : Exit × Int × VM), EMR3ExecuteVM_fatal e fuel v rc = some y →
        ∃ t : List Call, y.2.2.trace = v.trace ++ t ∧ Call.VMMR3FatalDump rc ∈ t) := by
  unfold EMR3ExecuteVM at h
  dsimp only at h
  have hres := emR3Reschedule_fst_mem e.q
    (((vm.callVoid Call.VMMR3Lock e.c.VMMR3Lock).callVoid Call.TMVirtualResume
      e.c.TMVirtualResume).callVoid Call.TMCpuTickResume e.c.TMCpuTickResume)
    (((vm.callVoid Call.VMMR3Lock e.c.VMMR3Lock).callVoid Call.TMVirtualResume
      e.c.TMVirtualResume).callVoid Call.TMCpuTickResume e.c.TMCpuTickResume).ctx
  obtain ⟨a, b⟩ := EMR3ExecuteVM_loop_dump e idCpu fuel _ _ _ x (by
    change (emR3Reschedule e.q _ _).1.dispatched = true
    rcases hres with k | k | k <;> rw [k] <;> decide) h
  refine ⟨a, fun hg => ?_, ?_⟩
  · obtain ⟨t, rc', ht, hm⟩ := b hg
    refine ⟨[Call.VMMR3Lock, Call.TMVirtualResume, Call.TMCpuTickResume] ++ t, rc', ?_,
      List.mem_append_right _ hm⟩
    rw [ht, emR3Reschedule_snd]
    simp only [callVoid_trace, List.append_assoc]
    rfl
  · intro v rc y hy
    unfold EMR3ExecuteVM_fatal at hy
    dsimp only at hy
    split at hy
    · exact Option.noConfusion hy
    · rename_i rc1 vm4 hd
      simp only [Option.some.injEq] at hy
      obtain ⟨t, ht⟩ := emR3Debug_trace e fuel _ _ _ _ hd
      rw [← hy]
      refine ⟨[Call.TMVirtualPause, Call.TMCpuTickPause, Call.VMMR3FatalDump rc] ++ t
        ++ [Call.VMMR3Unlock], ?_, by simp⟩
      simp only [callVoid_trace, ht, List.append_assoc]
      rfl

/-- Witness of C23: the recompiler loop gives up with `VERR_REM_TOO_MANY_TRAPS`
and no debugger is attached; `EMR3ExecuteVM` returns from the guru meditation,
after `VMMR3FatalDump`. -/
theorem EMR3ExecuteVM_guru_dump_witness :
    EMR3ExecuteVM (envReturn VERR_REM_TOO_MANY_TRAPS) 0 3 vmTF = some runTooManyTraps
    ∧ runTooManyTraps.1 = Exit.guruMeditation
    ∧ runTooManyTraps.2.2.enmState = EMSTATE_GURU_MEDITATION
    ∧ runTooManyTraps.1 ≠ Exit.invalidState
    ∧ ∃ (t : List Call) (rc' : Int), runTooManyTraps.2.2.trace = vmTF.trace ++ t
        ∧ Call.VMMR3FatalDump rc' ∈ t :=
  have h1 : EMR3ExecuteVM (envReturn VERR_REM_TOO_MANY_TRAPS) 0 3 vmTF = some runTooManyTraps :=
    run_eq_getD _ _ (by decide)
  ⟨h1, by decide, by decide,
    (EMR3ExecuteVM_guru_dump (envReturn VERR_REM_TOO_MANY_TRAPS) 0 3 vmTF runTooManyTraps h1).1,
    (EMR3ExecuteVM_guru_dump (envReturn VERR_REM_TOO_MANY_TRAPS) 0 3 vmTF runTooManyTraps h1).2.1
      (by decide)⟩

/-! ## The status of the debug loop -/

theorem emR3Debug_ne_success (e : Env) (fuel : Nat) :
    ∀ (vm : VM) (rc r : Int) (vm' : VM),
      emR3Debug e fuel vm rc = some (r, vm') → r ≠ VINF_SUCCESS := by
  induction fuel with
  | zero =>
    intro vm rc r vm' h
    exact Option.noConfusion h
  | succ n ih =>
    intro vm rc r vm' h
    rw [emR3Debug] at h
    split at h
    · exact Option.noConfusion h
    · rename_i rc1 vm1 hev
      split_ifs at h with c1 c2 c3 c4 c5 c6
      · exact ih _ _ _ _ h
      · split at h
        · exact Option.noConfusion h
        · rename_i rc2 vm2 hres
          split_ifs at h with d1 d2
          · exact ih _ _ _ _ h
          · simp only [Option.some.injEq, Prod.mk.injEq] at h
            rw [← h.1]
            decide
          · simp only [Option.some.injEq, Prod.mk.injEq] at h
            rw [← h.1]
            exact d2
      · simp only [Option.some.injEq, Prod.mk.injEq] at h
        rw [← h.1]
        decide
      · simp only [Option.some.injEq, Prod.mk.injEq] at h
        rw [← h.1]
        exact c4
      · simp only [Option.some.injEq, Prod.mk.injEq] at h
        rw [← h.1]
        intro h0
        rw [h0] at c6
        revert c6
        decide
      · simp only [Option.some.injEq, Prod.mk.injEq] at h
        rw [← h.1]
        decide
      · simp only [Option.some.injEq, Prod.mk.injEq] at h
        rw [← h.1]
        intro h0
        rename_i c7
        rw [h0] at c7
        revert c7
        decide
      · exact ih _ _ _ _ h

/-- C29: `emR3Debug` never returns `VINF_SUCCESS`: a success of the resumed
hypervisor or of the debug event becomes `VINF_EM_RESCHEDULE`, and every other
returned value is a code that is not zero or a failure. So the dispatch in the
state `EMSTATE_DEBUG_HYPER` never goes on with the next round (the branch that
resumes the virtual clock is not taken): when the debug loop returns, the
function returns its status through the `return` of that case, in the state
`EMSTATE_GURU_MEDITATION` and with `VMMR3FatalDump` as the last call; when the
debug loop does not return, neither does the dispatch. -/
theorem EMR3ExecuteVM_debugHyper (e : Env) (idCpu fuel : Nat) (vm : VM) (rc : Int)
    (fFFDone : Bool) (hS : vm.enmState = EMSTATE_DEBUG_HYPER) :
    (∀ (n : Nat) (v : VM) (rc0 : Int) (x : Int × VM),
        emR3Debug e n v rc0 = some x → x.1 ≠ VINF_SUCCESS)
    ∧ (∀ (rc' : Int) (f' : Bool) (vm' : VM),
        EMR3ExecuteVM_dispatch e idCpu fuel vm rc fFFDone ≠ Outcome.next rc' f' vm')
    ∧ (∀ x : Int × VM,
        emR3Debug e fuel ((vm.callVoid Call.TMVirtualPause e.c.TMVirtualPause).callVoid
          Call.TMCpuTickPause e.c.TMCpuTickPause) rc = some x →
        ∃ vm' : VM, EMR3ExecuteVM_dispatch e idCpu fuel vm rc fFFDone
            = Outcome.ret Exit.debugHyper x.1 vm'
          ∧ x.1 ≠ VINF_SUCCESS
          ∧ vm'.enmState = EMSTATE_GURU_MEDITATION
          ∧ vm'.trace = x.2.trace ++ [Call.VMMR3FatalDump x.1])
    ∧ (emR3Debug e fuel ((vm.callVoid Call.TMVirtualPause e.c.TMVirtualPause).callVoid
          Call.TMCpuTickPause e.c.TMCpuTickPause) rc = none →
        EMR3ExecuteVM_dispatch e idCpu fuel vm rc fFFDone = Outcome.hang) := by
  have hne : ∀ (n : Nat) (v : VM) (rc0 : Int) (x : Int × VM),
      emR3Debug e n v rc0 = some x → x.1 ≠ VINF_SUCCESS := fun n v rc0 x hx =>
    emR3Debug_ne_success e n v rc0 x.1 x.2 hx
  have hd : EMR3ExecuteVM_dispatch e idCpu fuel vm rc fFFDone
      = match emR3Debug e fuel ((vm.callVoid Call.TMVirtualPause e.c.TMVirtualPause).callVoid
          Call.TMCpuTickPause e.c.TMCpuTickPause) rc with
        | none => Outcome.hang
        | some x =>
          if x.1 ≠ VINF_SUCCESS then
            Outcome.ret Exit.debugHyper x.1
              (({ x.2 with enmState := EMSTATE_GURU_MEDITATION } : VM).callVoid
                (Call.VMMR3FatalDump x.1) (e.c.VMMR3FatalDump x.1))
          else
            Outcome.next x.1 fFFDone
              ((x.2.callVoid Call.TMVirtualResume e.c.TMVirtualResume).callVoid
                Call.TMCpuTickResume e.c.TMCpuTickResume) := by
    unfold EMR3ExecuteVM_dispatch
    rw [hS]
    dsimp only
    split <;> rename_i hq <;> rw [hq]
  refine ⟨hne, ?_, ?_, ?_⟩
  · intro rc' f' vm' hk
    rw [hd] at hk
    split at hk
    · exact Outcome.noConfusion hk
    · rename_i x hx
      rw [if_pos (hne _ _ _ x hx)] at hk
      exact Outcome.noConfusion hk
  · intro x hx
    rw [hd, hx]
    dsimp only
    rw [if_pos (hne _ _ _ x hx)]
    exact ⟨_, rfl, hne _ _ _ x hx, rfl, rfl⟩
  · intro hx
    rw [hd, hx]

/-- Witness of C29: the VM is in the state `EMSTATE_DEBUG_HYPER` with the
status `VINF_EM_DBG_HYPER_BREAKPOINT` and no debugger is attached; the dispatch
returns that status after `VMMR3FatalDump`. -/
theorem EMR3ExecuteVM_debugHyper_witness :
    vmDebugHyper.enmState = EMSTATE_DEBUG_HYPER
    ∧ (∀ (rc' : Int) (f' : Bool) (vm' : VM),
        EMR3ExecuteVM_dispatch (envReturn 0) 0 1 vmDebugHyper VINF_EM_DBG_HYPER_BREAKPOINT false
          ≠ Outcome.next rc' f' vm')
    ∧ (match EMR3ExecuteVM_dispatch (envReturn 0) 0 1 vmDebugHyper VINF_EM_DBG_HYPER_BREAKPOINT
          false with
        | Outcome.ret site rc vm' => some (site, rc, vm'.enmState, vm'.trace)
        | _ => none)
      = some (Exit.debugHyper, VINF_EM_DBG_HYPER_BREAKPOINT, EMSTATE_GURU_MEDITATION,
          [Call.TMVirtualPause, Call.TMCpuTickPause,
           Call.DBGFR3EventBreakpoint DBGFEVENT_BREAKPOINT_HYPER,
           Call.VMMR3FatalDump VINF_EM_DBG_HYPER_BREAKPOINT]) :=
  ⟨rfl,
    (EMR3ExecuteVM_debugHyper (envReturn 0) 0 1 vmDebugHyper VINF_EM_DBG_HYPER_BREAKPOINT false
      rfl).2.1,
    by decide⟩


/-! ## The force-raw flag and the state at the dispatch -/

/-- C21 does not hold of `EMR3ExecuteVM`: a force-raw flag that `emR3RawExecute`
leaves stale reaches the dispatch. `EMR3ExecuteVM` is entered with the guest EIP
in patch memory and the force-raw flag clear. During the first burst another
thread queues a request; the burst ends with `VINF_EM_PENDING_REQUEST`, which
`emR3RawHandleRC` classifies as `VINF_SUCCESS`, and the request asks for a
reschedule: `emR3RawUpdateForceFlag` ignores that in patch code and sets the
force-raw flag. The second burst runs the guest out of patch memory and ends
with the scheduling status `VINF_EM_RESCHEDULE_REM`, so `emR3RawExecute`
returns through the `break` that does not update the flag: the flag is still
set although the guest EIP has left patch memory. No forced action is pending,
the status reaches the transition `switch` as it is, and the dispatch calls
`emR3RemExecute` in the state `EMSTATE_REM` while the force-raw flag is set. -/
theorem EMR3ExecuteVM_forceRaw_counterexample :
    EMR3ExecuteVM envStaleForceRaw 0 3 vmInPatch
        = EMR3ExecuteVM_loop envStaleForceRaw 0 3 vmPatchEntry VINF_SUCCESS false
    ∧ (staleRound.1, staleRound.2.1, staleRound.2.2.enmState, staleRound.2.2.fForceRAW)
        = (VINF_EM_RESCHEDULE_REM, false, EMSTATE_RAW, true)
    ∧ (rqPatch cpuOther).PATMIsPatchGCAddr staleRound.2.2.ext staleRound.2.2.ctx.eip = false
    ∧ VM_FF_ISPENDING staleRound.2.2 vmMasks.VM_FF_ALL_BUT_RAW_MASK = false
    ∧ EMR3ExecuteVM_round envStaleForceRaw 0 2 staleRound.2.2 staleRound.1 staleRound.2.1
        = EMR3ExecuteVM_dispatch envStaleForceRaw 0 2 staleDispatch VINF_EM_RESCHEDULE_REM false
    ∧ (staleDispatch.enmState, staleDispatch.fForceRAW) = (EMSTATE_REM, true)
    ∧ summary (EMR3ExecuteVM envStaleForceRaw 0 3 vmInPatch)
        = some (Exit.terminate, VINF_EM_TERMINATE, EMSTATE_TERMINATING,
            [Call.VMMR3Lock, Call.TMVirtualResume, Call.TMCpuTickResume,
             Call.VMMR3Unlock, Call.VMMR3Lock, Call.emR3RawExecute,
             Call.raw RawCall.CPUMRawEnter, Call.VMMR3Unlock, Call.raw RawCall.VMMR3RawRunGC,
             Call.VMMR3Lock, Call.raw (RawCall.CPUMRawLeave VINF_EM_PENDING_REQUEST),
             Call.raw RawCall.TMTimerPoll, Call.emR3ForcedActions VINF_SUCCESS,
             Call.VMR3ReqProcessU,
             Call.raw RawCall.CPUMRawEnter, Call.VMMR3Unlock, Call.raw RawCall.VMMR3RawRunGC,
             Call.VMMR3Lock, Call.raw (RawCall.CPUMRawLeave VINF_EM_RESCHEDULE_REM),
             Call.VMMR3Unlock, Call.VMMR3Lock, Call.emR3RemExecute,
             Call.raw RawCall.REMR3State, Call.raw RawCall.REMR3Run,
             Call.raw RawCall.REMR3StateBack,
             Call.TMVirtualPause, Call.TMCpuTickPause]) := by
  refine ⟨rfl, by decide, by decide, by decide, rfl, by decide, by decide⟩

/-! ## Saving and loading the force-raw flag -/

/-- C22: `emR3Save` writes exactly one boolean, the force-raw flag: the unit
grows by one byte, which is 1 or 0 as the flag is set or clear, and nothing else
of the VM is read. For every value of the flag, `emR3Load` called with the
version `EM_SAVED_STATE_VERSION` on the unit that `emR3Save` wrote returns
`VINF_SUCCESS`, sets the force-raw flag of the loading VM to the saved value,
changes nothing else of that VM, and leaves no byte unread. -/
theorem emR3Save_emR3Load (vm vm' : VM) (ssm : SSMHANDLE) :
    emR3Save vm ssm = (VINF_SUCCESS, { data := ssm.data ++ [if vm.fForceRAW then 1 else 0] })
    ∧ (emR3Save vm { data := [] }).2.data.length = 1
    ∧ (∀ v : VM, v.fForceRAW = vm.fForceRAW → emR3Save v ssm = emR3Save vm ssm)
    ∧ emR3Load vm' (emR3Save vm { data := [] }).2 EM_SAVED_STATE_VERSION
        = (VINF_SUCCESS, { vm' with fForceRAW := vm.fForceRAW }, { data := [] }) := by
  refine ⟨rfl, rfl, ?_, ?_⟩
  · intro v hv
    unfold emR3Save
    rw [hv]
  · cases hf : vm.fForceRAW <;>
      simp [emR3Load, emR3Save, SSMR3PutBool, SSMR3GetBool, hf, RT_FAILURE, RT_SUCCESS,
        VINF_SUCCESS]

/-! ## The execution lock on the return paths of `EMR3ExecuteVM` -/

/-- C30 does not hold for the code. When the raw inner loop returns
`VINF_EM_TERMINATE`, `EMR3ExecuteVM` returns through the case
`VINF_EM_TERMINATE` of the transition `switch`, which pauses the clocks and
returns without `VMMR3Unlock`: the run has called `VMMR3Lock` twice and
`VMMR3Unlock` once. When a hypervisor breakpoint is reported and no debugger is
attached, it returns through the failure branch of the case
`EMSTATE_DEBUG_HYPER`, which calls `VMMR3FatalDump` and returns without
`VMMR3Unlock`: three calls of `VMMR3Lock`, two of `VMMR3Unlock`. The case
`VINF_EM_OFF` next to it does call `VMMR3Unlock`: two calls of each. -/
theorem EMR3ExecuteVM_lock_imbalance :
    (summary (EMR3ExecuteVM (envReturn VINF_EM_TERMINATE) 0 3 vmInit)).map
        (fun x => (x.1, x.2.2.2, x.2.2.2.count Call.VMMR3Lock, x.2.2.2.count Call.VMMR3Unlock))
      = some (Exit.terminate,
          [Call.VMMR3Lock, Call.TMVirtualResume, Call.TMCpuTickResume,
           Call.VMMR3Unlock, Call.VMMR3Lock, Call.emR3RawExecute,
           Call.TMVirtualPause, Call.TMCpuTickPause], 2, 1)
    ∧ (summary (EMR3ExecuteVM (envReturn VINF_EM_DBG_HYPER_BREAKPOINT) 0 3 vmInit)).map
        (fun x => (x.1, x.2.2.2, x.2.2.2.count Call.VMMR3Lock, x.2.2.2.count Call.VMMR3Unlock))
      = some (Exit.debugHyper,
          [Call.VMMR3Lock, Call.TMVirtualResume, Call.TMCpuTickResume,
           Call.VMMR3Unlock, Call.VMMR3Lock, Call.emR3RawExecute,
           Call.VMMR3Unlock, Call.VMMR3Lock, Call.TMVirtualPause, Call.TMCpuTickPause,
           Call.DBGFR3EventBreakpoint DBGFEVENT_BREAKPOINT_HYPER,
           Call.VMMR3FatalDump VINF_EM_DBG_HYPER_BREAKPOINT], 3, 2)
    ∧ (summary (EMR3ExecuteVM (envReturn VINF_EM_OFF) 0 3 vmInit)).map
        (fun x => (x.1, x.2.2.2, x.2.2.2.count Call.VMMR3Lock, x.2.2.2.count Call.VMMR3Unlock))
      = some (Exit.powerOff,
          [Call.VMMR3Lock, Call.TMVirtualResume, Call.TMCpuTickResume,
           Call.VMMR3Unlock, Call.VMMR3Lock, Call.emR3RawExecute,
           Call.TMVirtualPause, Call.TMCpuTickPause, Call.VMMR3Unlock], 2, 2) := by
  decide

end EM
